import Mathlib

/-!
SMoPT: the translation simulation loop of `translation.c`

A shallow embedding of the simulation engine in `main` of `translation.c`
(the set-up between lines 459 and 603 and the `while(t<tot_time)` loop of
lines 611-874), followed by the invariants of the engine.

Conventions of the embedding.

* C arrays are total functions on `Nat`; a write `a[i] = v` is `set1 a i v`,
  a write `a[i][k] = v` is `set2 a i k v`.  Memory that the C code never
  initialises (the contents of `Ribo`, `Rb_e`, `free_mRNA`, the tail of each
  `R_grid` row, the variables `m_id` and `c_id`) is taken from an arbitrary
  state `U` given to `init`.
* `double` values are exact rationals (`ℚ`).
* `rand()` results are explicit `Nat` arguments of `tick`.
* A tick returns `none` where the C code has no defined exact result:
  division by a zero total rate, `rand()%0`, `n_Rb_e[c_id]` with a `c_id`
  above 60, the read `R_grid[m][pos-11]` with `pos < 11`, and
  `Ribo[next_avail_ribo]` after the cursor went below 0.
* The flag `termtn_now` is 0 at every loop head (it is set at line 777 and
  reset at line 846 in the same iteration), so the block of lines 821-844 is
  modelled as running exactly in the two non-terminal branches.  The
  variables `r_id`, `m_id`, `c_id` are kept in the state; `x`, `c2`, `c2_id`
  and `g_id` are always assigned before they are read and are local here.
* Writing the snapshot file of lines 849-871 is output only; its counter
  `t_print` is kept.
-/


namespace SMoPT

/-- Array write `a[i] = v`. -/
def set1 {α : Type} (a : Nat → α) (i : Nat) (v : α) : Nat → α :=
  fun j => if j = i then v else a j

/-- Array write `a[i][k] = v`. -/
def set2 {α : Type} (a : Nat → Nat → α) (i k : Nat) (v : α) : Nat → Nat → α :=
  fun j l => if j = i ∧ l = k then v else a j l

/-- The struct `ribosome` (lines 69-76). -/
structure ribosome where
  mRNA : Nat
  pos : Nat
  t_trans_ini : ℚ
  t_elong_ini : ℚ
  elng_cod_list : Nat
  elng_pos_list : Nat

/-- The struct `transcript` (lines 78-85). -/
structure transcript where
  gene : Nat
  ini_n : Nat
  trans_n : Nat
  last_ini : ℚ
  avg_time_to_ini : ℚ
  avg_time_to_trans : ℚ

/-- The struct `gene` (lines 87-92). -/
structure gene where
  seq : Nat → Nat
  len : Nat
  exp : Nat
  ini_prob : ℚ

/-- The struct `trna` (lines 94-99), without the codon string. -/
structure trna where
  tid : Nat
  gcn : Nat
  wobble : ℚ

/-- The run parameters: the globals of lines 27-44 after the command line was
read, the two input tables, and the platform constant `RAND_MAX`. -/
structure Config where
  n_genes : Nat
  tot_ribo : Nat
  tot_tRNA : Nat
  avail_space_t : ℚ
  avail_space_r : ℚ
  tot_time : ℚ
  time_thres : ℚ
  printOpt : Nat → Nat
  Gene : Nat → gene
  cTRNA : Nat → trna
  RAND_MAX : Nat

/-- The constant `char_time_tRNA` (line 23). -/
def char_time_tRNA : ℚ := 5719 / 10000000

/-- The constant `char_time_ribo` (line 24). -/
def char_time_ribo : ℚ := 5 / 10000

/-- The mutable variables of `main` that live across loop iterations. -/
structure State where
  Ribo : Nat → ribosome
  mRNA : Nat → transcript
  Tf : Nat → Int
  Rf : Int
  Mf : Nat → Nat
  n_Rb_e : Nat → Nat
  Rb_e : Nat → Nat → Nat
  free_mRNA : Nat → Nat → Nat
  R_grid : Nat → Nat → Nat
  r_id : Nat
  m_id : Nat
  c_id : Nat
  next_avail_ribo : Nat
  n_e_times : Nat → Nat
  e_times : Nat → ℚ
  num_waste_ribo : Nat → Int
  num_waste_ribo_pos : Nat → Int
  time_waste_ribo : Nat → ℚ
  time_waste_ribo_pos : Nat → ℚ
  scld_Mf : Nat → ℚ
  tot_scld_Mf : ℚ
  avg_tRNA_abndc : Nat → ℚ
  avg_Rf : ℚ
  t : ℚ
  t_print : Int

/-! ## Set-up (lines 459-603) -/

/-- Value of the counter `c3` when the loops of lines 470-481 and 577-583
reach gene `g`: the number of transcripts of the genes before `g`. -/
def mRNA_start (G : Nat → gene) : Nat → Nat
  | 0 => 0
  | g + 1 => mRNA_start G g + (G g).exp

/-- The global `tot_mRNA` (lines 459-462). -/
def tot_mRNA (cfg : Config) : Nat := mRNA_start cfg.Gene cfg.n_genes

/-- The array `mRNA` after the first `n` genes of the loop of lines 470-481. -/
def init_mRNA (G : Nat → gene) (U : Nat → transcript) : Nat → Nat → transcript
  | 0 => U
  | g + 1 => fun m =>
      if mRNA_start G g ≤ m ∧ m < mRNA_start G g + (G g).exp then
        { gene := g, ini_n := 0, trans_n := 0, last_ini := 0,
          avg_time_to_ini := 0, avg_time_to_trans := 0 }
      else init_mRNA G U g m

/-- The accumulator `tot_scld_Mf` after the first `n` genes of the loop of
lines 537-550. -/
def init_tot_scld (G : Nat → gene) : Nat → ℚ
  | 0 => 0
  | g + 1 => init_tot_scld G g + ((G g).exp : ℚ) * (G g).ini_prob

/-- The accumulator `tot_gcn` after the first `n` codons of the loop of lines
586-595. -/
def init_tot_gcn (cfg : Config) : Nat → Nat
  | 0 => 0
  | c + 1 => init_tot_gcn cfg c + (if (cfg.cTRNA c).wobble = 1 then (cfg.cTRNA c).gcn else 0)

/-- The array `Tf` after the loop of lines 586-595 (all 61 entries zero) and
the first `n` codons of the loop of lines 596-603. -/
def init_Tf (cfg : Config) (U : Nat → Int) : Nat → Nat → Int
  | 0 => fun c => if c < 61 then 0 else U c
  | c + 1 =>
      if (cfg.cTRNA c).wobble = 1 then
        set1 (init_Tf cfg U c) (cfg.cTRNA c).tid
          (((cfg.cTRNA c).gcn * cfg.tot_tRNA / init_tot_gcn cfg 61 : Nat) : Int)
      else init_Tf cfg U c

/-- Codon rate constant after the rescaling of line 602. -/
def wobble (cfg : Config) (c : Nat) : ℚ :=
  (cfg.cTRNA c).wobble / (char_time_tRNA * cfg.avail_space_t)

/-- The state at the first loop head (lines 459-603); `U` is the content of
the uninitialised memory. -/
def init (cfg : Config) (U : State) : State :=
  let mR := init_mRNA cfg.Gene U.mRNA cfg.n_genes
  { U with
    mRNA := mR
    Tf := init_Tf cfg U.Tf 61
    Rf := cfg.tot_ribo
    Mf := fun g => if g < cfg.n_genes then (cfg.Gene g).exp else U.Mf g
    n_Rb_e := fun c => if c < 61 then 0 else U.n_Rb_e c
    free_mRNA := fun g i =>
      if g < cfg.n_genes ∧ i < (cfg.Gene g).exp then mRNA_start cfg.Gene g + i
      else U.free_mRNA g i
    R_grid := fun m p =>
      if m < tot_mRNA cfg ∧ p < (cfg.Gene (mR m).gene).len then cfg.tot_ribo
      else U.R_grid m p
    next_avail_ribo := 0
    n_e_times := fun c => if c < 61 then 0 else U.n_e_times c
    e_times := fun c => if c < 61 then 0 else U.e_times c
    num_waste_ribo := fun g => if g < cfg.n_genes then 0 else U.num_waste_ribo g
    num_waste_ribo_pos := fun p =>
      if p < (cfg.Gene 0).len then 0 else U.num_waste_ribo_pos p
    time_waste_ribo := fun g => if g < cfg.n_genes then 0 else U.time_waste_ribo g
    time_waste_ribo_pos := fun p =>
      if p < (cfg.Gene 0).len then 0 else U.time_waste_ribo_pos p
    scld_Mf := fun g =>
      if g < cfg.n_genes then ((cfg.Gene g).exp : ℚ) * (cfg.Gene g).ini_prob
      else U.scld_Mf g
    tot_scld_Mf := init_tot_scld cfg.Gene cfg.n_genes
    avg_tRNA_abndc := fun c => if c < 61 then 0 else U.avg_tRNA_abndc c
    avg_Rf := 0
    t := 0
    t_print := Int.floor cfg.time_thres }

/-! ## Rates and event selection (lines 612-621, 644-649, 659-664, 706-714) -/

/-- Initiation rate `r_ini` (line 612). -/
def r_ini (cfg : Config) (s : State) : ℚ :=
  s.tot_scld_Mf * (s.Rf : ℚ) / (char_time_ribo * cfg.avail_space_r)

/-- Elongation rate `r_elng[c]` (lines 616-617). -/
def r_elng (cfg : Config) (s : State) (c : Nat) : ℚ :=
  ((s.Tf (cfg.cTRNA c).tid : ℚ) * wobble cfg c) * (s.n_Rb_e c : ℚ)

/-- The accumulator `tot_rate` after the first `n` codons of the loop of lines
615-619. -/
def rate_upto (cfg : Config) (s : State) : Nat → ℚ
  | 0 => r_ini cfg s
  | c + 1 => rate_upto cfg s c + r_elng cfg s c

/-- The total rate `tot_rate` at line 621. -/
def tot_rate (cfg : Config) (s : State) : ℚ := rate_upto cfg s 61

/-- The loop of lines 707-714 with `n` iterations left, at codon `c1` with
accumulator `tmp`: the codon at which it breaks, or `none` when it runs out. -/
def codon_loop (relng : Nat → ℚ) (inv_rate coin : ℚ) : Nat → Nat → ℚ → Option Nat
  | 0, _, _ => none
  | n + 1, c1, tmp =>
      if coin < tmp + relng c1 * inv_rate then some c1
      else codon_loop relng inv_rate coin n (c1 + 1) (tmp + relng c1 * inv_rate)

/-- The loop of lines 662-675 up to its `break`, with `n` iterations left, at
gene `c1` with accumulator `prob_g`: the gene at which it breaks, or `none`. -/
def gene_loop (s : State) (coin : ℚ) : Nat → Nat → ℚ → Option Nat
  | 0, _, _ => none
  | n + 1, c1, prob_g =>
      if coin < prob_g + s.scld_Mf c1 / s.tot_scld_Mf then some c1
      else gene_loop s coin n (c1 + 1) (prob_g + s.scld_Mf c1 / s.tot_scld_Mf)

/-! ## Queue primitives -/

/-- Append ribosome `r` to the elongation queue of codon `c`
(lines 687-690, 748-752, 788-791, 824-828). -/
def queue_append (s : State) (c r : Nat) : State :=
  { s with
    Rb_e := set2 s.Rb_e c (s.n_Rb_e c) r
    Ribo := set1 s.Ribo r
      { s.Ribo r with elng_cod_list := c, elng_pos_list := s.n_Rb_e c }
    n_Rb_e := set1 s.n_Rb_e c (s.n_Rb_e c + 1) }

/-- Swap-removal of slot `x` of the elongation queue of codon `c`
(lines 730-734, 793-797, 808-812). -/
def queue_remove (s : State) (c x : Nat) : State :=
  let n := s.n_Rb_e c - 1
  if x ≠ n then
    { s with
      n_Rb_e := set1 s.n_Rb_e c n
      Ribo := set1 s.Ribo (s.Rb_e c n) { s.Ribo (s.Rb_e c n) with elng_pos_list := x }
      Rb_e := set2 s.Rb_e c x (s.Rb_e c n) }
  else { s with n_Rb_e := set1 s.n_Rb_e c n }

/-- Stall counters up (lines 693-696, 815-818) for transcript `m`, position `p`. -/
def waste_incr (s : State) (m p : Nat) : State :=
  { s with
    num_waste_ribo := set1 s.num_waste_ribo (s.mRNA m).gene
      (s.num_waste_ribo (s.mRNA m).gene + 1)
    num_waste_ribo_pos :=
      if (s.mRNA m).gene = 0 then set1 s.num_waste_ribo_pos p (s.num_waste_ribo_pos p + 1)
      else s.num_waste_ribo_pos }

/-- Stall counters down (lines 754-757, 830-833). -/
def waste_decr (s : State) (m p : Nat) : State :=
  { s with
    num_waste_ribo := set1 s.num_waste_ribo (s.mRNA m).gene
      (s.num_waste_ribo (s.mRNA m).gene - 1)
    num_waste_ribo_pos :=
      if (s.mRNA m).gene = 0 then set1 s.num_waste_ribo_pos p (s.num_waste_ribo_pos p - 1)
      else s.num_waste_ribo_pos }

/-- Promotion of the ribosome at cell `(m, p)`, if any, to elongatable
(lines 746-758 and the body of 822-834, with `p = pos-11`). -/
def promote (cfg : Config) (s : State) (m p : Nat) : State :=
  if s.R_grid m p < cfg.tot_ribo then
    waste_decr (queue_append s ((cfg.Gene (s.mRNA m).gene).seq p) (s.R_grid m p)) m p
  else s

/-! ## Initiation (lines 650-702) -/

/-- Lines 652-656: take the next ribosome slot. -/
def ini_alloc (s : State) : State :=
  { s with
    r_id := s.next_avail_ribo
    Ribo := set1 s.Ribo s.next_avail_ribo
      { s.Ribo s.next_avail_ribo with pos := 0, t_trans_ini := s.t, t_elong_ini := s.t }
    next_avail_ribo := s.next_avail_ribo + 1 }

/-- Lines 666-672: take transcript `free_mRNA[g][c2]` out of the queue of `g`. -/
def ini_pick (cfg : Config) (s : State) (g c2 : Nat) : State :=
  { s with
    m_id := s.free_mRNA g c2
    Mf := set1 s.Mf g (s.Mf g - 1)
    scld_Mf := set1 s.scld_Mf g (s.scld_Mf g - (cfg.Gene g).ini_prob)
    tot_scld_Mf := s.tot_scld_Mf - (cfg.Gene g).ini_prob
    free_mRNA :=
      if c2 ≠ s.Mf g - 1 then set2 s.free_mRNA g c2 (s.free_mRNA g (s.Mf g - 1))
      else s.free_mRNA }

/-- Lines 677-681: initiation statistics of transcript `m_id`. -/
def ini_stats (cfg : Config) (s : State) : State :=
  let tr := s.mRNA s.m_id
  let tr1 : transcript :=
    if s.t > cfg.time_thres then
      { tr with ini_n := tr.ini_n + 1
                avg_time_to_ini := tr.avg_time_to_ini + (s.t - tr.last_ini) }
    else tr
  { s with mRNA := set1 s.mRNA s.m_id { tr1 with last_ini := s.t } }

/-- Lines 683-685: the first codon becomes `c_id`; the record of `r_id` gets
its transcript. -/
def ini_bind (cfg : Config) (s : State) : State :=
  { s with
    c_id := (cfg.Gene (s.mRNA s.m_id).gene).seq 0
    Ribo := set1 s.Ribo s.r_id { s.Ribo s.r_id with mRNA := s.m_id } }

/-- Lines 699-701: write the grid cell and take a free ribosome. -/
def ini_finish (s : State) : State :=
  { s with
    R_grid := set2 s.R_grid s.m_id 0 s.r_id
    Rf := s.Rf - 1 }

/-- Lines 683-701: bind ribosome `r_id` at position 0 of transcript `m_id`. -/
def ini_place (cfg : Config) (s : State) : State :=
  let s1 := ini_bind cfg s
  ini_finish
    (if s1.R_grid s1.m_id 10 = cfg.tot_ribo then queue_append s1 s1.c_id s1.r_id
     else waste_incr s1 s1.m_id 0)

/-- The initiation branch (lines 650-702) on the state `s` whose time is
already advanced; `rand2` and `rand3` are the next two `rand()` results (the
second is consumed only when the gene loop breaks).  When the gene loop does
not break, `m_id` keeps the value it had. -/
def initiation (cfg : Config) (s : State) (rand2 rand3 : Nat) : Option State :=
  let s1 := ini_alloc s
  match gene_loop s1 ((rand2 : ℚ) / (cfg.RAND_MAX : ℚ)) cfg.n_genes 0 0 with
  | some g =>
      if s1.Mf g = 0 then none
      else some (ini_place cfg (ini_stats cfg (ini_pick cfg s1 g (rand3 % s1.Mf g))))
  | none => some (ini_place cfg (ini_stats cfg s1))

/-! ## Elongation and termination (lines 706-847) -/

/-- Lines 717-718: the ribosome in slot `x` of the queue of `c_id`. -/
def pick_ribo (s : State) (x : Nat) : State :=
  { s with
    r_id := s.Rb_e s.c_id x
    m_id := (s.Ribo (s.Rb_e s.c_id x)).mRNA }

/-- Lines 720-722: release the tRNA of the previous codon. -/
def release_tRNA (cfg : Config) (s : State) : State :=
  if (s.Ribo s.r_id).pos > 0 then
    let sp := (cfg.cTRNA ((cfg.Gene (s.mRNA s.m_id).gene).seq ((s.Ribo s.r_id).pos - 1))).tid
    { s with Tf := set1 s.Tf sp (s.Tf sp + 1) }
  else s

/-- Lines 736-743: termination statistics. -/
def term_stats (cfg : Config) (s : State) : State :=
  if s.t > cfg.time_thres then
    let s1 : State :=
      if cfg.printOpt 0 = 1 then
        { s with
          e_times := set1 s.e_times s.c_id
            (s.e_times s.c_id + (s.t - (s.Ribo s.r_id).t_elong_ini))
          n_e_times := set1 s.n_e_times s.c_id (s.n_e_times s.c_id + 1) }
      else s
    { s1 with
      mRNA := set1 s1.mRNA s1.m_id
        { s1.mRNA s1.m_id with
          trans_n := (s1.mRNA s1.m_id).trans_n + 1
          avg_time_to_trans :=
            (s1.mRNA s1.m_id).avg_time_to_trans + (s1.t - (s1.Ribo s1.r_id).t_trans_ini) } }
  else s

/-- Lines 761-776: shrink the active partition; when the terminated slot
`r_id` is not the last one, move the last record into it. -/
def compact (cfg : Config) (s : State) : State :=
  let s1 : State := { s with next_avail_ribo := s.next_avail_ribo - 1 }
  if s1.r_id ≠ s1.next_avail_ribo then
    let l := s1.Ribo s1.next_avail_ribo
    let rec1 : ribosome :=
      { mRNA := l.mRNA, pos := l.pos, t_trans_ini := l.t_trans_ini,
        t_elong_ini := l.t_elong_ini,
        elng_cod_list := (cfg.Gene (s1.mRNA l.mRNA).gene).seq l.pos,
        elng_pos_list := l.elng_pos_list }
    let s2 : State :=
      { s1 with
        Ribo := set1 s1.Ribo s1.r_id rec1
        R_grid := set2 s1.R_grid l.mRNA l.pos s1.r_id }
    if s2.R_grid rec1.mRNA (rec1.pos + 10) = cfg.tot_ribo ∨
        rec1.pos + 10 ≥ (cfg.Gene (s2.mRNA rec1.mRNA).gene).len then
      { s2 with Rb_e := set2 s2.Rb_e rec1.elng_cod_list rec1.elng_pos_list s2.r_id }
    else s2
  else s1

/-- Lines 725-728: empty the cell, step the position past the end, free a
ribosome. -/
def term_clear (cfg : Config) (s : State) : State :=
  { s with
    R_grid := set2 s.R_grid s.m_id (s.Ribo s.r_id).pos cfg.tot_ribo
    Ribo := set1 s.Ribo s.r_id { s.Ribo s.r_id with pos := (s.Ribo s.r_id).pos + 1 }
    Rf := s.Rf + 1 }

/-- Lines 725-777: the termination branch for slot `x` of the queue of `c_id`. -/
def terminate (cfg : Config) (s : State) (x : Nat) : State :=
  let s3 := term_stats cfg (queue_remove (term_clear cfg s) s.c_id x)
  compact cfg (promote cfg s3 s3.m_id ((s3.Ribo s3.r_id).pos - 11))

/-- Lines 781-784 and 802-805: move ribosome `r_id` one codon forward. -/
def move_ribo (cfg : Config) (s : State) : State :=
  { s with
    Ribo := set1 s.Ribo s.r_id { s.Ribo s.r_id with pos := (s.Ribo s.r_id).pos + 1 }
    R_grid := set2 (set2 s.R_grid s.m_id (s.Ribo s.r_id).pos cfg.tot_ribo)
      s.m_id ((s.Ribo s.r_id).pos + 1) s.r_id }

/-- Lines 799 and 814: take one free tRNA of the species of codon `c_id`. -/
def take_tRNA (cfg : Config) (s : State) : State :=
  { s with
    Tf := set1 s.Tf (cfg.cTRNA s.c_id).tid (s.Tf (cfg.cTRNA s.c_id).tid - 1) }

/-- Lines 781-799: non-terminal elongation, ribosome still elongatable. -/
def move_still (cfg : Config) (s : State) (x : Nat) : State :=
  let s1 := move_ribo cfg s
  let c2_id := (cfg.Gene (s1.mRNA s1.m_id).gene).seq (s1.Ribo s1.r_id).pos
  take_tRNA cfg
    (if c2_id ≠ s1.c_id then queue_remove (queue_append s1 c2_id s1.r_id) s1.c_id x
     else s1)

/-- Line 806: the queue codon of `r_id` becomes the codon at its position. -/
def set_cod (cfg : Config) (s : State) : State :=
  { s with
    Ribo := set1 s.Ribo s.r_id
      { s.Ribo s.r_id with
        elng_cod_list := (cfg.Gene (s.mRNA s.m_id).gene).seq (s.Ribo s.r_id).pos } }

/-- Lines 802-818: non-terminal elongation, ribosome now blocked. -/
def move_blocked (cfg : Config) (s : State) (x : Nat) : State :=
  let s4 := take_tRNA cfg (queue_remove (set_cod cfg (move_ribo cfg s)) s.c_id x)
  waste_incr s4 s4.m_id (s4.Ribo s4.r_id).pos

/-- Lines 836-840: put transcript `m_id` back into the initiation queue. -/
def requeue (cfg : Config) (s : State) : State :=
  let g := (s.mRNA s.m_id).gene
  { s with
    free_mRNA := set2 s.free_mRNA g (s.Mf g) s.m_id
    Mf := set1 s.Mf g (s.Mf g + 1)
    scld_Mf := set1 s.scld_Mf g (s.scld_Mf g + (cfg.Gene g).ini_prob)
    tot_scld_Mf := s.tot_scld_Mf + (cfg.Gene g).ini_prob }

/-- Line 843: the arrival time at the new codon. -/
def stamp (s : State) : State :=
  { s with Ribo := set1 s.Ribo s.r_id { s.Ribo s.r_id with t_elong_ini := s.t } }

/-- Lines 821-844: after a non-terminal move. -/
def post_move (cfg : Config) (s : State) : State :=
  let s1 : State :=
    if (s.Ribo s.r_id).pos > 10 then promote cfg s s.m_id ((s.Ribo s.r_id).pos - 11)
    else s
  stamp (if (s1.Ribo s1.r_id).pos = 10 then requeue cfg s1 else s1)

/-- Lines 716-847 for slot `x` of the queue of `c_id`.  The termination
branch reads `R_grid[m_id][len-11]` and `Ribo[next_avail_ribo-1]`, which do not
exist when the gene is shorter than 11 codons or the cursor is 0. -/
def elng_event (cfg : Config) (s : State) (x : Nat) : Option State :=
  let s1 := release_tRNA cfg (pick_ribo s x)
  let len := (cfg.Gene (s1.mRNA s1.m_id).gene).len
  let pos := (s1.Ribo s1.r_id).pos
  if pos + 1 = len then
    if len < 11 ∨ s1.next_avail_ribo = 0 then none
    else some (terminate cfg s1 x)
  else if pos + 11 ≥ len ∨ s1.R_grid s1.m_id (pos + 11) = cfg.tot_ribo then
    some (post_move cfg (move_still cfg s1 x))
  else some (post_move cfg (move_blocked cfg s1 x))

/-- Lines 849-871: the snapshot counter (the file itself is output only). -/
def snapshot (cfg : Config) (s : State) : State :=
  if s.t > (s.t_print : ℚ) ∧ cfg.printOpt 6 = 1 then { s with t_print := s.t_print + 1 }
  else s

/-- The elongation branch (lines 706-872): `relng`, `inv_rate`, `prob_ini`
and `coin` are the values computed at the top of the tick, `randx` the next
`rand()` result.  When the codon loop does not break, `c_id` keeps the value it
had; `n_Rb_e[c_id]` does not exist for a `c_id` above 60, and `rand()%0` has no
result. -/
def elongation (cfg : Config) (s : State) (relng : Nat → ℚ) (inv_rate prob_ini coin : ℚ)
    (randx : Nat) : Option State :=
  let c := match codon_loop relng inv_rate coin 61 0 prob_ini with
    | some c => c
    | none => s.c_id
  if 61 ≤ c ∨ s.n_Rb_e c = 0 then none
  else (elng_event cfg { s with c_id := c } (randx % s.n_Rb_e c)).map (snapshot cfg)

/-! ## One tick (lines 612-873) -/

/-- Lines 624-641: time-weighted statistics, then the time step. -/
def advance (cfg : Config) (s : State) (inv_rate : ℚ) : State :=
  let s1 : State :=
    if s.t > cfg.time_thres ∧ cfg.printOpt 3 = 1 then
      { s with
        avg_tRNA_abndc := fun c =>
          if c < 61 then s.avg_tRNA_abndc c + (s.Tf c : ℚ) * inv_rate else s.avg_tRNA_abndc c
        avg_Rf := s.avg_Rf + (s.Rf : ℚ) * inv_rate }
    else s
  let s2 : State :=
    if s1.t > cfg.time_thres ∧ cfg.printOpt 5 = 1 then
      { s1 with
        time_waste_ribo := fun g =>
          if g < cfg.n_genes then s1.time_waste_ribo g + (s1.num_waste_ribo g : ℚ) * inv_rate
          else s1.time_waste_ribo g
        time_waste_ribo_pos := fun p =>
          if p < (cfg.Gene 0).len then
            s1.time_waste_ribo_pos p + (s1.num_waste_ribo_pos p : ℚ) * inv_rate
          else s1.time_waste_ribo_pos p }
    else s1
  { s2 with t := s2.t + inv_rate }

/-- The uniform draw `rand()/((double)RAND_MAX)` (lines 646, 659). -/
def coin_of (cfg : Config) (r : Nat) : ℚ := (r : ℚ) / (cfg.RAND_MAX : ℚ)

/-- The test `coin<prob_ini` of line 649 for the first `rand()` result `r1`. -/
def ini_branch (cfg : Config) (s : State) (r1 : Nat) : Prop :=
  coin_of cfg r1 < r_ini cfg s * (1 / tot_rate cfg s)

instance (cfg : Config) (s : State) (r1 : Nat) : Decidable (ini_branch cfg s r1) :=
  inferInstanceAs (Decidable (coin_of cfg r1 < r_ini cfg s * (1 / tot_rate cfg s)))

/-- One iteration of the loop of lines 611-874 with `rand()` results `r1`,
`r2`, `r3` (in call order; the elongation branch consumes only `r1`, `r2`). -/
def tick (cfg : Config) (s : State) (r1 r2 r3 : Nat) : Option State :=
  if tot_rate cfg s = 0 then none
  else
    let inv_rate := 1 / tot_rate cfg s
    let s1 := advance cfg s inv_rate
    if ini_branch cfg s r1 then initiation cfg s1 r2 r3
    else elongation cfg s1 (r_elng cfg s) inv_rate (r_ini cfg s * inv_rate) (coin_of cfg r1) r2


/-! ## Invariants of the engine -/

/-- Length of the gene of transcript `m`: `Gene[mRNA[m].gene].len`. -/
def tlen (cfg : Config) (s : State) (m : Nat) : Nat := (cfg.Gene (s.mRNA m).gene).len

/-- Codon at position `p` of transcript `m`: `Gene[mRNA[m].gene].seq[p]`. -/
def codon_at (cfg : Config) (s : State) (m p : Nat) : Nat := (cfg.Gene (s.mRNA m).gene).seq p

/-- The slot `i` holds a ribosome that may advance: ten codons ahead is past
the transcript end or an empty cell. -/
def elongatable (cfg : Config) (s : State) (i : Nat) : Prop :=
  (s.Ribo i).pos + 10 ≥ tlen cfg s (s.Ribo i).mRNA ∨
    s.R_grid (s.Ribo i).mRNA ((s.Ribo i).pos + 10) = cfg.tot_ribo

/-- Every gene has at least 11 codons. -/
def LenOK (cfg : Config) : Prop := ∀ g, g < cfg.n_genes → 11 ≤ (cfg.Gene g).len

/-- Every codon of every gene is one of the 61 sense codons. -/
def CodonOK (cfg : Config) : Prop :=
  ∀ g, g < cfg.n_genes → ∀ p, p < (cfg.Gene g).len → (cfg.Gene g).seq p < 61

/-- The elongation queues `Q` of the codons below `K`, with sizes `n`, hold
exactly the ribosomes of the set `P`, each once, and the back-pointers in `R`
index their slots; the live slot `ghost`, if any, is exempt (a slot about to be
swap-removed). -/
structure QInv (K : Nat) (R : Nat → ribosome) (Q : Nat → Nat → Nat) (n : Nat → Nat)
    (P : Nat → Prop) (ghost : Option (Nat × Nat)) : Prop where
  ghost_live : ∀ c i, ghost = some (c, i) → c < K ∧ i < n c
  entry : ∀ c i, c < K → i < n c → ghost ≠ some (c, i) →
    P (Q c i) ∧ (R (Q c i)).elng_cod_list = c ∧ (R (Q c i)).elng_pos_list = i
  member : ∀ r, P r →
    (R r).elng_cod_list < K ∧
    (R r).elng_pos_list < n (R r).elng_cod_list ∧
    Q (R r).elng_cod_list (R r).elng_pos_list = r ∧
    ghost ≠ some ((R r).elng_cod_list, (R r).elng_pos_list)

/-- Grid and records agree on the set `A` of active slots: `mr i`, `ps i` are
the transcript and position of slot `i`, `len m` the length of transcript `m`,
`E` the empty sentinel and `T` the number of transcripts. -/
structure GInvR (E T : Nat) (len : Nat → Nat) (mr ps : Nat → Nat) (grid : Nat → Nat → Nat)
    (A : Nat → Prop) : Prop where
  act_lt : ∀ i, A i → i < E
  cell : ∀ i, A i → mr i < T ∧ ps i < len (mr i) ∧ grid (mr i) (ps i) = i
  occ : ∀ m p, m < T → p < len m → grid m p ≠ E →
    A (grid m p) ∧ mr (grid m p) = m ∧ ps (grid m p) = p

/-- Grid and records of the state `s` agree on the set `A` of active slots. -/
def GInv (cfg : Config) (s : State) (A : Nat → Prop) : Prop :=
  GInvR cfg.tot_ribo (tot_mRNA cfg) (tlen cfg s) (fun i => (s.Ribo i).mRNA)
    (fun i => (s.Ribo i).pos) s.R_grid A

/-- No occupied cell has another occupied cell within the next nine codons. -/
def FootR (E T : Nat) (len : Nat → Nat) (grid : Nat → Nat → Nat) : Prop :=
  ∀ m p q, m < T → p < q → q < len m → q < p + 10 → grid m p ≠ E → grid m q = E

/-- The footprint property of the grid of the state `s`. -/
def Footprint (cfg : Config) (s : State) : Prop :=
  FootR cfg.tot_ribo (tot_mRNA cfg) (tlen cfg s) s.R_grid

/-- The initiation queues `free` with sizes `Mf` hold, once each, exactly the
transcripts of the set `el`, each in the queue of its gene `gof m`. -/
structure FInvR (ng T : Nat) (gof : Nat → Nat) (free : Nat → Nat → Nat) (Mf : Nat → Nat)
    (el : Nat → Prop) : Prop where
  entry : ∀ g i, g < ng → i < Mf g → free g i < T ∧ gof (free g i) = g ∧ el (free g i)
  inj : ∀ g i j, g < ng → i < Mf g → j < Mf g → free g i = free g j → i = j
  complete : ∀ m, m < T → el m → ∃ i, i < Mf (gof m) ∧ free (gof m) i = m

/-- The first ten cells of transcript `m` are empty. -/
def eligible (cfg : Config) (s : State) (m : Nat) : Prop :=
  ∀ p, p < 10 → s.R_grid m p = cfg.tot_ribo

/-- The initiation queue of each gene holds, once each, exactly its
transcripts whose first ten cells are empty. -/
def FInv (cfg : Config) (s : State) : Prop :=
  FInvR cfg.n_genes (tot_mRNA cfg) (fun m => (s.mRNA m).gene) s.free_mRNA s.Mf
    (eligible cfg s)

/-- The eligible-weight accumulators are the exact products and their sum. -/
structure ScldInv (cfg : Config) (s : State) : Prop where
  scld : ∀ g, g < cfg.n_genes → s.scld_Mf g = (s.Mf g : ℚ) * (cfg.Gene g).ini_prob
  tot : s.tot_scld_Mf = ∑ g in Finset.range cfg.n_genes, (s.Mf g : ℚ) * (cfg.Gene g).ini_prob

/-- Indicator that slot `i` holds a tRNA of species `sp`: the ribosome is at a
position `p ≥ 1` and the codon at `p-1` is read by `sp`. -/
def holds_tRNA (cfg : Config) (s : State) (sp i : Nat) : Prop :=
  1 ≤ (s.Ribo i).pos ∧
    (cfg.cTRNA (codon_at cfg s (s.Ribo i).mRNA ((s.Ribo i).pos - 1))).tid = sp

instance (cfg : Config) (s : State) (sp i : Nat) : Decidable (holds_tRNA cfg s sp i) :=
  inferInstanceAs (Decidable (1 ≤ (s.Ribo i).pos ∧
    (cfg.cTRNA (codon_at cfg s (s.Ribo i).mRNA ((s.Ribo i).pos - 1))).tid = sp))

/-- Number of active slots holding a tRNA of species `sp`. -/
def n_held (cfg : Config) (s : State) (sp : Nat) : Nat :=
  ((Finset.range s.next_avail_ribo).filter (fun i => holds_tRNA cfg s sp i)).card

/-- The invariant of the loop head. -/
structure Inv (cfg : Config) (s : State) : Prop where
  rf : s.Rf + (s.next_avail_ribo : Int) = (cfg.tot_ribo : Int)
  rf_nn : 0 ≤ s.Rf
  gene_lt : ∀ m, m < tot_mRNA cfg → (s.mRNA m).gene < cfg.n_genes
  grid : GInv cfg s (fun i => i < s.next_avail_ribo)
  foot : Footprint cfg s
  queue : QInv 61 s.Ribo s.Rb_e s.n_Rb_e
    (fun i => i < s.next_avail_ribo ∧ elongatable cfg s i) none
  codon : ∀ i, i < s.next_avail_ribo → elongatable cfg s i →
    (s.Ribo i).elng_cod_list = codon_at cfg s (s.Ribo i).mRNA (s.Ribo i).pos
  free : FInv cfg s
  scld : ScldInv cfg s

/-- The state after lines 717-718 picked slot `x` of the queue of `c_id`, at
a loop head that satisfies the invariant. -/
structure Picked (cfg : Config) (s : State) (x : Nat) : Prop where
  inv : Inv cfg s
  cod_ok : CodonOK cfg
  cid : s.c_id < 61
  slot : x < s.n_Rb_e s.c_id
  rid : s.r_id = s.Rb_e s.c_id x
  mid : s.m_id = (s.Ribo s.r_id).mRNA

/-- The state `sm` is the state `s` after the move of the picked ribosome and
its queue update (lines 781-799 or 802-818); `still` tells whether the
ribosome stays elongatable. -/
structure Moved (cfg : Config) (s sm : State) (still : Prop) : Prop where
  grid : sm.R_grid = (move_ribo cfg s).R_grid
  mr : ∀ i, (sm.Ribo i).mRNA = (s.Ribo i).mRNA
  ps : ∀ i, (sm.Ribo i).pos = ((move_ribo cfg s).Ribo i).pos
  gene : ∀ m, (sm.mRNA m).gene = (s.mRNA m).gene
  N : sm.next_avail_ribo = s.next_avail_ribo
  Rf : sm.Rf = s.Rf
  Mf : sm.Mf = s.Mf
  free : sm.free_mRNA = s.free_mRNA
  scld : sm.scld_Mf = s.scld_Mf
  tot : sm.tot_scld_Mf = s.tot_scld_Mf
  rid : sm.r_id = s.r_id
  mid : sm.m_id = s.m_id
  queue : QInv 61 sm.Ribo sm.Rb_e sm.n_Rb_e
    (fun j => j < s.next_avail_ribo ∧
      ((j ≠ s.r_id ∧ elongatable cfg s j) ∨ (j = s.r_id ∧ still))) none
  cod : ∀ j, j ≠ s.r_id → (sm.Ribo j).elng_cod_list = (s.Ribo j).elng_cod_list
  cod_r : still → (sm.Ribo s.r_id).elng_cod_list =
    (cfg.Gene (s.mRNA s.m_id).gene).seq ((s.Ribo s.r_id).pos + 1)

/-- The invariant between lines 759 and 761 of a termination: the slot
`r_id` is no longer bound but the active partition is not compacted yet. -/
structure InvHole (cfg : Config) (s : State) : Prop where
  rf : s.Rf + (s.next_avail_ribo : Int) = (cfg.tot_ribo : Int) + 1
  rf_pos : 1 ≤ s.Rf
  hole_lt : s.r_id < s.next_avail_ribo
  hole_ltE : s.r_id < cfg.tot_ribo
  gene_lt : ∀ m, m < tot_mRNA cfg → (s.mRNA m).gene < cfg.n_genes
  grid : GInv cfg s (fun i => i < s.next_avail_ribo ∧ i ≠ s.r_id)
  foot : Footprint cfg s
  queue : QInv 61 s.Ribo s.Rb_e s.n_Rb_e
    (fun i => (i < s.next_avail_ribo ∧ i ≠ s.r_id) ∧ elongatable cfg s i) none
  codon : ∀ i, i < s.next_avail_ribo → i ≠ s.r_id → elongatable cfg s i →
    (s.Ribo i).elng_cod_list = codon_at cfg s (s.Ribo i).mRNA (s.Ribo i).pos
  free : FInv cfg s
  scld : ScldInv cfg s

/-- The first gene-selection draw of an initiation tick selects a gene: the
loop of lines 662-675 reaches its `break`. -/
def gene_picked (cfg : Config) (s : State) (r1 r2 : Nat) : Prop :=
  ini_branch cfg s r1 → (gene_loop s (coin_of cfg r2) cfg.n_genes 0 0).isSome = true

/-- States at the loop head after any number of ticks, started on
uninitialised memory `U`. -/
inductive Reachable (cfg : Config) (U : State) : State → Prop
  | init : Reachable cfg U (init cfg U)
  | tick {s s' : State} (r1 r2 r3 : Nat) :
      Reachable cfg U s → tick cfg s r1 r2 r3 = some s' → Reachable cfg U s'

/-- States at the loop head of a run in which every initiation is on a
transcript taken from an initiation queue (its gene loop breaks). -/
inductive Run (cfg : Config) (U : State) : State → Prop
  | init : Run cfg U (init cfg U)
  | tick {s s' : State} (r1 r2 r3 : Nat) :
      Run cfg U s → tick cfg s r1 r2 r3 = some s' → gene_picked cfg s r1 r2 → Run cfg U s'

/-! ## A small concrete run -/

/-- One gene of 11 codons (all codon 0) with two transcripts, two ribosomes,
305 tRNAs, which the set-up divides by the 61 codons into a pool of five of
the single species 0. -/
def cfg0 : Config :=
  { n_genes := 1
    tot_ribo := 2
    tot_tRNA := 305
    avail_space_t := 1
    avail_space_r := 1
    tot_time := 10
    time_thres := 0
    printOpt := fun _ => 0
    Gene := fun _ => { seq := fun _ => 0, len := 11, exp := 2, ini_prob := 1 }
    cTRNA := fun _ => { tid := 0, gcn := 1, wobble := 1 }
    RAND_MAX := 2147483647 }

/-- Uninitialised memory that happens to be all zero. -/
def U0 : State :=
  { Ribo := fun _ => { mRNA := 0, pos := 0, t_trans_ini := 0, t_elong_ini := 0,
                       elng_cod_list := 0, elng_pos_list := 0 }
    mRNA := fun _ => { gene := 0, ini_n := 0, trans_n := 0, last_ini := 0,
                       avg_time_to_ini := 0, avg_time_to_trans := 0 }
    Tf := fun _ => 0
    Rf := 0
    Mf := fun _ => 0
    n_Rb_e := fun _ => 0
    Rb_e := fun _ _ => 0
    free_mRNA := fun _ _ => 0
    R_grid := fun _ _ => 0
    r_id := 0
    m_id := 0
    c_id := 0
    next_avail_ribo := 0
    n_e_times := fun _ => 0
    e_times := fun _ => 0
    num_waste_ribo := fun _ => 0
    num_waste_ribo_pos := fun _ => 0
    time_waste_ribo := fun _ => 0
    time_waste_ribo_pos := fun _ => 0
    scld_Mf := fun _ => 0
    tot_scld_Mf := 0
    avg_tRNA_abndc := fun _ => 0
    avg_Rf := 0
    t := 0
    t_print := 0 }

/-- The count of the spec's tRNA equation: active slots whose current codon is
read by species `sp`. -/
def n_current (cfg : Config) (s : State) (sp : Nat) : Nat :=
  ((Finset.range s.next_avail_ribo).filter
    (fun i => (cfg.cTRNA (codon_at cfg s (s.Ribo i).mRNA (s.Ribo i).pos)).tid = sp)).card

/-- The state `init cfg0 U0` after one tick with `rand()` results 0, 0, 0: an
initiation on transcript 0. -/
def s1 : State :=
  ini_place cfg0 (ini_stats cfg0 (ini_pick cfg0
    (ini_alloc (advance cfg0 (init cfg0 U0) (1 / tot_rate cfg0 (init cfg0 U0)))) 0 0))

/-- A loop-head state of the small configuration with both ribosomes bound:
slot 0 at the last codon of transcript 0, slot 1 at position 0 of
transcript 1, both in the queue of codon 0. -/
def s2 : State :=
  { U0 with
    Ribo := fun i =>
      if i = 0 then { mRNA := 0, pos := 10, t_trans_ini := 1, t_elong_ini := 2,
                      elng_cod_list := 0, elng_pos_list := 0 }
      else { mRNA := 1, pos := 0, t_trans_ini := 3, t_elong_ini := 3,
             elng_cod_list := 0, elng_pos_list := 1 }
    Tf := fun _ => 4
    Rf := 0
    Mf := fun _ => 1
    n_Rb_e := fun c => if c = 0 then 2 else 0
    Rb_e := fun _ i => i
    R_grid := fun m p => if m = 0 ∧ p = 10 then 0 else if m = 1 ∧ p = 0 then 1 else 2
    next_avail_ribo := 2
    scld_Mf := fun _ => 1
    tot_scld_Mf := 1
    t := 4 }

/-! ## The command line option `-H` (lines 335-348) -/

/-- The case `'H'` of `Read_Commandline_Args` when a value follows the
option: `h` is the result of `atof`, `tot_time` the global at that moment.
The result is the new `time_thres`, or the status of `exit(1)`. -/
def opt_H (tot_time h : ℚ) : Except Nat ℚ :=
  if h < 0 ∨ h > tot_time then Except.error 1 else Except.ok h

/-! ## Properties of one event -/

/-- The statistic accumulators of `s'` are those of `s`: the time-weighted
sums of lines 624-640, the per-codon elongation sums of lines 738-739 and
the four statistics of every transcript (lines 678-679, 741-742). -/
structure SameStats (s s' : State) : Prop where
  avg_Rf : s'.avg_Rf = s.avg_Rf
  avg_tRNA_abndc : s'.avg_tRNA_abndc = s.avg_tRNA_abndc
  time_waste_ribo : s'.time_waste_ribo = s.time_waste_ribo
  time_waste_ribo_pos : s'.time_waste_ribo_pos = s.time_waste_ribo_pos
  e_times : s'.e_times = s.e_times
  n_e_times : s'.n_e_times = s.n_e_times
  transcripts : ∀ m, (s'.mRNA m).ini_n = (s.mRNA m).ini_n ∧
    (s'.mRNA m).avg_time_to_ini = (s.mRNA m).avg_time_to_ini ∧
    (s'.mRNA m).trans_n = (s.mRNA m).trans_n ∧
    (s'.mRNA m).avg_time_to_trans = (s.mRNA m).avg_time_to_trans

/-! ## The loop and the inter-initiation report -/

/-- The loop `while(t<tot_time)` of lines 610-874, fed with the `rand()`
results of its ticks, three per tick; `none` when a tick has no result or the
results run out before the loop ends. -/
def run_loop (cfg : Config) : State → List (Nat × Nat × Nat) → Option State
  | s, [] => if s.t < cfg.tot_time then none else some s
  | s, d :: ds =>
      if s.t < cfg.tot_time then
        (tick cfg s d.1 d.2.1 d.2.2).bind (fun s' => run_loop cfg s' ds)
      else some s

/-- The accumulator `n_trans[g]` after the loops of lines 893-905. -/
def n_trans (cfg : Config) (s : State) (g : Nat) : Nat :=
  ∑ c2 in Finset.range (cfg.Gene g).exp, (s.mRNA (mRNA_start cfg.Gene g + c2)).trans_n

/-- The accumulator `g_ini[g]` after the loops of lines 893-905. -/
def g_ini (cfg : Config) (s : State) (g : Nat) : ℚ :=
  ∑ c2 in Finset.range (cfg.Gene g).exp, (s.mRNA (mRNA_start cfg.Gene g + c2)).avg_time_to_ini

/-- The line of gene `g` in the file `_gene_initimes.out` (lines 944-947):
the gene, the event count and the average `dCST`, which has no rational
value when the count is 0. -/
def initimes_line (cfg : Config) (s : State) (g : Nat) : Nat × Nat × Option ℚ :=
  (g, n_trans cfg s g,
    if n_trans cfg s g = 0 then none else some (g_ini cfg s g / (n_trans cfg s g : ℚ)))

/-- The lines of the file `_gene_initimes.out` (lines 937-948), written when
`printOpt[2]` is 1. -/
def initimes_report (cfg : Config) (s : State) : Option (List (Nat × Nat × Option ℚ)) :=
  if cfg.printOpt 2 = 1 then some ((List.range cfg.n_genes).map (initimes_line cfg s))
  else none

/-- The number of initiation events recorded for gene `g`: the sum of `ini_n`
over its transcripts. -/
def n_ini (cfg : Config) (s : State) (g : Nat) : Nat :=
  ∑ c2 in Finset.range (cfg.Gene g).exp, (s.mRNA (mRNA_start cfg.Gene g + c2)).ini_n

/-! ## Further small configurations -/

/-- The small configuration with the burn-in threshold 1 (`-H 1`). -/
def cfgB : Config := { cfg0 with time_thres := 1 }

/-- The small configuration with the per-codon report switched on (`-p1`). -/
def cfg1 : Config := { cfg0 with printOpt := fun i => if i = 0 then 1 else 0 }

/-- One gene of 11 codons with two transcripts and two ribosomes in the
default cell volume, with the inter-initiation report switched on, no burn-in
and a total time of 100 (`-R 2 -t 305 -p3 -H 0 -T 100`). -/
def cfg2 : Config :=
  { cfg0 with
    avail_space_t := 12400000
    avail_space_r := 1560000
    printOpt := fun i => if i = 2 then 1 else 0
    tot_time := 100 }

/-- The state of `cfg2` after its first tick with `rand()` results 0, 0, 0. -/
def s_rep : State :=
  ini_place cfg2 (ini_stats cfg2 (ini_pick cfg2
    (ini_alloc (advance cfg2 (init cfg2 U0) (1 / tot_rate cfg2 (init cfg2 U0)))) 0 0))

/-- One gene of 11 codons (all codon 0) with one transcript, two ribosomes
and 61 tRNAs in the default cell volume; each codon has its own tRNA species
with gene copy number 1, so that the set-up gives every species a pool of one
(`-N 1 -R 2 -t 61 -H 0 -T 10000`). -/
def cfg3 : Config :=
  { n_genes := 1
    tot_ribo := 2
    tot_tRNA := 61
    avail_space_t := 12400000
    avail_space_r := 1560000
    tot_time := 10000
    time_thres := 0
    printOpt := fun _ => 0
    Gene := fun _ => { seq := fun _ => 0, len := 11, exp := 1, ini_prob := 1 }
    cTRNA := fun c => { tid := c, gcn := 1, wobble := 1 }
    RAND_MAX := 2147483647 }

/-- The state of `cfg3` after its first tick with `rand()` results 0, 0, 0:
an initiation on the only transcript. -/
def s3a : State :=
  ini_place cfg3 (ini_stats cfg3 (ini_pick cfg3
    (ini_alloc (advance cfg3 (init cfg3 U0) (1 / tot_rate cfg3 (init cfg3 U0)))) 0 0))

/-- The state of `cfg3` after its second tick with `rand()` results 0, 0: the
ribosome moves from position 0 to position 1 and takes the only tRNA. -/
def s3b : State :=
  snapshot cfg3 (post_move cfg3 (move_still cfg3 (release_tRNA cfg3
    (pick_ribo { advance cfg3 s3a (1 / tot_rate cfg3 s3a) with c_id := 0 } 0)) 0))

/-! ## Occupied cells, queue entries and stalled ribosomes -/

/-- Cell `(m, p)` of the grid lies inside a transcript and holds a ribosome. -/
def occupied (cfg : Config) (s : State) (m p : Nat) : Prop :=
  m < tot_mRNA cfg ∧ p < tlen cfg s m ∧ s.R_grid m p ≠ cfg.tot_ribo

/-- Slot `i` is an entry of one of the 61 elongation queues. -/
def queued (s : State) (i : Nat) : Prop :=
  ∃ c, c < 61 ∧ ∃ x, x < s.n_Rb_e c ∧ s.Rb_e c x = i

instance (s : State) (i : Nat) : Decidable (queued s i) :=
  inferInstanceAs (Decidable (∃ c, c < 61 ∧ ∃ x, x < s.n_Rb_e c ∧ s.Rb_e c x = i))

/-- The state of a tick from `s` after lines 716-722 picked slot `x` of the
queue of codon `c` and released the tRNA of the previous codon. -/
def picked (cfg : Config) (s : State) (c x : Nat) : State :=
  release_tRNA cfg (pick_ribo { advance cfg s (1 / tot_rate cfg s) with c_id := c } x)

/-- Number of bound ribosomes on transcripts of gene `g` that are in no
elongation queue. -/
def n_stalled (s : State) (g : Nat) : Nat :=
  ((Finset.range s.next_avail_ribo).filter
    (fun i => (s.mRNA (s.Ribo i).mRNA).gene = g ∧ ¬ queued s i)).card

/-- Number of bound ribosomes at position `p` of a transcript of gene 0 that
are in no elongation queue. -/
def n_stalled_pos (s : State) (p : Nat) : Nat :=
  ((Finset.range s.next_avail_ribo).filter
    (fun i => (s.mRNA (s.Ribo i).mRNA).gene = 0 ∧ (s.Ribo i).pos = p ∧ ¬ queued s i)).card

instance (cfg : Config) (s : State) (i : Nat) : Decidable (elongatable cfg s i) :=
  inferInstanceAs (Decidable ((s.Ribo i).pos + 10 ≥ tlen cfg s (s.Ribo i).mRNA ∨
    s.R_grid (s.Ribo i).mRNA ((s.Ribo i).pos + 10) = cfg.tot_ribo))

/-- Indicator, for a property `φ` of (gene, position), that slot `j` holds a
ribosome in no elongation queue whose gene and position satisfy `φ`. -/
def stall_ind (s : State) (φ : Nat → Nat → Prop) [∀ a q, Decidable (φ a q)] (j : Nat) : Int :=
  if φ (s.mRNA (s.Ribo j).mRNA).gene (s.Ribo j).pos ∧ ¬ queued s j then 1 else 0

/-- The codon `c_id` after the loop of lines 707-714 of a tick from `s` whose
first `rand()` result is `r1` (the old `c_id` when the loop does not break). -/
def sel_codon (cfg : Config) (s : State) (r1 : Nat) : Nat :=
  match codon_loop (r_elng cfg s) (1 / tot_rate cfg s) (coin_of cfg r1) 61 0
      (r_ini cfg s * (1 / tot_rate cfg s)) with
  | some c => c
  | none => s.c_id

/-- States at the loop head after ticks whose elongation events all picked a
codon with a strictly positive elongation rate. -/
inductive PosRun (cfg : Config) (U : State) : State → Prop
  | init : PosRun cfg U (init cfg U)
  | tick {s s' : State} (r1 r2 r3 : Nat) :
      PosRun cfg U s → tick cfg s r1 r2 r3 = some s' →
      (¬ ini_branch cfg s r1 → 0 < r_elng cfg s (sel_codon cfg s r1)) → PosRun cfg U s'

/-! ## A gene shorter than the footprint -/

/-- One gene of 5 codons (all codon 0) with one transcript, two ribosomes and
one tRNA per species (`-N 1 -R 2 -t 61 -H 0 -T 10000`). -/
def cfg4 : Config :=
  { cfg3 with Gene := fun _ => { seq := fun _ => 0, len := 5, exp := 1, ini_prob := 1 } }

/-- A loop head of the run of `cfg4` after the initiation on its only
transcript: slot 0 is bound at position 0 and is the entry of the queue of
codon 0, the initiation queue of gene 0 is empty. -/
def s4 : State :=
  { U0 with
    Tf := fun _ => 1
    Rf := 1
    n_Rb_e := fun c => if c = 0 then 1 else 0
    R_grid := fun m p => if m = 0 ∧ p = 0 then 0 else 2
    next_avail_ribo := 1
    t := 390 }

/-! ## The cells of the grid that the handlers access -/

/-- The cells `R_grid[m][p]` that the initiation handler accesses for the
transcript `m_id`, in program order: the read of line 686 and the write of
line 699. -/
def ini_cells (s : State) : List (Nat × Int) := [(s.m_id, 10), (s.m_id, 0)]

/-- The cells that the compaction of lines 761-776 accesses, for the state
before the cursor is decremented: the write of line 771 at the cell of the
moved record and the read of line 773, ten codons ahead of it, which is the
first operand of `||` and is evaluated before the test of the length. -/
def compact_cells (s : State) : List (Nat × Int) :=
  if s.r_id ≠ s.next_avail_ribo - 1 then
    [((s.Ribo (s.next_avail_ribo - 1)).mRNA, ((s.Ribo (s.next_avail_ribo - 1)).pos : Int)),
     ((s.Ribo (s.next_avail_ribo - 1)).mRNA, ((s.Ribo (s.next_avail_ribo - 1)).pos : Int) + 10)]
  else []

/-- The cells that the elongation/termination handler (lines 716-847)
accesses for slot `x` of the queue of `c_id`, in program order. Termination:
the write of line 725, the read of line 746 and the compaction. Otherwise: the
read of line 780 (only when `pos+11 < len`, the test of the length comes
first), the two writes of the move and the read of line 822 (only when the new
position is above 10). -/
def elng_cells (cfg : Config) (s : State) (x : Nat) : List (Nat × Int) :=
  let s1 := release_tRNA cfg (pick_ribo s x)
  let len := (cfg.Gene (s1.mRNA s1.m_id).gene).len
  let pos := (s1.Ribo s1.r_id).pos
  if pos + 1 = len then
    let s3 := term_stats cfg (queue_remove (term_clear cfg s1) s1.c_id x)
    [(s1.m_id, (pos : Int)), (s1.m_id, (pos : Int) + 1 - 11)] ++
      compact_cells (promote cfg s3 s3.m_id ((s3.Ribo s3.r_id).pos - 11))
  else
    (if pos + 11 ≥ len then [] else [(s1.m_id, (pos : Int) + 11)]) ++
      [(s1.m_id, (pos : Int)), (s1.m_id, (pos : Int) + 1)] ++
      (if pos + 1 > 10 then [(s1.m_id, (pos : Int) + 1 - 11)] else [])

/-- The cell `(m, p)` lies inside transcript `m`. -/
def in_grid (cfg : Config) (s : State) (c : Nat × Int) : Prop :=
  c.1 < tot_mRNA cfg ∧ 0 ≤ c.2 ∧ c.2 < (tlen cfg s c.1 : Int)

/-- A loop head of the small configuration with both ribosomes bound: slot 0
at the last codon of transcript 0, slot 1 at position 1 of transcript 1, both
in the queue of codon 0. -/
def s5 : State :=
  { s2 with
    Ribo := fun i =>
      if i = 0 then { mRNA := 0, pos := 10, t_trans_ini := 1, t_elong_ini := 2,
                      elng_cod_list := 0, elng_pos_list := 0 }
      else { mRNA := 1, pos := 1, t_trans_ini := 3, t_elong_ini := 7 / 2,
             elng_cod_list := 0, elng_pos_list := 1 }
    Tf := fun _ => 3
    R_grid := fun m p => if m = 0 ∧ p = 10 then 0 else if m = 1 ∧ p = 1 then 1 else 2 }

/-! ## Runs with given `rand()` results -/

/-- The loop head reached from `s` by the ticks of the loop of lines 611-874
whose `rand()` results are given, three per tick (the event draw, then the
gene draw and the transcript draw of an initiation, or the queue draw of an
elongation); `none` when a tick has no result or the loop has ended before
(`t >= tot_time`). -/
def ticks (cfg : Config) : State → List (Nat × Nat × Nat) → Option State
  | s, [] => some s
  | s, d :: ds =>
      if s.t < cfg.tot_time then
        match tick cfg s d.1 d.2.1 d.2.2 with
        | some s' => ticks cfg s' ds
        | none => none
      else none

/-- The test `p` on the state `o`, false when there is none. -/
def holds (o : Option State) (p : State → Bool) : Bool :=
  match o with
  | some s => p s
  | none => false

/-- One gene of 11 codons (all codon 0) with two transcripts, two ribosomes
and 305 tRNAs in the default cell volume; each codon has its own tRNA species
with gene copy number 1, so that the set-up gives every species a pool of five
(`-R 2 -t 305 -H 0 -T 20000`). -/
def cfg5 : Config :=
  { n_genes := 1
    tot_ribo := 2
    tot_tRNA := 305
    avail_space_t := 12400000
    avail_space_r := 1560000
    tot_time := 20000
    time_thres := 0
    printOpt := fun _ => 0
    Gene := fun _ => { seq := fun _ => 0, len := 11, exp := 2, ini_prob := 1 }
    cTRNA := fun c => { tid := c, gcn := 1, wobble := 1 }
    RAND_MAX := 2147483647 }

/-- The `rand()` results of two ticks of `cfg5`: an initiation on transcript
0, then an initiation whose gene draw is `RAND_MAX`. -/
def draws2 : List (Nat × Nat × Nat) := [(0, 0, 0), (0, 2147483647, 0)]

/-- The `rand()` results of twelve ticks of `cfg5`: an initiation on
transcript 0, one elongation of its ribosome (event draw 2000000000, queue
draw 0), an initiation whose gene draw is `RAND_MAX`, and nine elongations of
the first ribosome (slot 0 of the queue of codon 0), which reaches the last
codon. -/
def draws12 : List (Nat × Nat × Nat) :=
  [(0, 0, 0), (2000000000, 0, 0), (0, 2147483647, 0)] ++ List.replicate 9 (2000000000, 0, 0)

/-- The twelve ticks of `draws12` and the termination of the first
ribosome. -/
def draws13 : List (Nat × Nat × Nat) := draws12 ++ [(2000000000, 0, 0)]

/-- The thirteen ticks of `draws13` and an elongation of slot 0 of the queue
of codon 0. -/
def draws14 : List (Nat × Nat × Nat) := draws13 ++ [(2000000000, 0, 0)]

/-- One gene of 11 codons (all codon 0) with three transcripts, three
ribosomes and 61 tRNAs (one per species) in the default cell volume, with the
default burn-in threshold of 1000 and the averages of free ribosomes and
tRNAs switched on (`-R 3 -t 61 -T 3000 -p4`). -/
def cfg6 : Config :=
  { n_genes := 1
    tot_ribo := 3
    tot_tRNA := 61
    avail_space_t := 12400000
    avail_space_r := 1560000
    tot_time := 3000
    time_thres := 1000
    printOpt := fun i => if i = 3 then 1 else 0
    Gene := fun _ => { seq := fun _ => 0, len := 11, exp := 3, ini_prob := 1 }
    cTRNA := fun c => { tid := c, gcn := 1, wobble := 1 }
    RAND_MAX := 2147483647 }

/-- The `rand()` results of five ticks of `cfg6`: two initiations, an
elongation of slot 0 (which takes the only tRNA of species 0), a tick whose
event draw is `RAND_MAX` (no codon is selected, the queue of the old `c_id` 0
is used and its slot 1 is elongated), and a third initiation. -/
def draws5 : List (Nat × Nat × Nat) :=
  [(0, 0, 0), (0, 0, 0), (2000000000, 0, 0), (2147483647, 1, 0), (0, 0, 0)]

instance (cfg : Config) (s : State) (m : Nat) : Decidable (eligible cfg s m) :=
  inferInstanceAs (Decidable (∀ p, p < 10 → s.R_grid m p = cfg.tot_ribo))

theorem set1_same {α : Type} (a : Nat → α) (i : Nat) (v : α) : set1 a i v i = v := by
  simp [set1]

theorem set1_other {α : Type} (a : Nat → α) (i j : Nat) (v : α) (h : j ≠ i) :
    set1 a i v j = a j := by
  simp [set1, h]

theorem set2_same {α : Type} (a : Nat → Nat → α) (i k : Nat) (v : α) : set2 a i k v i k = v := by
  simp [set2]

theorem set2_other {α : Type} (a : Nat → Nat → α) (i k j l : Nat) (v : α)
    (h : ¬ (j = i ∧ l = k)) : set2 a i k v j l = a j l := by
  simp [set2, h]

/-! ## The elongation queues as an indexed set -/

theorem QInv.congr_P {K : Nat} {R : Nat → ribosome} {Q : Nat → Nat → Nat} {n : Nat → Nat}
    {P P' : Nat → Prop} {g : Option (Nat × Nat)} (h : QInv K R Q n P g)
    (hP : ∀ r, P r ↔ P' r) : QInv K R Q n P' g := by
  have e : P = P' := funext fun r => propext (hP r)
  rw [← e]; exact h

theorem QInv.frame {K : Nat} {R R' : Nat → ribosome} {Q : Nat → Nat → Nat} {n : Nat → Nat}
    {P : Nat → Prop} {g : Option (Nat × Nat)} (h : QInv K R Q n P g)
    (hR : ∀ j, P j → (R' j).elng_cod_list = (R j).elng_cod_list ∧
      (R' j).elng_pos_list = (R j).elng_pos_list) : QInv K R' Q n P g := by
  refine ⟨h.ghost_live, ?_, ?_⟩
  · intro c i hc hi hg
    obtain ⟨hp, hc1, hx⟩ := h.entry c i hc hi hg
    obtain ⟨e1, e2⟩ := hR _ hp
    exact ⟨hp, by rw [e1, hc1], by rw [e2, hx]⟩
  · intro r hr
    obtain ⟨e1, e2⟩ := hR _ hr
    rw [e1, e2]
    exact h.member r hr

theorem QInv.to_ghost {K : Nat} {R : Nat → ribosome} {Q : Nat → Nat → Nat} {n : Nat → Nat}
    {P : Nat → Prop} (h : QInv K R Q n P none) (c x : Nat) (hc : c < K) (hx : x < n c) :
    QInv K R Q n (fun j => P j ∧ j ≠ Q c x) (some (c, x)) := by
  refine ⟨?_, ?_, ?_⟩
  · intro c' i e
    simp only [Option.some.injEq, Prod.mk.injEq] at e
    obtain ⟨rfl, rfl⟩ := e
    exact ⟨hc, hx⟩
  · intro c' i hc' hi hg
    obtain ⟨hp, hc1, hpos⟩ := h.entry c' i hc' hi (by simp)
    refine ⟨⟨hp, ?_⟩, hc1, hpos⟩
    intro e
    obtain ⟨_, hc2, hpos2⟩ := h.entry c x hc hx (by simp)
    rw [← e] at hc2 hpos2
    apply hg
    rw [← hc2, ← hpos2, hc1, hpos]
  · intro r hr
    obtain ⟨h0, h1, h2, _⟩ := h.member r hr.1
    refine ⟨h0, h1, h2, ?_⟩
    intro e
    simp only [Option.some.injEq, Prod.mk.injEq] at e
    apply hr.2
    rw [← h2, e.1, e.2]

theorem QInv.remove {K : Nat} {s : State} {P : Nat → Prop} {c x : Nat}
    (h : QInv K s.Ribo s.Rb_e s.n_Rb_e P (some (c, x))) :
    QInv K (queue_remove s c x).Ribo (queue_remove s c x).Rb_e (queue_remove s c x).n_Rb_e
      P none := by
  obtain ⟨hcK, hx⟩ := h.ghost_live c x rfl
  unfold queue_remove
  by_cases hl : x = s.n_Rb_e c - 1
  · simp only [hl, ne_eq, not_true_eq_false, if_false]
    refine ⟨by simp, ?_, ?_⟩
    · intro c' i hc' hi _
      have hi' : i < s.n_Rb_e c' := by
        by_cases hc : c' = c
        · subst hc; simp [set1] at hi; omega
        · simpa [set1, hc] using hi
      have hne : (some (c, x) : Option (Nat × Nat)) ≠ some (c', i) := by
        intro e
        simp only [Option.some.injEq, Prod.mk.injEq] at e
        obtain ⟨rfl, rfl⟩ := e
        simp [set1] at hi; omega
      exact h.entry c' i hc' hi' hne
    · intro r hr
      obtain ⟨h0, h1, h2, h3⟩ := h.member r hr
      refine ⟨h0, ?_, h2, by simp⟩
      by_cases hc : (s.Ribo r).elng_cod_list = c
      · have : (s.Ribo r).elng_pos_list ≠ x := by
          intro e; apply h3; rw [hc, e]
        rw [hc] at h1 ⊢
        simp [set1]; omega
      · simpa [set1, hc] using h1
  · simp only [ne_eq, hl, not_false_eq_true, if_true]
    have hn : s.n_Rb_e c - 1 < s.n_Rb_e c := by omega
    have hgl : (some (c, x) : Option (Nat × Nat)) ≠ some (c, s.n_Rb_e c - 1) := by
      intro e
      simp only [Option.some.injEq, Prod.mk.injEq] at e
      exact hl e.2
    obtain ⟨hwP, hwc, hwp⟩ := h.entry c (s.n_Rb_e c - 1) hcK hn hgl
    refine ⟨by simp, ?_, ?_⟩
    · intro c' i hc' hi _
      by_cases hcx : c' = c ∧ i = x
      · obtain ⟨rfl, rfl⟩ := hcx
        simp [set1, set2, hwP, hwc]
      · have hi' : i < s.n_Rb_e c' := by
          by_cases hc : c' = c
          · subst hc; simp [set1] at hi; omega
          · simpa [set1, hc] using hi
        have hne : (some (c, x) : Option (Nat × Nat)) ≠ some (c', i) := by
          intro e
          simp only [Option.some.injEq, Prod.mk.injEq] at e
          exact hcx ⟨e.1.symm, e.2.symm⟩
        obtain ⟨hp, hc1, hp1⟩ := h.entry c' i hc' hi' hne
        have hw : s.Rb_e c' i ≠ s.Rb_e c (s.n_Rb_e c - 1) := by
          intro e
          rw [e] at hc1 hp1
          rw [hwc] at hc1
          rw [hwp] at hp1
          subst hc1
          simp [set1] at hi
          omega
        simp [set1, set2, hcx, hw, hp, hc1, hp1]
    · intro r hr
      obtain ⟨h0, h1, h2, h3⟩ := h.member r hr
      by_cases hw : r = s.Rb_e c (s.n_Rb_e c - 1)
      · subst hw
        simp [set1, set2, hwc]
        omega
      · have hne : ¬ ((s.Ribo r).elng_cod_list = c ∧ (s.Ribo r).elng_pos_list = x) := by
          intro e; apply h3; rw [e.1, e.2]
        have hne2 : ¬ ((s.Ribo r).elng_cod_list = c ∧
            (s.Ribo r).elng_pos_list = s.n_Rb_e c - 1) := by
          intro e; apply hw; rw [← h2, e.1, e.2]
        simp only [set1, hw, if_false, set2, hne, h2, true_and]
        refine ⟨h0, ?_, by simp⟩
        by_cases hc : (s.Ribo r).elng_cod_list = c
        · rw [hc] at h1 ⊢
          simp only [if_true]
          have : (s.Ribo r).elng_pos_list ≠ s.n_Rb_e c - 1 := fun e => hne2 ⟨hc, e⟩
          omega
        · simpa [hc] using h1

theorem QInv.append {K : Nat} {s : State} {P : Nat → Prop} {g : Option (Nat × Nat)}
    (h : QInv K s.Ribo s.Rb_e s.n_Rb_e P g) (c r : Nat) (hcK : c < K) (hr : ¬ P r) :
    QInv K (queue_append s c r).Ribo (queue_append s c r).Rb_e (queue_append s c r).n_Rb_e
      (fun j => P j ∨ j = r) g := by
  unfold queue_append
  refine ⟨?_, ?_, ?_⟩
  · intro c' i e
    obtain ⟨h1, h2⟩ := h.ghost_live c' i e
    refine ⟨h1, ?_⟩
    by_cases hc : c' = c
    · subst hc; simp [set1]; omega
    · simpa [set1, hc] using h2
  · intro c' i hc' hi hg
    by_cases hcx : c' = c ∧ i = s.n_Rb_e c
    · obtain ⟨rfl, rfl⟩ := hcx
      simp [set1, set2]
    · have hi' : i < s.n_Rb_e c' := by
        by_cases hc : c' = c
        · subst hc; simp [set1] at hi; simp at hcx; omega
        · simpa [set1, hc] using hi
      obtain ⟨hp, hc1, hp1⟩ := h.entry c' i hc' hi' hg
      have hne : s.Rb_e c' i ≠ r := fun e => hr (e ▸ hp)
      simp [set1, set2, hcx, hne, hp, hc1, hp1]
  · intro j hj
    by_cases hjr : j = r
    · subst hjr
      simp only [set1, if_true, set2, and_self, lt_add_iff_pos_right, zero_lt_one, true_and]
      refine ⟨hcK, ?_⟩
      intro e
      have := (h.ghost_live c (s.n_Rb_e c) e).2
      omega
    · have hPj : P j := by
        rcases hj with hj | hj
        · exact hj
        · exact absurd hj hjr
      obtain ⟨h0, h1, h2, h3⟩ := h.member j hPj
      have hne : ¬ ((s.Ribo j).elng_cod_list = c ∧ (s.Ribo j).elng_pos_list = s.n_Rb_e c) := by
        intro e; rw [e.1, e.2] at h1; omega
      simp only [set1, hjr, if_false, set2, hne, h2, true_and]
      refine ⟨h0, ?_, h3⟩
      by_cases hc : (s.Ribo j).elng_cod_list = c
      · rw [hc] at h1 ⊢; simp; omega
      · simpa [hc] using h1

theorem QInv.compact {K : Nat} {R : Nat → ribosome} {Q : Nat → Nat → Nat} {n : Nat → Nat}
    {P : Nat → Prop} (h : QInv K R Q n P none) (r l k : Nat) (rc : ribosome)
    (b : Prop) [Decidable b] (hr : ¬ P r) (hb : b ↔ P l)
    (hk : P l → (R l).elng_cod_list = k) (hc : rc.elng_cod_list = k)
    (hp : rc.elng_pos_list = (R l).elng_pos_list) :
    QInv K (set1 R r rc) (if b then set2 Q k (R l).elng_pos_list r else Q) n
      (fun j => if j = r then P l else (j ≠ l ∧ P j)) none := by
  by_cases hl : P l
  · have hbt : b := hb.mpr hl
    obtain ⟨l0, l1, l2, _⟩ := h.member l hl
    rw [hk hl] at l0 l1 l2
    simp only [hbt, if_true]
    refine ⟨by simp, ?_, ?_⟩
    · intro c i hcK hi _
      by_cases hci : c = k ∧ i = (R l).elng_pos_list
      · obtain ⟨rfl, rfl⟩ := hci
        simp [set1, set2, hl, hc, hp]
      · obtain ⟨e1, e2, e3⟩ := h.entry c i hcK hi (by simp)
        have hjr : Q c i ≠ r := fun e => hr (e ▸ e1)
        have hjl : Q c i ≠ l := by
          intro e
          rw [e] at e2 e3
          apply hci
          rw [← e2, ← e3, hk hl]
          exact ⟨rfl, rfl⟩
        simp [set1, set2, hci, hjr, hjl, e1, e2, e3]
    · intro j hj
      by_cases hjr : j = r
      · subst hjr
        simp [set1, set2, hc, hp, l0, l1]
      · simp only [hjr, if_false] at hj
        obtain ⟨e0, e1, e2, _⟩ := h.member j hj.2
        have hne : ¬ ((R j).elng_cod_list = k ∧ (R j).elng_pos_list = (R l).elng_pos_list) := by
          intro e
          apply hj.1
          rw [← e2, e.1, e.2, l2]
        simp [set1, set2, hjr, hne, e0, e1, e2]
  · have hbf : ¬ b := fun e => hl (hb.mp e)
    simp only [hbf, if_false]
    refine ⟨by simp, ?_, ?_⟩
    · intro c i hcK hi _
      obtain ⟨e1, e2, e3⟩ := h.entry c i hcK hi (by simp)
      have hjr : Q c i ≠ r := fun e => hr (e ▸ e1)
      have hjl : Q c i ≠ l := fun e => hl (e ▸ e1)
      simp [set1, hjr, hjl, e1, e2, e3]
    · intro j hj
      by_cases hjr : j = r
      · subst hjr
        simp only [if_true] at hj
        exact absurd hj hl
      · simp only [hjr, if_false] at hj
        obtain ⟨e0, e1, e2, _⟩ := h.member j hj.2
        simp [set1, hjr, e0, e1, e2]

/-! ## Grid and records -/

theorem GInvR.congr_A {E T : Nat} {len mr ps : Nat → Nat} {grid : Nat → Nat → Nat}
    {A A' : Nat → Prop} (h : GInvR E T len mr ps grid A) (hA : ∀ i, A i ↔ A' i) :
    GInvR E T len mr ps grid A' := by
  have e : A = A' := funext fun r => propext (hA r)
  rw [← e]; exact h

theorem GInvR.clear {E T : Nat} {len mr ps mr' ps' : Nat → Nat} {grid : Nat → Nat → Nat}
    {A : Nat → Prop} (h : GInvR E T len mr ps grid A) (r : Nat) (hr : A r)
    (hs : ∀ i, i ≠ r → mr' i = mr i ∧ ps' i = ps i) :
    GInvR E T len mr' ps' (set2 grid (mr r) (ps r) E) (fun i => A i ∧ i ≠ r) := by
  obtain ⟨_, _, hgr⟩ := h.cell r hr
  refine ⟨fun i hi => h.act_lt i hi.1, ?_, ?_⟩
  · intro i hi
    obtain ⟨e1, e2⟩ := hs i hi.2
    obtain ⟨c1, c2, c3⟩ := h.cell i hi.1
    rw [e1, e2]
    refine ⟨c1, c2, ?_⟩
    have hne : ¬ (mr i = mr r ∧ ps i = ps r) := by
      intro e
      apply hi.2
      rw [← c3, e.1, e.2, hgr]
    simp [set2, hne, c3]
  · intro m p hm hp hg
    by_cases hmp : m = mr r ∧ p = ps r
    · simp [set2, hmp] at hg
    · simp only [set2, hmp, if_false] at hg ⊢
      obtain ⟨o1, o2, o3⟩ := h.occ m p hm hp hg
      have hjr : grid m p ≠ r := by
        intro e
        rw [e] at o2 o3
        exact hmp ⟨o2.symm, o3.symm⟩
      obtain ⟨e1, e2⟩ := hs _ hjr
      exact ⟨⟨o1, hjr⟩, by rw [e1, o2], by rw [e2, o3]⟩

theorem GInvR.place {E T : Nat} {len mr ps mr' ps' : Nat → Nat} {grid : Nat → Nat → Nat}
    {B : Nat → Prop} (h : GInvR E T len mr ps grid B) (r m q : Nat) (hr : ¬ B r)
    (hrE : r < E) (hm : m < T) (hq : q < len m) (he : grid m q = E)
    (hmr : mr' r = m) (hps : ps' r = q)
    (hs : ∀ i, i ≠ r → mr' i = mr i ∧ ps' i = ps i) :
    GInvR E T len mr' ps' (set2 grid m q r) (fun i => B i ∨ i = r) := by
  refine ⟨?_, ?_, ?_⟩
  · intro i hi
    rcases hi with hi | hi
    · exact h.act_lt i hi
    · rw [hi]; exact hrE
  · intro i hi
    by_cases hir : i = r
    · subst hir
      rw [hmr, hps]
      exact ⟨hm, hq, by simp [set2]⟩
    · have hB : B i := by
        rcases hi with hi | hi
        · exact hi
        · exact absurd hi hir
      obtain ⟨e1, e2⟩ := hs i hir
      obtain ⟨c1, c2, c3⟩ := h.cell i hB
      rw [e1, e2]
      refine ⟨c1, c2, ?_⟩
      have hne : ¬ (mr i = m ∧ ps i = q) := by
        intro e
        rw [e.1, e.2, he] at c3
        have := h.act_lt i hB
        omega
      simp [set2, hne, c3]
  · intro m' p hm' hp hg
    by_cases hmp : m' = m ∧ p = q
    · obtain ⟨rfl, rfl⟩ := hmp
      simp [set2, hmr, hps]
    · simp only [set2, hmp, if_false] at hg ⊢
      obtain ⟨o1, o2, o3⟩ := h.occ m' p hm' hp hg
      have hjr : grid m' p ≠ r := fun e => hr (e ▸ o1)
      obtain ⟨e1, e2⟩ := hs _ hjr
      exact ⟨Or.inl o1, by rw [e1, o2], by rw [e2, o3]⟩

theorem GInvR.rename {E T : Nat} {len mr ps mr' ps' : Nat → Nat} {grid : Nat → Nat → Nat}
    {B : Nat → Prop} (h : GInvR E T len mr ps grid B) (r l : Nat) (hl : B l) (hr : ¬ B r)
    (hrE : r < E) (hmr : mr' r = mr l) (hps : ps' r = ps l)
    (hs : ∀ i, i ≠ r → mr' i = mr i ∧ ps' i = ps i) :
    GInvR E T len mr' ps' (set2 grid (mr l) (ps l) r) (fun i => i = r ∨ (B i ∧ i ≠ l)) := by
  obtain ⟨l1, l2, l3⟩ := h.cell l hl
  refine ⟨?_, ?_, ?_⟩
  · intro i hi
    rcases hi with hi | hi
    · rw [hi]; exact hrE
    · exact h.act_lt i hi.1
  · intro i hi
    by_cases hir : i = r
    · subst hir
      rw [hmr, hps]
      exact ⟨l1, l2, by simp [set2]⟩
    · have hB : B i ∧ i ≠ l := by
        rcases hi with hi | hi
        · exact absurd hi hir
        · exact hi
      obtain ⟨e1, e2⟩ := hs i hir
      obtain ⟨c1, c2, c3⟩ := h.cell i hB.1
      rw [e1, e2]
      refine ⟨c1, c2, ?_⟩
      have hne : ¬ (mr i = mr l ∧ ps i = ps l) := by
        intro e
        apply hB.2
        rw [← c3, e.1, e.2, l3]
      simp [set2, hne, c3]
  · intro m p hm hp hg
    by_cases hmp : m = mr l ∧ p = ps l
    · obtain ⟨rfl, rfl⟩ := hmp
      simp [set2, hmr, hps]
    · simp only [set2, hmp, if_false] at hg ⊢
      obtain ⟨o1, o2, o3⟩ := h.occ m p hm hp hg
      have hjr : grid m p ≠ r := fun e => hr (e ▸ o1)
      have hjl : grid m p ≠ l := by
        intro e
        rw [e] at o2 o3
        exact hmp ⟨o2.symm, o3.symm⟩
      obtain ⟨e1, e2⟩ := hs _ hjr
      exact ⟨Or.inr ⟨o1, hjl⟩, by rw [e1, o2], by rw [e2, o3]⟩

/-! ## Footprint -/

theorem FootR.of_occ {E T : Nat} {len : Nat → Nat} {grid grid' : Nat → Nat → Nat}
    (h : FootR E T len grid) (hg : ∀ m p, grid m p = E → grid' m p = E) :
    FootR E T len grid' := by
  intro m p q hm hpq hq hq10 hp
  apply hg
  apply h m p q hm hpq hq hq10
  intro e
  exact hp (hg m p e)

theorem FootR.occupy {E T : Nat} {len : Nat → Nat} {grid : Nat → Nat → Nat}
    (h : FootR E T len grid) (m q r : Nat)
    (h1 : ∀ q', q < q' → q' < len m → q' < q + 10 → grid m q' = E)
    (h2 : ∀ p', p' < q → q < p' + 10 → grid m p' = E) :
    FootR E T len (set2 grid m q r) := by
  intro m' p q' hm hpq hq' hq10 hp
  by_cases hmp : m' = m ∧ p = q
  · obtain ⟨rfl, rfl⟩ := hmp
    have hne : q' ≠ p := by omega
    simp only [set2, hne, and_false, if_false]
    exact h1 q' hpq hq' hq10
  · simp only [set2, hmp, if_false] at hp
    by_cases hmq : m' = m ∧ q' = q
    · obtain ⟨rfl, rfl⟩ := hmq
      exact absurd (h2 p hpq hq10) hp
    · simp only [set2, hmq, if_false]
      exact h m' p q' hm hpq hq' hq10 hp

/-! ## The initiation queues as an indexed set -/

theorem FInvR.congr_el {ng T : Nat} {gof : Nat → Nat} {free : Nat → Nat → Nat} {Mf : Nat → Nat}
    {el el' : Nat → Prop} (h : FInvR ng T gof free Mf el) (he : ∀ m, el m ↔ el' m) :
    FInvR ng T gof free Mf el' := by
  have e : el = el' := funext fun r => propext (he r)
  rw [← e]; exact h

theorem FInvR.take {ng T : Nat} {gof : Nat → Nat} {free : Nat → Nat → Nat} {Mf : Nat → Nat}
    {el : Nat → Prop} (h : FInvR ng T gof free Mf el) (g c2 : Nat) (hg : g < ng)
    (hc : c2 < Mf g) :
    FInvR ng T gof (if c2 ≠ Mf g - 1 then set2 free g c2 (free g (Mf g - 1)) else free)
      (set1 Mf g (Mf g - 1)) (fun m => el m ∧ m ≠ free g c2) := by
  have hlast : Mf g - 1 < Mf g := by omega
  obtain ⟨m1, m2, m3⟩ := h.entry g c2 hg hc
  have key : ∀ g' i, g' < ng → i < set1 Mf g (Mf g - 1) g' →
      (if c2 ≠ Mf g - 1 then set2 free g c2 (free g (Mf g - 1)) else free) g' i =
        free g' (if g' = g ∧ i = c2 then Mf g - 1 else i) ∧
      (if g' = g ∧ i = c2 then Mf g - 1 else i) < Mf g' ∧
      ¬ (g' = g ∧ (if g' = g ∧ i = c2 then Mf g - 1 else i) = c2) := by
    intro g' i hg' hi
    by_cases hgc : g' = g ∧ i = c2
    · obtain ⟨rfl, rfl⟩ := hgc
      simp only [set1, if_true] at hi
      have hne : i ≠ Mf g' - 1 := by omega
      simp [set2, hne]
      omega
    · simp only [hgc, if_false]
      have hi' : i < Mf g' ∧ (g' = g → i < Mf g - 1) := by
        by_cases hgg : g' = g
        · subst hgg; simp [set1] at hi; omega
        · simp [set1, hgg] at hi; exact ⟨hi, fun e => absurd e hgg⟩
      refine ⟨?_, hi'.1, not_false⟩
      split
      · simp [set2, hgc]
      · rfl
  refine ⟨?_, ?_, ?_⟩
  · intro g' i hg' hi
    obtain ⟨k1, k2, k3⟩ := key g' i hg' hi
    rw [k1]
    obtain ⟨e1, e2, e3⟩ := h.entry g' _ hg' k2
    refine ⟨e1, e2, e3, ?_⟩
    intro e
    have hgg : g' = g := by rw [← e2, e, m2]
    subst hgg
    exact k3 ⟨rfl, h.inj g' _ _ hg' k2 hc e⟩
  · intro g' i j hg' hi hj e
    obtain ⟨k1, k2, k3⟩ := key g' i hg' hi
    obtain ⟨j1, j2, j3⟩ := key g' j hg' hj
    rw [k1, j1] at e
    have := h.inj g' _ _ hg' k2 j2 e
    by_cases hgg : g' = g
    · subst hgg
      simp only [set1, if_true] at hi hj
      simp only [true_and] at this
      split at this <;> split at this <;> omega
    · simpa [hgg] using this
  · intro m hm hel
    obtain ⟨i, hi, e⟩ := h.complete m hm hel.1
    by_cases hgg : gof m = g
    · rw [hgg] at hi e ⊢
      have hic : i ≠ c2 := by
        intro e2; apply hel.2; rw [← e, e2]
      by_cases hil : i = Mf g - 1
      · refine ⟨c2, ?_, ?_⟩
        · simp [set1]; omega
        · have hne : ¬ c2 = i := fun e2 => hic e2.symm
          rw [← hil]
          simp [set2, hne, e]
      · refine ⟨i, ?_, ?_⟩
        · simp [set1]; omega
        · split
          · simp [set2, hic, e]
          · exact e
    · refine ⟨i, ?_, ?_⟩
      · simpa [set1, hgg] using hi
      · split
        · simp [set2, hgg, e]
        · exact e

theorem FInvR.put {ng T : Nat} {gof : Nat → Nat} {free : Nat → Nat → Nat} {Mf : Nat → Nat}
    {el : Nat → Prop} (h : FInvR ng T gof free Mf el) (m : Nat) (hm : m < T)
    (hel : ¬ el m) :
    FInvR ng T gof (set2 free (gof m) (Mf (gof m)) m) (set1 Mf (gof m) (Mf (gof m) + 1))
      (fun m' => el m' ∨ m' = m) := by
  refine ⟨?_, ?_, ?_⟩
  · intro g i hg hi
    by_cases hgi : g = gof m ∧ i = Mf (gof m)
    · obtain ⟨rfl, rfl⟩ := hgi
      simp [set2, hm]
    · have hi' : i < Mf g := by
        by_cases hgg : g = gof m
        · subst hgg; simp [set1] at hi; simp at hgi; omega
        · simpa [set1, hgg] using hi
      obtain ⟨e1, e2, e3⟩ := h.entry g i hg hi'
      simp only [set2, hgi, if_false]
      exact ⟨e1, e2, Or.inl e3⟩
  · intro g i j hg hi hj e
    by_cases hgg : g = gof m
    · subst hgg
      simp only [set1, if_true] at hi hj
      by_cases hil : i = Mf (gof m)
      · by_cases hjl : j = Mf (gof m)
        · omega
        · have hj' : j < Mf (gof m) := by omega
          simp only [set2, hil, hjl, and_self, if_true, and_false, if_false, true_and] at e
          obtain ⟨_, _, e3⟩ := h.entry (gof m) j hg hj'
          rw [← e] at e3
          exact absurd e3 hel
      · have hi' : i < Mf (gof m) := by omega
        by_cases hjl : j = Mf (gof m)
        · simp only [set2, hil, hjl, and_self, if_true, and_false, if_false, true_and] at e
          obtain ⟨_, _, e3⟩ := h.entry (gof m) i hg hi'
          rw [e] at e3
          exact absurd e3 hel
        · have hj' : j < Mf (gof m) := by omega
          simp only [set2, hil, hjl, and_false, if_false] at e
          exact h.inj (gof m) i j hg hi' hj' e
    · simp only [set1, hgg, if_false] at hi hj
      simp only [set2, hgg, false_and, if_false] at e
      exact h.inj g i j hg hi hj e
  · intro m' hm' hel'
    by_cases hmm : m' = m
    · subst hmm
      exact ⟨Mf (gof m'), by simp [set1], by simp [set2]⟩
    · have he : el m' := by
        rcases hel' with e | e
        · exact e
        · exact absurd e hmm
      obtain ⟨i, hi, e⟩ := h.complete m' hm' he
      refine ⟨i, ?_, ?_⟩
      · by_cases hgg : gof m' = gof m
        · rw [hgg] at hi ⊢; simp [set1]; omega
        · simpa [set1, hgg] using hi
      · have hne : ¬ (gof m' = gof m ∧ i = Mf (gof m)) := by
          intro e2; rw [e2.1] at hi; omega
        simp [set2, hne, e]

/-! ## What each step leaves unchanged -/

@[simp] theorem queue_append_R_grid (s : State) (c r : Nat) : (queue_append s c r).R_grid = s.R_grid := rfl

@[simp] theorem queue_append_Rf (s : State) (c r : Nat) : (queue_append s c r).Rf = s.Rf := rfl

@[simp] theorem queue_append_Mf (s : State) (c r : Nat) : (queue_append s c r).Mf = s.Mf := rfl

@[simp] theorem queue_append_free_mRNA (s : State) (c r : Nat) : (queue_append s c r).free_mRNA = s.free_mRNA := rfl

@[simp] theorem queue_append_next_avail_ribo (s : State) (c r : Nat) : (queue_append s c r).next_avail_ribo = s.next_avail_ribo := rfl

@[simp] theorem queue_append_Tf (s : State) (c r : Nat) : (queue_append s c r).Tf = s.Tf := rfl

@[simp] theorem queue_append_r_id (s : State) (c r : Nat) : (queue_append s c r).r_id = s.r_id := rfl

@[simp] theorem queue_append_m_id (s : State) (c r : Nat) : (queue_append s c r).m_id = s.m_id := rfl

@[simp] theorem queue_append_c_id (s : State) (c r : Nat) : (queue_append s c r).c_id = s.c_id := rfl

@[simp] theorem queue_append_scld_Mf (s : State) (c r : Nat) : (queue_append s c r).scld_Mf = s.scld_Mf := rfl

@[simp] theorem queue_append_tot_scld_Mf (s : State) (c r : Nat) : (queue_append s c r).tot_scld_Mf = s.tot_scld_Mf := rfl

@[simp] theorem queue_append_t (s : State) (c r : Nat) : (queue_append s c r).t = s.t := rfl

@[simp] theorem queue_append_mRNA (s : State) (c r : Nat) : (queue_append s c r).mRNA = s.mRNA := rfl

@[simp] theorem queue_append_mr (s : State) (c r : Nat) (i : Nat) :
    ((queue_append s c r).Ribo i).mRNA = (s.Ribo i).mRNA := by simp only [queue_append, set1]; split <;> simp_all

@[simp] theorem queue_append_ps (s : State) (c r : Nat) (i : Nat) :
    ((queue_append s c r).Ribo i).pos = (s.Ribo i).pos := by simp only [queue_append, set1]; split <;> simp_all

@[simp] theorem queue_remove_R_grid (s : State) (c x : Nat) : (queue_remove s c x).R_grid = s.R_grid := by simp only [queue_remove]; split <;> rfl

@[simp] theorem queue_remove_Rf (s : State) (c x : Nat) : (queue_remove s c x).Rf = s.Rf := by simp only [queue_remove]; split <;> rfl

@[simp] theorem queue_remove_Mf (s : State) (c x : Nat) : (queue_remove s c x).Mf = s.Mf := by simp only [queue_remove]; split <;> rfl

@[simp] theorem queue_remove_free_mRNA (s : State) (c x : Nat) : (queue_remove s c x).free_mRNA = s.free_mRNA := by simp only [queue_remove]; split <;> rfl

@[simp] theorem queue_remove_next_avail_ribo (s : State) (c x : Nat) : (queue_remove s c x).next_avail_ribo = s.next_avail_ribo := by simp only [queue_remove]; split <;> rfl

@[simp] theorem queue_remove_Tf (s : State) (c x : Nat) : (queue_remove s c x).Tf = s.Tf := by simp only [queue_remove]; split <;> rfl

@[simp] theorem queue_remove_r_id (s : State) (c x : Nat) : (queue_remove s c x).r_id = s.r_id := by simp only [queue_remove]; split <;> rfl

@[simp] theorem queue_remove_m_id (s : State) (c x : Nat) : (queue_remove s c x).m_id = s.m_id := by simp only [queue_remove]; split <;> rfl

@[simp] theorem queue_remove_c_id (s : State) (c x : Nat) : (queue_remove s c x).c_id = s.c_id := by simp only [queue_remove]; split <;> rfl

@[simp] theorem queue_remove_scld_Mf (s : State) (c x : Nat) : (queue_remove s c x).scld_Mf = s.scld_Mf := by simp only [queue_remove]; split <;> rfl

@[simp] theorem queue_remove_tot_scld_Mf (s : State) (c x : Nat) : (queue_remove s c x).tot_scld_Mf = s.tot_scld_Mf := by simp only [queue_remove]; split <;> rfl

@[simp] theorem queue_remove_t (s : State) (c x : Nat) : (queue_remove s c x).t = s.t := by simp only [queue_remove]; split <;> rfl

@[simp] theorem queue_remove_mRNA (s : State) (c x : Nat) : (queue_remove s c x).mRNA = s.mRNA := by simp only [queue_remove]; split <;> rfl

@[simp] theorem queue_remove_mr (s : State) (c x : Nat) (i : Nat) :
    ((queue_remove s c x).Ribo i).mRNA = (s.Ribo i).mRNA := by
  simp only [queue_remove]; split
  · simp only [set1]; split <;> simp_all
  · rfl

@[simp] theorem queue_remove_ps (s : State) (c x : Nat) (i : Nat) :
    ((queue_remove s c x).Ribo i).pos = (s.Ribo i).pos := by
  simp only [queue_remove]; split
  · simp only [set1]; split <;> simp_all
  · rfl

@[simp] theorem queue_remove_ecod (s : State) (c x : Nat) (i : Nat) :
    ((queue_remove s c x).Ribo i).elng_cod_list = (s.Ribo i).elng_cod_list := by
  simp only [queue_remove]; split
  · simp only [set1]; split <;> simp_all
  · rfl

@[simp] theorem waste_incr_R_grid (s : State) (m p : Nat) : (waste_incr s m p).R_grid = s.R_grid := rfl

@[simp] theorem waste_incr_Rf (s : State) (m p : Nat) : (waste_incr s m p).Rf = s.Rf := rfl

@[simp] theorem waste_incr_Mf (s : State) (m p : Nat) : (waste_incr s m p).Mf = s.Mf := rfl

@[simp] theorem waste_incr_free_mRNA (s : State) (m p : Nat) : (waste_incr s m p).free_mRNA = s.free_mRNA := rfl

@[simp] theorem waste_incr_next_avail_ribo (s : State) (m p : Nat) : (waste_incr s m p).next_avail_ribo = s.next_avail_ribo := rfl

@[simp] theorem waste_incr_Tf (s : State) (m p : Nat) : (waste_incr s m p).Tf = s.Tf := rfl

@[simp] theorem waste_incr_r_id (s : State) (m p : Nat) : (waste_incr s m p).r_id = s.r_id := rfl

@[simp] theorem waste_incr_m_id (s : State) (m p : Nat) : (waste_incr s m p).m_id = s.m_id := rfl

@[simp] theorem waste_incr_c_id (s : State) (m p : Nat) : (waste_incr s m p).c_id = s.c_id := rfl

@[simp] theorem waste_incr_scld_Mf (s : State) (m p : Nat) : (waste_incr s m p).scld_Mf = s.scld_Mf := rfl

@[simp] theorem waste_incr_tot_scld_Mf (s : State) (m p : Nat) : (waste_incr s m p).tot_scld_Mf = s.tot_scld_Mf := rfl

@[simp] theorem waste_incr_n_Rb_e (s : State) (m p : Nat) : (waste_incr s m p).n_Rb_e = s.n_Rb_e := rfl

@[simp] theorem waste_incr_Rb_e (s : State) (m p : Nat) : (waste_incr s m p).Rb_e = s.Rb_e := rfl

@[simp] theorem waste_incr_t (s : State) (m p : Nat) : (waste_incr s m p).t = s.t := rfl

@[simp] theorem waste_incr_Ribo (s : State) (m p : Nat) : (waste_incr s m p).Ribo = s.Ribo := rfl

@[simp] theorem waste_incr_mRNA (s : State) (m p : Nat) : (waste_incr s m p).mRNA = s.mRNA := rfl

@[simp] theorem waste_decr_R_grid (s : State) (m p : Nat) : (waste_decr s m p).R_grid = s.R_grid := rfl

@[simp] theorem waste_decr_Rf (s : State) (m p : Nat) : (waste_decr s m p).Rf = s.Rf := rfl

@[simp] theorem waste_decr_Mf (s : State) (m p : Nat) : (waste_decr s m p).Mf = s.Mf := rfl

@[simp] theorem waste_decr_free_mRNA (s : State) (m p : Nat) : (waste_decr s m p).free_mRNA = s.free_mRNA := rfl

@[simp] theorem waste_decr_next_avail_ribo (s : State) (m p : Nat) : (waste_decr s m p).next_avail_ribo = s.next_avail_ribo := rfl

@[simp] theorem waste_decr_Tf (s : State) (m p : Nat) : (waste_decr s m p).Tf = s.Tf := rfl

@[simp] theorem waste_decr_r_id (s : State) (m p : Nat) : (waste_decr s m p).r_id = s.r_id := rfl

@[simp] theorem waste_decr_m_id (s : State) (m p : Nat) : (waste_decr s m p).m_id = s.m_id := rfl

@[simp] theorem waste_decr_c_id (s : State) (m p : Nat) : (waste_decr s m p).c_id = s.c_id := rfl

@[simp] theorem waste_decr_scld_Mf (s : State) (m p : Nat) : (waste_decr s m p).scld_Mf = s.scld_Mf := rfl

@[simp] theorem waste_decr_tot_scld_Mf (s : State) (m p : Nat) : (waste_decr s m p).tot_scld_Mf = s.tot_scld_Mf := rfl

@[simp] theorem waste_decr_n_Rb_e (s : State) (m p : Nat) : (waste_decr s m p).n_Rb_e = s.n_Rb_e := rfl

@[simp] theorem waste_decr_Rb_e (s : State) (m p : Nat) : (waste_decr s m p).Rb_e = s.Rb_e := rfl

@[simp] theorem waste_decr_t (s : State) (m p : Nat) : (waste_decr s m p).t = s.t := rfl

@[simp] theorem waste_decr_Ribo (s : State) (m p : Nat) : (waste_decr s m p).Ribo = s.Ribo := rfl

@[simp] theorem waste_decr_mRNA (s : State) (m p : Nat) : (waste_decr s m p).mRNA = s.mRNA := rfl

@[simp] theorem promote_R_grid (cfg : Config) (s : State) (m p : Nat) : (promote cfg s m p).R_grid = s.R_grid := by simp only [promote]; split <;> rfl

@[simp] theorem promote_Rf (cfg : Config) (s : State) (m p : Nat) : (promote cfg s m p).Rf = s.Rf := by simp only [promote]; split <;> rfl

@[simp] theorem promote_Mf (cfg : Config) (s : State) (m p : Nat) : (promote cfg s m p).Mf = s.Mf := by simp only [promote]; split <;> rfl

@[simp] theorem promote_free_mRNA (cfg : Config) (s : State) (m p : Nat) : (promote cfg s m p).free_mRNA = s.free_mRNA := by simp only [promote]; split <;> rfl

@[simp] theorem promote_next_avail_ribo (cfg : Config) (s : State) (m p : Nat) : (promote cfg s m p).next_avail_ribo = s.next_avail_ribo := by simp only [promote]; split <;> rfl

@[simp] theorem promote_Tf (cfg : Config) (s : State) (m p : Nat) : (promote cfg s m p).Tf = s.Tf := by simp only [promote]; split <;> rfl

@[simp] theorem promote_r_id (cfg : Config) (s : State) (m p : Nat) : (promote cfg s m p).r_id = s.r_id := by simp only [promote]; split <;> rfl

@[simp] theorem promote_m_id (cfg : Config) (s : State) (m p : Nat) : (promote cfg s m p).m_id = s.m_id := by simp only [promote]; split <;> rfl

@[simp] theorem promote_c_id (cfg : Config) (s : State) (m p : Nat) : (promote cfg s m p).c_id = s.c_id := by simp only [promote]; split <;> rfl

@[simp] theorem promote_scld_Mf (cfg : Config) (s : State) (m p : Nat) : (promote cfg s m p).scld_Mf = s.scld_Mf := by simp only [promote]; split <;> rfl

@[simp] theorem promote_tot_scld_Mf (cfg : Config) (s : State) (m p : Nat) : (promote cfg s m p).tot_scld_Mf = s.tot_scld_Mf := by simp only [promote]; split <;> rfl

@[simp] theorem promote_t (cfg : Config) (s : State) (m p : Nat) : (promote cfg s m p).t = s.t := by simp only [promote]; split <;> rfl

@[simp] theorem promote_mRNA (cfg : Config) (s : State) (m p : Nat) : (promote cfg s m p).mRNA = s.mRNA := by simp only [promote]; split <;> rfl

@[simp] theorem promote_mr (cfg : Config) (s : State) (m p : Nat) (i : Nat) :
    ((promote cfg s m p).Ribo i).mRNA = (s.Ribo i).mRNA := by simp only [promote, set1]; split <;> simp_all

@[simp] theorem promote_ps (cfg : Config) (s : State) (m p : Nat) (i : Nat) :
    ((promote cfg s m p).Ribo i).pos = (s.Ribo i).pos := by simp only [promote, set1]; split <;> simp_all

@[simp] theorem ini_alloc_R_grid (s : State) : (ini_alloc s).R_grid = s.R_grid := rfl

@[simp] theorem ini_alloc_Rf (s : State) : (ini_alloc s).Rf = s.Rf := rfl

@[simp] theorem ini_alloc_Mf (s : State) : (ini_alloc s).Mf = s.Mf := rfl

@[simp] theorem ini_alloc_free_mRNA (s : State) : (ini_alloc s).free_mRNA = s.free_mRNA := rfl

@[simp] theorem ini_alloc_Tf (s : State) : (ini_alloc s).Tf = s.Tf := rfl

@[simp] theorem ini_alloc_m_id (s : State) : (ini_alloc s).m_id = s.m_id := rfl

@[simp] theorem ini_alloc_c_id (s : State) : (ini_alloc s).c_id = s.c_id := rfl

@[simp] theorem ini_alloc_scld_Mf (s : State) : (ini_alloc s).scld_Mf = s.scld_Mf := rfl

@[simp] theorem ini_alloc_tot_scld_Mf (s : State) : (ini_alloc s).tot_scld_Mf = s.tot_scld_Mf := rfl

@[simp] theorem ini_alloc_n_Rb_e (s : State) : (ini_alloc s).n_Rb_e = s.n_Rb_e := rfl

@[simp] theorem ini_alloc_Rb_e (s : State) : (ini_alloc s).Rb_e = s.Rb_e := rfl

@[simp] theorem ini_alloc_t (s : State) : (ini_alloc s).t = s.t := rfl

@[simp] theorem ini_alloc_mRNA (s : State) : (ini_alloc s).mRNA = s.mRNA := rfl

@[simp] theorem ini_alloc_mr (s : State) (i : Nat) :
    ((ini_alloc s).Ribo i).mRNA = (s.Ribo i).mRNA := by simp only [ini_alloc, set1]; split <;> simp_all

@[simp] theorem ini_alloc_ecod (s : State) (i : Nat) :
    ((ini_alloc s).Ribo i).elng_cod_list = (s.Ribo i).elng_cod_list := by simp only [ini_alloc, set1]; split <;> simp_all

@[simp] theorem ini_alloc_epos (s : State) (i : Nat) :
    ((ini_alloc s).Ribo i).elng_pos_list = (s.Ribo i).elng_pos_list := by simp only [ini_alloc, set1]; split <;> simp_all

@[simp] theorem ini_pick_R_grid (cfg : Config) (s : State) (g c2 : Nat) : (ini_pick cfg s g c2).R_grid = s.R_grid := rfl

@[simp] theorem ini_pick_Rf (cfg : Config) (s : State) (g c2 : Nat) : (ini_pick cfg s g c2).Rf = s.Rf := rfl

@[simp] theorem ini_pick_next_avail_ribo (cfg : Config) (s : State) (g c2 : Nat) : (ini_pick cfg s g c2).next_avail_ribo = s.next_avail_ribo := rfl

@[simp] theorem ini_pick_Tf (cfg : Config) (s : State) (g c2 : Nat) : (ini_pick cfg s g c2).Tf = s.Tf := rfl

@[simp] theorem ini_pick_r_id (cfg : Config) (s : State) (g c2 : Nat) : (ini_pick cfg s g c2).r_id = s.r_id := rfl

@[simp] theorem ini_pick_c_id (cfg : Config) (s : State) (g c2 : Nat) : (ini_pick cfg s g c2).c_id = s.c_id := rfl

@[simp] theorem ini_pick_n_Rb_e (cfg : Config) (s : State) (g c2 : Nat) : (ini_pick cfg s g c2).n_Rb_e = s.n_Rb_e := rfl

@[simp] theorem ini_pick_Rb_e (cfg : Config) (s : State) (g c2 : Nat) : (ini_pick cfg s g c2).Rb_e = s.Rb_e := rfl

@[simp] theorem ini_pick_t (cfg : Config) (s : State) (g c2 : Nat) : (ini_pick cfg s g c2).t = s.t := rfl

@[simp] theorem ini_pick_Ribo (cfg : Config) (s : State) (g c2 : Nat) : (ini_pick cfg s g c2).Ribo = s.Ribo := rfl

@[simp] theorem ini_pick_mRNA (cfg : Config) (s : State) (g c2 : Nat) : (ini_pick cfg s g c2).mRNA = s.mRNA := rfl

@[simp] theorem ini_stats_R_grid (cfg : Config) (s : State) : (ini_stats cfg s).R_grid = s.R_grid := rfl

@[simp] theorem ini_stats_Rf (cfg : Config) (s : State) : (ini_stats cfg s).Rf = s.Rf := rfl

@[simp] theorem ini_stats_Mf (cfg : Config) (s : State) : (ini_stats cfg s).Mf = s.Mf := rfl

@[simp] theorem ini_stats_free_mRNA (cfg : Config) (s : State) : (ini_stats cfg s).free_mRNA = s.free_mRNA := rfl

@[simp] theorem ini_stats_next_avail_ribo (cfg : Config) (s : State) : (ini_stats cfg s).next_avail_ribo = s.next_avail_ribo := rfl

@[simp] theorem ini_stats_Tf (cfg : Config) (s : State) : (ini_stats cfg s).Tf = s.Tf := rfl

@[simp] theorem ini_stats_r_id (cfg : Config) (s : State) : (ini_stats cfg s).r_id = s.r_id := rfl

@[simp] theorem ini_stats_m_id (cfg : Config) (s : State) : (ini_stats cfg s).m_id = s.m_id := rfl

@[simp] theorem ini_stats_c_id (cfg : Config) (s : State) : (ini_stats cfg s).c_id = s.c_id := rfl

@[simp] theorem ini_stats_scld_Mf (cfg : Config) (s : State) : (ini_stats cfg s).scld_Mf = s.scld_Mf := rfl

@[simp] theorem ini_stats_tot_scld_Mf (cfg : Config) (s : State) : (ini_stats cfg s).tot_scld_Mf = s.tot_scld_Mf := rfl

@[simp] theorem ini_stats_n_Rb_e (cfg : Config) (s : State) : (ini_stats cfg s).n_Rb_e = s.n_Rb_e := rfl

@[simp] theorem ini_stats_Rb_e (cfg : Config) (s : State) : (ini_stats cfg s).Rb_e = s.Rb_e := rfl

@[simp] theorem ini_stats_t (cfg : Config) (s : State) : (ini_stats cfg s).t = s.t := rfl

@[simp] theorem ini_stats_Ribo (cfg : Config) (s : State) : (ini_stats cfg s).Ribo = s.Ribo := rfl

@[simp] theorem ini_stats_gene (cfg : Config) (s : State) (m : Nat) :
    ((ini_stats cfg s).mRNA m).gene = (s.mRNA m).gene := by
  simp only [ini_stats, set1]; split
  · split <;> simp_all
  · rfl

@[simp] theorem ini_bind_R_grid (cfg : Config) (s : State) : (ini_bind cfg s).R_grid = s.R_grid := rfl

@[simp] theorem ini_bind_Rf (cfg : Config) (s : State) : (ini_bind cfg s).Rf = s.Rf := rfl

@[simp] theorem ini_bind_Mf (cfg : Config) (s : State) : (ini_bind cfg s).Mf = s.Mf := rfl

@[simp] theorem ini_bind_free_mRNA (cfg : Config) (s : State) : (ini_bind cfg s).free_mRNA = s.free_mRNA := rfl

@[simp] theorem ini_bind_next_avail_ribo (cfg : Config) (s : State) : (ini_bind cfg s).next_avail_ribo = s.next_avail_ribo := rfl

@[simp] theorem ini_bind_Tf (cfg : Config) (s : State) : (ini_bind cfg s).Tf = s.Tf := rfl

@[simp] theorem ini_bind_r_id (cfg : Config) (s : State) : (ini_bind cfg s).r_id = s.r_id := rfl

@[simp] theorem ini_bind_m_id (cfg : Config) (s : State) : (ini_bind cfg s).m_id = s.m_id := rfl

@[simp] theorem ini_bind_scld_Mf (cfg : Config) (s : State) : (ini_bind cfg s).scld_Mf = s.scld_Mf := rfl

@[simp] theorem ini_bind_tot_scld_Mf (cfg : Config) (s : State) : (ini_bind cfg s).tot_scld_Mf = s.tot_scld_Mf := rfl

@[simp] theorem ini_bind_n_Rb_e (cfg : Config) (s : State) : (ini_bind cfg s).n_Rb_e = s.n_Rb_e := rfl

@[simp] theorem ini_bind_Rb_e (cfg : Config) (s : State) : (ini_bind cfg s).Rb_e = s.Rb_e := rfl

@[simp] theorem ini_bind_t (cfg : Config) (s : State) : (ini_bind cfg s).t = s.t := rfl

@[simp] theorem ini_bind_mRNA (cfg : Config) (s : State) : (ini_bind cfg s).mRNA = s.mRNA := rfl

@[simp] theorem ini_bind_ps (cfg : Config) (s : State) (i : Nat) :
    ((ini_bind cfg s).Ribo i).pos = (s.Ribo i).pos := by simp only [ini_bind, set1]; split <;> simp_all

@[simp] theorem ini_bind_ecod (cfg : Config) (s : State) (i : Nat) :
    ((ini_bind cfg s).Ribo i).elng_cod_list = (s.Ribo i).elng_cod_list := by simp only [ini_bind, set1]; split <;> simp_all

@[simp] theorem ini_bind_epos (cfg : Config) (s : State) (i : Nat) :
    ((ini_bind cfg s).Ribo i).elng_pos_list = (s.Ribo i).elng_pos_list := by simp only [ini_bind, set1]; split <;> simp_all

@[simp] theorem ini_finish_Mf (s : State) : (ini_finish s).Mf = s.Mf := rfl

@[simp] theorem ini_finish_free_mRNA (s : State) : (ini_finish s).free_mRNA = s.free_mRNA := rfl

@[simp] theorem ini_finish_next_avail_ribo (s : State) : (ini_finish s).next_avail_ribo = s.next_avail_ribo := rfl

@[simp] theorem ini_finish_Tf (s : State) : (ini_finish s).Tf = s.Tf := rfl

@[simp] theorem ini_finish_r_id (s : State) : (ini_finish s).r_id = s.r_id := rfl

@[simp] theorem ini_finish_m_id (s : State) : (ini_finish s).m_id = s.m_id := rfl

@[simp] theorem ini_finish_c_id (s : State) : (ini_finish s).c_id = s.c_id := rfl

@[simp] theorem ini_finish_scld_Mf (s : State) : (ini_finish s).scld_Mf = s.scld_Mf := rfl

@[simp] theorem ini_finish_tot_scld_Mf (s : State) : (ini_finish s).tot_scld_Mf = s.tot_scld_Mf := rfl

@[simp] theorem ini_finish_n_Rb_e (s : State) : (ini_finish s).n_Rb_e = s.n_Rb_e := rfl

@[simp] theorem ini_finish_Rb_e (s : State) : (ini_finish s).Rb_e = s.Rb_e := rfl

@[simp] theorem ini_finish_t (s : State) : (ini_finish s).t = s.t := rfl

@[simp] theorem ini_finish_Ribo (s : State) : (ini_finish s).Ribo = s.Ribo := rfl

@[simp] theorem ini_finish_mRNA (s : State) : (ini_finish s).mRNA = s.mRNA := rfl

@[simp] theorem pick_ribo_R_grid (s : State) (x : Nat) : (pick_ribo s x).R_grid = s.R_grid := rfl

@[simp] theorem pick_ribo_Rf (s : State) (x : Nat) : (pick_ribo s x).Rf = s.Rf := rfl

@[simp] theorem pick_ribo_Mf (s : State) (x : Nat) : (pick_ribo s x).Mf = s.Mf := rfl

@[simp] theorem pick_ribo_free_mRNA (s : State) (x : Nat) : (pick_ribo s x).free_mRNA = s.free_mRNA := rfl

@[simp] theorem pick_ribo_next_avail_ribo (s : State) (x : Nat) : (pick_ribo s x).next_avail_ribo = s.next_avail_ribo := rfl

@[simp] theorem pick_ribo_Tf (s : State) (x : Nat) : (pick_ribo s x).Tf = s.Tf := rfl

@[simp] theorem pick_ribo_c_id (s : State) (x : Nat) : (pick_ribo s x).c_id = s.c_id := rfl

@[simp] theorem pick_ribo_scld_Mf (s : State) (x : Nat) : (pick_ribo s x).scld_Mf = s.scld_Mf := rfl

@[simp] theorem pick_ribo_tot_scld_Mf (s : State) (x : Nat) : (pick_ribo s x).tot_scld_Mf = s.tot_scld_Mf := rfl

@[simp] theorem pick_ribo_n_Rb_e (s : State) (x : Nat) : (pick_ribo s x).n_Rb_e = s.n_Rb_e := rfl

@[simp] theorem pick_ribo_Rb_e (s : State) (x : Nat) : (pick_ribo s x).Rb_e = s.Rb_e := rfl

@[simp] theorem pick_ribo_t (s : State) (x : Nat) : (pick_ribo s x).t = s.t := rfl

@[simp] theorem pick_ribo_Ribo (s : State) (x : Nat) : (pick_ribo s x).Ribo = s.Ribo := rfl

@[simp] theorem pick_ribo_mRNA (s : State) (x : Nat) : (pick_ribo s x).mRNA = s.mRNA := rfl

@[simp] theorem release_tRNA_R_grid (cfg : Config) (s : State) : (release_tRNA cfg s).R_grid = s.R_grid := by simp only [release_tRNA]; split <;> rfl

@[simp] theorem release_tRNA_Rf (cfg : Config) (s : State) : (release_tRNA cfg s).Rf = s.Rf := by simp only [release_tRNA]; split <;> rfl

@[simp] theorem release_tRNA_Mf (cfg : Config) (s : State) : (release_tRNA cfg s).Mf = s.Mf := by simp only [release_tRNA]; split <;> rfl

@[simp] theorem release_tRNA_free_mRNA (cfg : Config) (s : State) : (release_tRNA cfg s).free_mRNA = s.free_mRNA := by simp only [release_tRNA]; split <;> rfl

@[simp] theorem release_tRNA_next_avail_ribo (cfg : Config) (s : State) : (release_tRNA cfg s).next_avail_ribo = s.next_avail_ribo := by simp only [release_tRNA]; split <;> rfl

@[simp] theorem release_tRNA_r_id (cfg : Config) (s : State) : (release_tRNA cfg s).r_id = s.r_id := by simp only [release_tRNA]; split <;> rfl

@[simp] theorem release_tRNA_m_id (cfg : Config) (s : State) : (release_tRNA cfg s).m_id = s.m_id := by simp only [release_tRNA]; split <;> rfl

@[simp] theorem release_tRNA_c_id (cfg : Config) (s : State) : (release_tRNA cfg s).c_id = s.c_id := by simp only [release_tRNA]; split <;> rfl

@[simp] theorem release_tRNA_scld_Mf (cfg : Config) (s : State) : (release_tRNA cfg s).scld_Mf = s.scld_Mf := by simp only [release_tRNA]; split <;> rfl

@[simp] theorem release_tRNA_tot_scld_Mf (cfg : Config) (s : State) : (release_tRNA cfg s).tot_scld_Mf = s.tot_scld_Mf := by simp only [release_tRNA]; split <;> rfl

@[simp] theorem release_tRNA_n_Rb_e (cfg : Config) (s : State) : (release_tRNA cfg s).n_Rb_e = s.n_Rb_e := by simp only [release_tRNA]; split <;> rfl

@[simp] theorem release_tRNA_Rb_e (cfg : Config) (s : State) : (release_tRNA cfg s).Rb_e = s.Rb_e := by simp only [release_tRNA]; split <;> rfl

@[simp] theorem release_tRNA_t (cfg : Config) (s : State) : (release_tRNA cfg s).t = s.t := by simp only [release_tRNA]; split <;> rfl

@[simp] theorem release_tRNA_Ribo (cfg : Config) (s : State) : (release_tRNA cfg s).Ribo = s.Ribo := by simp only [release_tRNA]; split <;> rfl

@[simp] theorem release_tRNA_mRNA (cfg : Config) (s : State) : (release_tRNA cfg s).mRNA = s.mRNA := by simp only [release_tRNA]; split <;> rfl

@[simp] theorem term_clear_Mf (cfg : Config) (s : State) : (term_clear cfg s).Mf = s.Mf := rfl

@[simp] theorem term_clear_free_mRNA (cfg : Config) (s : State) : (term_clear cfg s).free_mRNA = s.free_mRNA := rfl

@[simp] theorem term_clear_next_avail_ribo (cfg : Config) (s : State) : (term_clear cfg s).next_avail_ribo = s.next_avail_ribo := rfl

@[simp] theorem term_clear_Tf (cfg : Config) (s : State) : (term_clear cfg s).Tf = s.Tf := rfl

@[simp] theorem term_clear_r_id (cfg : Config) (s : State) : (term_clear cfg s).r_id = s.r_id := rfl

@[simp] theorem term_clear_m_id (cfg : Config) (s : State) : (term_clear cfg s).m_id = s.m_id := rfl

@[simp] theorem term_clear_c_id (cfg : Config) (s : State) : (term_clear cfg s).c_id = s.c_id := rfl

@[simp] theorem term_clear_scld_Mf (cfg : Config) (s : State) : (term_clear cfg s).scld_Mf = s.scld_Mf := rfl

@[simp] theorem term_clear_tot_scld_Mf (cfg : Config) (s : State) : (term_clear cfg s).tot_scld_Mf = s.tot_scld_Mf := rfl

@[simp] theorem term_clear_n_Rb_e (cfg : Config) (s : State) : (term_clear cfg s).n_Rb_e = s.n_Rb_e := rfl

@[simp] theorem term_clear_Rb_e (cfg : Config) (s : State) : (term_clear cfg s).Rb_e = s.Rb_e := rfl

@[simp] theorem term_clear_t (cfg : Config) (s : State) : (term_clear cfg s).t = s.t := rfl

@[simp] theorem term_clear_mRNA (cfg : Config) (s : State) : (term_clear cfg s).mRNA = s.mRNA := rfl

@[simp] theorem term_clear_mr (cfg : Config) (s : State) (i : Nat) :
    ((term_clear cfg s).Ribo i).mRNA = (s.Ribo i).mRNA := by simp only [term_clear, set1]; split <;> simp_all

@[simp] theorem term_clear_ecod (cfg : Config) (s : State) (i : Nat) :
    ((term_clear cfg s).Ribo i).elng_cod_list = (s.Ribo i).elng_cod_list := by simp only [term_clear, set1]; split <;> simp_all

@[simp] theorem term_clear_epos (cfg : Config) (s : State) (i : Nat) :
    ((term_clear cfg s).Ribo i).elng_pos_list = (s.Ribo i).elng_pos_list := by simp only [term_clear, set1]; split <;> simp_all

@[simp] theorem term_stats_R_grid (cfg : Config) (s : State) : (term_stats cfg s).R_grid = s.R_grid := by
  simp only [term_stats]; split
  · split <;> rfl
  · rfl

@[simp] theorem term_stats_Rf (cfg : Config) (s : State) : (term_stats cfg s).Rf = s.Rf := by
  simp only [term_stats]; split
  · split <;> rfl
  · rfl

@[simp] theorem term_stats_Mf (cfg : Config) (s : State) : (term_stats cfg s).Mf = s.Mf := by
  simp only [term_stats]; split
  · split <;> rfl
  · rfl

@[simp] theorem term_stats_free_mRNA (cfg : Config) (s : State) : (term_stats cfg s).free_mRNA = s.free_mRNA := by
  simp only [term_stats]; split
  · split <;> rfl
  · rfl

@[simp] theorem term_stats_next_avail_ribo (cfg : Config) (s : State) : (term_stats cfg s).next_avail_ribo = s.next_avail_ribo := by
  simp only [term_stats]; split
  · split <;> rfl
  · rfl

@[simp] theorem term_stats_Tf (cfg : Config) (s : State) : (term_stats cfg s).Tf = s.Tf := by
  simp only [term_stats]; split
  · split <;> rfl
  · rfl

@[simp] theorem term_stats_r_id (cfg : Config) (s : State) : (term_stats cfg s).r_id = s.r_id := by
  simp only [term_stats]; split
  · split <;> rfl
  · rfl

@[simp] theorem term_stats_m_id (cfg : Config) (s : State) : (term_stats cfg s).m_id = s.m_id := by
  simp only [term_stats]; split
  · split <;> rfl
  · rfl

@[simp] theorem term_stats_c_id (cfg : Config) (s : State) : (term_stats cfg s).c_id = s.c_id := by
  simp only [term_stats]; split
  · split <;> rfl
  · rfl

@[simp] theorem term_stats_scld_Mf (cfg : Config) (s : State) : (term_stats cfg s).scld_Mf = s.scld_Mf := by
  simp only [term_stats]; split
  · split <;> rfl
  · rfl

@[simp] theorem term_stats_tot_scld_Mf (cfg : Config) (s : State) : (term_stats cfg s).tot_scld_Mf = s.tot_scld_Mf := by
  simp only [term_stats]; split
  · split <;> rfl
  · rfl

@[simp] theorem term_stats_n_Rb_e (cfg : Config) (s : State) : (term_stats cfg s).n_Rb_e = s.n_Rb_e := by
  simp only [term_stats]; split
  · split <;> rfl
  · rfl

@[simp] theorem term_stats_Rb_e (cfg : Config) (s : State) : (term_stats cfg s).Rb_e = s.Rb_e := by
  simp only [term_stats]; split
  · split <;> rfl
  · rfl

@[simp] theorem term_stats_t (cfg : Config) (s : State) : (term_stats cfg s).t = s.t := by
  simp only [term_stats]; split
  · split <;> rfl
  · rfl

@[simp] theorem term_stats_Ribo (cfg : Config) (s : State) : (term_stats cfg s).Ribo = s.Ribo := by
  simp only [term_stats]; split
  · split <;> rfl
  · rfl

@[simp] theorem term_stats_gene (cfg : Config) (s : State) (m : Nat) :
    ((term_stats cfg s).mRNA m).gene = (s.mRNA m).gene := by
  simp only [term_stats]; split
  · simp only [set1]; split <;> split <;> simp_all
  · rfl

@[simp] theorem move_ribo_Rf (cfg : Config) (s : State) : (move_ribo cfg s).Rf = s.Rf := rfl

@[simp] theorem move_ribo_Mf (cfg : Config) (s : State) : (move_ribo cfg s).Mf = s.Mf := rfl

@[simp] theorem move_ribo_free_mRNA (cfg : Config) (s : State) : (move_ribo cfg s).free_mRNA = s.free_mRNA := rfl

@[simp] theorem move_ribo_next_avail_ribo (cfg : Config) (s : State) : (move_ribo cfg s).next_avail_ribo = s.next_avail_ribo := rfl

@[simp] theorem move_ribo_Tf (cfg : Config) (s : State) : (move_ribo cfg s).Tf = s.Tf := rfl

@[simp] theorem move_ribo_r_id (cfg : Config) (s : State) : (move_ribo cfg s).r_id = s.r_id := rfl

@[simp] theorem move_ribo_m_id (cfg : Config) (s : State) : (move_ribo cfg s).m_id = s.m_id := rfl

@[simp] theorem move_ribo_c_id (cfg : Config) (s : State) : (move_ribo cfg s).c_id = s.c_id := rfl

@[simp] theorem move_ribo_scld_Mf (cfg : Config) (s : State) : (move_ribo cfg s).scld_Mf = s.scld_Mf := rfl

@[simp] theorem move_ribo_tot_scld_Mf (cfg : Config) (s : State) : (move_ribo cfg s).tot_scld_Mf = s.tot_scld_Mf := rfl

@[simp] theorem move_ribo_n_Rb_e (cfg : Config) (s : State) : (move_ribo cfg s).n_Rb_e = s.n_Rb_e := rfl

@[simp] theorem move_ribo_Rb_e (cfg : Config) (s : State) : (move_ribo cfg s).Rb_e = s.Rb_e := rfl

@[simp] theorem move_ribo_t (cfg : Config) (s : State) : (move_ribo cfg s).t = s.t := rfl

@[simp] theorem move_ribo_mRNA (cfg : Config) (s : State) : (move_ribo cfg s).mRNA = s.mRNA := rfl

@[simp] theorem move_ribo_mr (cfg : Config) (s : State) (i : Nat) :
    ((move_ribo cfg s).Ribo i).mRNA = (s.Ribo i).mRNA := by simp only [move_ribo, set1]; split <;> simp_all

@[simp] theorem move_ribo_ecod (cfg : Config) (s : State) (i : Nat) :
    ((move_ribo cfg s).Ribo i).elng_cod_list = (s.Ribo i).elng_cod_list := by simp only [move_ribo, set1]; split <;> simp_all

@[simp] theorem move_ribo_epos (cfg : Config) (s : State) (i : Nat) :
    ((move_ribo cfg s).Ribo i).elng_pos_list = (s.Ribo i).elng_pos_list := by simp only [move_ribo, set1]; split <;> simp_all

@[simp] theorem take_tRNA_R_grid (cfg : Config) (s : State) : (take_tRNA cfg s).R_grid = s.R_grid := rfl

@[simp] theorem take_tRNA_Rf (cfg : Config) (s : State) : (take_tRNA cfg s).Rf = s.Rf := rfl

@[simp] theorem take_tRNA_Mf (cfg : Config) (s : State) : (take_tRNA cfg s).Mf = s.Mf := rfl

@[simp] theorem take_tRNA_free_mRNA (cfg : Config) (s : State) : (take_tRNA cfg s).free_mRNA = s.free_mRNA := rfl

@[simp] theorem take_tRNA_next_avail_ribo (cfg : Config) (s : State) : (take_tRNA cfg s).next_avail_ribo = s.next_avail_ribo := rfl

@[simp] theorem take_tRNA_r_id (cfg : Config) (s : State) : (take_tRNA cfg s).r_id = s.r_id := rfl

@[simp] theorem take_tRNA_m_id (cfg : Config) (s : State) : (take_tRNA cfg s).m_id = s.m_id := rfl

@[simp] theorem take_tRNA_c_id (cfg : Config) (s : State) : (take_tRNA cfg s).c_id = s.c_id := rfl

@[simp] theorem take_tRNA_scld_Mf (cfg : Config) (s : State) : (take_tRNA cfg s).scld_Mf = s.scld_Mf := rfl

@[simp] theorem take_tRNA_tot_scld_Mf (cfg : Config) (s : State) : (take_tRNA cfg s).tot_scld_Mf = s.tot_scld_Mf := rfl

@[simp] theorem take_tRNA_n_Rb_e (cfg : Config) (s : State) : (take_tRNA cfg s).n_Rb_e = s.n_Rb_e := rfl

@[simp] theorem take_tRNA_Rb_e (cfg : Config) (s : State) : (take_tRNA cfg s).Rb_e = s.Rb_e := rfl

@[simp] theorem take_tRNA_t (cfg : Config) (s : State) : (take_tRNA cfg s).t = s.t := rfl

@[simp] theorem take_tRNA_Ribo (cfg : Config) (s : State) : (take_tRNA cfg s).Ribo = s.Ribo := rfl

@[simp] theorem take_tRNA_mRNA (cfg : Config) (s : State) : (take_tRNA cfg s).mRNA = s.mRNA := rfl

@[simp] theorem set_cod_R_grid (cfg : Config) (s : State) : (set_cod cfg s).R_grid = s.R_grid := rfl

@[simp] theorem set_cod_Rf (cfg : Config) (s : State) : (set_cod cfg s).Rf = s.Rf := rfl

@[simp] theorem set_cod_Mf (cfg : Config) (s : State) : (set_cod cfg s).Mf = s.Mf := rfl

@[simp] theorem set_cod_free_mRNA (cfg : Config) (s : State) : (set_cod cfg s).free_mRNA = s.free_mRNA := rfl

@[simp] theorem set_cod_next_avail_ribo (cfg : Config) (s : State) : (set_cod cfg s).next_avail_ribo = s.next_avail_ribo := rfl

@[simp] theorem set_cod_Tf (cfg : Config) (s : State) : (set_cod cfg s).Tf = s.Tf := rfl

@[simp] theorem set_cod_r_id (cfg : Config) (s : State) : (set_cod cfg s).r_id = s.r_id := rfl

@[simp] theorem set_cod_m_id (cfg : Config) (s : State) : (set_cod cfg s).m_id = s.m_id := rfl

@[simp] theorem set_cod_c_id (cfg : Config) (s : State) : (set_cod cfg s).c_id = s.c_id := rfl

@[simp] theorem set_cod_scld_Mf (cfg : Config) (s : State) : (set_cod cfg s).scld_Mf = s.scld_Mf := rfl

@[simp] theorem set_cod_tot_scld_Mf (cfg : Config) (s : State) : (set_cod cfg s).tot_scld_Mf = s.tot_scld_Mf := rfl

@[simp] theorem set_cod_n_Rb_e (cfg : Config) (s : State) : (set_cod cfg s).n_Rb_e = s.n_Rb_e := rfl

@[simp] theorem set_cod_Rb_e (cfg : Config) (s : State) : (set_cod cfg s).Rb_e = s.Rb_e := rfl

@[simp] theorem set_cod_t (cfg : Config) (s : State) : (set_cod cfg s).t = s.t := rfl

@[simp] theorem set_cod_mRNA (cfg : Config) (s : State) : (set_cod cfg s).mRNA = s.mRNA := rfl

@[simp] theorem set_cod_mr (cfg : Config) (s : State) (i : Nat) :
    ((set_cod cfg s).Ribo i).mRNA = (s.Ribo i).mRNA := by simp only [set_cod, set1]; split <;> simp_all

@[simp] theorem set_cod_ps (cfg : Config) (s : State) (i : Nat) :
    ((set_cod cfg s).Ribo i).pos = (s.Ribo i).pos := by simp only [set_cod, set1]; split <;> simp_all

@[simp] theorem set_cod_epos (cfg : Config) (s : State) (i : Nat) :
    ((set_cod cfg s).Ribo i).elng_pos_list = (s.Ribo i).elng_pos_list := by simp only [set_cod, set1]; split <;> simp_all

@[simp] theorem requeue_R_grid (cfg : Config) (s : State) : (requeue cfg s).R_grid = s.R_grid := rfl

@[simp] theorem requeue_Rf (cfg : Config) (s : State) : (requeue cfg s).Rf = s.Rf := rfl

@[simp] theorem requeue_next_avail_ribo (cfg : Config) (s : State) : (requeue cfg s).next_avail_ribo = s.next_avail_ribo := rfl

@[simp] theorem requeue_Tf (cfg : Config) (s : State) : (requeue cfg s).Tf = s.Tf := rfl

@[simp] theorem requeue_r_id (cfg : Config) (s : State) : (requeue cfg s).r_id = s.r_id := rfl

@[simp] theorem requeue_m_id (cfg : Config) (s : State) : (requeue cfg s).m_id = s.m_id := rfl

@[simp] theorem requeue_c_id (cfg : Config) (s : State) : (requeue cfg s).c_id = s.c_id := rfl

@[simp] theorem requeue_n_Rb_e (cfg : Config) (s : State) : (requeue cfg s).n_Rb_e = s.n_Rb_e := rfl

@[simp] theorem requeue_Rb_e (cfg : Config) (s : State) : (requeue cfg s).Rb_e = s.Rb_e := rfl

@[simp] theorem requeue_t (cfg : Config) (s : State) : (requeue cfg s).t = s.t := rfl

@[simp] theorem requeue_Ribo (cfg : Config) (s : State) : (requeue cfg s).Ribo = s.Ribo := rfl

@[simp] theorem requeue_mRNA (cfg : Config) (s : State) : (requeue cfg s).mRNA = s.mRNA := rfl

@[simp] theorem stamp_R_grid (s : State) : (stamp s).R_grid = s.R_grid := rfl

@[simp] theorem stamp_Rf (s : State) : (stamp s).Rf = s.Rf := rfl

@[simp] theorem stamp_Mf (s : State) : (stamp s).Mf = s.Mf := rfl

@[simp] theorem stamp_free_mRNA (s : State) : (stamp s).free_mRNA = s.free_mRNA := rfl

@[simp] theorem stamp_next_avail_ribo (s : State) : (stamp s).next_avail_ribo = s.next_avail_ribo := rfl

@[simp] theorem stamp_Tf (s : State) : (stamp s).Tf = s.Tf := rfl

@[simp] theorem stamp_r_id (s : State) : (stamp s).r_id = s.r_id := rfl

@[simp] theorem stamp_m_id (s : State) : (stamp s).m_id = s.m_id := rfl

@[simp] theorem stamp_c_id (s : State) : (stamp s).c_id = s.c_id := rfl

@[simp] theorem stamp_scld_Mf (s : State) : (stamp s).scld_Mf = s.scld_Mf := rfl

@[simp] theorem stamp_tot_scld_Mf (s : State) : (stamp s).tot_scld_Mf = s.tot_scld_Mf := rfl

@[simp] theorem stamp_n_Rb_e (s : State) : (stamp s).n_Rb_e = s.n_Rb_e := rfl

@[simp] theorem stamp_Rb_e (s : State) : (stamp s).Rb_e = s.Rb_e := rfl

@[simp] theorem stamp_t (s : State) : (stamp s).t = s.t := rfl

@[simp] theorem stamp_mRNA (s : State) : (stamp s).mRNA = s.mRNA := rfl

@[simp] theorem stamp_mr (s : State) (i : Nat) :
    ((stamp s).Ribo i).mRNA = (s.Ribo i).mRNA := by simp only [stamp, set1]; split <;> simp_all

@[simp] theorem stamp_ps (s : State) (i : Nat) :
    ((stamp s).Ribo i).pos = (s.Ribo i).pos := by simp only [stamp, set1]; split <;> simp_all

@[simp] theorem stamp_ecod (s : State) (i : Nat) :
    ((stamp s).Ribo i).elng_cod_list = (s.Ribo i).elng_cod_list := by simp only [stamp, set1]; split <;> simp_all

@[simp] theorem stamp_epos (s : State) (i : Nat) :
    ((stamp s).Ribo i).elng_pos_list = (s.Ribo i).elng_pos_list := by simp only [stamp, set1]; split <;> simp_all

@[simp] theorem snapshot_R_grid (cfg : Config) (s : State) : (snapshot cfg s).R_grid = s.R_grid := by simp only [snapshot]; split <;> rfl

@[simp] theorem snapshot_Rf (cfg : Config) (s : State) : (snapshot cfg s).Rf = s.Rf := by simp only [snapshot]; split <;> rfl

@[simp] theorem snapshot_Mf (cfg : Config) (s : State) : (snapshot cfg s).Mf = s.Mf := by simp only [snapshot]; split <;> rfl

@[simp] theorem snapshot_free_mRNA (cfg : Config) (s : State) : (snapshot cfg s).free_mRNA = s.free_mRNA := by simp only [snapshot]; split <;> rfl

@[simp] theorem snapshot_next_avail_ribo (cfg : Config) (s : State) : (snapshot cfg s).next_avail_ribo = s.next_avail_ribo := by simp only [snapshot]; split <;> rfl

@[simp] theorem snapshot_Tf (cfg : Config) (s : State) : (snapshot cfg s).Tf = s.Tf := by simp only [snapshot]; split <;> rfl

@[simp] theorem snapshot_r_id (cfg : Config) (s : State) : (snapshot cfg s).r_id = s.r_id := by simp only [snapshot]; split <;> rfl

@[simp] theorem snapshot_m_id (cfg : Config) (s : State) : (snapshot cfg s).m_id = s.m_id := by simp only [snapshot]; split <;> rfl

@[simp] theorem snapshot_c_id (cfg : Config) (s : State) : (snapshot cfg s).c_id = s.c_id := by simp only [snapshot]; split <;> rfl

@[simp] theorem snapshot_scld_Mf (cfg : Config) (s : State) : (snapshot cfg s).scld_Mf = s.scld_Mf := by simp only [snapshot]; split <;> rfl

@[simp] theorem snapshot_tot_scld_Mf (cfg : Config) (s : State) : (snapshot cfg s).tot_scld_Mf = s.tot_scld_Mf := by simp only [snapshot]; split <;> rfl

@[simp] theorem snapshot_n_Rb_e (cfg : Config) (s : State) : (snapshot cfg s).n_Rb_e = s.n_Rb_e := by simp only [snapshot]; split <;> rfl

@[simp] theorem snapshot_Rb_e (cfg : Config) (s : State) : (snapshot cfg s).Rb_e = s.Rb_e := by simp only [snapshot]; split <;> rfl

@[simp] theorem snapshot_t (cfg : Config) (s : State) : (snapshot cfg s).t = s.t := by simp only [snapshot]; split <;> rfl

@[simp] theorem snapshot_Ribo (cfg : Config) (s : State) : (snapshot cfg s).Ribo = s.Ribo := by simp only [snapshot]; split <;> rfl

@[simp] theorem snapshot_mRNA (cfg : Config) (s : State) : (snapshot cfg s).mRNA = s.mRNA := by simp only [snapshot]; split <;> rfl

@[simp] theorem advance_R_grid (cfg : Config) (s : State) (ir : ℚ) : (advance cfg s ir).R_grid = s.R_grid := by simp only [advance]; split <;> split <;> rfl

@[simp] theorem advance_Rf (cfg : Config) (s : State) (ir : ℚ) : (advance cfg s ir).Rf = s.Rf := by simp only [advance]; split <;> split <;> rfl

@[simp] theorem advance_Mf (cfg : Config) (s : State) (ir : ℚ) : (advance cfg s ir).Mf = s.Mf := by simp only [advance]; split <;> split <;> rfl

@[simp] theorem advance_free_mRNA (cfg : Config) (s : State) (ir : ℚ) : (advance cfg s ir).free_mRNA = s.free_mRNA := by simp only [advance]; split <;> split <;> rfl

@[simp] theorem advance_next_avail_ribo (cfg : Config) (s : State) (ir : ℚ) : (advance cfg s ir).next_avail_ribo = s.next_avail_ribo := by simp only [advance]; split <;> split <;> rfl

@[simp] theorem advance_Tf (cfg : Config) (s : State) (ir : ℚ) : (advance cfg s ir).Tf = s.Tf := by simp only [advance]; split <;> split <;> rfl

@[simp] theorem advance_r_id (cfg : Config) (s : State) (ir : ℚ) : (advance cfg s ir).r_id = s.r_id := by simp only [advance]; split <;> split <;> rfl

@[simp] theorem advance_m_id (cfg : Config) (s : State) (ir : ℚ) : (advance cfg s ir).m_id = s.m_id := by simp only [advance]; split <;> split <;> rfl

@[simp] theorem advance_c_id (cfg : Config) (s : State) (ir : ℚ) : (advance cfg s ir).c_id = s.c_id := by simp only [advance]; split <;> split <;> rfl

@[simp] theorem advance_scld_Mf (cfg : Config) (s : State) (ir : ℚ) : (advance cfg s ir).scld_Mf = s.scld_Mf := by simp only [advance]; split <;> split <;> rfl

@[simp] theorem advance_tot_scld_Mf (cfg : Config) (s : State) (ir : ℚ) : (advance cfg s ir).tot_scld_Mf = s.tot_scld_Mf := by simp only [advance]; split <;> split <;> rfl

@[simp] theorem advance_n_Rb_e (cfg : Config) (s : State) (ir : ℚ) : (advance cfg s ir).n_Rb_e = s.n_Rb_e := by simp only [advance]; split <;> split <;> rfl

@[simp] theorem advance_Rb_e (cfg : Config) (s : State) (ir : ℚ) : (advance cfg s ir).Rb_e = s.Rb_e := by simp only [advance]; split <;> split <;> rfl

@[simp] theorem advance_Ribo (cfg : Config) (s : State) (ir : ℚ) : (advance cfg s ir).Ribo = s.Ribo := by simp only [advance]; split <;> split <;> rfl

@[simp] theorem advance_mRNA (cfg : Config) (s : State) (ir : ℚ) : (advance cfg s ir).mRNA = s.mRNA := by simp only [advance]; split <;> split <;> rfl


/-! ## What each step changes -/

@[simp] theorem ini_alloc_r_id (s : State) : (ini_alloc s).r_id = s.next_avail_ribo := rfl

@[simp] theorem ini_alloc_N (s : State) :
    (ini_alloc s).next_avail_ribo = s.next_avail_ribo + 1 := rfl

@[simp] theorem ini_alloc_ps (s : State) (i : Nat) :
    ((ini_alloc s).Ribo i).pos = if i = s.next_avail_ribo then 0 else (s.Ribo i).pos := by
  simp only [ini_alloc, set1]; split <;> rfl

@[simp] theorem ini_pick_m_id (cfg : Config) (s : State) (g c2 : Nat) :
    (ini_pick cfg s g c2).m_id = s.free_mRNA g c2 := rfl

@[simp] theorem ini_pick_Mf (cfg : Config) (s : State) (g c2 : Nat) :
    (ini_pick cfg s g c2).Mf = set1 s.Mf g (s.Mf g - 1) := rfl

@[simp] theorem ini_pick_scld (cfg : Config) (s : State) (g c2 : Nat) :
    (ini_pick cfg s g c2).scld_Mf = set1 s.scld_Mf g (s.scld_Mf g - (cfg.Gene g).ini_prob) := rfl

@[simp] theorem ini_pick_tot (cfg : Config) (s : State) (g c2 : Nat) :
    (ini_pick cfg s g c2).tot_scld_Mf = s.tot_scld_Mf - (cfg.Gene g).ini_prob := rfl

@[simp] theorem ini_pick_free (cfg : Config) (s : State) (g c2 : Nat) :
    (ini_pick cfg s g c2).free_mRNA =
      (if c2 ≠ s.Mf g - 1 then set2 s.free_mRNA g c2 (s.free_mRNA g (s.Mf g - 1))
       else s.free_mRNA) := rfl

@[simp] theorem ini_bind_c_id (cfg : Config) (s : State) :
    (ini_bind cfg s).c_id = (cfg.Gene (s.mRNA s.m_id).gene).seq 0 := rfl

@[simp] theorem ini_bind_mr (cfg : Config) (s : State) (i : Nat) :
    ((ini_bind cfg s).Ribo i).mRNA = if i = s.r_id then s.m_id else (s.Ribo i).mRNA := by
  simp only [ini_bind, set1]; split <;> rfl

@[simp] theorem ini_finish_grid (s : State) :
    (ini_finish s).R_grid = set2 s.R_grid s.m_id 0 s.r_id := rfl

@[simp] theorem ini_finish_Rf' (s : State) : (ini_finish s).Rf = s.Rf - 1 := rfl

@[simp] theorem pick_ribo_r_id' (s : State) (x : Nat) :
    (pick_ribo s x).r_id = s.Rb_e s.c_id x := rfl

@[simp] theorem pick_ribo_m_id' (s : State) (x : Nat) :
    (pick_ribo s x).m_id = (s.Ribo (s.Rb_e s.c_id x)).mRNA := rfl

@[simp] theorem term_clear_grid (cfg : Config) (s : State) :
    (term_clear cfg s).R_grid = set2 s.R_grid s.m_id (s.Ribo s.r_id).pos cfg.tot_ribo := rfl

@[simp] theorem term_clear_Rf' (cfg : Config) (s : State) : (term_clear cfg s).Rf = s.Rf + 1 := rfl

@[simp] theorem term_clear_ps' (cfg : Config) (s : State) (i : Nat) :
    ((term_clear cfg s).Ribo i).pos =
      if i = s.r_id then (s.Ribo s.r_id).pos + 1 else (s.Ribo i).pos := by
  simp only [term_clear, set1]; split <;> rfl

@[simp] theorem move_ribo_grid (cfg : Config) (s : State) :
    (move_ribo cfg s).R_grid =
      set2 (set2 s.R_grid s.m_id (s.Ribo s.r_id).pos cfg.tot_ribo)
        s.m_id ((s.Ribo s.r_id).pos + 1) s.r_id := rfl

@[simp] theorem move_ribo_ps' (cfg : Config) (s : State) (i : Nat) :
    ((move_ribo cfg s).Ribo i).pos =
      if i = s.r_id then (s.Ribo s.r_id).pos + 1 else (s.Ribo i).pos := by
  simp only [move_ribo, set1]; split <;> rfl

@[simp] theorem take_tRNA_Tf' (cfg : Config) (s : State) :
    (take_tRNA cfg s).Tf =
      set1 s.Tf (cfg.cTRNA s.c_id).tid (s.Tf (cfg.cTRNA s.c_id).tid - 1) := rfl

@[simp] theorem set_cod_ecod' (cfg : Config) (s : State) (i : Nat) :
    ((set_cod cfg s).Ribo i).elng_cod_list =
      if i = s.r_id then (cfg.Gene (s.mRNA s.m_id).gene).seq (s.Ribo s.r_id).pos
      else (s.Ribo i).elng_cod_list := by
  simp only [set_cod, set1]; split <;> rfl

@[simp] theorem requeue_free' (cfg : Config) (s : State) :
    (requeue cfg s).free_mRNA =
      set2 s.free_mRNA (s.mRNA s.m_id).gene (s.Mf (s.mRNA s.m_id).gene) s.m_id := rfl

@[simp] theorem requeue_Mf' (cfg : Config) (s : State) :
    (requeue cfg s).Mf =
      set1 s.Mf (s.mRNA s.m_id).gene (s.Mf (s.mRNA s.m_id).gene + 1) := rfl

@[simp] theorem requeue_scld' (cfg : Config) (s : State) :
    (requeue cfg s).scld_Mf =
      set1 s.scld_Mf (s.mRNA s.m_id).gene
        (s.scld_Mf (s.mRNA s.m_id).gene + (cfg.Gene (s.mRNA s.m_id).gene).ini_prob) := rfl

@[simp] theorem requeue_tot' (cfg : Config) (s : State) :
    (requeue cfg s).tot_scld_Mf =
      s.tot_scld_Mf + (cfg.Gene (s.mRNA s.m_id).gene).ini_prob := rfl

@[simp] theorem queue_append_ecod' (s : State) (c r i : Nat) :
    ((queue_append s c r).Ribo i).elng_cod_list =
      if i = r then c else (s.Ribo i).elng_cod_list := by
  simp only [queue_append, set1]; split <;> rfl

theorem release_tRNA_Tf' (cfg : Config) (s : State) :
    (release_tRNA cfg s).Tf =
      if (s.Ribo s.r_id).pos > 0 then
        set1 s.Tf
          (cfg.cTRNA ((cfg.Gene (s.mRNA s.m_id).gene).seq ((s.Ribo s.r_id).pos - 1))).tid
          (s.Tf (cfg.cTRNA ((cfg.Gene (s.mRNA s.m_id).gene).seq ((s.Ribo s.r_id).pos - 1))).tid
            + 1)
      else s.Tf := by
  simp only [release_tRNA]; split <;> rfl

@[simp] theorem tlen_eq (cfg : Config) (s : State) (m : Nat) :
    tlen cfg s m = (cfg.Gene (s.mRNA m).gene).len := rfl

@[simp] theorem codon_at_eq (cfg : Config) (s : State) (m p : Nat) :
    codon_at cfg s m p = (cfg.Gene (s.mRNA m).gene).seq p := rfl

/-! ## Transfer of the invariant between states -/

theorem sum_set1 (f : Nat → ℚ) (n g : Nat) (v : ℚ) (hg : g < n) :
    ∑ i in Finset.range n, set1 f g v i = ∑ i in Finset.range n, f i - f g + v := by
  induction n with
  | zero => omega
  | succ k ih =>
    rw [Finset.sum_range_succ, Finset.sum_range_succ]
    by_cases hk : g = k
    · subst hk
      have : ∑ i in Finset.range g, set1 f g v i = ∑ i in Finset.range g, f i := by
        apply Finset.sum_congr rfl
        intro i hi
        have : i ≠ g := by
          have := Finset.mem_range.mp hi
          omega
        simp [set1, this]
      rw [this]
      simp [set1]
    · have hg' : g < k := by omega
      rw [ih hg']
      have : k ≠ g := fun e => hk e.symm
      simp [set1, this]
      ring

/-- The invariant only reads the structural fields of the state. -/
theorem Inv.same_core {cfg : Config} {s s' : State} (h : Inv cfg s)
    (hRibo : s'.Ribo = s.Ribo) (hgene : ∀ m, (s'.mRNA m).gene = (s.mRNA m).gene)
    (hRf : s'.Rf = s.Rf) (hMf : s'.Mf = s.Mf) (hn : s'.n_Rb_e = s.n_Rb_e)
    (hQ : s'.Rb_e = s.Rb_e) (hfree : s'.free_mRNA = s.free_mRNA) (hgrid : s'.R_grid = s.R_grid)
    (hN : s'.next_avail_ribo = s.next_avail_ribo) (hscld : s'.scld_Mf = s.scld_Mf)
    (htot : s'.tot_scld_Mf = s.tot_scld_Mf) : Inv cfg s' := by
  have hl : tlen cfg s' = tlen cfg s := by funext m; simp [hgene]
  have hc : codon_at cfg s' = codon_at cfg s := by funext m p; simp [hgene]
  have hel : elongatable cfg s' = elongatable cfg s := by
    funext i; simp only [elongatable, hl, hRibo, hgrid]
  have hgof : (fun m => (s'.mRNA m).gene) = (fun m => (s.mRNA m).gene) := funext hgene
  have heg : eligible cfg s' = eligible cfg s := by
    funext m; simp only [eligible, hgrid]
  refine ⟨?_, ?_, ?_, ?_, ?_, ?_, ?_, ?_, ?_⟩
  · rw [hRf, hN]; exact h.rf
  · rw [hRf]; exact h.rf_nn
  · intro m hm; rw [hgene]; exact h.gene_lt m hm
  · have := h.grid
    unfold GInv at this ⊢
    rw [hl, hRibo, hgrid, hN]; exact this
  · have := h.foot
    unfold Footprint at this ⊢
    rw [hl, hgrid]; exact this
  · rw [hRibo, hQ, hn, hN, hel]; exact h.queue
  · rw [hRibo, hN, hel, hc]; exact h.codon
  · have := h.free
    unfold FInv at this ⊢
    rw [hgof, hfree, hMf, heg]; exact this
  · refine ⟨?_, ?_⟩
    · intro g hg; rw [hscld, hMf]; exact h.scld.scld g hg
    · rw [htot, hMf]; exact h.scld.tot

theorem Inv.advance {cfg : Config} {s : State} (h : Inv cfg s) (inv_rate : ℚ) :
    Inv cfg (advance cfg s inv_rate) := by
  apply h.same_core <;> simp

theorem Inv.snapshot {cfg : Config} {s : State} (h : Inv cfg s) :
    Inv cfg (snapshot cfg s) := by
  apply h.same_core <;> simp

/-! ## Initiation keeps the invariant -/

theorem ini_place_grid (cfg : Config) (s : State) :
    (ini_place cfg s).R_grid = set2 s.R_grid s.m_id 0 s.r_id := by
  simp only [ini_place]; split <;> simp

theorem ini_place_N (cfg : Config) (s : State) :
    (ini_place cfg s).next_avail_ribo = s.next_avail_ribo := by
  simp only [ini_place]; split <;> simp

theorem ini_place_Rf (cfg : Config) (s : State) : (ini_place cfg s).Rf = s.Rf - 1 := by
  simp only [ini_place]; split <;> simp

theorem ini_place_Tf (cfg : Config) (s : State) : (ini_place cfg s).Tf = s.Tf := by
  simp only [ini_place]; split <;> simp

theorem ini_place_Mf (cfg : Config) (s : State) : (ini_place cfg s).Mf = s.Mf := by
  simp only [ini_place]; split <;> simp

theorem ini_place_free (cfg : Config) (s : State) :
    (ini_place cfg s).free_mRNA = s.free_mRNA := by
  simp only [ini_place]; split <;> simp

theorem ini_place_scld (cfg : Config) (s : State) : (ini_place cfg s).scld_Mf = s.scld_Mf := by
  simp only [ini_place]; split <;> simp

theorem ini_place_tot (cfg : Config) (s : State) :
    (ini_place cfg s).tot_scld_Mf = s.tot_scld_Mf := by
  simp only [ini_place]; split <;> simp

theorem ini_place_mRNA (cfg : Config) (s : State) : (ini_place cfg s).mRNA = s.mRNA := by
  simp only [ini_place]; split <;> simp

theorem ini_place_mr (cfg : Config) (s : State) (i : Nat) :
    ((ini_place cfg s).Ribo i).mRNA = if i = s.r_id then s.m_id else (s.Ribo i).mRNA := by
  simp only [ini_place]; split <;> simp

theorem ini_place_ps (cfg : Config) (s : State) (i : Nat) :
    ((ini_place cfg s).Ribo i).pos = (s.Ribo i).pos := by
  simp only [ini_place]; split <;> simp

theorem ini_place_ecod (cfg : Config) (s : State) (i : Nat) :
    ((ini_place cfg s).Ribo i).elng_cod_list =
      if i = s.r_id ∧ s.R_grid s.m_id 10 = cfg.tot_ribo then
        (cfg.Gene (s.mRNA s.m_id).gene).seq 0
      else (s.Ribo i).elng_cod_list := by
  simp only [ini_place]; split <;> simp_all

theorem ini_place_QInv (cfg : Config) (s : State) (P : Nat → Prop)
    (hq : QInv 61 s.Ribo s.Rb_e s.n_Rb_e P none) (hr : ¬ P s.r_id)
    (hc61 : (cfg.Gene (s.mRNA s.m_id).gene).seq 0 < 61) :
    QInv 61 (ini_place cfg s).Ribo (ini_place cfg s).Rb_e (ini_place cfg s).n_Rb_e
      (fun j => P j ∨ (j = s.r_id ∧ s.R_grid s.m_id 10 = cfg.tot_ribo)) none := by
  have hb : QInv 61 (ini_bind cfg s).Ribo (ini_bind cfg s).Rb_e (ini_bind cfg s).n_Rb_e P none := by
    simp only [ini_bind_Rb_e, ini_bind_n_Rb_e]
    exact hq.frame (fun j _ => by simp)
  simp only [ini_place]
  split
  · rename_i hc
    simp only [ini_bind_R_grid, ini_bind_m_id] at hc
    simp only [ini_finish_Ribo, ini_finish_Rb_e, ini_finish_n_Rb_e]
    refine (hb.append _ (ini_bind cfg s).r_id (by simpa using hc61) hr).congr_P ?_
    intro j
    simp [hc]
  · rename_i hc
    simp only [ini_bind_R_grid, ini_bind_m_id] at hc
    simp only [ini_finish_Ribo, ini_finish_Rb_e, ini_finish_n_Rb_e, waste_incr_Ribo,
      waste_incr_Rb_e, waste_incr_n_Rb_e]
    refine hb.congr_P ?_
    intro j
    simp [hc]

theorem Inv.initiate {cfg : Config} {s : State} (h : Inv cfg s) (hL : LenOK cfg)
    (hC : CodonOK cfg) (g c2 : Nat) (hRf : 1 ≤ s.Rf) (hg : g < cfg.n_genes) (hc : c2 < s.Mf g) :
    Inv cfg (ini_place cfg (ini_stats cfg (ini_pick cfg (ini_alloc s) g c2))) := by
  obtain ⟨m_lt, m_gene, m_el⟩ := h.free.entry g c2 hg hc
  have hNE : s.next_avail_ribo < cfg.tot_ribo := by
    have := h.rf; omega
  have hlen : 11 ≤ (cfg.Gene (s.mRNA (s.free_mRNA g c2)).gene).len := by
    rw [m_gene]; exact hL g hg
  have fgene : ∀ m, ((ini_place cfg (ini_stats cfg (ini_pick cfg (ini_alloc s) g c2))).mRNA m).gene
      = (s.mRNA m).gene := by
    intro m; simp [ini_place_mRNA]
  have fgrid : (ini_place cfg (ini_stats cfg (ini_pick cfg (ini_alloc s) g c2))).R_grid
      = set2 s.R_grid (s.free_mRNA g c2) 0 s.next_avail_ribo := by
    simp [ini_place_grid]
  have fN : (ini_place cfg (ini_stats cfg (ini_pick cfg (ini_alloc s) g c2))).next_avail_ribo
      = s.next_avail_ribo + 1 := by
    simp [ini_place_N]
  have fmr : ∀ i, ((ini_place cfg (ini_stats cfg (ini_pick cfg (ini_alloc s) g c2))).Ribo i).mRNA
      = if i = s.next_avail_ribo then s.free_mRNA g c2 else (s.Ribo i).mRNA := by
    intro i; simp [ini_place_mr]
  have fps : ∀ i, ((ini_place cfg (ini_stats cfg (ini_pick cfg (ini_alloc s) g c2))).Ribo i).pos
      = if i = s.next_avail_ribo then 0 else (s.Ribo i).pos := by
    intro i; simp [ini_place_ps]
  have hl : tlen cfg (ini_place cfg (ini_stats cfg (ini_pick cfg (ini_alloc s) g c2)))
      = tlen cfg s := by
    funext m; simp [fgene]
  have hel : ∀ i, elongatable cfg (ini_place cfg (ini_stats cfg (ini_pick cfg (ini_alloc s) g c2))) i
      ↔ (if i = s.next_avail_ribo then s.R_grid (s.free_mRNA g c2) 10 = cfg.tot_ribo
         else elongatable cfg s i) := by
    intro i
    unfold elongatable
    rw [hl, fgrid, fmr, fps]
    by_cases hi : i = s.next_avail_ribo
    · simp only [hi, if_true, tlen_eq, set2]
      simp
      omega
    · simp [hi, set2]
  have helg : ∀ m, eligible cfg (ini_place cfg (ini_stats cfg (ini_pick cfg (ini_alloc s) g c2))) m
      ↔ (eligible cfg s m ∧ m ≠ s.free_mRNA g c2) := by
    intro m
    unfold eligible
    rw [fgrid]
    by_cases hm : m = s.free_mRNA g c2
    · subst hm
      simp only [ne_eq, not_true_eq_false, and_false, iff_false, not_forall]
      refine ⟨0, by omega, ?_⟩
      simp [set2]; omega
    · simp [set2, hm]
  refine ⟨?_, ?_, ?_, ?_, ?_, ?_, ?_, ?_, ?_⟩
  · rw [fN, ini_place_Rf]
    have := h.rf
    simp
    omega
  · rw [ini_place_Rf]; simp; omega
  · intro m hm; rw [fgene]; exact h.gene_lt m hm
  · unfold GInv
    rw [hl, fgrid, fN]
    refine (GInvR.place h.grid s.next_avail_ribo (s.free_mRNA g c2) 0 (by simp) hNE m_lt
      (by simp only [tlen_eq]; omega) (m_el 0 (by omega)) (by simp [fmr]) (by simp [fps])
      ?_).congr_A ?_
    · intro i hi; simp [fmr, fps, hi]
    · intro i; omega
  · unfold Footprint
    rw [hl, fgrid]
    refine FootR.occupy h.foot _ 0 _ ?_ ?_
    · intro q' h1 _ h3; exact m_el q' (by omega)
    · intro p' h1; omega
  · rw [fN]
    have hq := ini_place_QInv cfg (ini_stats cfg (ini_pick cfg (ini_alloc s) g c2))
      (fun i => i < s.next_avail_ribo ∧ elongatable cfg s i)
      (@QInv.frame _ _ (ini_stats cfg (ini_pick cfg (ini_alloc s) g c2)).Ribo _ _ _ _ h.queue
        (fun j _ => by simp)) (by simp)
      (by
        simp only [ini_stats_gene, ini_stats_m_id, ini_pick_mRNA, ini_pick_m_id, ini_alloc_mRNA,
          ini_alloc_free_mRNA]
        rw [m_gene]
        exact hC g hg 0 (by have := hL g hg; omega))
    refine hq.congr_P ?_
    intro i
    rw [hel]
    by_cases hi : i = s.next_avail_ribo
    · simp [hi]
    · simp [hi]; omega
  · intro i hi he
    rw [fN] at hi
    rw [hel] at he
    rw [ini_place_ecod]
    simp only [ini_stats_r_id, ini_pick_r_id, ini_alloc_r_id, ini_stats_m_id, ini_pick_m_id,
      ini_alloc_free_mRNA, ini_stats_R_grid, ini_pick_R_grid, ini_alloc_R_grid, codon_at_eq,
      fgene, fmr, fps]
    by_cases hin : i = s.next_avail_ribo
    · simp only [hin, if_true] at he ⊢
      simp [he]
    · simp only [hin, if_false, false_and] at he ⊢
      have := h.codon i (by omega) he
      simpa using this
  · unfold FInv
    have hgof : (fun m => ((ini_place cfg (ini_stats cfg (ini_pick cfg (ini_alloc s) g c2))).mRNA
        m).gene) = (fun m => (s.mRNA m).gene) := funext fgene
    rw [hgof, ini_place_free, ini_place_Mf]
    simp only [ini_stats_free_mRNA, ini_stats_Mf, ini_pick_free, ini_pick_Mf, ini_alloc_Mf,
      ini_alloc_free_mRNA]
    exact (FInvR.take h.free g c2 hg hc).congr_el (fun m => (helg m).symm)
  · have hM : 1 ≤ s.Mf g := by omega
    refine ⟨?_, ?_⟩
    · intro g' hg'
      rw [ini_place_scld, ini_place_Mf]
      simp only [ini_stats_scld_Mf, ini_stats_Mf, ini_pick_scld, ini_pick_Mf, ini_alloc_Mf,
        ini_alloc_scld_Mf]
      by_cases e : g' = g
      · subst e
        simp only [set1, if_true]
        rw [h.scld.scld g' hg', Nat.cast_sub hM]
        ring
      · simp only [set1, e, if_false]
        exact h.scld.scld g' hg'
    · rw [ini_place_tot, ini_place_Mf]
      simp only [ini_stats_tot_scld_Mf, ini_stats_Mf, ini_pick_tot, ini_pick_Mf, ini_alloc_Mf,
        ini_alloc_tot_scld_Mf]
      have e : (fun g' => ((set1 s.Mf g (s.Mf g - 1) g' : Nat) : ℚ) * (cfg.Gene g').ini_prob)
          = set1 (fun g' => (s.Mf g' : ℚ) * (cfg.Gene g').ini_prob) g
              (((s.Mf g : ℚ) - 1) * (cfg.Gene g).ini_prob) := by
        funext g'
        by_cases e : g' = g
        · subst e; simp [set1, Nat.cast_sub hM]
        · simp [set1, e]
      rw [e, sum_set1 _ _ _ _ hg, h.scld.tot]
      ring

/-! ## Promotion and compaction -/

theorem promote_QInv (cfg : Config) (s : State) (m p : Nat) (P : Nat → Prop)
    (g : Option (Nat × Nat)) (hq : QInv 61 s.Ribo s.Rb_e s.n_Rb_e P g)
    (hu : s.R_grid m p < cfg.tot_ribo → ¬ P (s.R_grid m p))
    (hc61 : s.R_grid m p < cfg.tot_ribo → (cfg.Gene (s.mRNA m).gene).seq p < 61) :
    QInv 61 (promote cfg s m p).Ribo (promote cfg s m p).Rb_e (promote cfg s m p).n_Rb_e
      (fun j => P j ∨ (s.R_grid m p < cfg.tot_ribo ∧ j = s.R_grid m p)) g := by
  simp only [promote]
  split
  · rename_i hc
    simp only [waste_decr_Ribo, waste_decr_Rb_e, waste_decr_n_Rb_e]
    refine (hq.append _ _ (hc61 hc) (hu hc)).congr_P ?_
    intro j; simp [hc]
  · rename_i hc
    refine hq.congr_P ?_
    intro j; simp [hc]

theorem promote_ecod' (cfg : Config) (s : State) (m p i : Nat) :
    ((promote cfg s m p).Ribo i).elng_cod_list =
      if s.R_grid m p < cfg.tot_ribo ∧ i = s.R_grid m p then (cfg.Gene (s.mRNA m).gene).seq p
      else (s.Ribo i).elng_cod_list := by
  simp only [promote]
  split
  · rename_i hc; simp [hc]
  · rename_i hc; simp [hc]

@[simp] theorem compact_N (cfg : Config) (s : State) :
    (compact cfg s).next_avail_ribo = s.next_avail_ribo - 1 := by
  simp only [compact]; split
  · split <;> rfl
  · rfl

@[simp] theorem compact_Rf (cfg : Config) (s : State) : (compact cfg s).Rf = s.Rf := by
  simp only [compact]; split
  · split <;> rfl
  · rfl

@[simp] theorem compact_Tf (cfg : Config) (s : State) : (compact cfg s).Tf = s.Tf := by
  simp only [compact]; split
  · split <;> rfl
  · rfl

@[simp] theorem compact_Mf (cfg : Config) (s : State) : (compact cfg s).Mf = s.Mf := by
  simp only [compact]; split
  · split <;> rfl
  · rfl

@[simp] theorem compact_free_mRNA (cfg : Config) (s : State) :
    (compact cfg s).free_mRNA = s.free_mRNA := by
  simp only [compact]; split
  · split <;> rfl
  · rfl

@[simp] theorem compact_mRNA (cfg : Config) (s : State) : (compact cfg s).mRNA = s.mRNA := by
  simp only [compact]; split
  · split <;> rfl
  · rfl

@[simp] theorem compact_n_Rb_e (cfg : Config) (s : State) :
    (compact cfg s).n_Rb_e = s.n_Rb_e := by
  simp only [compact]; split
  · split <;> rfl
  · rfl

@[simp] theorem compact_scld_Mf (cfg : Config) (s : State) :
    (compact cfg s).scld_Mf = s.scld_Mf := by
  simp only [compact]; split
  · split <;> rfl
  · rfl

@[simp] theorem compact_tot_scld_Mf (cfg : Config) (s : State) :
    (compact cfg s).tot_scld_Mf = s.tot_scld_Mf := by
  simp only [compact]; split
  · split <;> rfl
  · rfl

@[simp] theorem compact_r_id (cfg : Config) (s : State) : (compact cfg s).r_id = s.r_id := by
  simp only [compact]; split
  · split <;> rfl
  · rfl

@[simp] theorem compact_m_id (cfg : Config) (s : State) : (compact cfg s).m_id = s.m_id := by
  simp only [compact]; split
  · split <;> rfl
  · rfl

@[simp] theorem compact_c_id (cfg : Config) (s : State) : (compact cfg s).c_id = s.c_id := by
  simp only [compact]; split
  · split <;> rfl
  · rfl

@[simp] theorem compact_t (cfg : Config) (s : State) : (compact cfg s).t = s.t := by
  simp only [compact]; split
  · split <;> rfl
  · rfl

theorem compact_last_Ribo (cfg : Config) (s : State) (h : s.r_id = s.next_avail_ribo - 1) :
    (compact cfg s).Ribo = s.Ribo := by
  simp only [compact]; split
  · rename_i hc; exact absurd h hc
  · rfl

theorem compact_last_grid (cfg : Config) (s : State) (h : s.r_id = s.next_avail_ribo - 1) :
    (compact cfg s).R_grid = s.R_grid := by
  simp only [compact]; split
  · rename_i hc; exact absurd h hc
  · rfl

theorem compact_last_Rb_e (cfg : Config) (s : State) (h : s.r_id = s.next_avail_ribo - 1) :
    (compact cfg s).Rb_e = s.Rb_e := by
  simp only [compact]; split
  · rename_i hc; exact absurd h hc
  · rfl

/-- The record that compaction writes into the freed slot. -/
theorem compact_move_Ribo (cfg : Config) (s : State) (h : s.r_id ≠ s.next_avail_ribo - 1) :
    (compact cfg s).Ribo = set1 s.Ribo s.r_id
      { mRNA := (s.Ribo (s.next_avail_ribo - 1)).mRNA,
        pos := (s.Ribo (s.next_avail_ribo - 1)).pos,
        t_trans_ini := (s.Ribo (s.next_avail_ribo - 1)).t_trans_ini,
        t_elong_ini := (s.Ribo (s.next_avail_ribo - 1)).t_elong_ini,
        elng_cod_list := (cfg.Gene (s.mRNA (s.Ribo (s.next_avail_ribo - 1)).mRNA).gene).seq
          (s.Ribo (s.next_avail_ribo - 1)).pos,
        elng_pos_list := (s.Ribo (s.next_avail_ribo - 1)).elng_pos_list } := by
  simp only [compact]; split
  · split <;> rfl
  · rename_i hc; exact absurd h hc

theorem compact_move_grid (cfg : Config) (s : State) (h : s.r_id ≠ s.next_avail_ribo - 1) :
    (compact cfg s).R_grid = set2 s.R_grid (s.Ribo (s.next_avail_ribo - 1)).mRNA
      (s.Ribo (s.next_avail_ribo - 1)).pos s.r_id := by
  simp only [compact]; split
  · split <;> rfl
  · rename_i hc; exact absurd h hc

theorem compact_move_Rb_e (cfg : Config) (s : State) (h : s.r_id ≠ s.next_avail_ribo - 1) :
    (compact cfg s).Rb_e =
      if (set2 s.R_grid (s.Ribo (s.next_avail_ribo - 1)).mRNA
            (s.Ribo (s.next_avail_ribo - 1)).pos s.r_id) (s.Ribo (s.next_avail_ribo - 1)).mRNA
            ((s.Ribo (s.next_avail_ribo - 1)).pos + 10) = cfg.tot_ribo ∨
          (s.Ribo (s.next_avail_ribo - 1)).pos + 10 ≥
            (cfg.Gene (s.mRNA (s.Ribo (s.next_avail_ribo - 1)).mRNA).gene).len then
        set2 s.Rb_e
          ((cfg.Gene (s.mRNA (s.Ribo (s.next_avail_ribo - 1)).mRNA).gene).seq
            (s.Ribo (s.next_avail_ribo - 1)).pos)
          (s.Ribo (s.next_avail_ribo - 1)).elng_pos_list s.r_id
      else s.Rb_e := by
  simp only [compact]; split
  · split <;> rfl
  · rename_i hc; exact absurd h hc

/-! ## The picked ribosome -/

theorem Picked.lt_N {cfg : Config} {s : State} {x : Nat} (h : Picked cfg s x) :
    s.r_id < s.next_avail_ribo := by
  have := (h.inv.queue.entry s.c_id x h.cid h.slot (by simp)).1.1
  rw [← h.rid] at this; exact this

theorem Picked.elong {cfg : Config} {s : State} {x : Nat} (h : Picked cfg s x) :
    elongatable cfg s s.r_id := by
  have := (h.inv.queue.entry s.c_id x h.cid h.slot (by simp)).1.2
  rw [← h.rid] at this; exact this

theorem Picked.ecod {cfg : Config} {s : State} {x : Nat} (h : Picked cfg s x) :
    (s.Ribo s.r_id).elng_cod_list = s.c_id := by
  have := (h.inv.queue.entry s.c_id x h.cid h.slot (by simp)).2.1
  rw [← h.rid] at this; exact this

theorem Picked.epos {cfg : Config} {s : State} {x : Nat} (h : Picked cfg s x) :
    (s.Ribo s.r_id).elng_pos_list = x := by
  have := (h.inv.queue.entry s.c_id x h.cid h.slot (by simp)).2.2
  rw [← h.rid] at this; exact this

theorem Picked.codon {cfg : Config} {s : State} {x : Nat} (h : Picked cfg s x) :
    (cfg.Gene (s.mRNA s.m_id).gene).seq (s.Ribo s.r_id).pos = s.c_id := by
  have := h.inv.codon s.r_id h.lt_N h.elong
  rw [h.ecod] at this
  rw [h.mid]; exact this.symm

theorem Picked.lt_E {cfg : Config} {s : State} {x : Nat} (h : Picked cfg s x) :
    s.r_id < cfg.tot_ribo := h.inv.grid.act_lt _ h.lt_N

theorem Picked.m_lt {cfg : Config} {s : State} {x : Nat} (h : Picked cfg s x) :
    s.m_id < tot_mRNA cfg := by
  rw [h.mid]; exact (h.inv.grid.cell _ h.lt_N).1

theorem Picked.p_lt {cfg : Config} {s : State} {x : Nat} (h : Picked cfg s x) :
    (s.Ribo s.r_id).pos < (cfg.Gene (s.mRNA s.m_id).gene).len := by
  rw [h.mid]; exact (h.inv.grid.cell _ h.lt_N).2.1

theorem Picked.at_cell {cfg : Config} {s : State} {x : Nat} (h : Picked cfg s x) :
    s.R_grid s.m_id (s.Ribo s.r_id).pos = s.r_id := by
  rw [h.mid]; exact (h.inv.grid.cell _ h.lt_N).2.2

theorem Picked.of_inv {cfg : Config} {s : State} {x : Nat} (h : Inv cfg s)
    (hC : CodonOK cfg) (hc : s.c_id < 61)
    (hx : x < s.n_Rb_e s.c_id) : Picked cfg (release_tRNA cfg (pick_ribo s x)) x := by
  refine ⟨?_, hC, by simpa using hc, by simpa using hx, by simp, by simp⟩
  apply h.same_core <;> simp

/-! ## The two non-terminal moves -/

theorem Moved.still {cfg : Config} {s : State} {x : Nat} (h : Picked cfg s x)
    (hnt : (s.Ribo s.r_id).pos + 1 ≠ (cfg.Gene (s.mRNA s.m_id).gene).len) :
    Moved cfg s (move_still cfg s x) True := by
  have hc2 : (cfg.Gene (s.mRNA s.m_id).gene).seq ((s.Ribo s.r_id).pos + 1) < 61 := by
    have := h.p_lt
    exact h.cod_ok _ (h.inv.gene_lt _ h.m_lt) _ (by omega)
  have hr := h.lt_N
  have he := h.elong
  have hq0 : QInv 61 (move_ribo cfg s).Ribo (move_ribo cfg s).Rb_e (move_ribo cfg s).n_Rb_e
      (fun i => i < s.next_avail_ribo ∧ elongatable cfg s i) none := by
    simp only [move_ribo_Rb_e, move_ribo_n_Rb_e]
    exact h.inv.queue.frame (fun j _ => by simp)
  refine ⟨?_, ?_, ?_, ?_, ?_, ?_, ?_, ?_, ?_, ?_, ?_, ?_, ?_, ?_, ?_⟩
  any_goals (simp only [move_still]; (try intro i); split <;> simp; done)
  · simp only [move_still]
    split
    · simp only [take_tRNA_Ribo, take_tRNA_Rb_e, take_tRNA_n_Rb_e]
      have hg := (hq0.to_ghost s.c_id x h.cid (by simpa using h.slot))
      have hrx : (move_ribo cfg s).Rb_e s.c_id x = s.r_id := by simp [h.rid]
      have ha := hg.append
        ((cfg.Gene ((move_ribo cfg s).mRNA (move_ribo cfg s).m_id).gene).seq
          ((move_ribo cfg s).Ribo (move_ribo cfg s).r_id).pos) s.r_id (by simpa using hc2)
          (by simp [hrx])
      have := ha.remove
      simp only [move_ribo_r_id, move_ribo_c_id]
      refine this.congr_P ?_
      intro j
      simp only [hrx]
      by_cases hj : j = s.r_id
      · simp [hj, hr]
      · simp [hj]
    · simp only [take_tRNA_Ribo, take_tRNA_Rb_e, take_tRNA_n_Rb_e]
      refine hq0.congr_P ?_
      intro j
      by_cases hj : j = s.r_id
      · simp [hj, hr, he]
      · simp [hj]
  · intro j hj
    simp only [move_still]
    split <;> simp [hj]
  · intro _
    simp only [move_still]
    split
    · simp
    · rename_i hc
      simp only [ne_eq, not_not] at hc
      simp only [take_tRNA_Ribo, move_ribo_ecod, h.ecod]
      simpa using hc.symm

theorem Moved.blocked {cfg : Config} {s : State} {x : Nat} (h : Picked cfg s x) :
    Moved cfg s (move_blocked cfg s x) False := by
  have hr := h.lt_N
  have hq0 : QInv 61 (set_cod cfg (move_ribo cfg s)).Ribo (set_cod cfg (move_ribo cfg s)).Rb_e
      (set_cod cfg (move_ribo cfg s)).n_Rb_e
      (fun i => (i < s.next_avail_ribo ∧ elongatable cfg s i) ∧ i ≠ s.Rb_e s.c_id x)
      (some (s.c_id, x)) := by
    simp only [set_cod_Rb_e, set_cod_n_Rb_e, move_ribo_Rb_e, move_ribo_n_Rb_e]
    refine (h.inv.queue.to_ghost s.c_id x h.cid h.slot).frame ?_
    intro j hj
    have : j ≠ s.r_id := by rw [h.rid]; exact hj.2
    simp [this]
  refine ⟨?_, ?_, ?_, ?_, ?_, ?_, ?_, ?_, ?_, ?_, ?_, ?_, ?_, ?_, ?_⟩
  any_goals (simp only [move_blocked]; (try intro i); simp; done)
  · simp only [move_blocked, waste_incr_Ribo, waste_incr_Rb_e, waste_incr_n_Rb_e,
      take_tRNA_Ribo, take_tRNA_Rb_e, take_tRNA_n_Rb_e]
    refine hq0.remove.congr_P ?_
    intro j
    rw [← h.rid]
    by_cases hj : j = s.r_id
    · simp [hj]
    · simp [hj]
  · intro j hj
    simp [move_blocked, hj]

/-! ## After a non-terminal move (lines 821-844) -/

@[simp] theorem post_move_grid (cfg : Config) (s : State) :
    (post_move cfg s).R_grid = s.R_grid := by
  simp only [post_move]; split <;> split <;> simp

@[simp] theorem post_move_N (cfg : Config) (s : State) :
    (post_move cfg s).next_avail_ribo = s.next_avail_ribo := by
  simp only [post_move]; split <;> split <;> simp

@[simp] theorem post_move_Rf (cfg : Config) (s : State) : (post_move cfg s).Rf = s.Rf := by
  simp only [post_move]; split <;> split <;> simp

@[simp] theorem post_move_Tf (cfg : Config) (s : State) : (post_move cfg s).Tf = s.Tf := by
  simp only [post_move]; split <;> split <;> simp

@[simp] theorem post_move_mRNA (cfg : Config) (s : State) : (post_move cfg s).mRNA = s.mRNA := by
  simp only [post_move]; split <;> split <;> simp

@[simp] theorem post_move_mr (cfg : Config) (s : State) (i : Nat) :
    ((post_move cfg s).Ribo i).mRNA = (s.Ribo i).mRNA := by
  simp only [post_move]; split <;> split <;> simp

@[simp] theorem post_move_ps (cfg : Config) (s : State) (i : Nat) :
    ((post_move cfg s).Ribo i).pos = (s.Ribo i).pos := by
  simp only [post_move]; split <;> split <;> simp

theorem post_move_Mf (cfg : Config) (s : State) :
    (post_move cfg s).Mf =
      if (s.Ribo s.r_id).pos = 10 then
        set1 s.Mf (s.mRNA s.m_id).gene (s.Mf (s.mRNA s.m_id).gene + 1)
      else s.Mf := by
  simp only [post_move]; split <;> split <;> simp_all

theorem post_move_free (cfg : Config) (s : State) :
    (post_move cfg s).free_mRNA =
      if (s.Ribo s.r_id).pos = 10 then
        set2 s.free_mRNA (s.mRNA s.m_id).gene (s.Mf (s.mRNA s.m_id).gene) s.m_id
      else s.free_mRNA := by
  simp only [post_move]; split <;> split <;> simp_all

theorem post_move_scld (cfg : Config) (s : State) :
    (post_move cfg s).scld_Mf =
      if (s.Ribo s.r_id).pos = 10 then
        set1 s.scld_Mf (s.mRNA s.m_id).gene
          (s.scld_Mf (s.mRNA s.m_id).gene + (cfg.Gene (s.mRNA s.m_id).gene).ini_prob)
      else s.scld_Mf := by
  simp only [post_move]; split <;> split <;> simp_all

theorem post_move_tot (cfg : Config) (s : State) :
    (post_move cfg s).tot_scld_Mf =
      if (s.Ribo s.r_id).pos = 10 then
        s.tot_scld_Mf + (cfg.Gene (s.mRNA s.m_id).gene).ini_prob
      else s.tot_scld_Mf := by
  simp only [post_move]; split <;> split <;> simp_all

theorem post_move_ecod (cfg : Config) (s : State) (i : Nat) :
    ((post_move cfg s).Ribo i).elng_cod_list =
      if (s.Ribo s.r_id).pos > 10 ∧
          s.R_grid s.m_id ((s.Ribo s.r_id).pos - 11) < cfg.tot_ribo ∧
          i = s.R_grid s.m_id ((s.Ribo s.r_id).pos - 11) then
        (cfg.Gene (s.mRNA s.m_id).gene).seq ((s.Ribo s.r_id).pos - 11)
      else (s.Ribo i).elng_cod_list := by
  simp only [post_move]
  split
  · rename_i hc
    split <;> simp [promote_ecod', hc]
  · rename_i hc
    have hc' : ¬ (10 < (s.Ribo s.r_id).pos) := hc
    split <;> simp [hc']

theorem post_move_QInv (cfg : Config) (s : State) (P : Nat → Prop)
    (hq : QInv 61 s.Ribo s.Rb_e s.n_Rb_e P none)
    (hu : (s.Ribo s.r_id).pos > 10 →
      s.R_grid s.m_id ((s.Ribo s.r_id).pos - 11) < cfg.tot_ribo →
      ¬ P (s.R_grid s.m_id ((s.Ribo s.r_id).pos - 11)))
    (hc61 : (s.Ribo s.r_id).pos > 10 →
      s.R_grid s.m_id ((s.Ribo s.r_id).pos - 11) < cfg.tot_ribo →
      (cfg.Gene (s.mRNA s.m_id).gene).seq ((s.Ribo s.r_id).pos - 11) < 61) :
    QInv 61 (post_move cfg s).Ribo (post_move cfg s).Rb_e (post_move cfg s).n_Rb_e
      (fun j => P j ∨ ((s.Ribo s.r_id).pos > 10 ∧
        s.R_grid s.m_id ((s.Ribo s.r_id).pos - 11) < cfg.tot_ribo ∧
        j = s.R_grid s.m_id ((s.Ribo s.r_id).pos - 11))) none := by
  have key : ∀ s1 : State, ∀ P1 : Nat → Prop, QInv 61 s1.Ribo s1.Rb_e s1.n_Rb_e P1 none →
      QInv 61 (stamp (if (s1.Ribo s1.r_id).pos = 10 then requeue cfg s1 else s1)).Ribo
        (stamp (if (s1.Ribo s1.r_id).pos = 10 then requeue cfg s1 else s1)).Rb_e
        (stamp (if (s1.Ribo s1.r_id).pos = 10 then requeue cfg s1 else s1)).n_Rb_e P1 none := by
    intro s1 P1 h1
    split
    · simp only [stamp_Rb_e, stamp_n_Rb_e, requeue_Rb_e, requeue_n_Rb_e]
      exact h1.frame (fun j _ => by simp)
    · simp only [stamp_Rb_e, stamp_n_Rb_e]
      exact h1.frame (fun j _ => by simp)
  simp only [post_move]
  split
  · rename_i hc
    refine key _ _ ?_
    refine (promote_QInv cfg s _ _ P none hq (hu hc) (hc61 hc)).congr_P ?_
    intro j; simp [hc]
  · rename_i hc
    refine key _ _ ?_
    refine hq.congr_P ?_
    intro j; simp [hc]

theorem Inv.after_move {cfg : Config} {s sm : State} {x : Nat} {still : Prop}
    (h : Picked cfg s x)
    (hnt : (s.Ribo s.r_id).pos + 1 ≠ (cfg.Gene (s.mRNA s.m_id).gene).len)
    (hm : Moved cfg s sm still)
    (hst : still ↔ ((s.Ribo s.r_id).pos + 11 ≥ (cfg.Gene (s.mRNA s.m_id).gene).len ∨
      s.R_grid s.m_id ((s.Ribo s.r_id).pos + 11) = cfg.tot_ribo)) :
    Inv cfg (post_move cfg sm) := by
  have hrN := h.lt_N
  have hrE := h.lt_E
  have hmT := h.m_lt
  have hpL := h.p_lt
  have hcell := h.at_cell
  have hmid := h.mid
  have hel := h.elong
  have hI := h.inv
  have hp1 : (s.Ribo s.r_id).pos + 1 < (cfg.Gene (s.mRNA s.m_id).gene).len := by omega
  have hocc : s.R_grid s.m_id (s.Ribo s.r_id).pos ≠ cfg.tot_ribo := by rw [hcell]; omega
  have hnext : s.R_grid s.m_id ((s.Ribo s.r_id).pos + 1) = cfg.tot_ribo :=
    hI.foot s.m_id _ _ hmT (by omega) hp1 (by omega) hocc
  have hbehind : ∀ q, q < (s.Ribo s.r_id).pos → (s.Ribo s.r_id).pos < q + 10 →
      s.R_grid s.m_id q = cfg.tot_ribo := by
    intro q h1 h2
    by_contra hne
    exact hocc (hI.foot s.m_id q _ hmT h1 hpL h2 hne)
  have fgrid : (post_move cfg sm).R_grid =
      set2 (set2 s.R_grid s.m_id (s.Ribo s.r_id).pos cfg.tot_ribo) s.m_id
        ((s.Ribo s.r_id).pos + 1) s.r_id := by
    simp [hm.grid]
  have fmr : ∀ i, ((post_move cfg sm).Ribo i).mRNA = (s.Ribo i).mRNA := by
    intro i; simp [hm.mr]
  have fps : ∀ i, ((post_move cfg sm).Ribo i).pos =
      if i = s.r_id then (s.Ribo s.r_id).pos + 1 else (s.Ribo i).pos := by
    intro i; simp [hm.ps]
  have fgene : ∀ m, ((post_move cfg sm).mRNA m).gene = (s.mRNA m).gene := by
    intro m; simp [hm.gene]
  have fN : (post_move cfg sm).next_avail_ribo = s.next_avail_ribo := by simp [hm.N]
  have hl : tlen cfg (post_move cfg sm) = tlen cfg s := by funext m; simp [hm.gene]
  have smps : (sm.Ribo s.r_id).pos = (s.Ribo s.r_id).pos + 1 := by
    rw [hm.ps]; simp
  have hgm : (sm.mRNA s.m_id).gene = (s.mRNA s.m_id).gene := hm.gene _
  -- the promoted ribosome is the one ten codons behind the vacated cell
  have hprom : ∀ j, (((sm.Ribo sm.r_id).pos > 10 ∧
        sm.R_grid sm.m_id ((sm.Ribo sm.r_id).pos - 11) < cfg.tot_ribo ∧
        j = sm.R_grid sm.m_id ((sm.Ribo sm.r_id).pos - 11)) ↔
      (j < s.next_avail_ribo ∧ j ≠ s.r_id ∧ (s.Ribo j).mRNA = s.m_id ∧
        (s.Ribo j).pos + 10 = (s.Ribo s.r_id).pos)) := by
    intro j
    simp only [hm.rid, smps, hm.mid, hm.grid, move_ribo_grid]
    constructor
    · rintro ⟨h1, h2, h3⟩
      have hne1 : ¬ ((s.Ribo s.r_id).pos + 1 - 11 = (s.Ribo s.r_id).pos + 1) := by omega
      have hne2 : ¬ ((s.Ribo s.r_id).pos + 1 - 11 = (s.Ribo s.r_id).pos) := by omega
      simp only [set2, hne1, hne2, and_false, if_false] at h2 h3
      obtain ⟨o1, o2, o3⟩ := hI.grid.occ s.m_id ((s.Ribo s.r_id).pos + 1 - 11) hmT
        (by simp only [tlen_eq]; omega) (by omega)
      rw [← h3] at o1 o2 o3
      refine ⟨o1, ?_, o2, by omega⟩
      intro e
      rw [e] at o3
      omega
    · rintro ⟨h1, h2, h3, h4⟩
      obtain ⟨c1, c2, c3⟩ := hI.grid.cell j h1
      have hne1 : ¬ ((s.Ribo s.r_id).pos + 1 - 11 = (s.Ribo s.r_id).pos + 1) := by omega
      have hne2 : ¬ ((s.Ribo s.r_id).pos + 1 - 11 = (s.Ribo s.r_id).pos) := by omega
      have e3 : (s.Ribo s.r_id).pos + 1 - 11 = (s.Ribo j).pos := by omega
      simp only [set2, hne1, hne2, and_false, if_false]
      rw [e3, ← h3, c3]
      exact ⟨by omega, hI.grid.act_lt j h1, rfl⟩
  have helF : ∀ i, i < s.next_avail_ribo →
      (elongatable cfg (post_move cfg sm) i ↔
        if i = s.r_id then still
        else (elongatable cfg s i ∨
          ((s.Ribo i).mRNA = s.m_id ∧ (s.Ribo i).pos + 10 = (s.Ribo s.r_id).pos))) := by
    intro i hi
    unfold elongatable
    rw [hl, fgrid, fmr, fps]
    by_cases hir : i = s.r_id
    · rw [hir, hst, ← hmid]
      simp only [if_true, tlen_eq, set2]
      have e1 : ¬ ((s.Ribo s.r_id).pos + 1 + 10 = (s.Ribo s.r_id).pos + 1) := by omega
      have e2 : ¬ ((s.Ribo s.r_id).pos + 1 + 10 = (s.Ribo s.r_id).pos) := by omega
      simp only [e1, e2, and_false, if_false]
    · simp only [hir, if_false, tlen_eq]
      obtain ⟨c1, c2, c3⟩ := hI.grid.cell i hi
      simp only [tlen_eq] at c2 c3
      by_cases ha : (s.Ribo i).mRNA = s.m_id ∧ (s.Ribo i).pos + 10 = (s.Ribo s.r_id).pos + 1
      · exfalso
        have := hbehind (s.Ribo i).pos (by omega) (by omega)
        rw [← ha.1, c3] at this
        have := hI.grid.act_lt i hi
        omega
      · by_cases hb : (s.Ribo i).mRNA = s.m_id ∧ (s.Ribo i).pos + 10 = (s.Ribo s.r_id).pos
        · have e1 : ¬ ((s.Ribo i).pos + 10 = (s.Ribo s.r_id).pos + 1) := by omega
          simp [set2, hb.1, hb.2]
        · simp only [set2, ha, hb, if_false, or_false]
  have heligF : ∀ m, m < tot_mRNA cfg → (eligible cfg (post_move cfg sm) m ↔
      (eligible cfg s m ∨ ((s.Ribo s.r_id).pos + 1 = 10 ∧ m = s.m_id))) := by
    intro m _
    unfold eligible
    rw [fgrid]
    by_cases hmm : m = s.m_id
    · rw [hmm]
      constructor
      · intro hall
        by_cases h10 : (s.Ribo s.r_id).pos + 1 = 10
        · exact Or.inr ⟨h10, rfl⟩
        · left
          intro q hq
          have hq1 : q ≠ (s.Ribo s.r_id).pos + 1 := by
            intro e
            have := hall q hq
            simp [set2, e] at this
            omega
          have hq2 : q ≠ (s.Ribo s.r_id).pos := by
            intro e
            have := hall (q + 1) (by omega)
            simp [set2, e] at this
            omega
          have := hall q hq
          simpa [set2, hq1, hq2] using this
      · rintro (hall | ⟨h10, _⟩)
        · intro q hq
          have hq2 : q ≠ (s.Ribo s.r_id).pos := by
            intro e; exact hocc (e ▸ hall q hq)
          have hq1 : q ≠ (s.Ribo s.r_id).pos + 1 := by
            intro e
            have := hall (s.Ribo s.r_id).pos (by omega)
            exact hocc this
          simpa [set2, hq1, hq2] using hall q hq
        · intro q hq
          have hq1 : q ≠ (s.Ribo s.r_id).pos + 1 := by omega
          by_cases hq2 : q = (s.Ribo s.r_id).pos
          · simp [set2, hq2]
          · simp only [set2, hq1, hq2, and_false, if_false]
            exact hbehind q (by omega) (by omega)
    · simp [set2, hmm]
  refine ⟨?_, ?_, ?_, ?_, ?_, ?_, ?_, ?_, ?_⟩
  · rw [fN]; simp only [post_move_Rf, hm.Rf]; exact hI.rf
  · simp only [post_move_Rf, hm.Rf]; exact hI.rf_nn
  · intro m hmm; rw [fgene]; exact hI.gene_lt m hmm
  · unfold GInv
    rw [hl, fgrid, fN]
    have hclear := @GInvR.clear _ _ _ _ _ (fun i => (s.Ribo i).mRNA) (fun i => (s.Ribo i).pos) _ _
      hI.grid s.r_id hrN (fun i _ => ⟨rfl, rfl⟩)
    simp only [← hmid] at hclear
    refine (GInvR.place hclear s.r_id s.m_id ((s.Ribo s.r_id).pos + 1) (by simp) hrE hmT
      (by simpa using hp1) (by simp [set2, hnext]) (by simp [hm.mr, ← hmid]) (by simp [hm.ps])
      ?_).congr_A ?_
    · intro i hi; simp [hm.mr, hm.ps, hi]
    · intro i
      by_cases hi : i = s.r_id
      · simp [hi, hrN]
      · simp [hi]
  · unfold Footprint
    rw [hl, fgrid]
    refine FootR.occupy (FootR.of_occ hI.foot ?_) _ _ _ ?_ ?_
    · intro m p hp
      simp only [set2]; split
      · rfl
      · exact hp
    · intro q h1 h2 h3
      have hq : q ≠ (s.Ribo s.r_id).pos := by omega
      simp only [set2, hq, and_false, if_false]
      by_cases hq10 : q < (s.Ribo s.r_id).pos + 10
      · exact hI.foot s.m_id _ q hmT (by omega) h2 hq10 hocc
      · have e : q = (s.Ribo s.r_id).pos + 10 := by omega
        unfold elongatable at hel
        rw [← hmid] at hel
        simp only [tlen_eq] at hel h2
        rcases hel with hel | hel
        · omega
        · rw [e]; exact hel
    · intro q h1 h2
      by_cases hq : q = (s.Ribo s.r_id).pos
      · simp [set2, hq]
      · simp only [set2, hq, and_false, if_false]
        exact hbehind q (by omega) (by omega)
  · rw [fN]
    have hq := post_move_QInv cfg sm _ hm.queue (by
      intro h1 h2
      obtain ⟨u1, u2, u3, u4⟩ := (hprom _).mp ⟨h1, h2, rfl⟩
      simp only [u2, ne_eq, not_false_eq_true, true_and, false_and, or_false, not_and]
      intro _ hu
      unfold elongatable at hu
      simp only [tlen_eq] at hu
      rw [u3, u4] at hu
      rcases hu with hu | hu
      · omega
      · exact hocc hu) (by
      intro h1 _
      rw [hm.rid, smps] at h1 ⊢
      rw [hm.mid, hgm]
      exact h.cod_ok _ (hI.gene_lt _ hmT) _ (by omega))
    refine hq.congr_P ?_
    intro j
    rw [hprom j]
    by_cases hjN : j < s.next_avail_ribo
    · rw [helF j hjN]
      by_cases hjr : j = s.r_id
      · simp [hjr, hrN]
      · simp [hjN, hjr]
    · simp [hjN]
  · intro i hi he
    rw [fN] at hi
    rw [helF i hi] at he
    rw [post_move_ecod, fmr, fps]
    simp only [hprom i, codon_at_eq, fgene]
    simp only [hm.mid, hgm, hm.rid, smps]
    by_cases hir : i = s.r_id
    · simp only [hir, if_true, ne_eq, not_true_eq_false, false_and, and_false, if_false] at he ⊢
      rw [hm.cod_r he, ← hmid]
    · simp only [hir, if_false, hi, ne_eq, not_false_eq_true, true_and] at he ⊢
      by_cases hu : (s.Ribo i).mRNA = s.m_id ∧ (s.Ribo i).pos + 10 = (s.Ribo s.r_id).pos
      · rw [if_pos hu, hu.1]
        congr 1
        omega
      · rw [if_neg hu, hm.cod i hir]
        rcases he with he | he
        · have := hI.codon i hi he
          simpa using this
        · exact absurd he hu
  · unfold FInv
    have hgof : (fun m => ((post_move cfg sm).mRNA m).gene) = (fun m => (s.mRNA m).gene) :=
      funext fgene
    rw [hgof, post_move_free, post_move_Mf]
    simp only [hm.rid, smps, hm.mid, hm.free, hm.Mf, hgm]
    by_cases h10 : (s.Ribo s.r_id).pos + 1 = 10
    · simp only [h10, if_true]
      have hnel : ¬ eligible cfg s s.m_id := by
        intro e
        exact hocc (e _ (by omega))
      have hput := FInvR.put hI.free s.m_id hmT hnel
      refine ⟨?_, hput.inj, ?_⟩
      · intro g i hg hi
        obtain ⟨e1, e2, e3⟩ := hput.entry g i hg hi
        exact ⟨e1, e2, (heligF _ e1).mpr (by simpa [h10] using e3)⟩
      · intro m hmm hel'
        exact hput.complete m hmm (by simpa [h10] using (heligF m hmm).mp hel')
    · simp only [h10, if_false]
      refine ⟨?_, hI.free.inj, ?_⟩
      · intro g i hg hi
        obtain ⟨e1, e2, e3⟩ := hI.free.entry g i hg hi
        exact ⟨e1, e2, (heligF _ e1).mpr (Or.inl e3)⟩
      · intro m hmm hel'
        have := (heligF m hmm).mp hel'
        simp only [h10, false_and, or_false] at this
        exact hI.free.complete m hmm this
  · have hg : (s.mRNA s.m_id).gene < cfg.n_genes := hI.gene_lt _ hmT
    refine ⟨?_, ?_⟩
    · intro g' hg'
      rw [post_move_scld, post_move_Mf]
      simp only [hm.rid, smps, hm.mid, hm.scld, hm.Mf, hgm]
      by_cases h10 : (s.Ribo s.r_id).pos + 1 = 10
      · simp only [h10, if_true]
        by_cases e : g' = (s.mRNA s.m_id).gene
        · rw [e]
          simp only [set1, if_true]
          rw [hI.scld.scld _ hg]
          push_cast
          ring
        · simp only [set1, e, if_false]
          exact hI.scld.scld g' hg'
      · simp only [h10, if_false]
        exact hI.scld.scld g' hg'
    · rw [post_move_tot, post_move_Mf]
      simp only [hm.rid, smps, hm.mid, hm.tot, hm.Mf, hgm]
      by_cases h10 : (s.Ribo s.r_id).pos + 1 = 10
      · simp only [h10, if_true]
        have e : (fun g' => ((set1 s.Mf (s.mRNA s.m_id).gene (s.Mf (s.mRNA s.m_id).gene + 1) g'
            : Nat) : ℚ) * (cfg.Gene g').ini_prob)
            = set1 (fun g' => (s.Mf g' : ℚ) * (cfg.Gene g').ini_prob) (s.mRNA s.m_id).gene
                (((s.Mf (s.mRNA s.m_id).gene : ℚ) + 1) *
                  (cfg.Gene (s.mRNA s.m_id).gene).ini_prob) := by
          funext g'
          by_cases e : g' = (s.mRNA s.m_id).gene
          · rw [e]; simp [set1]
          · simp [set1, e]
        rw [e, sum_set1 _ _ _ _ hg, hI.scld.tot]
        ring
      · simp only [h10, if_false]
        exact hI.scld.tot

/-! ## Compaction restores the invariant (lines 761-776) -/

theorem Inv.of_hole_last {cfg : Config} {s : State} (h : InvHole cfg s)
    (hrl : s.r_id = s.next_avail_ribo - 1) : Inv cfg (compact cfg s) := by
  have hN := h.hole_lt
  have hA : ∀ i, (i < s.next_avail_ribo ∧ i ≠ s.r_id) ↔ i < s.next_avail_ribo - 1 := by
    intro i; omega
  have hel : elongatable cfg (compact cfg s) = elongatable cfg s := by
    funext i
    simp only [elongatable, tlen_eq, compact_mRNA, compact_last_Ribo cfg s hrl,
      compact_last_grid cfg s hrl]
  refine ⟨?_, ?_, ?_, ?_, ?_, ?_, ?_, ?_, ?_⟩
  · have := h.rf
    simp only [compact_Rf, compact_N]
    omega
  · have := h.rf_pos
    simp only [compact_Rf]
    omega
  · intro m hm; simp only [compact_mRNA]; exact h.gene_lt m hm
  · have := h.grid
    unfold GInv at this ⊢
    have hl : tlen cfg (compact cfg s) = tlen cfg s := by funext m; simp
    rw [hl, compact_last_Ribo cfg s hrl, compact_last_grid cfg s hrl, compact_N]
    exact this.congr_A hA
  · have := h.foot
    unfold Footprint at this ⊢
    have hl : tlen cfg (compact cfg s) = tlen cfg s := by funext m; simp
    rw [hl, compact_last_grid cfg s hrl]
    exact this
  · rw [compact_last_Ribo cfg s hrl, compact_last_Rb_e cfg s hrl, compact_n_Rb_e, compact_N, hel]
    refine h.queue.congr_P ?_
    intro i
    rw [hA]
  · intro i hi he
    rw [compact_N] at hi
    rw [hel] at he
    have := h.codon i (by omega) (by omega) he
    simpa [compact_last_Ribo cfg s hrl] using this
  · have := h.free
    unfold FInv at this ⊢
    have heg : eligible cfg (compact cfg s) = eligible cfg s := by
      funext m; simp only [eligible, compact_last_grid cfg s hrl]
    rw [compact_mRNA, compact_free_mRNA, compact_Mf, heg]
    exact this
  · refine ⟨?_, ?_⟩
    · intro g hg; simp only [compact_scld_Mf, compact_Mf]; exact h.scld.scld g hg
    · simp only [compact_tot_scld_Mf, compact_Mf]; exact h.scld.tot

theorem Inv.of_hole_move {cfg : Config} {s : State} (h : InvHole cfg s)
    (hrl : s.r_id ≠ s.next_avail_ribo - 1) : Inv cfg (compact cfg s) := by
  have hN := h.hole_lt
  have hrE := h.hole_ltE
  have hB : s.next_avail_ribo - 1 < s.next_avail_ribo ∧ s.next_avail_ribo - 1 ≠ s.r_id :=
    ⟨by omega, fun e => hrl e.symm⟩
  obtain ⟨l1, l2, l3⟩ := h.grid.cell _ hB
  have hlE := h.grid.act_lt _ hB
  simp only [tlen_eq] at l2
  have hA : ∀ i, (i = s.r_id ∨ ((i < s.next_avail_ribo ∧ i ≠ s.r_id) ∧
      i ≠ s.next_avail_ribo - 1)) ↔ i < s.next_avail_ribo - 1 := by
    intro i; omega
  have fmr : ∀ i, ((compact cfg s).Ribo i).mRNA =
      if i = s.r_id then (s.Ribo (s.next_avail_ribo - 1)).mRNA else (s.Ribo i).mRNA := by
    intro i; rw [compact_move_Ribo cfg s hrl]; simp only [set1]; split <;> rfl
  have fps : ∀ i, ((compact cfg s).Ribo i).pos =
      if i = s.r_id then (s.Ribo (s.next_avail_ribo - 1)).pos else (s.Ribo i).pos := by
    intro i; rw [compact_move_Ribo cfg s hrl]; simp only [set1]; split <;> rfl
  have fcod : ∀ i, ((compact cfg s).Ribo i).elng_cod_list =
      if i = s.r_id then
        (cfg.Gene (s.mRNA (s.Ribo (s.next_avail_ribo - 1)).mRNA).gene).seq
          (s.Ribo (s.next_avail_ribo - 1)).pos
      else (s.Ribo i).elng_cod_list := by
    intro i; rw [compact_move_Ribo cfg s hrl]; simp only [set1]; split <;> rfl
  have fgrid := compact_move_grid cfg s hrl
  have hl : tlen cfg (compact cfg s) = tlen cfg s := by funext m; simp
  have hempty : ∀ m p, (set2 s.R_grid (s.Ribo (s.next_avail_ribo - 1)).mRNA
      (s.Ribo (s.next_avail_ribo - 1)).pos s.r_id m p = cfg.tot_ribo ↔
      s.R_grid m p = cfg.tot_ribo) := by
    intro m p
    by_cases e : m = (s.Ribo (s.next_avail_ribo - 1)).mRNA ∧
        p = (s.Ribo (s.next_avail_ribo - 1)).pos
    · rw [e.1, e.2]
      simp only [set2, and_self, if_true, l3]
      omega
    · simp only [set2, e, if_false]
  have hel : ∀ i, elongatable cfg (compact cfg s) i ↔
      elongatable cfg s (if i = s.r_id then s.next_avail_ribo - 1 else i) := by
    intro i
    unfold elongatable
    rw [hl, fgrid, fmr, fps, hempty]
    by_cases hi : i = s.r_id
    · simp only [hi, if_true]
    · simp only [hi, if_false]
  refine ⟨?_, ?_, ?_, ?_, ?_, ?_, ?_, ?_, ?_⟩
  · have := h.rf
    simp only [compact_Rf, compact_N]
    omega
  · have := h.rf_pos
    simp only [compact_Rf]
    omega
  · intro m hm; simp only [compact_mRNA]; exact h.gene_lt m hm
  · unfold GInv
    rw [hl, fgrid, compact_N]
    refine (GInvR.rename h.grid s.r_id (s.next_avail_ribo - 1) hB (by simp) hrE
      (by simp [fmr]) (by simp [fps]) ?_).congr_A hA
    intro i hi
    simp [fmr, fps, hi]
  · unfold Footprint
    rw [hl, fgrid]
    exact FootR.of_occ h.foot (fun m p e => (hempty m p).mpr e)
  · rw [compact_move_Ribo cfg s hrl, compact_move_Rb_e cfg s hrl, compact_n_Rb_e, compact_N]
    have hq := QInv.compact h.queue s.r_id (s.next_avail_ribo - 1)
      ((cfg.Gene (s.mRNA (s.Ribo (s.next_avail_ribo - 1)).mRNA).gene).seq
        (s.Ribo (s.next_avail_ribo - 1)).pos)
      { mRNA := (s.Ribo (s.next_avail_ribo - 1)).mRNA,
        pos := (s.Ribo (s.next_avail_ribo - 1)).pos,
        t_trans_ini := (s.Ribo (s.next_avail_ribo - 1)).t_trans_ini,
        t_elong_ini := (s.Ribo (s.next_avail_ribo - 1)).t_elong_ini,
        elng_cod_list := (cfg.Gene (s.mRNA (s.Ribo (s.next_avail_ribo - 1)).mRNA).gene).seq
          (s.Ribo (s.next_avail_ribo - 1)).pos,
        elng_pos_list := (s.Ribo (s.next_avail_ribo - 1)).elng_pos_list }
      ((set2 s.R_grid (s.Ribo (s.next_avail_ribo - 1)).mRNA
            (s.Ribo (s.next_avail_ribo - 1)).pos s.r_id) (s.Ribo (s.next_avail_ribo - 1)).mRNA
            ((s.Ribo (s.next_avail_ribo - 1)).pos + 10) = cfg.tot_ribo ∨
          (s.Ribo (s.next_avail_ribo - 1)).pos + 10 ≥
            (cfg.Gene (s.mRNA (s.Ribo (s.next_avail_ribo - 1)).mRNA).gene).len)
      (by simp)
      (by
        rw [hempty]
        unfold elongatable
        simp only [tlen_eq, hB, true_and, ne_eq, not_false_eq_true]
        exact or_comm)
      (by
        intro hP
        have := h.codon _ hB.1 hB.2 hP.2
        simpa using this)
      rfl rfl
    refine hq.congr_P ?_
    intro j
    rw [hel]
    by_cases hj : j = s.r_id
    · simp only [hj, if_true, hB, true_and, ne_eq, not_false_eq_true]
      constructor
      · intro e; exact ⟨by omega, e⟩
      · intro e; exact e.2
    · simp only [hj, if_false]
      constructor
      · rintro ⟨e1, ⟨e2, _⟩, e3⟩; exact ⟨by omega, e3⟩
      · rintro ⟨e1, e2⟩; exact ⟨by omega, ⟨by omega, hj⟩, e2⟩
  · intro i hi he
    rw [compact_N] at hi
    rw [hel] at he
    rw [fcod, fmr, fps]
    simp only [codon_at_eq, compact_mRNA]
    by_cases hj : i = s.r_id
    · simp only [hj, if_true]
    · simp only [hj, if_false] at he ⊢
      have := h.codon i (by omega) hj he
      simpa using this
  · have := h.free
    unfold FInv at this ⊢
    have heg : eligible cfg (compact cfg s) = eligible cfg s := by
      funext m
      simp only [eligible, fgrid, hempty]
    rw [compact_mRNA, compact_free_mRNA, compact_Mf, heg]
    exact this
  · refine ⟨?_, ?_⟩
    · intro g hg; simp only [compact_scld_Mf, compact_Mf]; exact h.scld.scld g hg
    · simp only [compact_tot_scld_Mf, compact_Mf]; exact h.scld.tot

theorem Inv.of_hole {cfg : Config} {s : State} (h : InvHole cfg s) : Inv cfg (compact cfg s) := by
  by_cases hrl : s.r_id = s.next_avail_ribo - 1
  · exact Inv.of_hole_last h hrl
  · exact Inv.of_hole_move h hrl

/-! ## Termination keeps the invariant (lines 725-777) -/

theorem InvHole.of_term {cfg : Config} {s : State} {x : Nat} (h : Picked cfg s x)
    (hL : LenOK cfg)
    (ht : (s.Ribo s.r_id).pos + 1 = (cfg.Gene (s.mRNA s.m_id).gene).len) :
    InvHole cfg (promote cfg (term_stats cfg (queue_remove (term_clear cfg s) s.c_id x))
      s.m_id ((s.Ribo s.r_id).pos + 1 - 11)) := by
  have hrN := h.lt_N
  have hrE := h.lt_E
  have hmT := h.m_lt
  have hcell := h.at_cell
  have hmid := h.mid
  have hI := h.inv
  have hocc : s.R_grid s.m_id (s.Ribo s.r_id).pos ≠ cfg.tot_ribo := by rw [hcell]; omega
  have hp10 : 10 ≤ (s.Ribo s.r_id).pos := by
    have := hL _ (hI.gene_lt _ hmT)
    omega
  have hne : ¬ ((s.Ribo s.r_id).pos + 1 - 11 = (s.Ribo s.r_id).pos) := by omega
  have fgrid : (promote cfg (term_stats cfg (queue_remove (term_clear cfg s) s.c_id x))
      s.m_id ((s.Ribo s.r_id).pos + 1 - 11)).R_grid =
      set2 s.R_grid s.m_id (s.Ribo s.r_id).pos cfg.tot_ribo := by simp
  have fmr : ∀ i, ((promote cfg (term_stats cfg (queue_remove (term_clear cfg s) s.c_id x))
      s.m_id ((s.Ribo s.r_id).pos + 1 - 11)).Ribo i).mRNA = (s.Ribo i).mRNA := by
    intro i; simp
  have fps : ∀ i, ((promote cfg (term_stats cfg (queue_remove (term_clear cfg s) s.c_id x))
      s.m_id ((s.Ribo s.r_id).pos + 1 - 11)).Ribo i).pos =
      if i = s.r_id then (s.Ribo s.r_id).pos + 1 else (s.Ribo i).pos := by
    intro i; simp
  have fgene : ∀ m, ((promote cfg (term_stats cfg (queue_remove (term_clear cfg s) s.c_id x))
      s.m_id ((s.Ribo s.r_id).pos + 1 - 11)).mRNA m).gene = (s.mRNA m).gene := by
    intro m; simp
  have fN : (promote cfg (term_stats cfg (queue_remove (term_clear cfg s) s.c_id x))
      s.m_id ((s.Ribo s.r_id).pos + 1 - 11)).next_avail_ribo = s.next_avail_ribo := by simp
  have frid : (promote cfg (term_stats cfg (queue_remove (term_clear cfg s) s.c_id x))
      s.m_id ((s.Ribo s.r_id).pos + 1 - 11)).r_id = s.r_id := by simp
  have hl : tlen cfg (promote cfg (term_stats cfg (queue_remove (term_clear cfg s) s.c_id x))
      s.m_id ((s.Ribo s.r_id).pos + 1 - 11)) = tlen cfg s := by
    funext m; simp
  have g3grid : (term_stats cfg (queue_remove (term_clear cfg s) s.c_id x)).R_grid
      s.m_id ((s.Ribo s.r_id).pos + 1 - 11) = s.R_grid s.m_id ((s.Ribo s.r_id).pos + 1 - 11) := by
    simp only [term_stats_R_grid, queue_remove_R_grid, term_clear_grid, set2, hne, and_false,
      if_false]
  -- the promoted ribosome is the one ten codons behind the vacated cell
  have hprom : ∀ j, ((s.R_grid s.m_id ((s.Ribo s.r_id).pos + 1 - 11) < cfg.tot_ribo ∧
        j = s.R_grid s.m_id ((s.Ribo s.r_id).pos + 1 - 11)) ↔
      (j < s.next_avail_ribo ∧ j ≠ s.r_id ∧ (s.Ribo j).mRNA = s.m_id ∧
        (s.Ribo j).pos + 10 = (s.Ribo s.r_id).pos)) := by
    intro j
    constructor
    · rintro ⟨h2, h3⟩
      obtain ⟨o1, o2, o3⟩ := hI.grid.occ s.m_id ((s.Ribo s.r_id).pos + 1 - 11) hmT
        (by simp only [tlen_eq]; omega) (by omega)
      rw [← h3] at o1 o2 o3
      refine ⟨o1, ?_, o2, by omega⟩
      intro e
      rw [e] at o3
      omega
    · rintro ⟨h1, h2, h3, h4⟩
      obtain ⟨c1, c2, c3⟩ := hI.grid.cell j h1
      have e3 : (s.Ribo s.r_id).pos + 1 - 11 = (s.Ribo j).pos := by omega
      rw [e3, ← h3, c3]
      exact ⟨hI.grid.act_lt j h1, rfl⟩
  have helF : ∀ i, i < s.next_avail_ribo → i ≠ s.r_id →
      (elongatable cfg (promote cfg (term_stats cfg (queue_remove (term_clear cfg s) s.c_id x))
          s.m_id ((s.Ribo s.r_id).pos + 1 - 11)) i ↔
        (elongatable cfg s i ∨
          ((s.Ribo i).mRNA = s.m_id ∧ (s.Ribo i).pos + 10 = (s.Ribo s.r_id).pos))) := by
    intro i hi hir
    unfold elongatable
    rw [hl, fgrid, fmr, fps]
    simp only [hir, if_false, tlen_eq]
    by_cases hb : (s.Ribo i).mRNA = s.m_id ∧ (s.Ribo i).pos + 10 = (s.Ribo s.r_id).pos
    · simp [set2, hb.1, hb.2]
    · simp only [set2, hb, if_false, or_false]
  refine ⟨?_, ?_, ?_, ?_, ?_, ?_, ?_, ?_, ?_, ?_, ?_⟩
  · have := hI.rf
    simp
    omega
  · have := hI.rf_nn
    simp
    omega
  · rw [frid, fN]; exact hrN
  · rw [frid]; exact hrE
  · intro m hm; rw [fgene]; exact hI.gene_lt m hm
  · unfold GInv
    rw [hl, fgrid, fN, frid]
    have hclear := @GInvR.clear _ _ _ _ _
      (fun i => ((promote cfg (term_stats cfg (queue_remove (term_clear cfg s) s.c_id x))
        s.m_id ((s.Ribo s.r_id).pos + 1 - 11)).Ribo i).mRNA)
      (fun i => ((promote cfg (term_stats cfg (queue_remove (term_clear cfg s) s.c_id x))
        s.m_id ((s.Ribo s.r_id).pos + 1 - 11)).Ribo i).pos) _ _
      hI.grid s.r_id hrN (fun i hi => by simp [hi])
    simp only [← hmid] at hclear
    exact hclear
  · unfold Footprint
    rw [hl, fgrid]
    refine FootR.of_occ hI.foot ?_
    intro m p hp
    simp only [set2]; split
    · rfl
    · exact hp
  · rw [fN, frid]
    have g0 := hI.queue.to_ghost s.c_id x h.cid h.slot
    have g1 : QInv 61 (term_clear cfg s).Ribo (term_clear cfg s).Rb_e (term_clear cfg s).n_Rb_e
        (fun j => (j < s.next_avail_ribo ∧ elongatable cfg s j) ∧ j ≠ s.Rb_e s.c_id x)
        (some (s.c_id, x)) := by
      simp only [term_clear_Rb_e, term_clear_n_Rb_e]
      exact g0.frame (fun j _ => by simp)
    have g2 := g1.remove
    have g3 : QInv 61 (term_stats cfg (queue_remove (term_clear cfg s) s.c_id x)).Ribo
        (term_stats cfg (queue_remove (term_clear cfg s) s.c_id x)).Rb_e
        (term_stats cfg (queue_remove (term_clear cfg s) s.c_id x)).n_Rb_e
        (fun j => (j < s.next_avail_ribo ∧ elongatable cfg s j) ∧ j ≠ s.Rb_e s.c_id x)
        none := by
      simp only [term_stats_Ribo, term_stats_Rb_e, term_stats_n_Rb_e]
      exact g2
    have g4 := promote_QInv cfg _ s.m_id ((s.Ribo s.r_id).pos + 1 - 11) _ none g3 (by
      intro h2
      rw [g3grid] at h2 ⊢
      obtain ⟨u1, u2, u3, u4⟩ := (hprom _).mp ⟨h2, rfl⟩
      simp only [u1, true_and, ← h.rid, u2, ne_eq, not_false_eq_true, and_true]
      intro hu
      unfold elongatable at hu
      simp only [tlen_eq] at hu
      rw [u3, u4] at hu
      rcases hu with hu | hu
      · omega
      · exact hocc hu) (by
      intro _
      simp only [term_stats_gene, queue_remove_mRNA, term_clear_mRNA]
      exact h.cod_ok _ (hI.gene_lt _ hmT) _ (by omega))
    refine g4.congr_P ?_
    intro j
    rw [g3grid, hprom j, ← h.rid]
    by_cases hjN : j < s.next_avail_ribo
    · by_cases hjr : j = s.r_id
      · simp [hjr]
      · rw [helF j hjN hjr]
        simp [hjN, hjr]
    · simp [hjN]
  · intro i hi hir he
    rw [fN] at hi
    rw [frid] at hir
    rw [helF i hi hir] at he
    rw [promote_ecod', fmr, fps, g3grid]
    simp only [hprom i, codon_at_eq, fgene, hir, if_false, hi, ne_eq, not_false_eq_true,
      true_and]
    by_cases hu : (s.Ribo i).mRNA = s.m_id ∧ (s.Ribo i).pos + 10 = (s.Ribo s.r_id).pos
    · rw [if_pos hu, hu.1]
      simp only [term_stats_gene, queue_remove_mRNA, term_clear_mRNA]
      congr 1
      omega
    · rw [if_neg hu]
      rcases he with he | he
      · have := hI.codon i hi he
        simpa using this
      · exact absurd he hu
  · have := hI.free
    unfold FInv at this ⊢
    have hgof : (fun m => ((promote cfg (term_stats cfg (queue_remove (term_clear cfg s) s.c_id x))
        s.m_id ((s.Ribo s.r_id).pos + 1 - 11)).mRNA m).gene) = (fun m => (s.mRNA m).gene) :=
      funext fgene
    have heg : eligible cfg (promote cfg (term_stats cfg (queue_remove (term_clear cfg s)
        s.c_id x)) s.m_id ((s.Ribo s.r_id).pos + 1 - 11)) = eligible cfg s := by
      funext m
      simp only [eligible, fgrid]
      apply propext
      constructor
      · intro hall q hq
        have hq2 : q ≠ (s.Ribo s.r_id).pos := by omega
        simpa [set2, hq2] using hall q hq
      · intro hall q hq
        have hq2 : q ≠ (s.Ribo s.r_id).pos := by omega
        simpa [set2, hq2] using hall q hq
    rw [hgof, heg]
    simpa using this
  · refine ⟨?_, ?_⟩
    · intro g hg; simpa using hI.scld.scld g hg
    · simpa using hI.scld.tot

theorem terminate_eq (cfg : Config) (s : State) (x : Nat) :
    terminate cfg s x =
      compact cfg (promote cfg (term_stats cfg (queue_remove (term_clear cfg s) s.c_id x))
        s.m_id ((s.Ribo s.r_id).pos + 1 - 11)) := by
  simp [terminate]

theorem Inv.terminate {cfg : Config} {s : State} {x : Nat} (h : Picked cfg s x)
    (hL : LenOK cfg)
    (ht : (s.Ribo s.r_id).pos + 1 = (cfg.Gene (s.mRNA s.m_id).gene).len) :
    Inv cfg (SMoPT.terminate cfg s x) := by
  rw [terminate_eq]
  exact Inv.of_hole (InvHole.of_term h hL ht)

/-! ## One event and one tick keep the invariant -/

theorem Inv.elng_step {cfg : Config} {s s' : State} {x : Nat} (h : Inv cfg s)
    (hL : LenOK cfg) (hC : CodonOK cfg) (hc : s.c_id < 61) (hx : x < s.n_Rb_e s.c_id)
    (he : elng_event cfg s x = some s') : Inv cfg s' := by
  have hp := Picked.of_inv h hC hc hx
  simp only [elng_event] at he
  split at he
  · rename_i ht
    split at he
    · exact absurd he (by simp)
    · simp only [Option.some.injEq] at he
      rw [← he]
      exact Inv.terminate hp hL ht
  · rename_i hnt
    split at he
    · rename_i hst
      simp only [Option.some.injEq] at he
      rw [← he]
      exact Inv.after_move hp hnt (Moved.still hp hnt) (by simp only [true_iff]; exact hst)
    · rename_i hst
      simp only [Option.some.injEq] at he
      rw [← he]
      exact Inv.after_move hp hnt (Moved.blocked hp) (by simp only [false_iff]; exact hst)

theorem Inv.elongation_step {cfg : Config} {s s' : State} (h : Inv cfg s)
    (hL : LenOK cfg) (hC : CodonOK cfg) (relng : Nat → ℚ) (inv_rate prob_ini coin : ℚ)
    (randx : Nat) (he : elongation cfg s relng inv_rate prob_ini coin randx = some s') :
    Inv cfg s' := by
  simp only [elongation] at he
  split at he
  · exact absurd he (by simp)
  · rename_i hg
    obtain ⟨a, ha, hs⟩ := Option.map_eq_some'.mp he
    rw [← hs]
    refine Inv.snapshot (Inv.elng_step (s := { s with c_id := _ }) ?_ hL hC ?_ ?_ ha)
    · apply h.same_core <;> first | rfl | (intro _; rfl)
    · simp only []; omega
    · simp only []
      apply Nat.mod_lt
      omega

theorem gene_loop_lt (s : State) (coin : ℚ) :
    ∀ n c1 p g, gene_loop s coin n c1 p = some g → c1 ≤ g ∧ g < c1 + n := by
  intro n
  induction n with
  | zero => intro c1 p g h; simp [gene_loop] at h
  | succ k ih =>
    intro c1 p g h
    simp only [gene_loop] at h
    split at h
    · simp only [Option.some.injEq] at h
      omega
    · have := ih _ _ _ h
      omega

theorem gene_loop_congr {s s' : State} (h1 : s'.scld_Mf = s.scld_Mf)
    (h2 : s'.tot_scld_Mf = s.tot_scld_Mf) (coin : ℚ) :
    ∀ n c1 p, gene_loop s' coin n c1 p = gene_loop s coin n c1 p := by
  intro n
  induction n with
  | zero => intro c1 p; rfl
  | succ k ih =>
    intro c1 p
    simp only [gene_loop, h1, h2, ih]

theorem Inv.initiation_step {cfg : Config} {s s' : State} (h : Inv cfg s)
    (hL : LenOK cfg) (hC : CodonOK cfg) (r2 r3 : Nat) (hRf : 1 ≤ s.Rf)
    (hpick : (gene_loop s (coin_of cfg r2) cfg.n_genes 0 0).isSome = true)
    (he : initiation cfg s r2 r3 = some s') : Inv cfg s' := by
  simp only [initiation] at he
  have hgl : gene_loop (ini_alloc s) ((r2 : ℚ) / (cfg.RAND_MAX : ℚ)) cfg.n_genes 0 0 =
      gene_loop s (coin_of cfg r2) cfg.n_genes 0 0 :=
    gene_loop_congr (by simp) (by simp) _ _ _ _
  rw [hgl] at he
  cases hg : gene_loop s (coin_of cfg r2) cfg.n_genes 0 0 with
  | none => rw [hg] at hpick; exact absurd hpick (by simp)
  | some g =>
    rw [hg] at he
    simp only [ini_alloc_Mf] at he
    split at he
    · exact absurd he (by simp)
    · rename_i hM
      simp only [Option.some.injEq] at he
      rw [← he]
      have hlt := gene_loop_lt s _ _ _ _ _ hg
      exact Inv.initiate h hL hC g _ hRf (by omega) (Nat.mod_lt _ (by omega))

theorem ini_branch_Rf {cfg : Config} {s : State} {r1 : Nat} (hb : ini_branch cfg s r1)
    (h0 : 0 ≤ s.Rf) : 1 ≤ s.Rf := by
  by_contra hlt
  have hz : s.Rf = 0 := by omega
  unfold ini_branch r_ini coin_of at hb
  rw [hz] at hb
  simp only [Int.cast_zero, mul_zero, zero_div, zero_mul] at hb
  have : (0 : ℚ) ≤ (r1 : ℚ) / (cfg.RAND_MAX : ℚ) :=
    div_nonneg (Nat.cast_nonneg _) (Nat.cast_nonneg _)
  exact absurd hb (not_lt.mpr this)

theorem Inv.tick_step {cfg : Config} {s s' : State} (h : Inv cfg s)
    (hL : LenOK cfg) (hC : CodonOK cfg) (r1 r2 r3 : Nat) (hp : gene_picked cfg s r1 r2)
    (ht : tick cfg s r1 r2 r3 = some s') : Inv cfg s' := by
  simp only [tick] at ht
  split at ht
  · exact absurd ht (by simp)
  · split at ht
    · rename_i hb
      refine Inv.initiation_step (h.advance _) hL hC r2 r3 ?_ ?_ ht
      · simpa using ini_branch_Rf hb h.rf_nn
      · have := hp hb
        rw [gene_loop_congr (s := s) (by simp) (by simp)]
        exact this
    · exact Inv.elongation_step (h.advance _) hL hC _ _ _ _ _ ht

/-! ## The first loop head satisfies the invariant -/

theorem mRNA_start_mono (G : Nat → gene) : ∀ n g, g ≤ n → mRNA_start G g ≤ mRNA_start G n := by
  intro n
  induction n with
  | zero => intro g hg; have : g = 0 := by omega
            rw [this]
  | succ k ih =>
    intro g hg
    by_cases e : g = k + 1
    · rw [e]
    · have := ih g (by omega)
      simp only [mRNA_start]
      omega

theorem init_mRNA_spec (G : Nat → gene) (U : Nat → transcript) :
    ∀ n m, m < mRNA_start G n →
      ∃ g, g < n ∧ mRNA_start G g ≤ m ∧ m < mRNA_start G g + (G g).exp ∧
        (init_mRNA G U n m).gene = g := by
  intro n
  induction n with
  | zero => intro m hm; simp [mRNA_start] at hm
  | succ k ih =>
    intro m hm
    simp only [mRNA_start] at hm
    by_cases hc : mRNA_start G k ≤ m ∧ m < mRNA_start G k + (G k).exp
    · refine ⟨k, by omega, hc.1, hc.2, ?_⟩
      simp [init_mRNA, hc]
    · obtain ⟨g, h1, h2, h3, h4⟩ := ih m (by omega)
      refine ⟨g, by omega, h2, h3, ?_⟩
      simp only [init_mRNA]
      rw [if_neg hc]
      exact h4

theorem init_mRNA_at (G : Nat → gene) (U : Nat → transcript) (n g i : Nat) (hg : g < n)
    (hi : i < (G g).exp) :
    mRNA_start G g + i < mRNA_start G n ∧ (init_mRNA G U n (mRNA_start G g + i)).gene = g := by
  have h1 : mRNA_start G (g + 1) ≤ mRNA_start G n := mRNA_start_mono G n (g + 1) (by omega)
  simp only [mRNA_start] at h1
  have hlt : mRNA_start G g + i < mRNA_start G n := by omega
  refine ⟨hlt, ?_⟩
  obtain ⟨g', e1, e2, e3, e4⟩ := init_mRNA_spec G U n _ hlt
  rw [e4]
  by_contra hne
  rcases Nat.lt_or_gt_of_ne hne with hlt' | hgt'
  · have := mRNA_start_mono G g (g' + 1) (by omega)
    simp only [mRNA_start] at this
    omega
  · have := mRNA_start_mono G g' (g + 1) (by omega)
    simp only [mRNA_start] at this
    omega

theorem init_tot_scld_eq (G : Nat → gene) :
    ∀ n, init_tot_scld G n = ∑ g in Finset.range n, ((G g).exp : ℚ) * (G g).ini_prob := by
  intro n
  induction n with
  | zero => simp [init_tot_scld]
  | succ k ih => rw [Finset.sum_range_succ, ← ih]; rfl

theorem Inv.init {cfg : Config} (U : State) (hL : LenOK cfg) : Inv cfg (SMoPT.init cfg U) := by
  have hgrid : ∀ m p, m < tot_mRNA cfg →
      p < (cfg.Gene (init_mRNA cfg.Gene U.mRNA cfg.n_genes m).gene).len →
      (SMoPT.init cfg U).R_grid m p = cfg.tot_ribo := by
    intro m p hm hp
    simp [SMoPT.init, hm, hp]
  have hgene : ∀ m, m < tot_mRNA cfg →
      (init_mRNA cfg.Gene U.mRNA cfg.n_genes m).gene < cfg.n_genes := by
    intro m hm
    obtain ⟨g, h1, _, _, h4⟩ := init_mRNA_spec cfg.Gene U.mRNA cfg.n_genes m hm
    omega
  refine ⟨?_, ?_, ?_, ?_, ?_, ?_, ?_, ?_, ?_⟩
  · simp [SMoPT.init]
  · simp [SMoPT.init]
  · exact hgene
  · refine ⟨?_, ?_, ?_⟩
    · intro i hi; simp [SMoPT.init] at hi
    · intro i hi; simp [SMoPT.init] at hi
    · intro m p hm hp hne
      exact absurd (hgrid m p hm hp) hne
  · intro m p q hm _ hq _ _
    exact hgrid m q hm hq
  · refine ⟨by simp, ?_, ?_⟩
    · intro c i hc hi
      simp [SMoPT.init, hc] at hi
    · intro r hr
      simp [SMoPT.init] at hr
  · intro i hi
    simp [SMoPT.init] at hi
  · refine ⟨?_, ?_, ?_⟩
    · intro g i hg hi
      have hi' : i < (cfg.Gene g).exp := by simpa [SMoPT.init, hg] using hi
      have hf : (SMoPT.init cfg U).free_mRNA g i = mRNA_start cfg.Gene g + i := by
        simp [SMoPT.init, hg, hi']
      obtain ⟨a1, a2⟩ := init_mRNA_at cfg.Gene U.mRNA cfg.n_genes g i hg hi'
      rw [hf]
      refine ⟨a1, a2, ?_⟩
      intro p hp
      apply hgrid _ _ a1
      rw [a2]
      have := hL g hg
      omega
    · intro g i j hg hi hj e
      have hi' : i < (cfg.Gene g).exp := by simpa [SMoPT.init, hg] using hi
      have hj' : j < (cfg.Gene g).exp := by simpa [SMoPT.init, hg] using hj
      simp [SMoPT.init, hg, hi', hj'] at e
      exact e
    · intro m hm _
      obtain ⟨g, h1, h2, h3, h4⟩ := init_mRNA_spec cfg.Gene U.mRNA cfg.n_genes m hm
      refine ⟨m - mRNA_start cfg.Gene g, ?_, ?_⟩
      · simp only [SMoPT.init, h4, h1, if_true]
        omega
      · have : m - mRNA_start cfg.Gene g < (cfg.Gene g).exp := by omega
        simp only [SMoPT.init, h4, h1, this, and_self, if_true]
        omega
  · refine ⟨?_, ?_⟩
    · intro g hg
      simp [SMoPT.init, hg]
    · simp only [SMoPT.init]
      rw [init_tot_scld_eq]
      apply Finset.sum_congr rfl
      intro g hg
      have := Finset.mem_range.mp hg
      simp [this]

theorem Run.inv {cfg : Config} {U s : State} (hL : LenOK cfg) (hC : CodonOK cfg)
    (h : Run cfg U s) : Inv cfg s := by
  induction h with
  | init => exact Inv.init U hL
  | tick r1 r2 r3 _ ht hp ih => exact ih.tick_step hL hC r1 r2 r3 hp ht

/-! ## Counters of the handlers -/

@[simp] theorem move_still_Rf (cfg : Config) (s : State) (x : Nat) :
    (move_still cfg s x).Rf = s.Rf := by
  simp only [move_still]; split <;> simp

@[simp] theorem move_still_N (cfg : Config) (s : State) (x : Nat) :
    (move_still cfg s x).next_avail_ribo = s.next_avail_ribo := by
  simp only [move_still]; split <;> simp

@[simp] theorem move_blocked_Rf (cfg : Config) (s : State) (x : Nat) :
    (move_blocked cfg s x).Rf = s.Rf := by
  simp [move_blocked]

@[simp] theorem move_blocked_N (cfg : Config) (s : State) (x : Nat) :
    (move_blocked cfg s x).next_avail_ribo = s.next_avail_ribo := by
  simp [move_blocked]

@[simp] theorem move_still_Tf (cfg : Config) (s : State) (x : Nat) :
    (move_still cfg s x).Tf =
      set1 s.Tf (cfg.cTRNA s.c_id).tid (s.Tf (cfg.cTRNA s.c_id).tid - 1) := by
  simp only [move_still]; split <;> simp

@[simp] theorem move_blocked_Tf (cfg : Config) (s : State) (x : Nat) :
    (move_blocked cfg s x).Tf =
      set1 s.Tf (cfg.cTRNA s.c_id).tid (s.Tf (cfg.cTRNA s.c_id).tid - 1) := by
  simp [move_blocked]

@[simp] theorem terminate_Rf (cfg : Config) (s : State) (x : Nat) :
    (terminate cfg s x).Rf = s.Rf + 1 := by
  simp [terminate]

@[simp] theorem terminate_N (cfg : Config) (s : State) (x : Nat) :
    (terminate cfg s x).next_avail_ribo = s.next_avail_ribo - 1 := by
  simp [terminate]

@[simp] theorem terminate_Tf (cfg : Config) (s : State) (x : Nat) :
    (terminate cfg s x).Tf = s.Tf := by
  simp [terminate]

theorem elng_event_counters {cfg : Config} {s s' : State} {x : Nat}
    (he : elng_event cfg s x = some s') :
    s'.Rf + (s'.next_avail_ribo : Int) = s.Rf + (s.next_avail_ribo : Int) ∧ s.Rf ≤ s'.Rf := by
  simp only [elng_event] at he
  split at he
  · split at he
    · exact absurd he (by simp)
    · rename_i hg
      simp only [Option.some.injEq] at he
      rw [← he]
      simp only [terminate_Rf, terminate_N, release_tRNA_Rf, pick_ribo_Rf,
        release_tRNA_next_avail_ribo, pick_ribo_next_avail_ribo] at hg ⊢
      omega
  · split at he
    · simp only [Option.some.injEq] at he
      rw [← he]
      simp
    · simp only [Option.some.injEq] at he
      rw [← he]
      simp

theorem initiation_counters {cfg : Config} {s s' : State} {r2 r3 : Nat}
    (he : initiation cfg s r2 r3 = some s') :
    s'.Rf = s.Rf - 1 ∧ s'.next_avail_ribo = s.next_avail_ribo + 1 := by
  simp only [initiation] at he
  split at he
  · split at he
    · exact absurd he (by simp)
    · simp only [Option.some.injEq] at he
      rw [← he]
      simp [ini_place_Rf, ini_place_N]
  · simp only [Option.some.injEq] at he
    rw [← he]
    simp [ini_place_Rf, ini_place_N]

theorem tick_counters {cfg : Config} {s s' : State} {r1 r2 r3 : Nat}
    (ht : tick cfg s r1 r2 r3 = some s')
    (h1 : s.Rf + (s.next_avail_ribo : Int) = (cfg.tot_ribo : Int)) (h2 : 0 ≤ s.Rf) :
    s'.Rf + (s'.next_avail_ribo : Int) = (cfg.tot_ribo : Int) ∧ 0 ≤ s'.Rf := by
  simp only [tick] at ht
  split at ht
  · exact absurd ht (by simp)
  · split at ht
    · rename_i hb
      have hRf := ini_branch_Rf hb h2
      obtain ⟨e1, e2⟩ := initiation_counters ht
      simp only [advance_Rf, advance_next_avail_ribo] at e1 e2
      rw [e1, e2]
      push_cast
      omega
    · simp only [elongation] at ht
      split at ht
      · exact absurd ht (by simp)
      · obtain ⟨a, ha, hs⟩ := Option.map_eq_some'.mp ht
        obtain ⟨e1, e2⟩ := elng_event_counters ha
        dsimp only at e1 e2
        rw [advance_Rf] at e1 e2
        rw [advance_next_avail_ribo] at e1
        rw [← hs]
        simp only [snapshot_Rf, snapshot_next_avail_ribo]
        omega

theorem Reachable.counters {cfg : Config} {U s : State} (h : Reachable cfg U s) :
    s.Rf + (s.next_avail_ribo : Int) = (cfg.tot_ribo : Int) ∧ 0 ≤ s.Rf := by
  induction h with
  | init => simp [SMoPT.init]
  | tick r1 r2 r3 _ ht ih => exact tick_counters ht ih.1 ih.2

/-! ## Conservation of tRNA -/

theorem n_held_sum (cfg : Config) (s : State) (sp : Nat) :
    (n_held cfg s sp : Int) =
      ∑ i in Finset.range s.next_avail_ribo, (if holds_tRNA cfg s sp i then (1 : Int) else 0) := by
  unfold n_held
  rw [Finset.card_filter]
  push_cast
  rfl

theorem sum_range_change (f f' : Nat → Int) (n r : Nat) (hr : r < n)
    (h : ∀ i, i < n → i ≠ r → f' i = f i) :
    ∑ i in Finset.range n, f' i = ∑ i in Finset.range n, f i - f r + f' r := by
  have hm : r ∈ Finset.range n := Finset.mem_range.mpr hr
  rw [← Finset.add_sum_erase _ f' hm, ← Finset.add_sum_erase _ f hm]
  have : ∑ i in (Finset.range n).erase r, f' i = ∑ i in (Finset.range n).erase r, f i := by
    apply Finset.sum_congr rfl
    intro i hi
    have h1 := Finset.mem_erase.mp hi
    exact h i (Finset.mem_range.mp h1.2) h1.1
  rw [this]
  ring

theorem sum_range_compact (f f' : Nat → Int) (n r : Nat) (hr : r < n)
    (h : ∀ i, i < n - 1 → f' i = f (if i = r then n - 1 else i)) :
    ∑ i in Finset.range (n - 1), f' i = ∑ i in Finset.range n, f i - f r := by
  have hn : n = (n - 1) + 1 := by omega
  have hs : ∑ i in Finset.range n, f i = ∑ i in Finset.range (n - 1), f i + f (n - 1) := by
    conv_lhs => rw [hn]
    rw [Finset.sum_range_succ]
  by_cases hl : r = n - 1
  · have : ∑ i in Finset.range (n - 1), f' i = ∑ i in Finset.range (n - 1), f i := by
      apply Finset.sum_congr rfl
      intro i hi
      have hi' := Finset.mem_range.mp hi
      rw [h i hi']
      have : i ≠ r := by omega
      simp [this]
    rw [this, hs, hl]
    ring
  · have hr' : r < n - 1 := by omega
    rw [sum_range_change f f' (n - 1) r hr' (by
      intro i hi hir
      rw [h i hi]
      simp [hir])]
    rw [h r hr', hs]
    simp only [if_true]
    ring

theorem holds_congr {cfg : Config} {s s' : State} {sp i j : Nat}
    (hg : ∀ m, (s'.mRNA m).gene = (s.mRNA m).gene)
    (hm : (s'.Ribo i).mRNA = (s.Ribo j).mRNA) (hp : (s'.Ribo i).pos = (s.Ribo j).pos) :
    holds_tRNA cfg s' sp i ↔ holds_tRNA cfg s sp j := by
  unfold holds_tRNA
  simp only [codon_at_eq, hg, hm, hp]

theorem n_held_congr {cfg : Config} {s s' : State} (sp : Nat)
    (hN : s'.next_avail_ribo = s.next_avail_ribo)
    (hg : ∀ m, (s'.mRNA m).gene = (s.mRNA m).gene)
    (hm : ∀ i, (s'.Ribo i).mRNA = (s.Ribo i).mRNA)
    (hp : ∀ i, (s'.Ribo i).pos = (s.Ribo i).pos) :
    n_held cfg s' sp = n_held cfg s sp := by
  unfold n_held
  rw [hN]
  congr 1
  apply Finset.filter_congr
  intro i _
  exact holds_congr hg (hm i) (hp i)

/-- The pool-size equation for the species `sp` in the state `s`. -/
theorem tf_initiate {cfg : Config} {s : State} (g c2 sp : Nat) :
    (ini_place cfg (ini_stats cfg (ini_pick cfg (ini_alloc s) g c2))).Tf sp +
      (n_held cfg (ini_place cfg (ini_stats cfg (ini_pick cfg (ini_alloc s) g c2))) sp : Int) =
    s.Tf sp + (n_held cfg s sp : Int) := by
  rw [n_held_sum, n_held_sum]
  simp only [ini_place_Tf, ini_place_N, ini_stats_Tf, ini_pick_Tf, ini_alloc_Tf,
    ini_stats_next_avail_ribo, ini_pick_next_avail_ribo, ini_alloc_N]
  rw [Finset.sum_range_succ]
  have hlast : ¬ holds_tRNA cfg (ini_place cfg (ini_stats cfg (ini_pick cfg (ini_alloc s) g c2)))
      sp s.next_avail_ribo := by
    unfold holds_tRNA
    simp [ini_place_ps]
  rw [if_neg hlast, add_zero]
  congr 1
  apply Finset.sum_congr rfl
  intro i hi
  have hi' : i ≠ s.next_avail_ribo := by
    have := Finset.mem_range.mp hi
    omega
  have : holds_tRNA cfg (ini_place cfg (ini_stats cfg (ini_pick cfg (ini_alloc s) g c2))) sp i ↔
      holds_tRNA cfg s sp i := by
    apply holds_congr
    · intro m; simp [ini_place_mRNA]
    · simp [ini_place_mr, hi']
    · simp [ini_place_ps, hi']
  simp only [this]

theorem tf_move {cfg : Config} {s sm : State} {x : Nat} {still : Prop} (h : Picked cfg s x)
    (hm : Moved cfg s sm still) (hTf : sm.Tf =
      set1 s.Tf (cfg.cTRNA s.c_id).tid (s.Tf (cfg.cTRNA s.c_id).tid - 1)) (sp : Nat) :
    (post_move cfg sm).Tf sp + (n_held cfg (post_move cfg sm) sp : Int) =
      s.Tf sp + (n_held cfg s sp : Int) +
        (if (cfg.cTRNA ((cfg.Gene (s.mRNA s.m_id).gene).seq ((s.Ribo s.r_id).pos - 1))).tid = sp ∧
          1 ≤ (s.Ribo s.r_id).pos then -1 else 0) := by
  rw [n_held_sum, n_held_sum]
  simp only [post_move_Tf, post_move_N, hm.N, hTf]
  rw [sum_range_change (fun i => if holds_tRNA cfg s sp i then (1 : Int) else 0) _ _ s.r_id h.lt_N
    (by
      intro i _ hir
      have : holds_tRNA cfg (post_move cfg sm) sp i ↔ holds_tRNA cfg s sp i := by
        apply holds_congr
        · intro m; simp [hm.gene]
        · simp [hm.mr]
        · simp [hm.ps, hir]
      simp only [this])]
  have hr' : holds_tRNA cfg (post_move cfg sm) sp s.r_id ↔ (cfg.cTRNA s.c_id).tid = sp := by
    unfold holds_tRNA
    simp only [codon_at_eq, post_move_mRNA, post_move_mr, post_move_ps, hm.gene, hm.mr, hm.ps,
      move_ribo_ps', if_true, Nat.add_sub_cancel, ← h.mid, h.codon]
    constructor
    · intro e; exact e.2
    · intro e; exact ⟨by omega, e⟩
  have hr : holds_tRNA cfg s sp s.r_id ↔
      ((cfg.cTRNA ((cfg.Gene (s.mRNA s.m_id).gene).seq ((s.Ribo s.r_id).pos - 1))).tid = sp ∧
        1 ≤ (s.Ribo s.r_id).pos) := by
    unfold holds_tRNA
    simp only [codon_at_eq, ← h.mid]
    exact and_comm
  simp only [hr', hr, set1]
  by_cases h1 : (cfg.cTRNA s.c_id).tid = sp
  · subst h1
    simp only [if_true]
    split <;> omega
  · have h1' : ¬ sp = (cfg.cTRNA s.c_id).tid := fun e => h1 e.symm
    simp only [h1, h1', if_false]
    split <;> omega

theorem terminate_slot (cfg : Config) (s : State) (x i : Nat)
    (hi : i < s.next_avail_ribo - 1) :
    ((terminate cfg s x).Ribo i).mRNA =
        (s.Ribo (if i = s.r_id then s.next_avail_ribo - 1 else i)).mRNA ∧
      ((terminate cfg s x).Ribo i).pos =
        (s.Ribo (if i = s.r_id then s.next_avail_ribo - 1 else i)).pos := by
  rw [terminate_eq]
  by_cases hrl : s.r_id = s.next_avail_ribo - 1
  · have hir : i ≠ s.r_id := by omega
    rw [compact_last_Ribo cfg _ (by simpa using hrl)]
    simp [hir]
  · rw [compact_move_Ribo cfg _ (by simpa using hrl)]
    have hl : ¬ (s.next_avail_ribo - 1 = s.r_id) := fun e => hrl e.symm
    by_cases hir : i = s.r_id
    · simp [set1, hir, hl]
    · simp [set1, hir]

theorem tf_term {cfg : Config} {s : State} {x : Nat} (h : Picked cfg s x) (sp : Nat) :
    (terminate cfg s x).Tf sp + (n_held cfg (terminate cfg s x) sp : Int) =
      s.Tf sp + (n_held cfg s sp : Int) +
        (if (cfg.cTRNA ((cfg.Gene (s.mRNA s.m_id).gene).seq ((s.Ribo s.r_id).pos - 1))).tid = sp ∧
          1 ≤ (s.Ribo s.r_id).pos then -1 else 0) := by
  rw [n_held_sum, n_held_sum]
  simp only [terminate_Tf, terminate_N]
  rw [sum_range_compact (fun i => if holds_tRNA cfg s sp i then (1 : Int) else 0) _ _ s.r_id
    h.lt_N (by
      intro i hi
      obtain ⟨e1, e2⟩ := terminate_slot cfg s x i hi
      have : holds_tRNA cfg (terminate cfg s x) sp i ↔
          holds_tRNA cfg s sp (if i = s.r_id then s.next_avail_ribo - 1 else i) := by
        apply holds_congr _ e1 e2
        intro m; simp [terminate]
      simp only [this])]
  have hr : holds_tRNA cfg s sp s.r_id ↔
      ((cfg.cTRNA ((cfg.Gene (s.mRNA s.m_id).gene).seq ((s.Ribo s.r_id).pos - 1))).tid = sp ∧
        1 ≤ (s.Ribo s.r_id).pos) := by
    unfold holds_tRNA
    simp only [codon_at_eq, ← h.mid]
    exact and_comm
  simp only [hr]
  split <;> omega

theorem tf_picked (cfg : Config) (s : State) (x sp : Nat) :
    (release_tRNA cfg (pick_ribo s x)).Tf sp +
        (n_held cfg (release_tRNA cfg (pick_ribo s x)) sp : Int) +
        (if (cfg.cTRNA ((cfg.Gene ((release_tRNA cfg (pick_ribo s x)).mRNA
              (release_tRNA cfg (pick_ribo s x)).m_id).gene).seq
              (((release_tRNA cfg (pick_ribo s x)).Ribo
                (release_tRNA cfg (pick_ribo s x)).r_id).pos - 1))).tid = sp ∧
            1 ≤ ((release_tRNA cfg (pick_ribo s x)).Ribo
              (release_tRNA cfg (pick_ribo s x)).r_id).pos then -1 else 0) =
      s.Tf sp + (n_held cfg s sp : Int) := by
  rw [n_held_congr (s := s) sp (by simp) (by simp) (by simp) (by simp)]
  rw [release_tRNA_Tf']
  simp only [release_tRNA_mRNA, release_tRNA_m_id, release_tRNA_Ribo, release_tRNA_r_id,
    pick_ribo_mRNA, pick_ribo_Ribo, pick_ribo_r_id', pick_ribo_m_id', pick_ribo_Tf]
  by_cases hp : 0 < (s.Ribo (s.Rb_e s.c_id x)).pos
  · have hp' : 1 ≤ (s.Ribo (s.Rb_e s.c_id x)).pos := hp
    simp only [gt_iff_lt, hp, if_true, hp', and_true, set1]
    split
    · rename_i e
      simp only [e, if_true]
      omega
    · rename_i e
      have e' : ¬ (cfg.cTRNA ((cfg.Gene (s.mRNA (s.Ribo (s.Rb_e s.c_id x)).mRNA).gene).seq
          ((s.Ribo (s.Rb_e s.c_id x)).pos - 1))).tid = sp := fun a => e a.symm
      simp only [e', if_false]
      omega
  · have hp' : ¬ 1 ≤ (s.Ribo (s.Rb_e s.c_id x)).pos := hp
    simp only [gt_iff_lt, hp, if_false, hp', and_false]
    omega

theorem tf_elng_step {cfg : Config} {s s' : State} {x : Nat} (h : Inv cfg s)
    (hC : CodonOK cfg) (hc : s.c_id < 61) (hx : x < s.n_Rb_e s.c_id)
    (he : elng_event cfg s x = some s') (sp : Nat) :
    s'.Tf sp + (n_held cfg s' sp : Int) = s.Tf sp + (n_held cfg s sp : Int) := by
  have hp := Picked.of_inv h hC hc hx
  rw [← tf_picked cfg s x sp]
  simp only [elng_event] at he
  split at he
  · split at he
    · exact absurd he (by simp)
    · simp only [Option.some.injEq] at he
      rw [← he]
      exact tf_term hp sp
  · rename_i hnt
    split at he
    · simp only [Option.some.injEq] at he
      rw [← he]
      exact tf_move hp (Moved.still hp hnt) (by simp) sp
    · simp only [Option.some.injEq] at he
      rw [← he]
      exact tf_move hp (Moved.blocked hp) (by simp) sp

theorem tf_elng_at {cfg : Config} {s s' : State} {x : Nat} (h : Inv cfg s)
    (hC : CodonOK cfg) (c : Nat) (hc : c < 61) (hx : x < s.n_Rb_e c)
    (he : elng_event cfg { s with c_id := c } x = some s') (sp : Nat) :
    s'.Tf sp + (n_held cfg s' sp : Int) = s.Tf sp + (n_held cfg s sp : Int) := by
  have hI : Inv cfg { s with c_id := c } := by
    apply h.same_core <;> first | rfl | (intro _; rfl)
  rw [tf_elng_step hI hC hc hx he sp]
  rw [@n_held_congr cfg s { s with c_id := c } sp rfl (fun _ => rfl) (fun _ => rfl)
    (fun _ => rfl)]

theorem tf_elongation_step {cfg : Config} {s s' : State} (h : Inv cfg s)
    (hC : CodonOK cfg) (relng : Nat → ℚ) (inv_rate prob_ini coin : ℚ)
    (randx : Nat) (he : elongation cfg s relng inv_rate prob_ini coin randx = some s')
    (sp : Nat) :
    s'.Tf sp + (n_held cfg s' sp : Int) = s.Tf sp + (n_held cfg s sp : Int) := by
  simp only [elongation] at he
  split at he
  · exact absurd he (by simp)
  · rename_i hg
    obtain ⟨a, ha, hs⟩ := Option.map_eq_some'.mp he
    rw [← hs]
    rw [n_held_congr (s := a) sp (by simp) (by simp) (by simp) (by simp)]
    simp only [snapshot_Tf]
    exact tf_elng_at h hC _ (by omega) (Nat.mod_lt _ (by omega)) ha sp

theorem tf_initiation_step {cfg : Config} {s s' : State} (r2 r3 : Nat)
    (hpick : (gene_loop s (coin_of cfg r2) cfg.n_genes 0 0).isSome = true)
    (he : initiation cfg s r2 r3 = some s') (sp : Nat) :
    s'.Tf sp + (n_held cfg s' sp : Int) = s.Tf sp + (n_held cfg s sp : Int) := by
  simp only [initiation] at he
  have hgl : gene_loop (ini_alloc s) ((r2 : ℚ) / (cfg.RAND_MAX : ℚ)) cfg.n_genes 0 0 =
      gene_loop s (coin_of cfg r2) cfg.n_genes 0 0 :=
    gene_loop_congr (by simp) (by simp) _ _ _ _
  rw [hgl] at he
  cases hg : gene_loop s (coin_of cfg r2) cfg.n_genes 0 0 with
  | none => rw [hg] at hpick; exact absurd hpick (by simp)
  | some g =>
    rw [hg] at he
    dsimp only at he
    split at he
    · exact absurd he (by simp)
    · simp only [Option.some.injEq] at he
      rw [← he, tf_initiate]

theorem tf_tick_step {cfg : Config} {s s' : State} (h : Inv cfg s) (hC : CodonOK cfg)
    (r1 r2 r3 : Nat) (hp : gene_picked cfg s r1 r2) (ht : tick cfg s r1 r2 r3 = some s')
    (sp : Nat) :
    s'.Tf sp + (n_held cfg s' sp : Int) = s.Tf sp + (n_held cfg s sp : Int) := by
  have hadv : ∀ ir, (advance cfg s ir).Tf sp + (n_held cfg (advance cfg s ir) sp : Int) =
      s.Tf sp + (n_held cfg s sp : Int) := by
    intro ir
    rw [n_held_congr (s := s) sp (by simp) (by simp) (by simp) (by simp)]
    simp
  simp only [tick] at ht
  split at ht
  · exact absurd ht (by simp)
  · split at ht
    · rename_i hb
      rw [tf_initiation_step r2 r3 ?_ ht sp, hadv]
      have := hp hb
      rw [gene_loop_congr (s := s) (by simp) (by simp)]
      exact this
    · rw [tf_elongation_step (h.advance _) hC _ _ _ _ _ ht sp, hadv]

theorem Run.tf {cfg : Config} {U s : State} (hL : LenOK cfg) (hC : CodonOK cfg)
    (h : Run cfg U s) (sp : Nat) :
    s.Tf sp + (n_held cfg s sp : Int) = (SMoPT.init cfg U).Tf sp := by
  induction h with
  | init => simp [n_held, SMoPT.init]
  | tick r1 r2 r3 hr ht hp ih =>
    rw [tf_tick_step (hr.inv hL hC) hC r1 r2 r3 hp ht sp]
    exact ih

/-! ## The first tick of the small run -/

theorem rate_upto_idle (cfg : Config) (s : State) :
    ∀ n, (∀ c, c < n → s.n_Rb_e c = 0) → rate_upto cfg s n = r_ini cfg s := by
  intro n
  induction n with
  | zero => intro _; rfl
  | succ k ih =>
    intro h
    simp only [rate_upto]
    rw [ih (fun c hc => h c (by omega))]
    simp [r_elng, h k (by omega)]

theorem lenOK_cfg0 : LenOK cfg0 := by
  intro g _; simp [cfg0]

theorem codonOK_cfg0 : CodonOK cfg0 := by
  intro g _ p _; simp [cfg0]

theorem r_ini_s0 : r_ini cfg0 (init cfg0 U0) = 8000 := by
  simp [r_ini, init, cfg0, init_tot_scld, char_time_ribo]
  norm_num

theorem tot_rate_s0 : tot_rate cfg0 (init cfg0 U0) = 8000 := by
  unfold tot_rate
  rw [rate_upto_idle _ _ 61 (by intro c hc; simp [init, hc]), r_ini_s0]

theorem ini_branch_s0 : ini_branch cfg0 (init cfg0 U0) 0 := by
  unfold ini_branch coin_of
  rw [r_ini_s0, tot_rate_s0]
  norm_num

theorem gene_loop_s0 :
    gene_loop (init cfg0 U0) (coin_of cfg0 0) cfg0.n_genes 0 0 = some 0 := by
  simp [gene_loop, cfg0, coin_of, init, init_tot_scld]

theorem tick_s0 : tick cfg0 (init cfg0 U0) 0 0 0 = some s1 := by
  have hgl : gene_loop (ini_alloc (advance cfg0 (init cfg0 U0) (1 / tot_rate cfg0 (init cfg0 U0))))
      (((0 : Nat) : ℚ) / (cfg0.RAND_MAX : ℚ)) cfg0.n_genes 0 0 = some 0 := by
    rw [gene_loop_congr (s := init cfg0 U0) (by simp) (by simp)]
    exact gene_loop_s0
  have hMf : (ini_alloc (advance cfg0 (init cfg0 U0) (1 / tot_rate cfg0 (init cfg0 U0)))).Mf 0 = 2 := by
    simp [init, cfg0]
  simp only [tick, tot_rate_s0]
  rw [if_neg (by norm_num), if_pos ini_branch_s0]
  simp only [initiation]
  rw [← tot_rate_s0, hgl]
  simp only [hMf]
  rfl

theorem run_s1 : Run cfg0 U0 s1 :=
  Run.tick 0 0 0 Run.init tick_s0 (fun _ => by rw [gene_loop_s0]; rfl)


theorem init_tot_gcn_cfg0 : ∀ n, init_tot_gcn cfg0 n = n := by
  intro n
  induction n with
  | zero => rfl
  | succ k ih =>
    simp only [init_tot_gcn, ih]
    simp [cfg0]

theorem init_Tf_cfg0 (U : Nat → Int) (c : Nat) : init_Tf cfg0 U (c + 1) 0 = 5 := by
  simp only [init_Tf]
  rw [init_tot_gcn_cfg0]
  simp [cfg0, set1]

theorem init_Tf_s0 : (init cfg0 U0).Tf 0 = 5 := by
  simp only [init]
  exact init_Tf_cfg0 _ 60

theorem s1_Tf : s1.Tf 0 = 5 := by
  simp only [s1, ini_place_Tf, ini_stats_Tf, ini_pick_Tf, ini_alloc_Tf, advance_Tf]
  exact init_Tf_s0

theorem s1_N : s1.next_avail_ribo = 1 := by
  simp only [s1, ini_place_N, ini_stats_next_avail_ribo, ini_pick_next_avail_ribo, ini_alloc_N,
    advance_next_avail_ribo]
  rfl

theorem s1_ps : (s1.Ribo 0).pos = 0 := by
  simp only [s1, ini_place_ps, ini_stats_Ribo, ini_pick_Ribo, ini_alloc_ps, advance_next_avail_ribo]
  rfl

theorem n_current_s1 : n_current cfg0 s1 0 = 1 := by
  simp only [n_current, s1_N]
  rfl


theorem s1_cell : s1.R_grid 0 0 ≠ cfg0.tot_ribo := by
  simp only [s1, ini_place_grid, ini_stats_r_id, ini_pick_r_id, ini_alloc_r_id,
    advance_next_avail_ribo, ini_stats_m_id, ini_pick_m_id, ini_alloc_free_mRNA,
    advance_free_mRNA]
  simp [init, set2, cfg0, mRNA_start]

/-! ## The cumulative comparison of the codon loop -/

theorem rate_upto_eq_sum (cfg : Config) (s : State) (n : Nat) :
    rate_upto cfg s n = r_ini cfg s + ∑ j in Finset.range n, r_elng cfg s j := by
  induction n with
  | zero => simp [rate_upto]
  | succ k ih =>
    simp only [rate_upto, ih, Finset.sum_range_succ]
    ring

/-- The codon loop entered at codon `c1` with the accumulator `S c1`, where
`S` is the sequence of cumulative probabilities, breaks at the least codon
whose cumulative probability exceeds the draw. -/
theorem codon_loop_least (relng : Nat → ℚ) (inv_rate coin : ℚ) (S : Nat → ℚ)
    (hS : ∀ k, S (k + 1) = S k + relng k * inv_rate) :
    ∀ n c1, (∀ k, k ≤ c1 → ¬ coin < S k) → coin < S (c1 + n) →
      ∃ c, codon_loop relng inv_rate coin n c1 (S c1) = some c ∧ c < c1 + n ∧
        coin < S (c + 1) ∧ (∀ k, k ≤ c → ¬ coin < S k) ∧ 0 < relng c * inv_rate := by
  intro n
  induction n with
  | zero =>
    intro c1 hmin hlt
    exact absurd hlt (hmin c1 (Nat.le_refl _))
  | succ n ih =>
    intro c1 hmin hlt
    simp only [codon_loop]
    by_cases hb : coin < S c1 + relng c1 * inv_rate
    · rw [if_pos hb]
      refine ⟨c1, rfl, by omega, by rw [hS]; exact hb, hmin, ?_⟩
      have := hmin c1 (Nat.le_refl _)
      linarith
    · rw [if_neg hb, ← hS]
      have hmin' : ∀ k, k ≤ c1 + 1 → ¬ coin < S k := by
        intro k hk
        by_cases hk1 : k = c1 + 1
        · rw [hk1, hS]; exact hb
        · exact hmin k (by omega)
      obtain ⟨c, h1, h2, h3, h4, h5⟩ := ih (c1 + 1) hmin' (by
        have : c1 + 1 + n = c1 + (n + 1) := by omega
        rw [this]; exact hlt)
      exact ⟨c, h1, by omega, h3, h4, h5⟩

/-! ## The rates after the first tick of the small run -/

theorem ini_place_n_Rb_e (cfg : Config) (s : State)
    (h : s.R_grid s.m_id 10 = cfg.tot_ribo) :
    (ini_place cfg s).n_Rb_e =
      set1 s.n_Rb_e ((cfg.Gene (s.mRNA s.m_id).gene).seq 0)
        (s.n_Rb_e ((cfg.Gene (s.mRNA s.m_id).gene).seq 0) + 1) := by
  simp only [ini_place]
  rw [if_pos (by simpa using h)]
  rfl

theorem s1_n_Rb_e (c : Nat) (hc : c < 61) : s1.n_Rb_e c = if c = 0 then 1 else 0 := by
  have hg : (ini_stats cfg0 (ini_pick cfg0
      (ini_alloc (advance cfg0 (init cfg0 U0) (1 / tot_rate cfg0 (init cfg0 U0)))) 0 0)).R_grid
        (ini_stats cfg0 (ini_pick cfg0
      (ini_alloc (advance cfg0 (init cfg0 U0) (1 / tot_rate cfg0 (init cfg0 U0)))) 0 0)).m_id 10
        = cfg0.tot_ribo := by
    simp only [ini_stats_R_grid, ini_pick_R_grid, ini_alloc_R_grid, advance_R_grid,
      ini_stats_m_id, ini_pick_m_id, ini_alloc_free_mRNA, advance_free_mRNA]
    simp [init, cfg0, mRNA_start, tot_mRNA]
  simp only [s1]
  rw [ini_place_n_Rb_e _ _ hg]
  simp only [ini_stats_n_Rb_e, ini_pick_n_Rb_e, ini_alloc_n_Rb_e, advance_n_Rb_e]
  simp [init, cfg0, set1, hc]

theorem s1_Rf : s1.Rf = 1 := by
  simp only [s1, ini_place_Rf, ini_stats_Rf, ini_pick_Rf, ini_alloc_Rf, advance_Rf]
  simp [init, cfg0]

theorem s1_tot : s1.tot_scld_Mf = 1 := by
  simp only [s1, ini_place_tot, ini_stats_tot_scld_Mf, ini_pick_tot, ini_alloc_tot_scld_Mf,
    advance_tot_scld_Mf]
  simp [init, cfg0, init_tot_scld]
  norm_num

theorem r_ini_s1 : r_ini cfg0 s1 = 2000 := by
  simp only [r_ini, s1_Rf, s1_tot]
  simp [cfg0, char_time_ribo]
  norm_num

theorem r_elng_s1 (c : Nat) (hc : c < 61) :
    r_elng cfg0 s1 c = if c = 0 then 50000000 / 5719 else 0 := by
  have ht : (cfg0.cTRNA c).tid = 0 := rfl
  simp only [r_elng, ht, s1_Tf, s1_n_Rb_e c hc, wobble]
  split
  · simp [cfg0, char_time_tRNA]; norm_num
  · simp

theorem rate_upto_s1 : ∀ n, n < 61 → rate_upto cfg0 s1 (n + 1) = 2000 + 50000000 / 5719 := by
  intro n
  induction n with
  | zero => intro _; simp [rate_upto, r_ini_s1, r_elng_s1]
  | succ k ih =>
    intro hk
    rw [rate_upto, ih (by omega), r_elng_s1 _ hk]
    simp

theorem tot_rate_s1 : tot_rate cfg0 s1 = 2000 + 50000000 / 5719 := rate_upto_s1 60 (by omega)


/-! ## What a termination writes -/

theorem queue_remove_times (s : State) (c x i : Nat) :
    ((queue_remove s c x).Ribo i).t_trans_ini = (s.Ribo i).t_trans_ini ∧
      ((queue_remove s c x).Ribo i).t_elong_ini = (s.Ribo i).t_elong_ini := by
  simp only [queue_remove]; split
  · simp only [set1]; split <;> simp_all
  · exact ⟨rfl, rfl⟩

theorem promote_times (cfg : Config) (s : State) (m p i : Nat) :
    ((promote cfg s m p).Ribo i).t_trans_ini = (s.Ribo i).t_trans_ini ∧
      ((promote cfg s m p).Ribo i).t_elong_ini = (s.Ribo i).t_elong_ini := by
  simp only [promote]; split
  · simp only [waste_decr, queue_append, set1]; split <;> simp_all
  · exact ⟨rfl, rfl⟩

theorem term_clear_times (cfg : Config) (s : State) (i : Nat) :
    ((term_clear cfg s).Ribo i).t_trans_ini = (s.Ribo i).t_trans_ini ∧
      ((term_clear cfg s).Ribo i).t_elong_ini = (s.Ribo i).t_elong_ini := by
  simp only [term_clear, set1]; split <;> simp_all

/-- The record and the cell that compaction writes in a termination whose
slot `r_id` is not the last active slot. -/
theorem terminate_moved (cfg : Config) (s : State) (x : Nat)
    (hne : s.r_id ≠ s.next_avail_ribo - 1) :
    ((terminate cfg s x).Ribo s.r_id).mRNA = (s.Ribo (s.next_avail_ribo - 1)).mRNA ∧
    ((terminate cfg s x).Ribo s.r_id).pos = (s.Ribo (s.next_avail_ribo - 1)).pos ∧
    ((terminate cfg s x).Ribo s.r_id).t_trans_ini =
      (s.Ribo (s.next_avail_ribo - 1)).t_trans_ini ∧
    ((terminate cfg s x).Ribo s.r_id).t_elong_ini =
      (s.Ribo (s.next_avail_ribo - 1)).t_elong_ini ∧
    (terminate cfg s x).R_grid =
      set2 (set2 s.R_grid s.m_id (s.Ribo s.r_id).pos cfg.tot_ribo)
        (s.Ribo (s.next_avail_ribo - 1)).mRNA (s.Ribo (s.next_avail_ribo - 1)).pos s.r_id := by
  have hl : ¬ (s.next_avail_ribo - 1 = s.r_id) := fun e => hne e.symm
  rw [terminate_eq]
  rw [compact_move_Ribo cfg _ (by simpa using hne), compact_move_grid cfg _ (by simpa using hne)]
  simp only [promote_r_id, term_stats_r_id, queue_remove_r_id, term_clear_r_id, set1_same,
    promote_next_avail_ribo, term_stats_next_avail_ribo, queue_remove_next_avail_ribo,
    term_clear_next_avail_ribo, promote_mr, promote_ps, term_stats_Ribo, queue_remove_mr,
    queue_remove_ps, term_clear_mr, term_clear_ps', if_neg hl, promote_R_grid,
    term_stats_R_grid, queue_remove_R_grid, term_clear_grid,
    (promote_times _ _ _ _ _).1, (promote_times _ _ _ _ _).2,
    (queue_remove_times _ _ _ _).1, (queue_remove_times _ _ _ _).2,
    (term_clear_times _ _ _).1, (term_clear_times _ _ _).2, and_self]

theorem terminate_gene (cfg : Config) (s : State) (x m : Nat) :
    ((terminate cfg s x).mRNA m).gene = (s.mRNA m).gene := by
  rw [terminate_eq]
  simp

/-! ## The invariant of the two-ribosome state -/

theorem tot_mRNA_cfg0 : tot_mRNA cfg0 = 2 := rfl

/-- The part of the proof of event selection that the small run needs: when
the initiation test fails, the codon loop breaks at a codon with a positive
rate. -/
theorem codon_loop_pos (cfg : Config) (s : State) (u : ℚ) (ht : 0 < tot_rate cfg s)
    (hu : u < 1) (hni : ¬ u < r_ini cfg s * (1 / tot_rate cfg s)) :
    ∃ c, codon_loop (r_elng cfg s) (1 / tot_rate cfg s) u 61 0
        (r_ini cfg s * (1 / tot_rate cfg s)) = some c ∧ c < 61 ∧ 0 < r_elng cfg s c := by
  have hS : ∀ k, rate_upto cfg s (k + 1) * (1 / tot_rate cfg s) =
      rate_upto cfg s k * (1 / tot_rate cfg s) + r_elng cfg s k * (1 / tot_rate cfg s) := by
    intro k
    simp only [rate_upto]
    ring
  have hmin : ∀ k, k ≤ 0 → ¬ u < rate_upto cfg s k * (1 / tot_rate cfg s) := by
    intro k hk
    have : k = 0 := by omega
    rw [this]
    exact hni
  have hlast : u < rate_upto cfg s (0 + 61) * (1 / tot_rate cfg s) := by
    have : rate_upto cfg s (0 + 61) = tot_rate cfg s := rfl
    rw [this, mul_one_div, div_self (ne_of_gt ht)]
    exact hu
  obtain ⟨c, h1, h2, _, _, h5⟩ :=
    codon_loop_least (r_elng cfg s) (1 / tot_rate cfg s) u
      (fun k => rate_upto cfg s k * (1 / tot_rate cfg s)) hS 61 0 hmin hlast
  exact ⟨c, h1, by omega, (mul_pos_iff_of_pos_right (one_div_pos.mpr ht)).mp h5⟩

theorem solo_elongatable {s : State} (h : Inv cfg0 s) (hN : s.next_avail_ribo = 1) :
    elongatable cfg0 s 0 := by
  by_contra hne
  simp only [elongatable, not_or, not_le] at hne
  obtain ⟨h1, h2⟩ := hne
  obtain ⟨c1, _, _⟩ := h.grid.cell 0 (by show 0 < s.next_avail_ribo; omega)
  obtain ⟨o1, _, o3⟩ := h.grid.occ _ _ c1 (by simpa [tlen] using h1) h2
  have o1' : s.R_grid (s.Ribo 0).mRNA ((s.Ribo 0).pos + 10) < s.next_avail_ribo := o1
  have : s.R_grid (s.Ribo 0).mRNA ((s.Ribo 0).pos + 10) = 0 := by omega
  rw [this] at o3
  have o3' : (s.Ribo 0).pos = (s.Ribo 0).pos + 10 := o3
  omega

theorem solo_queue {s : State} (h : Inv cfg0 s) (hN : s.next_avail_ribo = 1) :
    (∀ c, c < 61 → s.n_Rb_e c = if c = 0 then 1 else 0) ∧ s.Rb_e 0 0 = 0 := by
  have hel := solo_elongatable h hN
  have h0 : 0 < s.next_avail_ribo := by omega
  obtain ⟨m1, m2, m3, _⟩ := h.queue.member 0 ⟨h0, hel⟩
  have hcod : (s.Ribo 0).elng_cod_list = 0 := by
    rw [h.codon 0 h0 hel]; rfl
  rw [hcod] at m2 m3
  have hent : ∀ c i, c < 61 → i < s.n_Rb_e c → c = 0 ∧ i = (s.Ribo 0).elng_pos_list := by
    intro c i hc hi
    obtain ⟨⟨e1, _⟩, e2, e3⟩ := h.queue.entry c i hc hi (by simp)
    have e1' : s.Rb_e c i < s.next_avail_ribo := e1
    have : s.Rb_e c i = 0 := by omega
    rw [this] at e2 e3
    exact ⟨by rw [← e2, hcod], e3.symm⟩
  have hpos : (s.Ribo 0).elng_pos_list = 0 := ((hent 0 0 (by decide) (by omega)).2).symm
  refine ⟨?_, by rw [hpos] at m3; exact m3⟩
  intro c hc
  by_cases hc0 : c = 0
  · subst hc0
    simp only [if_true]
    by_contra hne
    have := (hent 0 1 (by decide) (by omega)).2
    omega
  · simp only [if_neg hc0]
    by_contra hne
    exact hc0 (hent c 0 hc (by omega)).1

theorem solo_Rf {s : State} (h : Inv cfg0 s) (hN : s.next_avail_ribo = 1) : s.Rf = 1 := by
  have := h.rf
  rw [hN] at this
  have h2 : (cfg0.tot_ribo : Int) = 2 := rfl
  rw [h2] at this
  push_cast at this
  omega

theorem cfg0_tot {s : State} (h : Inv cfg0 s) :
    s.tot_scld_Mf = (s.Mf 0 : ℚ) ∧ s.scld_Mf 0 = (s.Mf 0 : ℚ) := by
  have h1 := h.scld.tot
  have h2 := h.scld.scld 0 (by decide)
  have hn : cfg0.n_genes = 1 := rfl
  have hp : (cfg0.Gene 0).ini_prob = 1 := rfl
  rw [hn, Finset.sum_range_one, hp, mul_one] at h1
  rw [hp, mul_one] at h2
  exact ⟨h1, h2⟩

theorem cfg0_Mf_le {s : State} (h : Inv cfg0 s) : s.Mf 0 ≤ 2 := by
  by_contra hgt
  have e0 := (h.free.entry 0 0 (by decide) (by omega)).1
  have e1 := (h.free.entry 0 1 (by decide) (by omega)).1
  have e2 := (h.free.entry 0 2 (by decide) (by omega)).1
  have i01 := h.free.inj 0 0 1 (by decide) (by omega) (by omega)
  have i02 := h.free.inj 0 0 2 (by decide) (by omega) (by omega)
  have i12 := h.free.inj 0 1 2 (by decide) (by omega) (by omega)
  rw [tot_mRNA_cfg0] at e0 e1 e2
  omega

theorem solo_Tf {s : State} (h : Run cfg0 U0 s) (hN : s.next_avail_ribo = 1) : 4 ≤ s.Tf 0 := by
  have ht := Run.tf lenOK_cfg0 codonOK_cfg0 h 0
  rw [init_Tf_s0] at ht
  have hc : n_held cfg0 s 0 ≤ 1 := by
    unfold n_held
    rw [hN]
    exact (Finset.card_filter_le _ _).trans (by simp)
  omega

theorem cfg0_r_ini (s : State) : r_ini cfg0 s = s.tot_scld_Mf * (s.Rf : ℚ) * 2000 := by
  simp only [r_ini, char_time_ribo]
  have : (cfg0.avail_space_r : ℚ) = 1 := rfl
  rw [this]
  ring

theorem cfg0_r_elng (s : State) (c : Nat) :
    r_elng cfg0 s c = (s.Tf 0 : ℚ) * (10000000 / 5719) * (s.n_Rb_e c : ℚ) := by
  have h1 : (cfg0.cTRNA c).tid = 0 := rfl
  have h2 : wobble cfg0 c = 10000000 / 5719 := by
    simp only [wobble, char_time_tRNA]
    have e1 : (cfg0.cTRNA c).wobble = 1 := rfl
    have e2 : (cfg0.avail_space_t : ℚ) = 1 := rfl
    rw [e1, e2]
    norm_num
  simp only [r_elng, h1, h2]

theorem solo_rate_upto {s : State} (hq : ∀ c, c < 61 → s.n_Rb_e c = if c = 0 then 1 else 0) :
    ∀ n, n < 61 → rate_upto cfg0 s (n + 1) = r_ini cfg0 s + (s.Tf 0 : ℚ) * (10000000 / 5719) := by
  intro n
  induction n with
  | zero =>
    intro _
    simp [rate_upto, cfg0_r_elng, hq 0 (by decide)]
  | succ k ih =>
    intro hk
    rw [rate_upto, ih (by omega), cfg0_r_elng, hq _ hk]
    simp

theorem solo_tot_rate {s : State} (hq : ∀ c, c < 61 → s.n_Rb_e c = if c = 0 then 1 else 0) :
    tot_rate cfg0 s = r_ini cfg0 s + (s.Tf 0 : ℚ) * (10000000 / 5719) :=
  solo_rate_upto hq 60 (by omega)


theorem move_still_mr (cfg : Config) (s : State) (x i : Nat) :
    ((move_still cfg s x).Ribo i).mRNA = (s.Ribo i).mRNA := by
  simp only [move_still]; split <;> simp

theorem move_still_ps (cfg : Config) (s : State) (x i : Nat) :
    ((move_still cfg s x).Ribo i).pos =
      if i = s.r_id then (s.Ribo s.r_id).pos + 1 else (s.Ribo i).pos := by
  simp only [move_still]; split <;> simp

theorem solo_event {sa : State} (hQ : sa.Rb_e sa.c_id 0 = 0) (hp : (sa.Ribo 0).pos < 10) :
    ∃ s', elng_event cfg0 sa 0 = some s' ∧ s'.next_avail_ribo = sa.next_avail_ribo ∧
      (s'.Ribo 0).mRNA = (sa.Ribo 0).mRNA ∧ (s'.Ribo 0).pos = (sa.Ribo 0).pos + 1 := by
  have e1 : (release_tRNA cfg0 (pick_ribo sa 0)).r_id = 0 := by simp [hQ]
  have e2 : (release_tRNA cfg0 (pick_ribo sa 0)).Ribo = sa.Ribo := by simp
  have hlen : ∀ g, (cfg0.Gene g).len = 11 := fun _ => rfl
  simp only [elng_event, e1, e2, hlen]
  rw [if_neg (by omega), if_pos (Or.inl (by omega))]
  refine ⟨_, rfl, by simp, ?_, ?_⟩
  · rw [post_move_mr, move_still_mr, e2]
  · rw [post_move_ps, move_still_ps, e1, e2, if_pos rfl]


theorem solo_step {s : State} (hr : Run cfg0 U0 s) (hN : s.next_avail_ribo = 1)
    (hm : (s.Ribo 0).mRNA = 0) (hp : (s.Ribo 0).pos < 10) :
    ∃ s', Run cfg0 U0 s' ∧ s'.next_avail_ribo = 1 ∧ (s'.Ribo 0).mRNA = 0 ∧
      (s'.Ribo 0).pos = (s.Ribo 0).pos + 1 := by
  have hI := Run.inv lenOK_cfg0 codonOK_cfg0 hr
  obtain ⟨hq, hQ⟩ := solo_queue hI hN
  have hRf := solo_Rf hI hN
  obtain ⟨htot, _⟩ := cfg0_tot hI
  have hMf := cfg0_Mf_le hI
  have hTf := solo_Tf hr hN
  have hrate := solo_tot_rate hq
  have hini : r_ini cfg0 s = (s.Mf 0 : ℚ) * 2000 := by
    rw [cfg0_r_ini, htot, hRf]; push_cast; ring
  have hMq : (s.Mf 0 : ℚ) ≤ 2 := by exact_mod_cast hMf
  have hM0 : (0 : ℚ) ≤ (s.Mf 0 : ℚ) := by positivity
  have hTq : (4 : ℚ) ≤ (s.Tf 0 : ℚ) := by exact_mod_cast hTf
  have hpos : 0 < tot_rate cfg0 s := by
    rw [hrate, hini]; nlinarith
  have hcoin : coin_of cfg0 2147483646 = 2147483646 / 2147483647 := by
    simp [coin_of, cfg0]
  have hni : ¬ coin_of cfg0 2147483646 < r_ini cfg0 s * (1 / tot_rate cfg0 s) := by
    rw [not_lt, mul_one_div, div_le_iff₀ hpos, hcoin, hrate, hini]
    nlinarith
  have hu : coin_of cfg0 2147483646 < 1 := by rw [hcoin]; norm_num
  obtain ⟨c, hc1, hc2, hc3⟩ := codon_loop_pos cfg0 s _ hpos hu hni
  have hc0 : c = 0 := by
    by_contra hne
    rw [cfg0_r_elng, hq c hc2, if_neg hne] at hc3
    simp at hc3
  subst hc0
  have hnb : ¬ ini_branch cfg0 s 2147483646 := hni
  obtain ⟨s', he, e1, e2, e3⟩ := @solo_event
    { advance cfg0 s (1 / tot_rate cfg0 s) with c_id := 0 }
    (by simpa using hQ) (by simpa using hp)
  dsimp only at he e1 e2 e3
  have htick : tick cfg0 s 2147483646 0 0 = some (snapshot cfg0 s') := by
    simp only [tick]
    rw [if_neg (ne_of_gt hpos), if_neg hnb]
    have hn : (advance cfg0 s (1 / tot_rate cfg0 s)).n_Rb_e 0 = 1 := by
      rw [advance_n_Rb_e]; simpa using hq 0 (by decide)
    simp only [elongation, hc1]
    rw [hn, if_neg (by omega), Nat.mod_one, he]
    rfl
  refine ⟨snapshot cfg0 s', Run.tick _ _ _ hr htick (fun hb => absurd hb hni), ?_, ?_, ?_⟩
  · rw [snapshot_next_avail_ribo, e1]; simpa using hN
  · rw [snapshot_Ribo, e2]; simpa using hm
  · rw [snapshot_Ribo, e3]; simp

theorem s1_mr : (s1.Ribo 0).mRNA = 0 := by
  simp only [s1, ini_place_mr, ini_stats_r_id, ini_pick_r_id, ini_alloc_r_id,
    advance_next_avail_ribo, ini_stats_m_id, ini_pick_m_id, ini_alloc_free_mRNA,
    advance_free_mRNA]
  simp [init, cfg0, mRNA_start]

theorem solo_run : ∀ k, k ≤ 10 →
    ∃ s, Run cfg0 U0 s ∧ s.next_avail_ribo = 1 ∧ (s.Ribo 0).mRNA = 0 ∧ (s.Ribo 0).pos = k := by
  intro k
  induction k with
  | zero => intro _; exact ⟨s1, run_s1, s1_N, s1_mr, s1_ps⟩
  | succ k ih =>
    intro hk
    obtain ⟨s, hr, hN, hm, hp⟩ := ih (by omega)
    obtain ⟨s', hr', hN', hm', hp'⟩ := solo_step hr hN hm (by omega)
    exact ⟨s', hr', hN', hm', by rw [hp', hp]⟩


theorem run_two :
    ∃ s, Run cfg0 U0 s ∧ s.R_grid 0 0 ≠ cfg0.tot_ribo ∧ s.R_grid 0 10 ≠ cfg0.tot_ribo := by
  obtain ⟨s, hr, hN, hm, hp⟩ := solo_run 10 (Nat.le_refl _)
  have hI := Run.inv lenOK_cfg0 codonOK_cfg0 hr
  obtain ⟨hq, _⟩ := solo_queue hI hN
  have hRf := solo_Rf hI hN
  obtain ⟨htot, hscld⟩ := cfg0_tot hI
  have hTf := solo_Tf hr hN
  have hrate := solo_tot_rate hq
  have hcell : s.R_grid 0 10 = 0 := by
    have := (hI.grid.cell 0 (by show 0 < s.next_avail_ribo; omega)).2.2
    simp only [hm, hp] at this
    exact this
  have hel : eligible cfg0 s 0 := by
    intro p hp10
    by_contra hocc
    obtain ⟨o1, _, o3⟩ := hI.grid.occ 0 p (by decide) (by show p < 11; omega) hocc
    have o1' : s.R_grid 0 p < s.next_avail_ribo := o1
    have : s.R_grid 0 p = 0 := by omega
    rw [this] at o3
    have o3' : (s.Ribo 0).pos = p := o3
    omega
  have hg0 : (s.mRNA 0).gene = 0 := by
    have := hI.gene_lt 0 (by decide)
    have hn : cfg0.n_genes = 1 := rfl
    omega
  obtain ⟨i, hi, hfi⟩ := hI.free.complete 0 (by decide) hel
  simp only [hg0] at hi hfi
  have hMq : (1 : ℚ) ≤ (s.Mf 0 : ℚ) := by
    have : 1 ≤ s.Mf 0 := by omega
    exact_mod_cast this
  have hTq : (4 : ℚ) ≤ (s.Tf 0 : ℚ) := by exact_mod_cast hTf
  have hini : r_ini cfg0 s = (s.Mf 0 : ℚ) * 2000 := by
    rw [cfg0_r_ini, htot, hRf]; push_cast; ring
  have hpos : 0 < tot_rate cfg0 s := by
    rw [hrate, hini]; nlinarith
  have hcoin : coin_of cfg0 0 = 0 := by simp [coin_of]
  have hb : ini_branch cfg0 s 0 := by
    show coin_of cfg0 0 < r_ini cfg0 s * (1 / tot_rate cfg0 s)
    rw [hcoin]
    apply mul_pos
    · rw [hini]; nlinarith
    · exact one_div_pos.mpr hpos
  have hgl : gene_loop s (coin_of cfg0 0) cfg0.n_genes 0 0 = some 0 := by
    have hn : cfg0.n_genes = 1 := rfl
    rw [hn, hcoin]
    simp only [gene_loop, hscld, htot]
    rw [div_self (by linarith), if_pos (by norm_num)]
  have htick : tick cfg0 s 0 0 i = some (ini_place cfg0 (ini_stats cfg0 (ini_pick cfg0
      (ini_alloc (advance cfg0 s (1 / tot_rate cfg0 s))) 0 i))) := by
    have hgl' : gene_loop (ini_alloc (advance cfg0 s (1 / tot_rate cfg0 s)))
        (((0 : Nat) : ℚ) / (cfg0.RAND_MAX : ℚ)) cfg0.n_genes 0 0 = some 0 := by
      rw [gene_loop_congr (s := s) (by simp) (by simp)]
      exact hgl
    have hMf : (ini_alloc (advance cfg0 s (1 / tot_rate cfg0 s))).Mf 0 = s.Mf 0 := by simp
    simp only [tick]
    rw [if_neg (ne_of_gt hpos), if_pos hb]
    simp only [initiation]
    rw [hgl']
    simp only [hMf]
    rw [if_neg (by omega), Nat.mod_eq_of_lt hi]
  have hgrid : (ini_place cfg0 (ini_stats cfg0 (ini_pick cfg0
      (ini_alloc (advance cfg0 s (1 / tot_rate cfg0 s))) 0 i))).R_grid = set2 s.R_grid 0 0 1 := by
    simp only [ini_place_grid, ini_stats_R_grid, ini_pick_R_grid, ini_alloc_R_grid,
      advance_R_grid, ini_stats_m_id, ini_pick_m_id, ini_alloc_free_mRNA, advance_free_mRNA,
      ini_stats_r_id, ini_pick_r_id, ini_alloc_r_id, advance_next_avail_ribo, hfi, hN]
  refine ⟨_, Run.tick 0 0 i hr htick (fun _ => by rw [hgl]; rfl), ?_, ?_⟩
  · rw [hgrid]; simp [set2, cfg0]
  · rw [hgrid]; simp [set2, cfg0, hcell]


/-! ## The time step -/

@[simp] theorem advance_t (cfg : Config) (s : State) (inv_rate : ℚ) :
    (advance cfg s inv_rate).t = s.t + inv_rate := by
  simp only [advance]
  split <;> split <;> rfl

@[simp] theorem ini_place_t (cfg : Config) (s : State) : (ini_place cfg s).t = s.t := by
  simp only [ini_place]; split <;> simp

@[simp] theorem move_still_t (cfg : Config) (s : State) (x : Nat) :
    (move_still cfg s x).t = s.t := by
  simp only [move_still]; split <;> simp

@[simp] theorem move_blocked_t (cfg : Config) (s : State) (x : Nat) :
    (move_blocked cfg s x).t = s.t := by
  simp [move_blocked]

@[simp] theorem post_move_t (cfg : Config) (s : State) : (post_move cfg s).t = s.t := by
  simp only [post_move]; split <;> split <;> simp

@[simp] theorem terminate_t (cfg : Config) (s : State) (x : Nat) :
    (terminate cfg s x).t = s.t := by
  simp [terminate]

theorem elng_event_t {cfg : Config} {s s' : State} {x : Nat}
    (he : elng_event cfg s x = some s') : s'.t = s.t := by
  simp only [elng_event] at he
  split at he
  · split at he
    · exact absurd he (by simp)
    · simp only [Option.some.injEq] at he
      rw [← he]; simp
  · split at he <;>
    · simp only [Option.some.injEq] at he
      rw [← he]; simp

theorem initiation_t {cfg : Config} {s s' : State} {r2 r3 : Nat}
    (he : initiation cfg s r2 r3 = some s') : s'.t = s.t := by
  simp only [initiation] at he
  split at he
  · split at he
    · exact absurd he (by simp)
    · simp only [Option.some.injEq] at he
      rw [← he]; simp
  · simp only [Option.some.injEq] at he
    rw [← he]; simp

theorem elongation_t {cfg : Config} {s s' : State} {relng : Nat → ℚ}
    {inv_rate prob_ini coin : ℚ} {randx : Nat}
    (he : elongation cfg s relng inv_rate prob_ini coin randx = some s') : s'.t = s.t := by
  simp only [elongation] at he
  split at he
  · exact absurd he (by simp)
  · obtain ⟨a, ha, hs⟩ := Option.map_eq_some'.mp he
    rw [← hs, snapshot_t, elng_event_t ha]

theorem tick_t {cfg : Config} {s s' : State} {r1 r2 r3 : Nat}
    (he : tick cfg s r1 r2 r3 = some s') : s'.t = s.t + 1 / tot_rate cfg s := by
  simp only [tick] at he
  split at he
  · exact absurd he (by simp)
  · split at he
    · rw [initiation_t he, advance_t]
    · rw [elongation_t he, advance_t]

/-! ## The draw `RAND_MAX` -/

theorem rate_upto_mono (cfg : Config) (s : State) (hnn : ∀ c, c < 61 → 0 ≤ r_elng cfg s c) :
    ∀ n k, k ≤ n → n ≤ 61 → rate_upto cfg s k ≤ rate_upto cfg s n := by
  intro n
  induction n with
  | zero =>
    intro k hk _
    have : k = 0 := by omega
    rw [this]
  | succ n ih =>
    intro k hk hn
    by_cases hk' : k = n + 1
    · rw [hk']
    · have h1 := ih k (by omega) (by omega)
      have h2 := hnn n (by omega)
      simp only [rate_upto]
      linarith

/-- The codon loop does not break when no cumulative probability exceeds
the draw. -/
theorem codon_loop_none (relng : Nat → ℚ) (inv_rate coin : ℚ) (S : Nat → ℚ)
    (hS : ∀ k, S (k + 1) = S k + relng k * inv_rate) :
    ∀ n c1, (∀ k, c1 < k → k ≤ c1 + n → ¬ coin < S k) →
      codon_loop relng inv_rate coin n c1 (S c1) = none := by
  intro n
  induction n with
  | zero => intro c1 _; rfl
  | succ n ih =>
    intro c1 h
    simp only [codon_loop]
    rw [← hS, if_neg (h (c1 + 1) (by omega) (by omega))]
    exact ih (c1 + 1) (fun k h1 h2 => h k (by omega) (by omega))

/-- With the draw 1 and no negative rate, the initiation test fails and the
codon loop does not break. -/
theorem draw_one_falls_through (cfg : Config) (s : State) (hpos : 0 < tot_rate cfg s)
    (hnn : ∀ c, c < 61 → 0 ≤ r_elng cfg s c) :
    ¬ (1 : ℚ) < r_ini cfg s * (1 / tot_rate cfg s) ∧
      codon_loop (r_elng cfg s) (1 / tot_rate cfg s) 1 61 0
        (r_ini cfg s * (1 / tot_rate cfg s)) = none := by
  have hle : ∀ k, k ≤ 61 → ¬ (1 : ℚ) < rate_upto cfg s k * (1 / tot_rate cfg s) := by
    intro k hk
    have h1 : rate_upto cfg s k ≤ tot_rate cfg s := rate_upto_mono cfg s hnn 61 k hk (by omega)
    rw [not_lt, mul_one_div, div_le_one hpos]
    exact h1
  refine ⟨hle 0 (by omega), ?_⟩
  have hS : ∀ k, rate_upto cfg s (k + 1) * (1 / tot_rate cfg s) =
      rate_upto cfg s k * (1 / tot_rate cfg s) + r_elng cfg s k * (1 / tot_rate cfg s) := by
    intro k
    simp only [rate_upto]
    ring
  exact codon_loop_none (r_elng cfg s) (1 / tot_rate cfg s) 1
    (fun k => rate_upto cfg s k * (1 / tot_rate cfg s)) hS 61 0 (fun k _ hk => hle k (by omega))

theorem coin_of_RAND_MAX (cfg : Config) (hR : 0 < cfg.RAND_MAX) :
    coin_of cfg cfg.RAND_MAX = 1 := by
  simp only [coin_of]
  have : (cfg.RAND_MAX : ℚ) ≠ 0 := by
    have : (0 : ℚ) < (cfg.RAND_MAX : ℚ) := by exact_mod_cast hR
    exact ne_of_gt this
  exact div_self this

/-- A tick whose first draw is `RAND_MAX` is an elongation event of the
codon id that `c_id` held before the tick. -/
theorem tick_stale (cfg : Config) (s : State) (r2 r3 : Nat) (hR : 0 < cfg.RAND_MAX)
    (hpos : 0 < tot_rate cfg s) (hnn : ∀ c, c < 61 → 0 ≤ r_elng cfg s c) :
    tick cfg s cfg.RAND_MAX r2 r3 =
      if 61 ≤ s.c_id ∨ s.n_Rb_e s.c_id = 0 then none
      else (elng_event cfg (advance cfg s (1 / tot_rate cfg s))
        (r2 % s.n_Rb_e s.c_id)).map (snapshot cfg) := by
  obtain ⟨h1, h2⟩ := draw_one_falls_through cfg s hpos hnn
  have hb : ¬ ini_branch cfg s cfg.RAND_MAX := by
    simp only [ini_branch, coin_of_RAND_MAX cfg hR]
    exact h1
  simp only [tick]
  rw [if_neg (ne_of_gt hpos), if_neg hb]
  simp only [elongation, coin_of_RAND_MAX cfg hR, h2]
  show (if 61 ≤ (advance cfg s (1 / tot_rate cfg s)).c_id ∨
      (advance cfg s (1 / tot_rate cfg s)).n_Rb_e (advance cfg s (1 / tot_rate cfg s)).c_id = 0
    then none
    else (elng_event cfg (advance cfg s (1 / tot_rate cfg s))
      (r2 % (advance cfg s (1 / tot_rate cfg s)).n_Rb_e
        (advance cfg s (1 / tot_rate cfg s)).c_id)).map (snapshot cfg)) = _
  rw [advance_c_id, advance_n_Rb_e]

theorem ini_place_c_id (cfg : Config) (s : State) :
    (ini_place cfg s).c_id = (cfg.Gene (s.mRNA s.m_id).gene).seq 0 := by
  simp only [ini_place]; split <;> simp

theorem s1_c_id : s1.c_id = 0 := by
  simp only [s1, ini_place_c_id]
  rfl

theorem r_elng_s1_nonneg : ∀ c, c < 61 → 0 ≤ r_elng cfg0 s1 c := by
  intro c hc
  rw [r_elng_s1 c hc]
  split <;> norm_num

theorem tot_rate_s1_pos : 0 < tot_rate cfg0 s1 := by
  rw [tot_rate_s1]; norm_num

/-- The tick from the state after the first initiation of the small run with
first draw `RAND_MAX`: the ribosome of the queue of the left-over codon id 0
moves to position 1. -/
theorem tick_s1_stale :
    ∃ s', tick cfg0 s1 2147483647 0 0 = some s' ∧ (s'.Ribo 0).pos = 1 := by
  have hI := Run.inv lenOK_cfg0 codonOK_cfg0 run_s1
  obtain ⟨hq, hQ⟩ := solo_queue hI s1_N
  have hR : cfg0.RAND_MAX = 2147483647 := rfl
  have ht := tick_stale cfg0 s1 0 0 (by decide) tot_rate_s1_pos r_elng_s1_nonneg
  rw [hR, s1_c_id, hq 0 (by decide)] at ht
  simp only [if_true] at ht
  rw [if_neg (by omega), Nat.zero_mod] at ht
  obtain ⟨s', he, _, _, e3⟩ := @solo_event (advance cfg0 s1 (1 / tot_rate cfg0 s1))
    (by rw [advance_Rb_e, advance_c_id, s1_c_id]; exact hQ)
    (by rw [advance_Ribo, s1_ps]; decide)
  refine ⟨snapshot cfg0 s', ?_, ?_⟩
  · rw [ht, he]; rfl
  · rw [snapshot_Ribo, e3, advance_Ribo, s1_ps]

/-! ## The gene loop -/

/-- The gene loop entered at gene `c1` with the accumulator `S c1`, where `S`
is the sequence of cumulative probabilities, breaks at the least gene whose
cumulative probability exceeds the draw. -/
theorem gene_loop_least (s : State) (coin : ℚ) (S : Nat → ℚ)
    (hS : ∀ k, S (k + 1) = S k + s.scld_Mf k / s.tot_scld_Mf) :
    ∀ n c1, (∀ k, k ≤ c1 → ¬ coin < S k) → coin < S (c1 + n) →
      ∃ g, gene_loop s coin n c1 (S c1) = some g ∧ g < c1 + n ∧
        coin < S (g + 1) ∧ (∀ k, k ≤ g → ¬ coin < S k) ∧
        0 < s.scld_Mf g / s.tot_scld_Mf := by
  intro n
  induction n with
  | zero =>
    intro c1 hmin hlt
    exact absurd hlt (hmin c1 (Nat.le_refl _))
  | succ n ih =>
    intro c1 hmin hlt
    simp only [gene_loop]
    by_cases hb : coin < S c1 + s.scld_Mf c1 / s.tot_scld_Mf
    · rw [if_pos hb]
      refine ⟨c1, rfl, by omega, by rw [hS]; exact hb, hmin, ?_⟩
      have := hmin c1 (Nat.le_refl _)
      linarith
    · rw [if_neg hb, ← hS]
      have hmin' : ∀ k, k ≤ c1 + 1 → ¬ coin < S k := by
        intro k hk
        by_cases hk1 : k = c1 + 1
        · rw [hk1, hS]; exact hb
        · exact hmin k (by omega)
      obtain ⟨g, h1, h2, h3, h4, h5⟩ := ih (c1 + 1) hmin' (by
        have : c1 + 1 + n = c1 + (n + 1) := by omega
        rw [this]; exact hlt)
      exact ⟨g, h1, by omega, h3, h4, h5⟩

theorem scld_sum_eq_tot {cfg : Config} {s : State} (h : ScldInv cfg s) :
    ∑ j in Finset.range cfg.n_genes, s.scld_Mf j = s.tot_scld_Mf := by
  rw [h.tot]
  apply Finset.sum_congr rfl
  intro j hj
  exact h.scld j (Finset.mem_range.mp hj)

/-- Gene selection on a state with consistent eligible weights. -/
theorem gene_loop_pick {cfg : Config} {s : State} (h : ScldInv cfg s)
    (htot : 0 < s.tot_scld_Mf) (u : ℚ) (hu0 : 0 ≤ u) (hu1 : u < 1) :
    ∃ g, g < cfg.n_genes ∧ gene_loop s u cfg.n_genes 0 0 = some g ∧
      u < (∑ j in Finset.range (g + 1), s.scld_Mf j) / s.tot_scld_Mf ∧
      (∀ k, k < g → ¬ u < (∑ j in Finset.range (k + 1), s.scld_Mf j) / s.tot_scld_Mf) ∧
      0 < (s.Mf g : ℚ) * (cfg.Gene g).ini_prob := by
  have hS : ∀ k, (∑ j in Finset.range (k + 1), s.scld_Mf j) / s.tot_scld_Mf =
      (∑ j in Finset.range k, s.scld_Mf j) / s.tot_scld_Mf + s.scld_Mf k / s.tot_scld_Mf := by
    intro k
    rw [Finset.sum_range_succ, add_div]
  have h0 : ∀ k, k ≤ 0 → ¬ u < (∑ j in Finset.range k, s.scld_Mf j) / s.tot_scld_Mf := by
    intro k hk
    have : k = 0 := by omega
    rw [this]
    simp only [Finset.range_zero, Finset.sum_empty, zero_div, not_lt]
    exact hu0
  have hlast : u < (∑ j in Finset.range (0 + cfg.n_genes), s.scld_Mf j) / s.tot_scld_Mf := by
    rw [Nat.zero_add, scld_sum_eq_tot h, div_self (ne_of_gt htot)]
    exact hu1
  obtain ⟨g, h1, h2, h3, h4, h5⟩ := gene_loop_least s u
    (fun k => (∑ j in Finset.range k, s.scld_Mf j) / s.tot_scld_Mf) hS cfg.n_genes 0 h0 hlast
  have hg : g < cfg.n_genes := by omega
  simp only [Finset.range_zero, Finset.sum_empty, zero_div] at h1
  refine ⟨g, hg, h1, h3, fun k hk => h4 (k + 1) (by omega), ?_⟩
  rw [← h.scld g hg]
  exact (div_pos_iff_of_pos_right htot).mp h5

/-! ## Events before the burn-in threshold keep the statistics -/

theorem stats_refl (s : State) : SameStats s s :=
  ⟨rfl, rfl, rfl, rfl, rfl, rfl, fun _ => ⟨rfl, rfl, rfl, rfl⟩⟩

theorem stats_same {s s' : State} (h1 : s'.avg_Rf = s.avg_Rf)
    (h2 : s'.avg_tRNA_abndc = s.avg_tRNA_abndc) (h3 : s'.time_waste_ribo = s.time_waste_ribo)
    (h4 : s'.time_waste_ribo_pos = s.time_waste_ribo_pos) (h5 : s'.e_times = s.e_times)
    (h6 : s'.n_e_times = s.n_e_times) (h7 : s'.mRNA = s.mRNA) : SameStats s s' :=
  ⟨h1, h2, h3, h4, h5, h6, fun m => by rw [h7]; exact ⟨rfl, rfl, rfl, rfl⟩⟩

theorem stats_trans {a b c : State} (h1 : SameStats a b) (h2 : SameStats b c) :
    SameStats a c :=
  ⟨h2.avg_Rf.trans h1.avg_Rf, h2.avg_tRNA_abndc.trans h1.avg_tRNA_abndc,
    h2.time_waste_ribo.trans h1.time_waste_ribo,
    h2.time_waste_ribo_pos.trans h1.time_waste_ribo_pos, h2.e_times.trans h1.e_times,
    h2.n_e_times.trans h1.n_e_times,
    fun m => ⟨(h2.transcripts m).1.trans (h1.transcripts m).1,
      (h2.transcripts m).2.1.trans (h1.transcripts m).2.1,
      (h2.transcripts m).2.2.1.trans (h1.transcripts m).2.2.1,
      (h2.transcripts m).2.2.2.trans (h1.transcripts m).2.2.2⟩⟩

theorem stats_queue_append (s : State) (c r : Nat) : SameStats s (queue_append s c r) :=
  stats_same rfl rfl rfl rfl rfl rfl rfl

theorem stats_queue_remove (s : State) (c x : Nat) : SameStats s (queue_remove s c x) := by
  simp only [queue_remove]; split <;> exact stats_same rfl rfl rfl rfl rfl rfl rfl

theorem stats_waste_incr (s : State) (m p : Nat) : SameStats s (waste_incr s m p) :=
  stats_same rfl rfl rfl rfl rfl rfl rfl

theorem stats_waste_decr (s : State) (m p : Nat) : SameStats s (waste_decr s m p) :=
  stats_same rfl rfl rfl rfl rfl rfl rfl

theorem stats_promote (cfg : Config) (s : State) (m p : Nat) :
    SameStats s (promote cfg s m p) := by
  simp only [promote]; split
  · exact stats_same rfl rfl rfl rfl rfl rfl rfl
  · exact stats_same rfl rfl rfl rfl rfl rfl rfl

theorem stats_advance (cfg : Config) (s : State) (inv_rate : ℚ) (h : ¬ s.t > cfg.time_thres) :
    SameStats s (advance cfg s inv_rate) := by
  have h1 : ¬ (s.t > cfg.time_thres ∧ cfg.printOpt 3 = 1) := fun hc => h hc.1
  have h2 : ¬ (s.t > cfg.time_thres ∧ cfg.printOpt 5 = 1) := fun hc => h hc.1
  simp only [advance, h1, h2, if_false]
  exact stats_same rfl rfl rfl rfl rfl rfl rfl

theorem stats_ini_stats (cfg : Config) (s : State) (h : ¬ s.t > cfg.time_thres) :
    SameStats s (ini_stats cfg s) := by
  simp only [ini_stats]
  rw [if_neg h]
  refine ⟨rfl, rfl, rfl, rfl, rfl, rfl, fun m => ?_⟩
  simp only [set1]
  split
  · rename_i hm; subst hm; exact ⟨rfl, rfl, rfl, rfl⟩
  · exact ⟨rfl, rfl, rfl, rfl⟩

theorem stats_term_stats (cfg : Config) (s : State) (h : ¬ s.t > cfg.time_thres) :
    SameStats s (term_stats cfg s) := by
  simp only [term_stats]
  rw [if_neg h]
  exact stats_same rfl rfl rfl rfl rfl rfl rfl

theorem stats_ini_place (cfg : Config) (s : State) : SameStats s (ini_place cfg s) := by
  simp only [ini_place]; split
  · exact stats_same rfl rfl rfl rfl rfl rfl rfl
  · exact stats_same rfl rfl rfl rfl rfl rfl rfl

theorem stats_compact (cfg : Config) (s : State) : SameStats s (compact cfg s) := by
  simp only [compact]; split
  · split <;> exact stats_same rfl rfl rfl rfl rfl rfl rfl
  · exact stats_same rfl rfl rfl rfl rfl rfl rfl

theorem stats_release (cfg : Config) (s : State) : SameStats s (release_tRNA cfg s) := by
  simp only [release_tRNA]; split <;> exact stats_same rfl rfl rfl rfl rfl rfl rfl

theorem stats_move_still (cfg : Config) (s : State) (x : Nat) :
    SameStats s (move_still cfg s x) := by
  simp only [move_still]; split
  · exact stats_trans (stats_trans (stats_trans (show SameStats s (move_ribo cfg s) from stats_same rfl rfl rfl rfl rfl rfl rfl)
      (stats_queue_append (move_ribo cfg s) _ _)) (stats_queue_remove _ _ _)) (stats_same rfl rfl rfl rfl rfl rfl rfl)
  · exact stats_same rfl rfl rfl rfl rfl rfl rfl

theorem stats_move_blocked (cfg : Config) (s : State) (x : Nat) :
    SameStats s (move_blocked cfg s x) := by
  simp only [move_blocked]
  exact stats_trans (stats_trans (show SameStats s (set_cod cfg (move_ribo cfg s)) from stats_same rfl rfl rfl rfl rfl rfl rfl)
    (stats_queue_remove _ _ _)) (stats_same rfl rfl rfl rfl rfl rfl rfl)

theorem stats_post_move (cfg : Config) (s : State) : SameStats s (post_move cfg s) := by
  simp only [post_move]
  split <;> split
  · exact stats_trans (stats_promote cfg s _ _) (stats_same rfl rfl rfl rfl rfl rfl rfl)
  · exact stats_trans (stats_promote cfg s _ _) (stats_same rfl rfl rfl rfl rfl rfl rfl)
  · exact stats_same rfl rfl rfl rfl rfl rfl rfl
  · exact stats_same rfl rfl rfl rfl rfl rfl rfl

theorem stats_snapshot (cfg : Config) (s : State) : SameStats s (snapshot cfg s) := by
  simp only [snapshot]; split <;> exact stats_same rfl rfl rfl rfl rfl rfl rfl

theorem stats_terminate (cfg : Config) (s : State) (x : Nat) (h : ¬ s.t > cfg.time_thres) :
    SameStats s (terminate cfg s x) := by
  simp only [terminate]
  refine stats_trans (stats_trans (stats_trans (stats_trans
    (show SameStats s (term_clear cfg s) from stats_same rfl rfl rfl rfl rfl rfl rfl) (stats_queue_remove _ _ _))
    (stats_term_stats cfg _ (by simpa using h))) (stats_promote cfg _ _ _)) (stats_compact cfg _)

theorem stats_initiation {cfg : Config} {s s' : State} {r2 r3 : Nat}
    (h : ¬ s.t > cfg.time_thres) (he : initiation cfg s r2 r3 = some s') : SameStats s s' := by
  have ha : SameStats s (ini_alloc s) := stats_same rfl rfl rfl rfl rfl rfl rfl
  simp only [initiation] at he
  split at he
  · split at he
    · exact absurd he (by simp)
    · simp only [Option.some.injEq] at he
      rw [← he]
      rename_i g _ _
      have hp : SameStats (ini_alloc s) (ini_pick cfg (ini_alloc s) g (r3 % (ini_alloc s).Mf g)) :=
        stats_same rfl rfl rfl rfl rfl rfl rfl
      exact stats_trans (stats_trans (stats_trans ha hp)
        (stats_ini_stats cfg _ (by simpa using h))) (stats_ini_place cfg _)
  · simp only [Option.some.injEq] at he
    rw [← he]
    exact stats_trans (stats_trans ha (stats_ini_stats cfg _ (by simpa using h)))
      (stats_ini_place cfg _)

theorem stats_elng_event {cfg : Config} {s s' : State} {x : Nat}
    (h : ¬ s.t > cfg.time_thres) (he : elng_event cfg s x = some s') : SameStats s s' := by
  have hp : SameStats s (release_tRNA cfg (pick_ribo s x)) :=
    stats_trans (show SameStats s (pick_ribo s x) from stats_same rfl rfl rfl rfl rfl rfl rfl)
      (stats_release cfg _)
  simp only [elng_event] at he
  split at he
  · split at he
    · exact absurd he (by simp)
    · simp only [Option.some.injEq] at he
      rw [← he]
      exact stats_trans hp (stats_terminate cfg _ x (by simpa using h))
  · split at he
    · simp only [Option.some.injEq] at he
      rw [← he]
      exact stats_trans (stats_trans hp (stats_move_still cfg _ x)) (stats_post_move cfg _)
    · simp only [Option.some.injEq] at he
      rw [← he]
      exact stats_trans (stats_trans hp (stats_move_blocked cfg _ x)) (stats_post_move cfg _)

theorem stats_elongation {cfg : Config} {s s' : State} {relng : Nat → ℚ}
    {inv_rate prob_ini coin : ℚ} {randx : Nat} (h : ¬ s.t > cfg.time_thres)
    (he : elongation cfg s relng inv_rate prob_ini coin randx = some s') : SameStats s s' := by
  simp only [elongation] at he
  split at he
  · exact absurd he (by simp)
  · obtain ⟨a, ha, hs⟩ := Option.map_eq_some'.mp he
    rw [← hs]
    have h1 := @stats_elng_event cfg { s with c_id := _ } a _ (by exact h) ha
    refine stats_trans (stats_trans ?_ h1) (stats_snapshot cfg a)
    exact stats_same rfl rfl rfl rfl rfl rfl rfl

theorem stats_tick {cfg : Config} {s s' : State} {r1 r2 r3 : Nat}
    (hpos : 0 < tot_rate cfg s) (hpost : s.t + 1 / tot_rate cfg s ≤ cfg.time_thres)
    (he : tick cfg s r1 r2 r3 = some s') : SameStats s s' := by
  have hinv : 0 < 1 / tot_rate cfg s := one_div_pos.mpr hpos
  have h1 : ¬ s.t > cfg.time_thres := by
    rw [not_lt]; linarith
  have h2 : ¬ (advance cfg s (1 / tot_rate cfg s)).t > cfg.time_thres := by
    rw [advance_t, not_lt]; exact hpost
  have ha := stats_advance cfg s (1 / tot_rate cfg s) h1
  simp only [tick] at he
  split at he
  · exact absurd he (by simp)
  · split at he
    · exact stats_trans ha (stats_initiation h2 he)
    · exact stats_trans ha (stats_elongation h2 he)

/-! ## The first tick under a burn-in threshold -/

theorem r_ini_B : r_ini cfgB (init cfgB U0) = 8000 := by
  simp [r_ini, init, cfgB, cfg0, init_tot_scld, char_time_ribo]
  norm_num

theorem tot_rate_B : tot_rate cfgB (init cfgB U0) = 8000 := by
  unfold tot_rate
  rw [rate_upto_idle _ _ 61 (by intro c hc; simp [init, hc]), r_ini_B]

theorem tick_B :
    tick cfgB (init cfgB U0) 0 0 0 =
      some (ini_place cfgB (ini_stats cfgB (ini_pick cfgB
        (ini_alloc (advance cfgB (init cfgB U0) (1 / tot_rate cfgB (init cfgB U0)))) 0 0))) := by
  have hb : ini_branch cfgB (init cfgB U0) 0 := by
    unfold ini_branch coin_of
    rw [r_ini_B, tot_rate_B]
    norm_num
  have hgl : gene_loop (ini_alloc (advance cfgB (init cfgB U0) (1 / tot_rate cfgB (init cfgB U0))))
      (((0 : Nat) : ℚ) / (cfgB.RAND_MAX : ℚ)) cfgB.n_genes 0 0 = some 0 := by
    rw [gene_loop_congr (s := init cfgB U0) (by simp) (by simp)]
    simp [gene_loop, cfgB, cfg0, init, init_tot_scld]
  have hMf : (ini_alloc (advance cfgB (init cfgB U0) (1 / tot_rate cfgB (init cfgB U0)))).Mf 0 = 2 := by
    simp [init, cfgB, cfg0]
  simp only [tick, tot_rate_B]
  rw [if_neg (by norm_num), if_pos hb]
  simp only [initiation]
  rw [← tot_rate_B, hgl]
  simp only [hMf]
  rfl

/-! ## What an initiation writes -/

theorem ini_flow_cond (cfg : Config) (s : State) (g c2 : Nat) :
    (ini_bind cfg (ini_stats cfg (ini_pick cfg (ini_alloc s) g c2))).R_grid
        (ini_bind cfg (ini_stats cfg (ini_pick cfg (ini_alloc s) g c2))).m_id 10 =
      s.R_grid (s.free_mRNA g c2) 10 := by
  simp

theorem ini_flow_cid (cfg : Config) (s : State) (g c2 : Nat) :
    (ini_bind cfg (ini_stats cfg (ini_pick cfg (ini_alloc s) g c2))).c_id =
      (cfg.Gene (s.mRNA (s.free_mRNA g c2)).gene).seq 0 := by
  simp

theorem ini_flow_queued (cfg : Config) (s : State) (g c2 : Nat)
    (h : s.R_grid (s.free_mRNA g c2) 10 = cfg.tot_ribo) :
    ini_place cfg (ini_stats cfg (ini_pick cfg (ini_alloc s) g c2)) =
      ini_finish (queue_append (ini_bind cfg (ini_stats cfg (ini_pick cfg (ini_alloc s) g c2)))
        ((cfg.Gene (s.mRNA (s.free_mRNA g c2)).gene).seq 0) s.next_avail_ribo) := by
  simp only [ini_place]
  rw [if_pos (by rw [ini_flow_cond]; exact h), ini_flow_cid]
  simp

theorem ini_flow_stalled (cfg : Config) (s : State) (g c2 : Nat)
    (h : s.R_grid (s.free_mRNA g c2) 10 ≠ cfg.tot_ribo) :
    ini_place cfg (ini_stats cfg (ini_pick cfg (ini_alloc s) g c2)) =
      ini_finish (waste_incr (ini_bind cfg (ini_stats cfg (ini_pick cfg (ini_alloc s) g c2)))
        (s.free_mRNA g c2) 0) := by
  simp only [ini_place]
  rw [if_neg (by rw [ini_flow_cond]; exact h)]
  simp


theorem ini_queued_fields (cfg : Config) (s : State) (g c2 : Nat)
    (h : s.R_grid (s.free_mRNA g c2) 10 = cfg.tot_ribo) :
    (ini_place cfg (ini_stats cfg (ini_pick cfg (ini_alloc s) g c2))).n_Rb_e =
        set1 s.n_Rb_e ((cfg.Gene (s.mRNA (s.free_mRNA g c2)).gene).seq 0)
          (s.n_Rb_e ((cfg.Gene (s.mRNA (s.free_mRNA g c2)).gene).seq 0) + 1) ∧
      (ini_place cfg (ini_stats cfg (ini_pick cfg (ini_alloc s) g c2))).Rb_e =
        set2 s.Rb_e ((cfg.Gene (s.mRNA (s.free_mRNA g c2)).gene).seq 0)
          (s.n_Rb_e ((cfg.Gene (s.mRNA (s.free_mRNA g c2)).gene).seq 0)) s.next_avail_ribo ∧
      (ini_place cfg (ini_stats cfg (ini_pick cfg (ini_alloc s) g c2))).num_waste_ribo =
        s.num_waste_ribo ∧
      (ini_place cfg (ini_stats cfg (ini_pick cfg (ini_alloc s) g c2))).num_waste_ribo_pos =
        s.num_waste_ribo_pos ∧
      ((ini_place cfg (ini_stats cfg (ini_pick cfg (ini_alloc s) g c2))).Ribo
          s.next_avail_ribo).elng_cod_list =
        (cfg.Gene (s.mRNA (s.free_mRNA g c2)).gene).seq 0 ∧
      ((ini_place cfg (ini_stats cfg (ini_pick cfg (ini_alloc s) g c2))).Ribo
          s.next_avail_ribo).elng_pos_list =
        s.n_Rb_e ((cfg.Gene (s.mRNA (s.free_mRNA g c2)).gene).seq 0) := by
  rw [ini_flow_queued cfg s g c2 h]
  simp only [ini_finish, queue_append, ini_bind_n_Rb_e, ini_stats_n_Rb_e, ini_pick_n_Rb_e,
    ini_alloc_n_Rb_e, ini_bind_Rb_e, ini_stats_Rb_e, ini_pick_Rb_e, ini_alloc_Rb_e, set1_same]
  refine ⟨trivial, trivial, ?_, ?_, ?_, ?_⟩
  all_goals simp [ini_bind, ini_stats, ini_pick, ini_alloc]

theorem ini_stalled_fields (cfg : Config) (s : State) (g c2 : Nat)
    (h : s.R_grid (s.free_mRNA g c2) 10 ≠ cfg.tot_ribo) :
    (ini_place cfg (ini_stats cfg (ini_pick cfg (ini_alloc s) g c2))).n_Rb_e = s.n_Rb_e ∧
      (ini_place cfg (ini_stats cfg (ini_pick cfg (ini_alloc s) g c2))).Rb_e = s.Rb_e ∧
      (ini_place cfg (ini_stats cfg (ini_pick cfg (ini_alloc s) g c2))).num_waste_ribo =
        set1 s.num_waste_ribo (s.mRNA (s.free_mRNA g c2)).gene
          (s.num_waste_ribo (s.mRNA (s.free_mRNA g c2)).gene + 1) ∧
      (ini_place cfg (ini_stats cfg (ini_pick cfg (ini_alloc s) g c2))).num_waste_ribo_pos =
        if (s.mRNA (s.free_mRNA g c2)).gene = 0 then
          set1 s.num_waste_ribo_pos 0 (s.num_waste_ribo_pos 0 + 1)
        else s.num_waste_ribo_pos := by
  rw [ini_flow_stalled cfg s g c2 h]
  have hg : ((ini_bind cfg (ini_stats cfg (ini_pick cfg (ini_alloc s) g c2))).mRNA
      (s.free_mRNA g c2)).gene = (s.mRNA (s.free_mRNA g c2)).gene := by simp
  have hw : (ini_bind cfg (ini_stats cfg (ini_pick cfg (ini_alloc s) g c2))).num_waste_ribo =
      s.num_waste_ribo := by simp [ini_bind, ini_stats, ini_pick, ini_alloc]
  have hwp : (ini_bind cfg (ini_stats cfg (ini_pick cfg (ini_alloc s) g c2))).num_waste_ribo_pos =
      s.num_waste_ribo_pos := by simp [ini_bind, ini_stats, ini_pick, ini_alloc]
  refine ⟨by simp, by simp, ?_, ?_⟩
  · simp only [ini_finish, waste_incr, hg, hw]
  · simp only [ini_finish, waste_incr, hg, hwp]


/-! ## Non-terminal elongation and the per-codon statistics -/

theorem elng_event_nonterminal {cfg : Config} {s s' : State} {x : Nat}
    (hnt : (s.Ribo (s.Rb_e s.c_id x)).pos + 1 ≠
      (cfg.Gene (s.mRNA (s.Ribo (s.Rb_e s.c_id x)).mRNA).gene).len)
    (he : elng_event cfg s x = some s') :
    (s' = post_move cfg (move_still cfg (release_tRNA cfg (pick_ribo s x)) x) ∨
      s' = post_move cfg (move_blocked cfg (release_tRNA cfg (pick_ribo s x)) x)) ∧
    (s'.Ribo (s.Rb_e s.c_id x)).pos = (s.Ribo (s.Rb_e s.c_id x)).pos + 1 := by
  have e1 : (release_tRNA cfg (pick_ribo s x)).r_id = s.Rb_e s.c_id x := by simp
  have e2 : (release_tRNA cfg (pick_ribo s x)).Ribo = s.Ribo := by simp
  have e3 : (release_tRNA cfg (pick_ribo s x)).m_id = (s.Ribo (s.Rb_e s.c_id x)).mRNA := by simp
  have e4 : (release_tRNA cfg (pick_ribo s x)).mRNA = s.mRNA := by simp
  simp only [elng_event, e1, e2, e3, e4] at he
  rw [if_neg hnt] at he
  split at he
  · simp only [Option.some.injEq] at he
    refine ⟨Or.inl he.symm, ?_⟩
    rw [← he, post_move_ps, move_still_ps, e1, e2, if_pos rfl]
  · simp only [Option.some.injEq] at he
    refine ⟨Or.inr he.symm, ?_⟩
    rw [← he, post_move_ps]
    simp [move_blocked]

theorem stats_nonterminal {cfg : Config} {s s' : State} {x : Nat}
    (hnt : (s.Ribo (s.Rb_e s.c_id x)).pos + 1 ≠
      (cfg.Gene (s.mRNA (s.Ribo (s.Rb_e s.c_id x)).mRNA).gene).len)
    (he : elng_event cfg s x = some s') : SameStats s s' := by
  have hp : SameStats s (release_tRNA cfg (pick_ribo s x)) :=
    stats_trans (show SameStats s (pick_ribo s x) from stats_same rfl rfl rfl rfl rfl rfl rfl)
      (stats_release cfg _)
  rcases (elng_event_nonterminal hnt he).1 with h | h
  · rw [h]
    exact stats_trans (stats_trans hp (stats_move_still cfg _ x)) (stats_post_move cfg _)
  · rw [h]
    exact stats_trans (stats_trans hp (stats_move_blocked cfg _ x)) (stats_post_move cfg _)

/-- The elongation event of slot 1 of the queue of codon 0 in the
two-ribosome state, with the per-codon report switched on. -/
theorem elng_event_s2 :
    elng_event cfg1 s2 1 =
      some (post_move cfg1 (move_still cfg1 (release_tRNA cfg1 (pick_ribo s2 1)) 1)) := by
  have e1 : (release_tRNA cfg1 (pick_ribo s2 1)).r_id = 1 := by simp [s2, U0]
  have e2 : (release_tRNA cfg1 (pick_ribo s2 1)).Ribo = s2.Ribo := by simp
  have hlen : ∀ k, (cfg1.Gene k).len = 11 := fun _ => rfl
  have hps : (s2.Ribo 1).pos = 0 := rfl
  simp only [elng_event, e1, e2, hlen, hps]
  rw [if_neg (by decide), if_pos (Or.inl (by decide))]

/-! ## The run of one tick and its inter-initiation report -/

theorem r_ini_2 : r_ini cfg2 (init cfg2 U0) = 1 / 195 := by
  simp [r_ini, init, cfg2, cfg0, init_tot_scld, char_time_ribo]
  norm_num

theorem tot_rate_2 : tot_rate cfg2 (init cfg2 U0) = 1 / 195 := by
  unfold tot_rate
  rw [rate_upto_idle _ _ 61 (by intro c hc; simp [init, hc]), r_ini_2]

theorem tick_2 : tick cfg2 (init cfg2 U0) 0 0 0 = some s_rep := by
  have hb : ini_branch cfg2 (init cfg2 U0) 0 := by
    unfold ini_branch coin_of
    rw [r_ini_2, tot_rate_2]
    norm_num
  have hgl : gene_loop (ini_alloc (advance cfg2 (init cfg2 U0) (1 / tot_rate cfg2 (init cfg2 U0))))
      (((0 : Nat) : ℚ) / (cfg2.RAND_MAX : ℚ)) cfg2.n_genes 0 0 = some 0 := by
    rw [gene_loop_congr (s := init cfg2 U0) (by simp) (by simp)]
    simp [gene_loop, cfg2, cfg0, init, init_tot_scld]
  have hMf : (ini_alloc (advance cfg2 (init cfg2 U0) (1 / tot_rate cfg2 (init cfg2 U0)))).Mf 0 = 2 := by
    simp [init, cfg2, cfg0]
  simp only [tick, tot_rate_2]
  rw [if_neg (by norm_num), if_pos hb]
  simp only [initiation]
  rw [← tot_rate_2, hgl]
  simp only [hMf]
  rfl

theorem s_rep_t : s_rep.t = 195 := by
  rw [tick_t tick_2, tot_rate_2]
  simp [init]

theorem run_loop_2 : run_loop cfg2 (init cfg2 U0) [(0, 0, 0)] = some s_rep := by
  have h0 : (init cfg2 U0).t < cfg2.tot_time := by
    simp [init, cfg2]
  have h1 : ¬ s_rep.t < cfg2.tot_time := by
    rw [s_rep_t]
    simp [cfg2]
    norm_num
  simp only [run_loop]
  rw [if_pos h0, tick_2]
  simp only [Option.some_bind]
  rw [if_neg h1]

theorem s_rep_mRNA (m : Nat) :
    s_rep.mRNA m =
      if m = 0 then { gene := 0, ini_n := 1, trans_n := 0, last_ini := 195,
                      avg_time_to_ini := 195, avg_time_to_trans := 0 }
      else if m = 1 then { gene := 0, ini_n := 0, trans_n := 0, last_ini := 0,
                           avg_time_to_ini := 0, avg_time_to_trans := 0 }
      else U0.mRNA m := by
  have ht : (ini_pick cfg2 (ini_alloc (advance cfg2 (init cfg2 U0)
      (1 / tot_rate cfg2 (init cfg2 U0)))) 0 0).t = 195 := by
    rw [ini_pick_t, ini_alloc_t, advance_t, tot_rate_2]
    simp [init]
  have hm : (ini_pick cfg2 (ini_alloc (advance cfg2 (init cfg2 U0)
      (1 / tot_rate cfg2 (init cfg2 U0)))) 0 0).m_id = 0 := by
    simp [init, cfg2, cfg0, mRNA_start]
  have hM : (ini_pick cfg2 (ini_alloc (advance cfg2 (init cfg2 U0)
      (1 / tot_rate cfg2 (init cfg2 U0)))) 0 0).mRNA = init_mRNA cfg2.Gene U0.mRNA cfg2.n_genes := by
    simp [init]
  have hthr : cfg2.time_thres = 0 := rfl
  simp only [s_rep, ini_place_mRNA, ini_stats, ht, hm, hM, hthr]
  rw [if_pos (by norm_num)]
  simp only [set1]
  by_cases h0 : m = 0
  · subst h0
    simp [init_mRNA, cfg2, cfg0, mRNA_start]
  · by_cases h1 : m = 1
    · subst h1
      simp [init_mRNA, cfg2, cfg0, mRNA_start]
    · have h2 : ¬ m < 2 := by omega
      simp [init_mRNA, cfg2, cfg0, mRNA_start, h0, h1, h2]

/-! ## A run that exhausts the tRNA of its only queued codon -/

theorem tot_rate_zero (cfg : Config) (s : State) (h1 : r_ini cfg s = 0)
    (h2 : ∀ c, c < 61 → r_elng cfg s c = 0) : tot_rate cfg s = 0 := by
  unfold tot_rate
  rw [rate_upto_eq_sum, h1, zero_add]
  apply Finset.sum_eq_zero
  intro c hc
  exact h2 c (Finset.mem_range.mp hc)

theorem r_ini_3 : r_ini cfg3 (init cfg3 U0) = 1 / 390 := by
  simp [r_ini, init, cfg3, init_tot_scld, char_time_ribo]
  norm_num

theorem tot_rate_3 : tot_rate cfg3 (init cfg3 U0) = 1 / 390 := by
  unfold tot_rate
  rw [rate_upto_idle _ _ 61 (by intro c hc; simp [init, hc]), r_ini_3]

theorem tick_3a : tick cfg3 (init cfg3 U0) 0 0 0 = some s3a := by
  have hb : ini_branch cfg3 (init cfg3 U0) 0 := by
    unfold ini_branch coin_of
    rw [r_ini_3, tot_rate_3]
    norm_num
  have hgl : gene_loop (ini_alloc (advance cfg3 (init cfg3 U0) (1 / tot_rate cfg3 (init cfg3 U0))))
      (((0 : Nat) : ℚ) / (cfg3.RAND_MAX : ℚ)) cfg3.n_genes 0 0 = some 0 := by
    rw [gene_loop_congr (s := init cfg3 U0) (by simp) (by simp)]
    simp [gene_loop, cfg3, init, init_tot_scld]
  have hMf : (ini_alloc (advance cfg3 (init cfg3 U0) (1 / tot_rate cfg3 (init cfg3 U0)))).Mf 0 = 1 := by
    simp [init, cfg3]
  simp only [tick, tot_rate_3]
  rw [if_neg (by norm_num), if_pos hb]
  simp only [initiation]
  rw [← tot_rate_3, hgl]
  simp only [hMf]
  rfl

theorem init_tot_gcn_cfg3 : ∀ n, init_tot_gcn cfg3 n = n := by
  intro n
  induction n with
  | zero => rfl
  | succ k ih =>
    simp only [init_tot_gcn, ih]
    simp [cfg3]

theorem init_Tf_cfg3 (U : Nat → Int) :
    ∀ n, n ≤ 61 → ∀ c, c < 61 → init_Tf cfg3 U n c = if c < n then 1 else 0 := by
  intro n
  induction n with
  | zero => intro _ c hc; simp [init_Tf, hc]
  | succ k ih =>
    intro hk c hc
    have hw : (cfg3.cTRNA k).wobble = 1 := rfl
    have ht : (cfg3.cTRNA k).tid = k := rfl
    have hg : (cfg3.cTRNA k).gcn = 1 := rfl
    have hT : cfg3.tot_tRNA = 61 := rfl
    simp only [init_Tf]
    rw [if_pos hw, ht, hg, hT, init_tot_gcn_cfg3]
    simp only [set1]
    by_cases hck : c = k
    · subst hck
      simp
    · rw [if_neg hck, ih (by omega) c hc]
      by_cases h1 : c < k
      · simp [h1, Nat.lt_succ_of_lt h1]
      · have : ¬ c < k + 1 := by omega
        simp [h1, this]

theorem init_Tf_3 (c : Nat) (hc : c < 61) : (init cfg3 U0).Tf c = 1 := by
  simp only [init]
  rw [init_Tf_cfg3 _ 61 (Nat.le_refl _) c hc, if_pos hc]

theorem s3a_Tf (c : Nat) (hc : c < 61) : s3a.Tf c = 1 := by
  simp only [s3a, ini_place_Tf, ini_stats_Tf, ini_pick_Tf, ini_alloc_Tf, advance_Tf]
  exact init_Tf_3 c hc

theorem s3a_Rf : s3a.Rf = 1 := by
  simp only [s3a, ini_place_Rf, ini_stats_Rf, ini_pick_Rf, ini_alloc_Rf, advance_Rf]
  simp [init, cfg3]

theorem s3a_tot : s3a.tot_scld_Mf = 0 := by
  simp only [s3a, ini_place_tot, ini_stats_tot_scld_Mf, ini_pick_tot, ini_alloc_tot_scld_Mf,
    advance_tot_scld_Mf]
  simp [init, cfg3, init_tot_scld]

theorem s3a_queue :
    (∀ c, c < 61 → s3a.n_Rb_e c = if c = 0 then 1 else 0) ∧ s3a.Rb_e 0 0 = 0 := by
  have hg : (advance cfg3 (init cfg3 U0) (1 / tot_rate cfg3 (init cfg3 U0))).R_grid
      ((advance cfg3 (init cfg3 U0) (1 / tot_rate cfg3 (init cfg3 U0))).free_mRNA 0 0) 10
        = cfg3.tot_ribo := by
    simp [init, cfg3, mRNA_start, tot_mRNA]
  obtain ⟨q1, q2, _⟩ := ini_queued_fields cfg3 _ 0 0 hg
  have hc0 : (cfg3.Gene ((advance cfg3 (init cfg3 U0) (1 / tot_rate cfg3 (init cfg3 U0))).mRNA
      ((advance cfg3 (init cfg3 U0) (1 / tot_rate cfg3 (init cfg3 U0))).free_mRNA 0 0)).gene).seq 0
        = 0 := rfl
  rw [hc0] at q1 q2
  constructor
  · intro c hc
    simp only [s3a]
    rw [q1]
    simp [init, set1, hc]
  · simp only [s3a]
    rw [q2]
    simp [init, set2]

theorem s3a_ribo : (s3a.Ribo 0).pos = 0 ∧ (s3a.Ribo 0).mRNA = 0 := by
  constructor
  · simp only [s3a, ini_place_ps, ini_stats_Ribo, ini_pick_Ribo, ini_alloc_ps,
      advance_next_avail_ribo]
    rfl
  · simp only [s3a, ini_place_mr, ini_stats_r_id, ini_pick_r_id, ini_alloc_r_id,
      advance_next_avail_ribo, ini_stats_m_id, ini_pick_m_id, ini_alloc_free_mRNA,
      advance_free_mRNA]
    simp [init, cfg3, mRNA_start]

theorem s3a_t : s3a.t = 390 := by
  rw [tick_t tick_3a, tot_rate_3]
  simp [init]


theorem wobble_3 (c : Nat) : wobble cfg3 c = 25 / 177289 := by
  simp only [wobble, char_time_tRNA]
  have e1 : (cfg3.cTRNA c).wobble = 1 := rfl
  have e2 : (cfg3.avail_space_t : ℚ) = 12400000 := rfl
  rw [e1, e2]
  norm_num

theorem r_ini_3a : r_ini cfg3 s3a = 0 := by
  simp only [r_ini, s3a_tot]
  simp

theorem r_elng_3a (c : Nat) (hc : c < 61) :
    r_elng cfg3 s3a c = if c = 0 then 25 / 177289 else 0 := by
  have ht : (cfg3.cTRNA c).tid = c := rfl
  simp only [r_elng, ht, s3a_Tf c hc, wobble_3, s3a_queue.1 c hc]
  split <;> simp

theorem tot_rate_3a : tot_rate cfg3 s3a = 25 / 177289 := by
  unfold tot_rate
  rw [rate_upto_eq_sum, r_ini_3a, zero_add, Finset.sum_eq_single 0]
  · rw [r_elng_3a 0 (by decide), if_pos rfl]
  · intro c hc hne
    rw [r_elng_3a c (Finset.mem_range.mp hc), if_neg hne]
  · intro h
    exact absurd (Finset.mem_range.mpr (by decide)) h

theorem tick_3b : tick cfg3 s3a 0 0 0 = some s3b := by
  have hnb : ¬ ini_branch cfg3 s3a 0 := by
    unfold ini_branch coin_of
    rw [r_ini_3a]
    simp
  have hcl : codon_loop (r_elng cfg3 s3a) (1 / tot_rate cfg3 s3a) (coin_of cfg3 0) 61 0
      (r_ini cfg3 s3a * (1 / tot_rate cfg3 s3a)) = some 0 := by
    show codon_loop _ _ _ (60 + 1) 0 _ = _
    simp only [codon_loop]
    rw [if_pos]
    rw [r_ini_3a, r_elng_3a 0 (by decide), if_pos rfl, tot_rate_3a]
    simp [coin_of]
  have hn : (advance cfg3 s3a (1 / tot_rate cfg3 s3a)).n_Rb_e 0 = 1 := by
    rw [advance_n_Rb_e, s3a_queue.1 0 (by decide), if_pos rfl]
  have e1 : (release_tRNA cfg3 (pick_ribo
      { advance cfg3 s3a (1 / tot_rate cfg3 s3a) with c_id := 0 } 0)).r_id = 0 := by
    simp [s3a_queue.2]
  have e2 : (release_tRNA cfg3 (pick_ribo
      { advance cfg3 s3a (1 / tot_rate cfg3 s3a) with c_id := 0 } 0)).Ribo = s3a.Ribo := by
    simp
  have hlen : ∀ g, (cfg3.Gene g).len = 11 := fun _ => rfl
  have he : elng_event cfg3 { advance cfg3 s3a (1 / tot_rate cfg3 s3a) with c_id := 0 } 0 =
      some (post_move cfg3 (move_still cfg3 (release_tRNA cfg3 (pick_ribo
        { advance cfg3 s3a (1 / tot_rate cfg3 s3a) with c_id := 0 } 0)) 0)) := by
    simp only [elng_event, e1, e2, hlen, s3a_ribo.1]
    rw [if_neg (by omega), if_pos (Or.inl (by omega))]
  simp only [tick]
  rw [if_neg (by rw [tot_rate_3a]; norm_num), if_neg hnb]
  simp only [elongation, hcl]
  rw [hn, if_neg (by omega), Nat.mod_one, he]
  rfl

theorem run_3b : Run cfg3 U0 s3b := by
  have h1 : Run cfg3 U0 s3a :=
    Run.tick 0 0 0 Run.init tick_3a (fun _ => by
      have : gene_loop (init cfg3 U0) (coin_of cfg3 0) cfg3.n_genes 0 0 = some 0 := by
        simp [gene_loop, cfg3, coin_of, init, init_tot_scld]
      rw [this]; rfl)
  have hnb : ¬ ini_branch cfg3 s3a 0 := by
    unfold ini_branch coin_of
    rw [r_ini_3a]
    simp
  exact Run.tick 0 0 0 h1 tick_3b (fun hb => absurd hb hnb)

theorem s3b_t : s3b.t = 390 + 177289 / 25 := by
  rw [tick_t tick_3b, tot_rate_3a, s3a_t]
  norm_num


theorem post_move_low (cfg : Config) (s : State) (h : (s.Ribo s.r_id).pos < 10) :
    post_move cfg s = stamp s := by
  have h1 : ¬ (s.Ribo s.r_id).pos > 10 := by omega
  have h2 : ¬ (s.Ribo s.r_id).pos = 10 := by omega
  simp only [post_move, h1, h2, if_false]

theorem first_step_same_codon (cfg : Config) (sa : State) (x : Nat)
    (hp : (sa.Ribo sa.r_id).pos = 0)
    (hc : (cfg.Gene (sa.mRNA sa.m_id).gene).seq 1 = sa.c_id) :
    post_move cfg (move_still cfg (release_tRNA cfg sa) x) =
      stamp (take_tRNA cfg (move_ribo cfg sa)) := by
  have h1 : release_tRNA cfg sa = sa := by
    simp only [release_tRNA]
    rw [hp, if_neg (by omega)]
  have h2 : move_still cfg sa x = take_tRNA cfg (move_ribo cfg sa) := by
    simp only [move_still]
    rw [if_neg]
    simp [move_ribo, set1, hp, hc]
  have h3 : ((take_tRNA cfg (move_ribo cfg sa)).Ribo (take_tRNA cfg (move_ribo cfg sa)).r_id).pos
      = 1 := by
    simp [take_tRNA, move_ribo, set1, hp]
  rw [h1, h2, post_move_low _ _ (by rw [h3]; omega)]

theorem s3b_eq : s3b = snapshot cfg3 (stamp (take_tRNA cfg3 (move_ribo cfg3
    (pick_ribo { advance cfg3 s3a (1 / tot_rate cfg3 s3a) with c_id := 0 } 0)))) := by
  simp only [s3b]
  rw [first_step_same_codon]
  · simp [pick_ribo, s3a_queue.2, s3a_ribo.1]
  · rfl

theorem s3b_Rf : s3b.Rf = 1 := by
  rw [s3b_eq]
  simp [take_tRNA, pick_ribo, s3a_Rf]

theorem s3b_tot : s3b.tot_scld_Mf = 0 := by
  rw [s3b_eq]
  simp [take_tRNA, pick_ribo, s3a_tot]

theorem s3b_n_Rb_e (c : Nat) (hc : c < 61) : s3b.n_Rb_e c = if c = 0 then 1 else 0 := by
  rw [s3b_eq]
  simp [take_tRNA, pick_ribo, s3a_queue.1 c hc]

theorem s3b_Tf (c : Nat) (hc : c < 61) : s3b.Tf c = if c = 0 then 0 else 1 := by
  have ht : (cfg3.cTRNA 0).tid = 0 := rfl
  rw [s3b_eq]
  simp only [snapshot_Tf, stamp_Tf, take_tRNA, move_ribo_Tf, move_ribo_c_id, pick_ribo_Tf,
    pick_ribo_c_id, advance_Tf, ht, set1]
  by_cases h0 : c = 0
  · subst h0
    simp [s3a_Tf 0 hc]
  · simp [h0, s3a_Tf c hc]

theorem tot_rate_3b : tot_rate cfg3 s3b = 0 := by
  apply tot_rate_zero
  · simp [r_ini, s3b_tot]
  · intro c hc
    have ht : (cfg3.cTRNA c).tid = c := rfl
    simp only [r_elng, ht, s3b_Tf c hc, s3b_n_Rb_e c hc]
    by_cases h0 : c = 0 <;> simp [h0]


/-! ## When the total rate is positive -/

theorem sum_pos_iff_nn {S : Finset Nat} {f : Nat → ℚ} (h : ∀ i ∈ S, 0 ≤ f i) :
    0 < ∑ i in S, f i ↔ ∃ i ∈ S, 0 < f i := by
  constructor
  · intro hs
    by_contra hne
    have hz : ∀ i ∈ S, f i = 0 := by
      intro i hi
      have : ¬ 0 < f i := fun hp => hne ⟨i, hi, hp⟩
      exact le_antisymm (not_lt.mp this) (h i hi)
    rw [Finset.sum_eq_zero hz] at hs
    exact lt_irrefl _ hs
  · rintro ⟨i, hi, hp⟩
    exact Finset.sum_pos' h ⟨i, hi, hp⟩

theorem wobble_pos (cfg : Config) (c : Nat) (hst : 0 < cfg.avail_space_t)
    (hw : 0 < (cfg.cTRNA c).wobble) : 0 < wobble cfg c := by
  unfold wobble
  apply div_pos hw
  apply mul_pos _ hst
  unfold char_time_tRNA
  norm_num

theorem r_elng_nonneg (cfg : Config) (s : State) (c : Nat) (hw : 0 < wobble cfg c)
    (hT : 0 ≤ s.Tf (cfg.cTRNA c).tid) : 0 ≤ r_elng cfg s c := by
  unfold r_elng
  have h1 : (0 : ℚ) ≤ (s.Tf (cfg.cTRNA c).tid : ℚ) := by exact_mod_cast hT
  have h2 : (0 : ℚ) ≤ (s.n_Rb_e c : ℚ) := by positivity
  exact mul_nonneg (mul_nonneg h1 (le_of_lt hw)) h2

theorem r_elng_pos_iff (cfg : Config) (s : State) (c : Nat) (hw : 0 < wobble cfg c)
    (hT : 0 ≤ s.Tf (cfg.cTRNA c).tid) :
    0 < r_elng cfg s c ↔ s.Tf (cfg.cTRNA c).tid ≠ 0 ∧ s.n_Rb_e c ≠ 0 := by
  have h1 : (0 : ℚ) ≤ (s.Tf (cfg.cTRNA c).tid : ℚ) := by exact_mod_cast hT
  have h2 : (0 : ℚ) ≤ (s.n_Rb_e c : ℚ) := by positivity
  unfold r_elng
  constructor
  · intro h
    constructor
    · intro h0
      rw [h0] at h
      simp at h
    · intro h0
      rw [h0] at h
      simp at h
  · rintro ⟨a, b⟩
    have a1 : (0 : ℚ) < (s.Tf (cfg.cTRNA c).tid : ℚ) := by
      have : 0 < s.Tf (cfg.cTRNA c).tid := lt_of_le_of_ne hT (Ne.symm a)
      exact_mod_cast this
    have b1 : (0 : ℚ) < (s.n_Rb_e c : ℚ) := by
      have : 0 < s.n_Rb_e c := Nat.pos_of_ne_zero b
      exact_mod_cast this
    exact mul_pos (mul_pos a1 hw) b1

theorem tot_scld_nonneg (cfg : Config) (s : State) (hS : ScldInv cfg s)
    (hp : ∀ g, g < cfg.n_genes → 0 < (cfg.Gene g).ini_prob) : 0 ≤ s.tot_scld_Mf := by
  rw [hS.tot]
  apply Finset.sum_nonneg
  intro g hg
  exact mul_nonneg (by positivity) (le_of_lt (hp g (Finset.mem_range.mp hg)))

theorem tot_scld_pos_iff (cfg : Config) (s : State) (hS : ScldInv cfg s)
    (hp : ∀ g, g < cfg.n_genes → 0 < (cfg.Gene g).ini_prob) :
    0 < s.tot_scld_Mf ↔ ∃ g, g < cfg.n_genes ∧ s.Mf g ≠ 0 := by
  rw [hS.tot]
  have hnn : ∀ g ∈ Finset.range cfg.n_genes, 0 ≤ (s.Mf g : ℚ) * (cfg.Gene g).ini_prob := by
    intro g hg
    exact mul_nonneg (by positivity) (le_of_lt (hp g (Finset.mem_range.mp hg)))
  rw [sum_pos_iff_nn hnn]
  constructor
  · rintro ⟨g, hg, h⟩
    refine ⟨g, Finset.mem_range.mp hg, ?_⟩
    intro h0
    rw [h0] at h
    simp at h
  · rintro ⟨g, hg, h⟩
    refine ⟨g, Finset.mem_range.mpr hg, ?_⟩
    have : 0 < s.Mf g := Nat.pos_of_ne_zero h
    exact mul_pos (by exact_mod_cast this) (hp g hg)

theorem r_ini_nonneg (cfg : Config) (s : State) (hsr : 0 < cfg.avail_space_r)
    (hR : 0 ≤ s.Rf) (ht : 0 ≤ s.tot_scld_Mf) : 0 ≤ r_ini cfg s := by
  unfold r_ini
  have h1 : (0 : ℚ) ≤ (s.Rf : ℚ) := by exact_mod_cast hR
  have h2 : 0 < char_time_ribo * cfg.avail_space_r := by
    apply mul_pos _ hsr
    unfold char_time_ribo
    norm_num
  exact div_nonneg (mul_nonneg ht h1) (le_of_lt h2)

theorem r_ini_pos_iff (cfg : Config) (s : State) (hsr : 0 < cfg.avail_space_r)
    (hR : 0 ≤ s.Rf) (ht : 0 ≤ s.tot_scld_Mf) :
    0 < r_ini cfg s ↔ s.Rf ≠ 0 ∧ 0 < s.tot_scld_Mf := by
  have h1 : (0 : ℚ) ≤ (s.Rf : ℚ) := by exact_mod_cast hR
  have h2 : 0 < char_time_ribo * cfg.avail_space_r := by
    apply mul_pos _ hsr
    unfold char_time_ribo
    norm_num
  unfold r_ini
  rw [div_pos_iff_of_pos_right h2]
  constructor
  · intro h
    constructor
    · intro h0
      rw [h0] at h
      simp at h
    · rcases lt_or_eq_of_le ht with h3 | h3
      · exact h3
      · rw [← h3] at h
        simp at h
  · rintro ⟨a, b⟩
    have : 0 < s.Rf := lt_of_le_of_ne hR (Ne.symm a)
    exact mul_pos b (by exact_mod_cast this)

theorem tot_rate_pos_iff (cfg : Config) (s : State) (hsr : 0 < cfg.avail_space_r)
    (hst : 0 < cfg.avail_space_t) (hw : ∀ c, c < 61 → 0 < (cfg.cTRNA c).wobble)
    (hp : ∀ g, g < cfg.n_genes → 0 < (cfg.Gene g).ini_prob) (hR : 0 ≤ s.Rf)
    (hS : ScldInv cfg s) (hT : ∀ c, c < 61 → 0 ≤ s.Tf (cfg.cTRNA c).tid) :
    (0 < tot_rate cfg s ↔
      (s.Rf ≠ 0 ∧ ∃ g, g < cfg.n_genes ∧ s.Mf g ≠ 0) ∨
        ∃ c, c < 61 ∧ s.Tf (cfg.cTRNA c).tid ≠ 0 ∧ s.n_Rb_e c ≠ 0) ∧
      0 ≤ tot_rate cfg s := by
  have htn := tot_scld_nonneg cfg s hS hp
  have hin := r_ini_nonneg cfg s hsr hR htn
  have hen : ∀ c ∈ Finset.range 61, 0 ≤ r_elng cfg s c := by
    intro c hc
    have hc' := Finset.mem_range.mp hc
    exact r_elng_nonneg cfg s c (wobble_pos cfg c hst (hw c hc')) (hT c hc')
  have hsum := Finset.sum_nonneg hen
  have heq : tot_rate cfg s = r_ini cfg s + ∑ j in Finset.range 61, r_elng cfg s j :=
    rate_upto_eq_sum cfg s 61
  refine ⟨?_, by rw [heq]; exact add_nonneg hin hsum⟩
  rw [heq]
  constructor
  · intro h
    by_cases hi : 0 < r_ini cfg s
    · left
      obtain ⟨a, b⟩ := (r_ini_pos_iff cfg s hsr hR htn).mp hi
      exact ⟨a, (tot_scld_pos_iff cfg s hS hp).mp b⟩
    · right
      have hi0 : r_ini cfg s = 0 := le_antisymm (not_lt.mp hi) hin
      rw [hi0, zero_add, sum_pos_iff_nn hen] at h
      obtain ⟨c, hc, hpos⟩ := h
      have hc' := Finset.mem_range.mp hc
      exact ⟨c, hc', (r_elng_pos_iff cfg s c (wobble_pos cfg c hst (hw c hc')) (hT c hc')).mp hpos⟩
  · rintro (⟨a, b⟩ | ⟨c, hc, d⟩)
    · have := (r_ini_pos_iff cfg s hsr hR htn).mpr ⟨a, (tot_scld_pos_iff cfg s hS hp).mpr b⟩
      exact add_pos_of_pos_of_nonneg this hsum
    · have := (r_elng_pos_iff cfg s c (wobble_pos cfg c hst (hw c hc)) (hT c hc)).mpr d
      exact add_pos_of_nonneg_of_pos hin
        ((sum_pos_iff_nn hen).mpr ⟨c, Finset.mem_range.mpr hc, this⟩)


theorem lenOK_cfg3 : LenOK cfg3 := by
  intro g _; simp [cfg3]

theorem codonOK_cfg3 : CodonOK cfg3 := by
  intro g _ p _; simp [cfg3]

theorem run_3a : Run cfg3 U0 s3a :=
  Run.tick 0 0 0 Run.init tick_3a (fun _ => by
    have : gene_loop (init cfg3 U0) (coin_of cfg3 0) cfg3.n_genes 0 0 = some 0 := by
      simp [gene_loop, cfg3, coin_of, init, init_tot_scld]
    rw [this]; rfl)


/-! ## The three kinds of tick -/

@[simp] theorem picked_Ribo (cfg : Config) (s : State) (c x : Nat) :
    (picked cfg s c x).Ribo = s.Ribo := by simp [picked]

@[simp] theorem picked_mRNA (cfg : Config) (s : State) (c x : Nat) :
    (picked cfg s c x).mRNA = s.mRNA := by simp [picked]

@[simp] theorem picked_R_grid (cfg : Config) (s : State) (c x : Nat) :
    (picked cfg s c x).R_grid = s.R_grid := by simp [picked]

@[simp] theorem picked_N (cfg : Config) (s : State) (c x : Nat) :
    (picked cfg s c x).next_avail_ribo = s.next_avail_ribo := by simp [picked]

@[simp] theorem picked_r_id (cfg : Config) (s : State) (c x : Nat) :
    (picked cfg s c x).r_id = s.Rb_e c x := by simp [picked]

@[simp] theorem picked_m_id (cfg : Config) (s : State) (c x : Nat) :
    (picked cfg s c x).m_id = (s.Ribo (s.Rb_e c x)).mRNA := by simp [picked]

@[simp] theorem picked_c_id (cfg : Config) (s : State) (c x : Nat) :
    (picked cfg s c x).c_id = c := by simp [picked]

@[simp] theorem picked_n_Rb_e (cfg : Config) (s : State) (c x : Nat) :
    (picked cfg s c x).n_Rb_e = s.n_Rb_e := by simp [picked]

@[simp] theorem picked_Rb_e (cfg : Config) (s : State) (c x : Nat) :
    (picked cfg s c x).Rb_e = s.Rb_e := by simp [picked]

@[simp] theorem picked_Mf (cfg : Config) (s : State) (c x : Nat) :
    (picked cfg s c x).Mf = s.Mf := by simp [picked]

@[simp] theorem picked_free_mRNA (cfg : Config) (s : State) (c x : Nat) :
    (picked cfg s c x).free_mRNA = s.free_mRNA := by simp [picked]

@[simp] theorem picked_Rf (cfg : Config) (s : State) (c x : Nat) :
    (picked cfg s c x).Rf = s.Rf := by simp [picked]

theorem picked_inv {cfg : Config} {s : State} (h : Inv cfg s) (hC : CodonOK cfg) (c x : Nat)
    (hc : c < 61) (hx : x < s.n_Rb_e c) : Picked cfg (picked cfg s c x) x := by
  have hI : Inv cfg { advance cfg s (1 / tot_rate cfg s) with c_id := c } := by
    apply (h.advance (1 / tot_rate cfg s)).same_core <;> first | rfl | (intro _; rfl)
  exact Picked.of_inv hI hC hc (by simpa using hx)

theorem elongation_sel (cfg : Config) (s : State) (r1 r2 : Nat) :
    elongation cfg (advance cfg s (1 / tot_rate cfg s)) (r_elng cfg s) (1 / tot_rate cfg s)
        (r_ini cfg s * (1 / tot_rate cfg s)) (coin_of cfg r1) r2 =
      if 61 ≤ sel_codon cfg s r1 ∨ s.n_Rb_e (sel_codon cfg s r1) = 0 then none
      else (elng_event cfg
        { advance cfg s (1 / tot_rate cfg s) with c_id := sel_codon cfg s r1 }
        (r2 % s.n_Rb_e (sel_codon cfg s r1))).map (snapshot cfg) := by
  have e1 := advance_c_id cfg s (1 / tot_rate cfg s)
  have e2 := advance_n_Rb_e cfg s (1 / tot_rate cfg s)
  unfold elongation sel_codon
  cases codon_loop (r_elng cfg s) (1 / tot_rate cfg s) (coin_of cfg r1) 61 0
      (r_ini cfg s * (1 / tot_rate cfg s)) with
  | none =>
    dsimp only
    rw [e1, e2]
  | some c =>
    dsimp only
    rw [e2]

/-- A tick that returns is an initiation on a transcript of the picked gene, a
termination, or a non-terminal elongation of a picked queue entry. -/
theorem tick_cases {cfg : Config} {s s' : State} {r1 r2 r3 : Nat} (h : Inv cfg s)
    (hC : CodonOK cfg) (hp : gene_picked cfg s r1 r2) (ht : tick cfg s r1 r2 r3 = some s') :
    (ini_branch cfg s r1 ∧ ∃ g, g < cfg.n_genes ∧ s.Mf g ≠ 0 ∧
      s' = ini_place cfg (ini_stats cfg (ini_pick cfg
        (ini_alloc (advance cfg s (1 / tot_rate cfg s))) g (r3 % s.Mf g)))) ∨
    (¬ ini_branch cfg s r1 ∧ ∃ c x sp, c = sel_codon cfg s r1 ∧ c < 61 ∧ x < s.n_Rb_e c ∧
      sp = picked cfg s c x ∧ Picked cfg sp x ∧
      (((sp.Ribo sp.r_id).pos + 1 = (cfg.Gene (sp.mRNA sp.m_id).gene).len ∧
          s' = snapshot cfg (terminate cfg sp x)) ∨
        ((sp.Ribo sp.r_id).pos + 1 ≠ (cfg.Gene (sp.mRNA sp.m_id).gene).len ∧
          ((sp.Ribo sp.r_id).pos + 11 ≥ (cfg.Gene (sp.mRNA sp.m_id).gene).len ∨
            sp.R_grid sp.m_id ((sp.Ribo sp.r_id).pos + 11) = cfg.tot_ribo) ∧
          s' = snapshot cfg (post_move cfg (move_still cfg sp x))) ∨
        ((sp.Ribo sp.r_id).pos + 1 ≠ (cfg.Gene (sp.mRNA sp.m_id).gene).len ∧
          ¬ ((sp.Ribo sp.r_id).pos + 11 ≥ (cfg.Gene (sp.mRNA sp.m_id).gene).len ∨
            sp.R_grid sp.m_id ((sp.Ribo sp.r_id).pos + 11) = cfg.tot_ribo) ∧
          s' = snapshot cfg (post_move cfg (move_blocked cfg sp x))))) := by
  simp only [tick] at ht
  split at ht
  · exact absurd ht (by simp)
  · split at ht
    · rename_i hb
      left
      refine ⟨hb, ?_⟩
      have hpick := hp hb
      simp only [initiation] at ht
      have hgl : gene_loop (ini_alloc (advance cfg s (1 / tot_rate cfg s)))
          ((r2 : ℚ) / (cfg.RAND_MAX : ℚ)) cfg.n_genes 0 0 =
          gene_loop s (coin_of cfg r2) cfg.n_genes 0 0 :=
        gene_loop_congr (by simp) (by simp) _ _ _ _
      rw [hgl] at ht
      cases hg : gene_loop s (coin_of cfg r2) cfg.n_genes 0 0 with
      | none => rw [hg] at hpick; exact absurd hpick (by simp)
      | some g =>
        rw [hg] at ht
        simp only [ini_alloc_Mf, advance_Mf] at ht
        split at ht
        · exact absurd ht (by simp)
        · rename_i hM
          simp only [Option.some.injEq] at ht
          have hlt := gene_loop_lt s _ _ _ _ _ hg
          exact ⟨g, by omega, hM, ht.symm⟩
    · rename_i hb
      right
      refine ⟨hb, ?_⟩
      have ht' : elongation cfg (advance cfg s (1 / tot_rate cfg s)) (r_elng cfg s)
          (1 / tot_rate cfg s) (r_ini cfg s * (1 / tot_rate cfg s)) (coin_of cfg r1) r2
            = some s' := ht
      rw [elongation_sel] at ht'
      split at ht'
      · exact absurd ht' (by simp)
      · rename_i hg
        obtain ⟨a, ha, hs⟩ := Option.map_eq_some'.mp ht'
        have hc : sel_codon cfg s r1 < 61 := by omega
        have hx : r2 % s.n_Rb_e (sel_codon cfg s r1) < s.n_Rb_e (sel_codon cfg s r1) :=
          Nat.mod_lt _ (by omega)
        refine ⟨sel_codon cfg s r1, r2 % s.n_Rb_e (sel_codon cfg s r1), _, rfl, hc, hx, rfl,
          picked_inv h hC _ _ hc hx, ?_⟩
        simp only [elng_event] at ha
        split at ha
        · rename_i hterm
          split at ha
          · exact absurd ha (by simp)
          · simp only [Option.some.injEq] at ha
            left
            exact ⟨hterm, by rw [← hs, ← ha]; rfl⟩
        · rename_i hnt
          split at ha
          · rename_i hst
            simp only [Option.some.injEq] at ha
            right; left
            exact ⟨hnt, hst, by rw [← hs, ← ha]; rfl⟩
          · rename_i hst
            simp only [Option.some.injEq] at ha
            right; right
            exact ⟨hnt, hst, by rw [← hs, ← ha]; rfl⟩


/-! ## Occupied cells and bound ribosomes -/

theorem occupied_iff {cfg : Config} {s : State} (h : Inv cfg s) (m p : Nat) :
    occupied cfg s m p ↔
      ∃ i, i < s.next_avail_ribo ∧ (s.Ribo i).mRNA = m ∧ (s.Ribo i).pos = p := by
  constructor
  · rintro ⟨hm, hp, ho⟩
    obtain ⟨o1, o2, o3⟩ := h.grid.occ m p hm hp ho
    exact ⟨_, o1, o2, o3⟩
  · rintro ⟨i, hi, rfl, rfl⟩
    obtain ⟨c1, c2, c3⟩ := h.grid.cell i hi
    refine ⟨c1, c2, ?_⟩
    have c3' : s.R_grid (s.Ribo i).mRNA (s.Ribo i).pos = i := c3
    rw [c3']
    exact ne_of_lt (h.grid.act_lt i hi)

theorem slot_inj {cfg : Config} {s : State} (h : Inv cfg s) {i j : Nat}
    (hi : i < s.next_avail_ribo) (hj : j < s.next_avail_ribo)
    (hm : (s.Ribo i).mRNA = (s.Ribo j).mRNA) (hp : (s.Ribo i).pos = (s.Ribo j).pos) : i = j := by
  have c1 : s.R_grid (s.Ribo i).mRNA (s.Ribo i).pos = i := (h.grid.cell i hi).2.2
  have c2 : s.R_grid (s.Ribo j).mRNA (s.Ribo j).pos = j := (h.grid.cell j hj).2.2
  rw [hm, hp] at c1
  omega

theorem queued_iff {cfg : Config} {s : State} (h : Inv cfg s) (i : Nat) :
    queued s i ↔ i < s.next_avail_ribo ∧ elongatable cfg s i := by
  constructor
  · rintro ⟨c, hc, x, hx, rfl⟩
    exact (h.queue.entry c x hc hx (by simp)).1
  · intro hi
    obtain ⟨m1, m2, m3, _⟩ := h.queue.member i hi
    exact ⟨_, m1, _, m2, m3⟩

/-- The occupied cells after an event that added the new slot `N` at `(m, 0)`. -/
theorem occupied_add {cfg : Config} {s s' : State} (h : Inv cfg s) (h' : Inv cfg s') (m : Nat)
    (hN : s'.next_avail_ribo = s.next_avail_ribo + 1)
    (hm : (s'.Ribo s.next_avail_ribo).mRNA = m) (hp : (s'.Ribo s.next_avail_ribo).pos = 0)
    (hs : ∀ j, j < s.next_avail_ribo →
      (s'.Ribo j).mRNA = (s.Ribo j).mRNA ∧ (s'.Ribo j).pos = (s.Ribo j).pos) (m' p' : Nat) :
    occupied cfg s' m' p' ↔ occupied cfg s m' p' ∨ (m' = m ∧ p' = 0) := by
  rw [occupied_iff h', occupied_iff h]
  constructor
  · rintro ⟨i, hi, e1, e2⟩
    by_cases hiN : i = s.next_avail_ribo
    · subst hiN
      right
      exact ⟨by rw [← e1, hm], by rw [← e2, hp]⟩
    · left
      have hlt : i < s.next_avail_ribo := by omega
      exact ⟨i, hlt, by rw [← (hs i hlt).1]; exact e1, by rw [← (hs i hlt).2]; exact e2⟩
  · rintro (⟨i, hi, e1, e2⟩ | ⟨e1, e2⟩)
    · exact ⟨i, by omega, by rw [(hs i hi).1]; exact e1, by rw [(hs i hi).2]; exact e2⟩
    · exact ⟨s.next_avail_ribo, by omega, by rw [hm, e1], by rw [hp, e2]⟩

/-- The occupied cells after an event that moved slot `i` one codon forward. -/
theorem occupied_move {cfg : Config} {s s' : State} (h : Inv cfg s) (h' : Inv cfg s') (i : Nat)
    (hi : i < s.next_avail_ribo) (hN : s'.next_avail_ribo = s.next_avail_ribo)
    (hm : (s'.Ribo i).mRNA = (s.Ribo i).mRNA) (hp : (s'.Ribo i).pos = (s.Ribo i).pos + 1)
    (hs : ∀ j, j < s.next_avail_ribo → j ≠ i →
      (s'.Ribo j).mRNA = (s.Ribo j).mRNA ∧ (s'.Ribo j).pos = (s.Ribo j).pos) (m' p' : Nat) :
    occupied cfg s' m' p' ↔
      (occupied cfg s m' p' ∧ ¬ (m' = (s.Ribo i).mRNA ∧ p' = (s.Ribo i).pos)) ∨
        (m' = (s.Ribo i).mRNA ∧ p' = (s.Ribo i).pos + 1) := by
  rw [occupied_iff h', occupied_iff h]
  constructor
  · rintro ⟨j, hj, e1, e2⟩
    by_cases hji : j = i
    · subst hji
      right
      exact ⟨by rw [← e1, hm], by rw [← e2, hp]⟩
    · left
      have hlt : j < s.next_avail_ribo := by omega
      obtain ⟨a1, a2⟩ := hs j hlt hji
      refine ⟨⟨j, hlt, by rw [← a1]; exact e1, by rw [← a2]; exact e2⟩, ?_⟩
      rintro ⟨b1, b2⟩
      apply hji
      apply slot_inj h hlt hi
      · rw [← a1, e1, b1]
      · rw [← a2, e2, b2]
  · rintro (⟨⟨j, hj, e1, e2⟩, hne⟩ | ⟨e1, e2⟩)
    · have hji : j ≠ i := by
        rintro rfl
        exact hne ⟨e1.symm, e2.symm⟩
      obtain ⟨a1, a2⟩ := hs j hj hji
      exact ⟨j, by omega, by rw [a1]; exact e1, by rw [a2]; exact e2⟩
    · exact ⟨i, by omega, by rw [hm, e1], by rw [hp, e2]⟩

/-- The occupied cells after an event that removed slot `i` and moved the
last slot into it. -/
theorem occupied_remove {cfg : Config} {s s' : State} (h : Inv cfg s) (h' : Inv cfg s')
    (i : Nat) (hi : i < s.next_avail_ribo) (hN : s'.next_avail_ribo = s.next_avail_ribo - 1)
    (hs : ∀ j, j < s.next_avail_ribo - 1 →
      (s'.Ribo j).mRNA = (s.Ribo (if j = i then s.next_avail_ribo - 1 else j)).mRNA ∧
      (s'.Ribo j).pos = (s.Ribo (if j = i then s.next_avail_ribo - 1 else j)).pos)
    (m' p' : Nat) :
    occupied cfg s' m' p' ↔
      occupied cfg s m' p' ∧ ¬ (m' = (s.Ribo i).mRNA ∧ p' = (s.Ribo i).pos) := by
  rw [occupied_iff h', occupied_iff h]
  constructor
  · rintro ⟨j, hj, e1, e2⟩
    have hlt : j < s.next_avail_ribo - 1 := by omega
    obtain ⟨a1, a2⟩ := hs j hlt
    have hk : (if j = i then s.next_avail_ribo - 1 else j) < s.next_avail_ribo := by
      split <;> omega
    have hki : (if j = i then s.next_avail_ribo - 1 else j) ≠ i := by
      split <;> omega
    refine ⟨⟨_, hk, by rw [← a1]; exact e1, by rw [← a2]; exact e2⟩, ?_⟩
    rintro ⟨b1, b2⟩
    apply hki
    apply slot_inj h hk hi
    · rw [← a1, e1, b1]
    · rw [← a2, e2, b2]
  · rintro ⟨⟨j, hj, e1, e2⟩, hne⟩
    have hji : j ≠ i := by
      rintro rfl
      exact hne ⟨e1.symm, e2.symm⟩
    by_cases hl : j = s.next_avail_ribo - 1
    · have hil : i < s.next_avail_ribo - 1 := by omega
      obtain ⟨a1, a2⟩ := hs i hil
      rw [if_pos rfl] at a1 a2
      exact ⟨i, by omega, by rw [a1, ← hl]; exact e1, by rw [a2, ← hl]; exact e2⟩
    · have hjl : j < s.next_avail_ribo - 1 := by omega
      obtain ⟨a1, a2⟩ := hs j hjl
      rw [if_neg hji] at a1 a2
      exact ⟨j, by omega, by rw [a1]; exact e1, by rw [a2]; exact e2⟩


/-! ## The records after each kind of event -/

theorem initiate_records (cfg : Config) (s : State) (ir : ℚ) (g c2 : Nat) :
    (ini_place cfg (ini_stats cfg (ini_pick cfg (ini_alloc (advance cfg s ir)) g c2))).next_avail_ribo
        = s.next_avail_ribo + 1 ∧
      (∀ j, ((ini_place cfg (ini_stats cfg (ini_pick cfg (ini_alloc (advance cfg s ir)) g c2))).Ribo
          j).mRNA = if j = s.next_avail_ribo then s.free_mRNA g c2 else (s.Ribo j).mRNA) ∧
      (∀ j, ((ini_place cfg (ini_stats cfg (ini_pick cfg (ini_alloc (advance cfg s ir)) g c2))).Ribo
          j).pos = if j = s.next_avail_ribo then 0 else (s.Ribo j).pos) := by
  refine ⟨?_, ?_, ?_⟩
  · simp only [ini_place_N, ini_stats_next_avail_ribo, ini_pick_next_avail_ribo, ini_alloc_N,
      advance_next_avail_ribo]
  · intro j
    simp only [ini_place_mr, ini_stats_r_id, ini_pick_r_id, ini_alloc_r_id,
      advance_next_avail_ribo, ini_stats_m_id, ini_pick_m_id, ini_alloc_free_mRNA,
      advance_free_mRNA, ini_stats_Ribo, ini_pick_Ribo, ini_alloc_mr, advance_Ribo]
  · intro j
    simp only [ini_place_ps, ini_stats_Ribo, ini_pick_Ribo, ini_alloc_ps,
      advance_next_avail_ribo, advance_Ribo]

theorem moved_records {cfg : Config} {sp sm : State} {still : Prop} (hm : Moved cfg sp sm still) :
    (snapshot cfg (post_move cfg sm)).next_avail_ribo = sp.next_avail_ribo ∧
      (∀ j, ((snapshot cfg (post_move cfg sm)).Ribo j).mRNA = (sp.Ribo j).mRNA) ∧
      (∀ j, ((snapshot cfg (post_move cfg sm)).Ribo j).pos =
        if j = sp.r_id then (sp.Ribo sp.r_id).pos + 1 else (sp.Ribo j).pos) := by
  refine ⟨?_, ?_, ?_⟩
  · rw [snapshot_next_avail_ribo, post_move_N, hm.N]
  · intro j
    rw [snapshot_Ribo, post_move_mr, hm.mr]
  · intro j
    rw [snapshot_Ribo, post_move_ps, hm.ps, move_ribo_ps']

theorem terminated_records (cfg : Config) (sp : State) (x : Nat) :
    (snapshot cfg (terminate cfg sp x)).next_avail_ribo = sp.next_avail_ribo - 1 ∧
      ∀ j, j < sp.next_avail_ribo - 1 →
        ((snapshot cfg (terminate cfg sp x)).Ribo j).mRNA =
            (sp.Ribo (if j = sp.r_id then sp.next_avail_ribo - 1 else j)).mRNA ∧
          ((snapshot cfg (terminate cfg sp x)).Ribo j).pos =
            (sp.Ribo (if j = sp.r_id then sp.next_avail_ribo - 1 else j)).pos := by
  refine ⟨?_, ?_⟩
  · rw [snapshot_next_avail_ribo, terminate_N]
  · intro j hj
    rw [snapshot_Ribo]
    exact terminate_slot cfg sp x j hj


/-! ## The inter-initiation sample -/

theorem ini_sample (cfg : Config) (sa : State) (g c2 : Nat) :
    (ini_place cfg (ini_stats cfg (ini_pick cfg (ini_alloc sa) g c2))).mRNA
        (sa.free_mRNA g c2) =
      { (if sa.t > cfg.time_thres then
          { sa.mRNA (sa.free_mRNA g c2) with
            ini_n := (sa.mRNA (sa.free_mRNA g c2)).ini_n + 1
            avg_time_to_ini := (sa.mRNA (sa.free_mRNA g c2)).avg_time_to_ini +
              (sa.t - (sa.mRNA (sa.free_mRNA g c2)).last_ini) }
         else sa.mRNA (sa.free_mRNA g c2)) with last_ini := sa.t } := by
  rw [ini_place_mRNA]
  simp only [ini_stats, ini_pick_m_id, ini_alloc_free_mRNA, ini_pick_mRNA, ini_alloc_mRNA,
    ini_pick_t, ini_alloc_t, set1_same]

theorem init_last_ini (cfg : Config) (U : State) (m : Nat) (hm : m < tot_mRNA cfg) :
    ((init cfg U).mRNA m).last_ini = 0 ∧ ((init cfg U).mRNA m).ini_n = 0 ∧
      ((init cfg U).mRNA m).avg_time_to_ini = 0 := by
  have key : ∀ n, m < mRNA_start cfg.Gene n →
      (init_mRNA cfg.Gene U.mRNA n m).last_ini = 0 ∧ (init_mRNA cfg.Gene U.mRNA n m).ini_n = 0 ∧
        (init_mRNA cfg.Gene U.mRNA n m).avg_time_to_ini = 0 := by
    intro n
    induction n with
    | zero => intro h; simp [mRNA_start] at h
    | succ k ih =>
      intro h
      simp only [mRNA_start] at h
      simp only [init_mRNA]
      split
      · exact ⟨rfl, rfl, rfl⟩
      · rename_i hc
        exact ih (by omega)
  exact key cfg.n_genes hm

theorem tick_ini_eq {cfg : Config} {s s' : State} {r1 r2 r3 g : Nat}
    (hb : ini_branch cfg s r1)
    (hg : gene_loop s (coin_of cfg r2) cfg.n_genes 0 0 = some g)
    (ht : tick cfg s r1 r2 r3 = some s') :
    s.Mf g ≠ 0 ∧ s' = ini_place cfg (ini_stats cfg (ini_pick cfg
      (ini_alloc (advance cfg s (1 / tot_rate cfg s))) g (r3 % s.Mf g))) := by
  simp only [tick] at ht
  split at ht
  · exact absurd ht (by simp)
  · try rw [if_pos hb] at ht
    simp only [initiation] at ht
    have hgl : gene_loop (ini_alloc (advance cfg s (1 / tot_rate cfg s)))
        ((r2 : ℚ) / (cfg.RAND_MAX : ℚ)) cfg.n_genes 0 0 =
        gene_loop s (coin_of cfg r2) cfg.n_genes 0 0 :=
      gene_loop_congr (by simp) (by simp) _ _ _ _
    rw [hgl, hg] at ht
    simp only [ini_alloc_Mf, advance_Mf] at ht
    split at ht
    · exact absurd ht (by simp)
    · rename_i hM
      simp only [Option.some.injEq] at ht
      exact ⟨hM, ht.symm⟩


/-! ## Events on a transcript shorter than the footprint -/

theorem promote_queue_free (cfg : Config) (s : State) (m p : Nat) :
    (promote cfg s m p).Mf = s.Mf ∧ (promote cfg s m p).free_mRNA = s.free_mRNA ∧
      (promote cfg s m p).scld_Mf = s.scld_Mf ∧
      (promote cfg s m p).tot_scld_Mf = s.tot_scld_Mf := by
  simp only [promote]
  split
  · exact ⟨rfl, rfl, rfl, rfl⟩
  · exact ⟨rfl, rfl, rfl, rfl⟩

theorem term_stats_queue_free (cfg : Config) (s : State) :
    (term_stats cfg s).Mf = s.Mf ∧ (term_stats cfg s).free_mRNA = s.free_mRNA ∧
      (term_stats cfg s).scld_Mf = s.scld_Mf ∧
      (term_stats cfg s).tot_scld_Mf = s.tot_scld_Mf := by
  simp only [term_stats]
  split
  · split
    · exact ⟨rfl, rfl, rfl, rfl⟩
    · exact ⟨rfl, rfl, rfl, rfl⟩
  · exact ⟨rfl, rfl, rfl, rfl⟩

theorem queue_remove_queue_free (s : State) (c x : Nat) :
    (queue_remove s c x).Mf = s.Mf ∧ (queue_remove s c x).free_mRNA = s.free_mRNA ∧
      (queue_remove s c x).scld_Mf = s.scld_Mf ∧
      (queue_remove s c x).tot_scld_Mf = s.tot_scld_Mf := by
  simp only [queue_remove]
  split
  · exact ⟨rfl, rfl, rfl, rfl⟩
  · exact ⟨rfl, rfl, rfl, rfl⟩

/-- The termination branch never touches the initiation queues. -/
theorem terminate_queue_free (cfg : Config) (s : State) (x : Nat) :
    (terminate cfg s x).Mf = s.Mf ∧ (terminate cfg s x).free_mRNA = s.free_mRNA ∧
      (terminate cfg s x).scld_Mf = s.scld_Mf ∧
      (terminate cfg s x).tot_scld_Mf = s.tot_scld_Mf := by
  simp only [terminate, compact_Mf, compact_free_mRNA, compact_scld_Mf, compact_tot_scld_Mf]
  obtain ⟨a1, a2, a3, a4⟩ := promote_queue_free cfg
    (term_stats cfg (queue_remove (term_clear cfg s) s.c_id x))
    (term_stats cfg (queue_remove (term_clear cfg s) s.c_id x)).m_id
    (((term_stats cfg (queue_remove (term_clear cfg s) s.c_id x)).Ribo
      (term_stats cfg (queue_remove (term_clear cfg s) s.c_id x)).r_id).pos - 11)
  obtain ⟨b1, b2, b3, b4⟩ := term_stats_queue_free cfg (queue_remove (term_clear cfg s) s.c_id x)
  obtain ⟨c1, c2, c3, c4⟩ := queue_remove_queue_free (term_clear cfg s) s.c_id x
  exact ⟨by rw [a1, b1, c1]; rfl, by rw [a2, b2, c2]; rfl, by rw [a3, b3, c3]; rfl,
    by rw [a4, b4, c4]; rfl⟩

theorem move_still_queue_free (cfg : Config) (s : State) (x : Nat) :
    (move_still cfg s x).Mf = s.Mf ∧ (move_still cfg s x).free_mRNA = s.free_mRNA ∧
      (move_still cfg s x).scld_Mf = s.scld_Mf ∧
      (move_still cfg s x).tot_scld_Mf = s.tot_scld_Mf ∧
      (move_still cfg s x).mRNA = s.mRNA ∧ (move_still cfg s x).m_id = s.m_id ∧
      (move_still cfg s x).r_id = s.r_id := by
  simp only [move_still]
  split
  · obtain ⟨c1, c2, c3, c4⟩ := queue_remove_queue_free
      (queue_append (move_ribo cfg s)
        ((cfg.Gene ((move_ribo cfg s).mRNA (move_ribo cfg s).m_id).gene).seq
          ((move_ribo cfg s).Ribo (move_ribo cfg s).r_id).pos) (move_ribo cfg s).r_id)
      (move_ribo cfg s).c_id x
    refine ⟨?_, ?_, ?_, ?_, ?_, ?_, ?_⟩
    · show (queue_remove _ _ _).Mf = _
      rw [c1]; rfl
    · show (queue_remove _ _ _).free_mRNA = _
      rw [c2]; rfl
    · show (queue_remove _ _ _).scld_Mf = _
      rw [c3]; rfl
    · show (queue_remove _ _ _).tot_scld_Mf = _
      rw [c4]; rfl
    · simp [take_tRNA, queue_remove]; split <;> rfl
    · simp [take_tRNA, queue_remove]; split <;> rfl
    · simp [take_tRNA, queue_remove]; split <;> rfl
  · exact ⟨rfl, rfl, rfl, rfl, rfl, rfl, rfl⟩

theorem move_blocked_queue_free (cfg : Config) (s : State) (x : Nat) :
    (move_blocked cfg s x).Mf = s.Mf ∧ (move_blocked cfg s x).free_mRNA = s.free_mRNA ∧
      (move_blocked cfg s x).scld_Mf = s.scld_Mf ∧
      (move_blocked cfg s x).tot_scld_Mf = s.tot_scld_Mf ∧
      (move_blocked cfg s x).mRNA = s.mRNA ∧ (move_blocked cfg s x).m_id = s.m_id ∧
      (move_blocked cfg s x).r_id = s.r_id := by
  obtain ⟨c1, c2, c3, c4⟩ := queue_remove_queue_free (set_cod cfg (move_ribo cfg s)) s.c_id x
  simp only [move_blocked, waste_incr, take_tRNA]
  refine ⟨?_, ?_, ?_, ?_, ?_, ?_, ?_⟩
  · rw [c1]; rfl
  · rw [c2]; rfl
  · rw [c3]; rfl
  · rw [c4]; rfl
  · simp only [queue_remove]; split <;> rfl
  · simp only [queue_remove]; split <;> rfl
  · simp only [queue_remove]; split <;> rfl


theorem move_blocked_ps (cfg : Config) (s : State) (x i : Nat) :
    ((move_blocked cfg s x).Ribo i).pos =
      if i = s.r_id then (s.Ribo s.r_id).pos + 1 else (s.Ribo i).pos := by
  simp only [move_blocked, waste_incr, take_tRNA, queue_remove]
  split <;> simp [set_cod, move_ribo, set1] <;> split <;> (try split) <;> simp_all

/-- A non-terminal move to a position below 10 leaves the initiation queues
as they were. -/
theorem post_move_queue_free (cfg : Config) (s : State) (h : (s.Ribo s.r_id).pos ≠ 10) :
    (post_move cfg s).Mf = s.Mf ∧ (post_move cfg s).free_mRNA = s.free_mRNA ∧
      (post_move cfg s).scld_Mf = s.scld_Mf ∧
      (post_move cfg s).tot_scld_Mf = s.tot_scld_Mf := by
  rw [post_move_Mf, post_move_free, post_move_scld, post_move_tot, if_neg h, if_neg h,
    if_neg h, if_neg h]
  exact ⟨rfl, rfl, rfl, rfl⟩

/-- An event on a transcript of at most 10 codons: at the last codon the
termination branch reads the grid at the negative position `len - 11`; before
it, the move does not put the transcript back into its initiation queue. -/
theorem short_event (cfg : Config) (s : State) (x : Nat)
    (hlen : (cfg.Gene (s.mRNA (s.Ribo (s.Rb_e s.c_id x)).mRNA).gene).len ≤ 10)
    (hpos : (s.Ribo (s.Rb_e s.c_id x)).pos <
      (cfg.Gene (s.mRNA (s.Ribo (s.Rb_e s.c_id x)).mRNA).gene).len) :
    ((s.Ribo (s.Rb_e s.c_id x)).pos + 1 =
        (cfg.Gene (s.mRNA (s.Ribo (s.Rb_e s.c_id x)).mRNA).gene).len →
      elng_event cfg s x = none) ∧
    ((s.Ribo (s.Rb_e s.c_id x)).pos + 1 ≠
        (cfg.Gene (s.mRNA (s.Ribo (s.Rb_e s.c_id x)).mRNA).gene).len →
      ∃ s', elng_event cfg s x = some s' ∧ s'.Mf = s.Mf ∧ s'.free_mRNA = s.free_mRNA ∧
        s'.scld_Mf = s.scld_Mf ∧ s'.tot_scld_Mf = s.tot_scld_Mf) := by
  have e1 : (release_tRNA cfg (pick_ribo s x)).r_id = s.Rb_e s.c_id x := by simp
  have e2 : (release_tRNA cfg (pick_ribo s x)).Ribo = s.Ribo := by simp
  have e3 : (release_tRNA cfg (pick_ribo s x)).mRNA = s.mRNA := by simp
  have e4 : (release_tRNA cfg (pick_ribo s x)).m_id = (s.Ribo (s.Rb_e s.c_id x)).mRNA := by simp
  have f1 : (release_tRNA cfg (pick_ribo s x)).Mf = s.Mf := by simp
  have f2 : (release_tRNA cfg (pick_ribo s x)).free_mRNA = s.free_mRNA := by simp
  have f3 : (release_tRNA cfg (pick_ribo s x)).scld_Mf = s.scld_Mf := by simp
  have f4 : (release_tRNA cfg (pick_ribo s x)).tot_scld_Mf = s.tot_scld_Mf := by simp
  constructor
  · intro ht
    simp only [elng_event, e1, e2, e3, e4]
    rw [if_pos ht, if_pos (Or.inl (by omega))]
  · intro hnt
    simp only [elng_event, e1, e2, e3, e4]
    rw [if_neg hnt]
    split
    · refine ⟨_, rfl, ?_⟩
      obtain ⟨a1, a2, a3, a4, _, _, a7⟩ :=
        move_still_queue_free cfg (release_tRNA cfg (pick_ribo s x)) x
      have hp : ((move_still cfg (release_tRNA cfg (pick_ribo s x)) x).Ribo
          (move_still cfg (release_tRNA cfg (pick_ribo s x)) x).r_id).pos ≠ 10 := by
        rw [a7, move_still_ps, if_pos rfl, e1, e2]
        omega
      obtain ⟨b1, b2, b3, b4⟩ := post_move_queue_free cfg _ hp
      exact ⟨by rw [b1, a1, f1], by rw [b2, a2, f2], by rw [b3, a3, f3], by rw [b4, a4, f4]⟩
    · refine ⟨_, rfl, ?_⟩
      obtain ⟨a1, a2, a3, a4, _, _, a7⟩ :=
        move_blocked_queue_free cfg (release_tRNA cfg (pick_ribo s x)) x
      have hp : ((move_blocked cfg (release_tRNA cfg (pick_ribo s x)) x).Ribo
          (move_blocked cfg (release_tRNA cfg (pick_ribo s x)) x).r_id).pos ≠ 10 := by
        rw [a7, move_blocked_ps, if_pos rfl, e1, e2]
        omega
      obtain ⟨b1, b2, b3, b4⟩ := post_move_queue_free cfg _ hp
      exact ⟨by rw [b1, a1, f1], by rw [b2, a2, f2], by rw [b3, a3, f3], by rw [b4, a4, f4]⟩


/-! ## Free tRNA counts stay non-negative -/

theorem init_Tf_nonneg (cfg : Config) (U : Nat → Int) :
    ∀ n c, c < 61 → 0 ≤ init_Tf cfg U n c := by
  intro n
  induction n with
  | zero => intro c hc; simp [init_Tf, hc]
  | succ k ih =>
    intro c hc
    simp only [init_Tf]
    split
    · simp only [set1]
      split
      · exact Int.ofNat_nonneg _
      · exact ih c hc
    · exact ih c hc

theorem release_Tf_le (cfg : Config) (s : State) (sp : Nat) :
    s.Tf sp ≤ (release_tRNA cfg s).Tf sp := by
  rw [release_tRNA_Tf']
  split
  · simp only [set1]
    split
    · rename_i h
      rw [h]
      omega
    · exact le_refl _
  · exact le_refl _

theorem r_elng_pos_Tf (cfg : Config) (s : State) (c : Nat) (hw : 0 < wobble cfg c)
    (h : 0 < r_elng cfg s c) : 1 ≤ s.Tf (cfg.cTRNA c).tid := by
  by_contra hlt
  have h0 : s.Tf (cfg.cTRNA c).tid ≤ 0 := by omega
  have h1 : ((s.Tf (cfg.cTRNA c).tid : Int) : ℚ) ≤ 0 := by exact_mod_cast h0
  have h2 : (0 : ℚ) ≤ (s.n_Rb_e c : ℚ) := by positivity
  unfold r_elng at h
  have : ((s.Tf (cfg.cTRNA c).tid : Int) : ℚ) * wobble cfg c * (s.n_Rb_e c : ℚ) ≤ 0 :=
    mul_nonpos_of_nonpos_of_nonneg (mul_nonpos_of_nonpos_of_nonneg h1 (le_of_lt hw)) h2
  exact absurd h (not_lt.mpr this)

theorem initiation_Tf {cfg : Config} {s s' : State} {r2 r3 : Nat}
    (he : initiation cfg s r2 r3 = some s') : s'.Tf = s.Tf := by
  simp only [initiation] at he
  split at he
  · split at he
    · exact absurd he (by simp)
    · simp only [Option.some.injEq] at he
      rw [← he, ini_place_Tf, ini_stats_Tf, ini_pick_Tf, ini_alloc_Tf]
  · simp only [Option.some.injEq] at he
    rw [← he, ini_place_Tf, ini_stats_Tf, ini_alloc_Tf]

theorem elng_event_Tf_nonneg {cfg : Config} {s s' : State} {x : Nat}
    (he : elng_event cfg s x = some s') (h1 : 1 ≤ s.Tf (cfg.cTRNA s.c_id).tid) (sp : Nat)
    (h0 : 0 ≤ s.Tf sp) : 0 ≤ s'.Tf sp := by
  have hr := release_Tf_le cfg (pick_ribo s x) sp
  have hc := release_Tf_le cfg (pick_ribo s x) (cfg.cTRNA s.c_id).tid
  simp only [pick_ribo_Tf] at hr hc
  have hcid : (release_tRNA cfg (pick_ribo s x)).c_id = s.c_id := by simp
  simp only [elng_event] at he
  split at he
  · split at he
    · exact absurd he (by simp)
    · simp only [Option.some.injEq] at he
      rw [← he, terminate_Tf]
      omega
  · split at he
    · simp only [Option.some.injEq] at he
      rw [← he, post_move_Tf, move_still_Tf, hcid]
      simp only [set1]
      split
      · omega
      · omega
    · simp only [Option.some.injEq] at he
      rw [← he, post_move_Tf, move_blocked_Tf, hcid]
      simp only [set1]
      split
      · omega
      · omega

/-- A tick whose elongation event, if any, picked a codon with a positive
rate keeps every non-negative free tRNA count non-negative. -/
theorem tick_Tf_nonneg {cfg : Config} {s s' : State} {r1 r2 r3 : Nat}
    (hst : 0 < cfg.avail_space_t) (hw : ∀ c, c < 61 → 0 < (cfg.cTRNA c).wobble)
    (ht : tick cfg s r1 r2 r3 = some s')
    (hsel : ¬ ini_branch cfg s r1 → 0 < r_elng cfg s (sel_codon cfg s r1)) (sp : Nat)
    (h0 : 0 ≤ s.Tf sp) : 0 ≤ s'.Tf sp := by
  simp only [tick] at ht
  split at ht
  · exact absurd ht (by simp)
  · split at ht
    · rw [initiation_Tf ht, advance_Tf]
      exact h0
    · rename_i hb
      have ht' : elongation cfg (advance cfg s (1 / tot_rate cfg s)) (r_elng cfg s)
          (1 / tot_rate cfg s) (r_ini cfg s * (1 / tot_rate cfg s)) (coin_of cfg r1) r2
            = some s' := ht
      rw [elongation_sel] at ht'
      split at ht'
      · exact absurd ht' (by simp)
      · rename_i hg
        obtain ⟨a, ha, hs⟩ := Option.map_eq_some'.mp ht'
        have hc : sel_codon cfg s r1 < 61 := by omega
        have h1 := r_elng_pos_Tf cfg s _ (wobble_pos cfg _ hst (hw _ hc)) (hsel hb)
        rw [← hs, snapshot_Tf]
        exact elng_event_Tf_nonneg ha (by simpa using h1) sp (by simpa using h0)

theorem sel_codon_3a : sel_codon cfg3 s3a 0 = 0 := by
  have hcl : codon_loop (r_elng cfg3 s3a) (1 / tot_rate cfg3 s3a) (coin_of cfg3 0) 61 0
      (r_ini cfg3 s3a * (1 / tot_rate cfg3 s3a)) = some 0 := by
    show codon_loop _ _ _ (60 + 1) 0 _ = _
    simp only [codon_loop]
    rw [if_pos]
    rw [r_ini_3a, r_elng_3a 0 (by decide), if_pos rfl, tot_rate_3a]
    simp [coin_of]
  unfold sel_codon
  rw [hcl]

theorem posrun_3b : PosRun cfg3 U0 s3b := by
  have hb : ini_branch cfg3 (init cfg3 U0) 0 := by
    unfold ini_branch coin_of
    rw [r_ini_3, tot_rate_3]
    norm_num
  have h1 : PosRun cfg3 U0 s3a :=
    PosRun.tick 0 0 0 PosRun.init tick_3a (fun hnb => absurd hb hnb)
  refine PosRun.tick 0 0 0 h1 tick_3b (fun _ => ?_)
  rw [sel_codon_3a, r_elng_3a 0 (by decide), if_pos rfl]
  norm_num


/-! ## The stall counters after each step -/

theorem advance_waste (cfg : Config) (s : State) (ir : ℚ) :
    (advance cfg s ir).num_waste_ribo = s.num_waste_ribo ∧
      (advance cfg s ir).num_waste_ribo_pos = s.num_waste_ribo_pos := by
  simp only [advance]
  split <;> split <;> exact ⟨rfl, rfl⟩

theorem snapshot_waste (cfg : Config) (s : State) :
    (snapshot cfg s).num_waste_ribo = s.num_waste_ribo ∧
      (snapshot cfg s).num_waste_ribo_pos = s.num_waste_ribo_pos := by
  simp only [snapshot]
  split <;> exact ⟨rfl, rfl⟩

theorem release_waste (cfg : Config) (s : State) :
    (release_tRNA cfg s).num_waste_ribo = s.num_waste_ribo ∧
      (release_tRNA cfg s).num_waste_ribo_pos = s.num_waste_ribo_pos := by
  simp only [release_tRNA]
  split <;> exact ⟨rfl, rfl⟩

theorem picked_waste (cfg : Config) (s : State) (c x : Nat) :
    (picked cfg s c x).num_waste_ribo = s.num_waste_ribo ∧
      (picked cfg s c x).num_waste_ribo_pos = s.num_waste_ribo_pos := by
  obtain ⟨a1, a2⟩ := release_waste cfg
    (pick_ribo { advance cfg s (1 / tot_rate cfg s) with c_id := c } x)
  obtain ⟨b1, b2⟩ := advance_waste cfg s (1 / tot_rate cfg s)
  simp only [picked]
  rw [a1, a2]
  exact ⟨b1, b2⟩

theorem compact_waste (cfg : Config) (s : State) :
    (compact cfg s).num_waste_ribo = s.num_waste_ribo ∧
      (compact cfg s).num_waste_ribo_pos = s.num_waste_ribo_pos := by
  simp only [compact]
  split
  · split <;> exact ⟨rfl, rfl⟩
  · exact ⟨rfl, rfl⟩

theorem queue_remove_waste (s : State) (c x : Nat) :
    (queue_remove s c x).num_waste_ribo = s.num_waste_ribo ∧
      (queue_remove s c x).num_waste_ribo_pos = s.num_waste_ribo_pos ∧
      (queue_remove s c x).mRNA = s.mRNA ∧ (queue_remove s c x).R_grid = s.R_grid ∧
      (queue_remove s c x).m_id = s.m_id ∧ (queue_remove s c x).r_id = s.r_id := by
  simp only [queue_remove]
  split <;> exact ⟨rfl, rfl, rfl, rfl, rfl, rfl⟩

theorem term_stats_waste (cfg : Config) (s : State) :
    (term_stats cfg s).num_waste_ribo = s.num_waste_ribo ∧
      (term_stats cfg s).num_waste_ribo_pos = s.num_waste_ribo_pos ∧
      (∀ m, ((term_stats cfg s).mRNA m).gene = (s.mRNA m).gene) ∧
      (term_stats cfg s).R_grid = s.R_grid ∧
      (term_stats cfg s).m_id = s.m_id ∧ (term_stats cfg s).r_id = s.r_id ∧
      (term_stats cfg s).Ribo = s.Ribo := by
  simp only [term_stats]
  split
  · split
    · refine ⟨rfl, rfl, ?_, rfl, rfl, rfl, rfl⟩
      intro m
      simp only [set1]
      split
      · rename_i h; rw [h]
      · rfl
    · refine ⟨rfl, rfl, ?_, rfl, rfl, rfl, rfl⟩
      intro m
      simp only [set1]
      split
      · rename_i h; rw [h]
      · rfl
  · exact ⟨rfl, rfl, fun _ => rfl, rfl, rfl, rfl, rfl⟩

theorem promote_waste (cfg : Config) (s : State) (m p : Nat) :
    (promote cfg s m p).num_waste_ribo =
        (if s.R_grid m p < cfg.tot_ribo then
          set1 s.num_waste_ribo (s.mRNA m).gene (s.num_waste_ribo (s.mRNA m).gene - 1)
         else s.num_waste_ribo) ∧
      (promote cfg s m p).num_waste_ribo_pos =
        (if s.R_grid m p < cfg.tot_ribo ∧ (s.mRNA m).gene = 0 then
          set1 s.num_waste_ribo_pos p (s.num_waste_ribo_pos p - 1)
         else s.num_waste_ribo_pos) := by
  simp only [promote]
  by_cases h : s.R_grid m p < cfg.tot_ribo
  · rw [if_pos h, if_pos h]
    simp only [waste_decr, queue_append, h, true_and]
  · rw [if_neg h, if_neg h, if_neg (fun hh => h hh.1)]
    exact ⟨rfl, rfl⟩


theorem stamp_requeue_waste (cfg : Config) (s : State) :
    (stamp (if (s.Ribo s.r_id).pos = 10 then requeue cfg s else s)).num_waste_ribo =
        s.num_waste_ribo ∧
      (stamp (if (s.Ribo s.r_id).pos = 10 then requeue cfg s else s)).num_waste_ribo_pos =
        s.num_waste_ribo_pos := by
  split <;> exact ⟨rfl, rfl⟩

theorem post_move_waste (cfg : Config) (s : State) :
    (post_move cfg s).num_waste_ribo =
        (if (s.Ribo s.r_id).pos > 10 ∧
            s.R_grid s.m_id ((s.Ribo s.r_id).pos - 11) < cfg.tot_ribo then
          set1 s.num_waste_ribo (s.mRNA s.m_id).gene
            (s.num_waste_ribo (s.mRNA s.m_id).gene - 1)
         else s.num_waste_ribo) ∧
      (post_move cfg s).num_waste_ribo_pos =
        (if ((s.Ribo s.r_id).pos > 10 ∧
            s.R_grid s.m_id ((s.Ribo s.r_id).pos - 11) < cfg.tot_ribo) ∧
            (s.mRNA s.m_id).gene = 0 then
          set1 s.num_waste_ribo_pos ((s.Ribo s.r_id).pos - 11)
            (s.num_waste_ribo_pos ((s.Ribo s.r_id).pos - 11) - 1)
         else s.num_waste_ribo_pos) := by
  simp only [post_move]
  by_cases h : (s.Ribo s.r_id).pos > 10
  · rw [if_pos h]
    obtain ⟨a1, a2⟩ := stamp_requeue_waste cfg (promote cfg s s.m_id ((s.Ribo s.r_id).pos - 11))
    obtain ⟨b1, b2⟩ := promote_waste cfg s s.m_id ((s.Ribo s.r_id).pos - 11)
    rw [a1, a2, b1, b2]
    simp only [h, true_and]
  · rw [if_neg h]
    obtain ⟨a1, a2⟩ := stamp_requeue_waste cfg s
    rw [a1, a2, if_neg (fun hh => h hh.1), if_neg (fun hh => h hh.1.1)]
    exact ⟨rfl, rfl⟩

theorem move_still_waste (cfg : Config) (s : State) (x : Nat) :
    (move_still cfg s x).num_waste_ribo = s.num_waste_ribo ∧
      (move_still cfg s x).num_waste_ribo_pos = s.num_waste_ribo_pos := by
  simp only [move_still]
  split
  · obtain ⟨c1, c2, _⟩ := queue_remove_waste
      (queue_append (move_ribo cfg s)
        ((cfg.Gene ((move_ribo cfg s).mRNA (move_ribo cfg s).m_id).gene).seq
          ((move_ribo cfg s).Ribo (move_ribo cfg s).r_id).pos) (move_ribo cfg s).r_id)
      (move_ribo cfg s).c_id x
    constructor
    · show (queue_remove _ _ _).num_waste_ribo = _
      rw [c1]; rfl
    · show (queue_remove _ _ _).num_waste_ribo_pos = _
      rw [c2]; rfl
  · exact ⟨rfl, rfl⟩

theorem move_blocked_waste (cfg : Config) (s : State) (x : Nat) :
    (move_blocked cfg s x).num_waste_ribo =
        set1 s.num_waste_ribo (s.mRNA s.m_id).gene
          (s.num_waste_ribo (s.mRNA s.m_id).gene + 1) ∧
      (move_blocked cfg s x).num_waste_ribo_pos =
        (if (s.mRNA s.m_id).gene = 0 then
          set1 s.num_waste_ribo_pos ((s.Ribo s.r_id).pos + 1)
            (s.num_waste_ribo_pos ((s.Ribo s.r_id).pos + 1) + 1)
         else s.num_waste_ribo_pos) := by
  obtain ⟨c1, c2, c3, _, c5, c6⟩ := queue_remove_waste (set_cod cfg (move_ribo cfg s)) s.c_id x
  have hp := move_blocked_ps cfg s x s.r_id
  rw [if_pos rfl] at hp
  obtain ⟨_, _, _, _, m5, m6, m7⟩ := move_blocked_queue_free cfg s x
  have e : move_blocked cfg s x =
      waste_incr (take_tRNA cfg (queue_remove (set_cod cfg (move_ribo cfg s)) s.c_id x))
        (take_tRNA cfg (queue_remove (set_cod cfg (move_ribo cfg s)) s.c_id x)).m_id
        (((take_tRNA cfg (queue_remove (set_cod cfg (move_ribo cfg s)) s.c_id x)).Ribo
          (take_tRNA cfg (queue_remove (set_cod cfg (move_ribo cfg s)) s.c_id x)).r_id).pos) := rfl
  have hpos : ((take_tRNA cfg (queue_remove (set_cod cfg (move_ribo cfg s)) s.c_id x)).Ribo
      (take_tRNA cfg (queue_remove (set_cod cfg (move_ribo cfg s)) s.c_id x)).r_id).pos =
        (s.Ribo s.r_id).pos + 1 := by
    have : ((move_blocked cfg s x).Ribo (move_blocked cfg s x).r_id).pos =
        ((take_tRNA cfg (queue_remove (set_cod cfg (move_ribo cfg s)) s.c_id x)).Ribo
          (take_tRNA cfg (queue_remove (set_cod cfg (move_ribo cfg s)) s.c_id x)).r_id).pos := rfl
    rw [← this, m7, hp]
  have hmid : (take_tRNA cfg (queue_remove (set_cod cfg (move_ribo cfg s)) s.c_id x)).m_id =
      s.m_id := by
    show (queue_remove _ _ _).m_id = _
    rw [c5]; rfl
  have hmr : (take_tRNA cfg (queue_remove (set_cod cfg (move_ribo cfg s)) s.c_id x)).mRNA =
      s.mRNA := by
    show (queue_remove _ _ _).mRNA = _
    rw [c3]; rfl
  have hnw : (take_tRNA cfg (queue_remove (set_cod cfg (move_ribo cfg s)) s.c_id x)).num_waste_ribo
      = s.num_waste_ribo := by
    show (queue_remove _ _ _).num_waste_ribo = _
    rw [c1]; rfl
  have hnwp : (take_tRNA cfg
      (queue_remove (set_cod cfg (move_ribo cfg s)) s.c_id x)).num_waste_ribo_pos
      = s.num_waste_ribo_pos := by
    show (queue_remove _ _ _).num_waste_ribo_pos = _
    rw [c2]; rfl
  rw [e]
  simp only [waste_incr, hpos, hmid, hmr, hnw, hnwp]
  exact ⟨trivial, trivial⟩

theorem terminate_waste (cfg : Config) (s : State) (x : Nat) (hp : 10 ≤ (s.Ribo s.r_id).pos) :
    (terminate cfg s x).num_waste_ribo =
        (if s.R_grid s.m_id ((s.Ribo s.r_id).pos - 10) < cfg.tot_ribo then
          set1 s.num_waste_ribo (s.mRNA s.m_id).gene
            (s.num_waste_ribo (s.mRNA s.m_id).gene - 1)
         else s.num_waste_ribo) ∧
      (terminate cfg s x).num_waste_ribo_pos =
        (if s.R_grid s.m_id ((s.Ribo s.r_id).pos - 10) < cfg.tot_ribo ∧
            (s.mRNA s.m_id).gene = 0 then
          set1 s.num_waste_ribo_pos ((s.Ribo s.r_id).pos - 10)
            (s.num_waste_ribo_pos ((s.Ribo s.r_id).pos - 10) - 1)
         else s.num_waste_ribo_pos) := by
  rw [terminate_eq]
  obtain ⟨a1, a2⟩ := compact_waste cfg
    (promote cfg (term_stats cfg (queue_remove (term_clear cfg s) s.c_id x)) s.m_id
      ((s.Ribo s.r_id).pos + 1 - 11))
  obtain ⟨b1, b2⟩ := promote_waste cfg (term_stats cfg (queue_remove (term_clear cfg s) s.c_id x))
    s.m_id ((s.Ribo s.r_id).pos + 1 - 11)
  obtain ⟨t1, t2, t3, t4, _⟩ := term_stats_waste cfg (queue_remove (term_clear cfg s) s.c_id x)
  obtain ⟨q1, q2, q3, q4, _⟩ := queue_remove_waste (term_clear cfg s) s.c_id x
  have hidx : (s.Ribo s.r_id).pos + 1 - 11 = (s.Ribo s.r_id).pos - 10 := by omega
  have hgrid : (term_stats cfg (queue_remove (term_clear cfg s) s.c_id x)).R_grid s.m_id
      ((s.Ribo s.r_id).pos - 10) = s.R_grid s.m_id ((s.Ribo s.r_id).pos - 10) := by
    rw [t4, q4, term_clear_grid, set2_other]
    omega
  have hgene : ((term_stats cfg (queue_remove (term_clear cfg s) s.c_id x)).mRNA s.m_id).gene
      = (s.mRNA s.m_id).gene := by
    rw [t3, q3]; rfl
  have hnw : (term_stats cfg (queue_remove (term_clear cfg s) s.c_id x)).num_waste_ribo
      = s.num_waste_ribo := by
    rw [t1, q1]; rfl
  have hnwp : (term_stats cfg (queue_remove (term_clear cfg s) s.c_id x)).num_waste_ribo_pos
      = s.num_waste_ribo_pos := by
    rw [t2, q2]; rfl
  rw [a1, a2, b1, b2, hidx, hgrid, hgene, hnw, hnwp]
  exact ⟨rfl, rfl⟩


/-! ## Counting the ribosomes that are in no queue -/

theorem stall_ind_eq {cfg : Config} {s : State} (h : Inv cfg s) (φ : Nat → Nat → Prop)
    [∀ a q, Decidable (φ a q)] (j : Nat) (hj : j < s.next_avail_ribo) :
    stall_ind s φ j =
      if φ (s.mRNA (s.Ribo j).mRNA).gene (s.Ribo j).pos ∧ ¬ elongatable cfg s j then 1 else 0 := by
  have hq : queued s j ↔ elongatable cfg s j := by
    rw [queued_iff h]
    exact ⟨fun a => a.2, fun a => ⟨hj, a⟩⟩
  unfold stall_ind
  by_cases hc : φ (s.mRNA (s.Ribo j).mRNA).gene (s.Ribo j).pos ∧ ¬ queued s j
  · rw [if_pos hc, if_pos ⟨hc.1, fun he => hc.2 (hq.mpr he)⟩]
  · rw [if_neg hc, if_neg (fun hh => hc ⟨hh.1, fun hqq => hh.2 (hq.mp hqq)⟩)]

theorem n_stalled_sum (s : State) (g : Nat) :
    (n_stalled s g : Int) =
      ∑ j in Finset.range s.next_avail_ribo, stall_ind s (fun a _ => a = g) j := by
  unfold n_stalled stall_ind
  rw [Finset.card_filter]
  push_cast
  rfl

theorem n_stalled_pos_sum (s : State) (p : Nat) :
    (n_stalled_pos s p : Int) =
      ∑ j in Finset.range s.next_avail_ribo, stall_ind s (fun a q => a = 0 ∧ q = p) j := by
  unfold n_stalled_pos stall_ind
  rw [Finset.card_filter]
  push_cast
  apply Finset.sum_congr rfl
  intro j _
  by_cases hc : (s.mRNA (s.Ribo j).mRNA).gene = 0 ∧ (s.Ribo j).pos = p ∧ ¬ queued s j
  · rw [if_pos hc, if_pos ⟨⟨hc.1, hc.2.1⟩, hc.2.2⟩]
  · rw [if_neg hc, if_neg (fun hh => hc ⟨hh.1.1, hh.1.2, hh.2⟩)]

/-- An in-range cell holds a slot id below `tot_ribo` exactly when it is not
empty. -/
theorem cell_lt_iff {cfg : Config} {s : State} (h : Inv cfg s) (m p : Nat)
    (hm : m < tot_mRNA cfg) (hp : p < tlen cfg s m) :
    s.R_grid m p < cfg.tot_ribo ↔ s.R_grid m p ≠ cfg.tot_ribo := by
  constructor
  · intro hlt; omega
  · intro hne
    obtain ⟨o1, _, _⟩ := h.grid.occ m p hm hp hne
    exact h.grid.act_lt _ o1

/-- The indicator of a slot whose record and look-ahead cell did not change. -/
theorem stall_ind_frame {cfg : Config} {s s' : State} (h : Inv cfg s) (h' : Inv cfg s')
    (φ : Nat → Nat → Prop) [∀ a q, Decidable (φ a q)] (j k : Nat)
    (hj : j < s'.next_avail_ribo) (hk : k < s.next_avail_ribo)
    (hg : ∀ t, (s'.mRNA t).gene = (s.mRNA t).gene)
    (hm : (s'.Ribo j).mRNA = (s.Ribo k).mRNA) (hp : (s'.Ribo j).pos = (s.Ribo k).pos)
    (hc : s'.R_grid (s.Ribo k).mRNA ((s.Ribo k).pos + 10) = cfg.tot_ribo ↔
      s.R_grid (s.Ribo k).mRNA ((s.Ribo k).pos + 10) = cfg.tot_ribo) :
    stall_ind s' φ j = stall_ind s φ k := by
  rw [stall_ind_eq h' φ j hj, stall_ind_eq h φ k hk]
  have he : elongatable cfg s' j ↔ elongatable cfg s k := by
    simp only [elongatable, tlen_eq, hm, hp, hg, hc]
  simp only [hm, hp, hg, he]

theorem stall_add {cfg : Config} {s s' : State} (h : Inv cfg s) (h' : Inv cfg s')
    (hL : LenOK cfg) (φ : Nat → Nat → Prop) [∀ a q, Decidable (φ a q)] (m : Nat)
    (hmT : m < tot_mRNA cfg)
    (hN : s'.next_avail_ribo = s.next_avail_ribo + 1)
    (hg : ∀ t, (s'.mRNA t).gene = (s.mRNA t).gene)
    (hm : (s'.Ribo s.next_avail_ribo).mRNA = m) (hp : (s'.Ribo s.next_avail_ribo).pos = 0)
    (hs : ∀ j, j < s.next_avail_ribo →
      (s'.Ribo j).mRNA = (s.Ribo j).mRNA ∧ (s'.Ribo j).pos = (s.Ribo j).pos)
    (hgrid : s'.R_grid = set2 s.R_grid m 0 s.next_avail_ribo) :
    ∑ j in Finset.range s'.next_avail_ribo, stall_ind s' φ j =
      ∑ j in Finset.range s.next_avail_ribo, stall_ind s φ j +
        (if φ (s.mRNA m).gene 0 ∧ s.R_grid m 10 ≠ cfg.tot_ribo then 1 else 0) := by
  rw [hN, Finset.sum_range_succ]
  congr 1
  · apply Finset.sum_congr rfl
    intro j hj
    have hj' := Finset.mem_range.mp hj
    obtain ⟨a1, a2⟩ := hs j hj'
    apply stall_ind_frame h h' φ j j (by omega) hj' hg a1 a2
    rw [hgrid, set2_other]
    omega
  · rw [stall_ind_eq h' φ _ (by omega)]
    have hlen : 11 ≤ (cfg.Gene (s.mRNA m).gene).len := hL _ (h.gene_lt m hmT)
    have he : elongatable cfg s' s.next_avail_ribo ↔ s.R_grid m 10 = cfg.tot_ribo := by
      simp only [elongatable, tlen_eq, hm, hp, hg, hgrid]
      rw [set2_other _ _ _ _ _ _ (by omega)]
      constructor
      · rintro (a | a)
        · omega
        · simpa using a
      · intro a
        right
        simpa using a
    simp only [hm, hp, hg, he]


theorem sum_range_change2 (f f' : Nat → Int) (n i k : Nat) (hi : i < n) (hk : k < n)
    (hik : i ≠ k) (h : ∀ j, j < n → j ≠ i → j ≠ k → f' j = f j) :
    ∑ j in Finset.range n, f' j = ∑ j in Finset.range n, f j - f i + f' i - f k + f' k := by
  rw [sum_range_change (fun j => if j = k then f' k else f j) f' n i hi (by
    intro j hj hji
    by_cases hjk : j = k
    · simp [hjk]
    · simp only [hjk, if_false]
      exact h j hj hji hjk)]
  rw [sum_range_change f (fun j => if j = k then f' k else f j) n k hk (by
    intro j _ hjk
    simp [hjk])]
  simp only [if_true, if_neg hik]
  ring

/-- The cell of a bound slot is not empty. -/
theorem cell_occupied {cfg : Config} {s : State} (h : Inv cfg s) (i : Nat)
    (hi : i < s.next_avail_ribo) :
    s.R_grid (s.Ribo i).mRNA (s.Ribo i).pos = i ∧ i < cfg.tot_ribo ∧
      (s.Ribo i).mRNA < tot_mRNA cfg ∧ (s.Ribo i).pos < tlen cfg s (s.Ribo i).mRNA := by
  obtain ⟨c1, c2, c3⟩ := h.grid.cell i hi
  exact ⟨c3, h.grid.act_lt i hi, c1, c2⟩

/-- No other bound slot is nine codons behind a bound slot. -/
theorem no_slot_nine_behind {cfg : Config} {s : State} (h : Inv cfg s) (i j : Nat)
    (hi : i < s.next_avail_ribo) (hj : j < s.next_avail_ribo) :
    ¬ ((s.Ribo j).mRNA = (s.Ribo i).mRNA ∧ (s.Ribo j).pos + 10 = (s.Ribo i).pos + 1) := by
  rintro ⟨e1, e2⟩
  obtain ⟨a1, a2, a3, a4⟩ := cell_occupied h i hi
  obtain ⟨b1, b2, _, _⟩ := cell_occupied h j hj
  have hf := h.foot (s.Ribo i).mRNA (s.Ribo j).pos (s.Ribo i).pos a3 (by omega) a4 (by omega)
    (by rw [← e1, b1]; omega)
  rw [a1] at hf
  omega

/-- The slot ten codons behind a bound slot, if any, is the one in that cell. -/
theorem slot_ten_behind {cfg : Config} {s : State} (h : Inv cfg s) (i j : Nat)
    (hj : j < s.next_avail_ribo)
    (e1 : (s.Ribo j).mRNA = (s.Ribo i).mRNA) (e2 : (s.Ribo j).pos + 10 = (s.Ribo i).pos) :
    10 ≤ (s.Ribo i).pos ∧ s.R_grid (s.Ribo i).mRNA ((s.Ribo i).pos - 10) = j ∧
      j < cfg.tot_ribo := by
  obtain ⟨b1, b2, _, _⟩ := cell_occupied h j hj
  refine ⟨by omega, ?_, b2⟩
  have : (s.Ribo i).pos - 10 = (s.Ribo j).pos := by omega
  rw [this, ← e1, b1]

/-- An occupied cell ten codons behind a bound slot holds a bound slot that is
not elongatable. -/
theorem behind_blocked {cfg : Config} {s : State} (h : Inv cfg s) (i : Nat)
    (hi : i < s.next_avail_ribo) (hp : 10 ≤ (s.Ribo i).pos)
    (ho : s.R_grid (s.Ribo i).mRNA ((s.Ribo i).pos - 10) < cfg.tot_ribo) :
    s.R_grid (s.Ribo i).mRNA ((s.Ribo i).pos - 10) < s.next_avail_ribo ∧
      (s.Ribo (s.R_grid (s.Ribo i).mRNA ((s.Ribo i).pos - 10))).mRNA = (s.Ribo i).mRNA ∧
      (s.Ribo (s.R_grid (s.Ribo i).mRNA ((s.Ribo i).pos - 10))).pos = (s.Ribo i).pos - 10 ∧
      s.R_grid (s.Ribo i).mRNA ((s.Ribo i).pos - 10) ≠ i ∧
      ¬ elongatable cfg s (s.R_grid (s.Ribo i).mRNA ((s.Ribo i).pos - 10)) := by
  obtain ⟨a1, a2, a3, a4⟩ := cell_occupied h i hi
  obtain ⟨o1, o2, o3⟩ := h.grid.occ (s.Ribo i).mRNA ((s.Ribo i).pos - 10) a3 (by omega)
    (by omega)
  have o1' : s.R_grid (s.Ribo i).mRNA ((s.Ribo i).pos - 10) < s.next_avail_ribo := o1
  have o2' : (s.Ribo (s.R_grid (s.Ribo i).mRNA ((s.Ribo i).pos - 10))).mRNA = (s.Ribo i).mRNA := o2
  have o3' : (s.Ribo (s.R_grid (s.Ribo i).mRNA ((s.Ribo i).pos - 10))).pos =
      (s.Ribo i).pos - 10 := o3
  refine ⟨o1', o2', o3', ?_, ?_⟩
  · intro e
    rw [e] at o3'
    omega
  · simp only [elongatable, tlen_eq, o2', o3', not_or]
    have hidx : (s.Ribo i).pos - 10 + 10 = (s.Ribo i).pos := by omega
    rw [hidx, a1]
    simp only [tlen_eq] at a4
    exact ⟨by omega, by omega⟩


/-- The count of stalled ribosomes after slot `i` moved one codon forward. -/
theorem stall_move {cfg : Config} {s s' : State} (h : Inv cfg s) (h' : Inv cfg s')
    (φ : Nat → Nat → Prop) [∀ a q, Decidable (φ a q)] (i : Nat)
    (hi : i < s.next_avail_ribo) (hel : elongatable cfg s i)
    (hN : s'.next_avail_ribo = s.next_avail_ribo)
    (hg : ∀ t, (s'.mRNA t).gene = (s.mRNA t).gene)
    (hm : (s'.Ribo i).mRNA = (s.Ribo i).mRNA) (hp : (s'.Ribo i).pos = (s.Ribo i).pos + 1)
    (hs : ∀ j, j < s.next_avail_ribo → j ≠ i →
      (s'.Ribo j).mRNA = (s.Ribo j).mRNA ∧ (s'.Ribo j).pos = (s.Ribo j).pos)
    (hgrid : s'.R_grid = set2 (set2 s.R_grid (s.Ribo i).mRNA (s.Ribo i).pos cfg.tot_ribo)
      (s.Ribo i).mRNA ((s.Ribo i).pos + 1) i) :
    ∑ j in Finset.range s'.next_avail_ribo, stall_ind s' φ j =
      ∑ j in Finset.range s.next_avail_ribo, stall_ind s φ j +
        (if φ (s.mRNA (s.Ribo i).mRNA).gene ((s.Ribo i).pos + 1) ∧
            ¬ ((s.Ribo i).pos + 11 ≥ (cfg.Gene (s.mRNA (s.Ribo i).mRNA).gene).len ∨
              s.R_grid (s.Ribo i).mRNA ((s.Ribo i).pos + 11) = cfg.tot_ribo) then 1 else 0) -
        (if ((s.Ribo i).pos + 1 > 10 ∧
            s.R_grid (s.Ribo i).mRNA ((s.Ribo i).pos + 1 - 11) < cfg.tot_ribo) ∧
            φ (s.mRNA (s.Ribo i).mRNA).gene ((s.Ribo i).pos + 1 - 11) then 1 else 0) := by
  obtain ⟨a1, a2, a3, a4⟩ := cell_occupied h i hi
  have hidx : (s.Ribo i).pos + 1 - 11 = (s.Ribo i).pos - 10 := by omega
  rw [hidx, hN]
  -- the moved slot
  have fi : stall_ind s φ i = 0 := by
    rw [stall_ind_eq h φ i hi, if_neg (fun hh => hh.2 hel)]
  have fi' : stall_ind s' φ i =
      (if φ (s.mRNA (s.Ribo i).mRNA).gene ((s.Ribo i).pos + 1) ∧
          ¬ ((s.Ribo i).pos + 11 ≥ (cfg.Gene (s.mRNA (s.Ribo i).mRNA).gene).len ∨
            s.R_grid (s.Ribo i).mRNA ((s.Ribo i).pos + 11) = cfg.tot_ribo) then 1 else 0) := by
    rw [stall_ind_eq h' φ i (by omega)]
    have he : elongatable cfg s' i ↔
        ((s.Ribo i).pos + 11 ≥ (cfg.Gene (s.mRNA (s.Ribo i).mRNA).gene).len ∨
          s.R_grid (s.Ribo i).mRNA ((s.Ribo i).pos + 11) = cfg.tot_ribo) := by
      simp only [elongatable, tlen_eq, hm, hp, hg, hgrid]
      have e : (s.Ribo i).pos + 1 + 10 = (s.Ribo i).pos + 11 := by omega
      rw [e, set2_other _ _ _ _ _ _ (by omega), set2_other _ _ _ _ _ _ (by omega)]
    simp only [hm, hp, hg, he]
  -- the other slots whose look-ahead cell is not the vacated one
  have frame : ∀ j, j < s.next_avail_ribo → j ≠ i →
      ¬ ((s.Ribo j).mRNA = (s.Ribo i).mRNA ∧ (s.Ribo j).pos + 10 = (s.Ribo i).pos) →
      stall_ind s' φ j = stall_ind s φ j := by
    intro j hj hji hne
    obtain ⟨b1, b2⟩ := hs j hj hji
    apply stall_ind_frame h h' φ j j (by omega) hj hg b1 b2
    have hn9 := no_slot_nine_behind h i j hi hj
    rw [hgrid, set2_other _ _ _ _ _ _ (by
      rintro ⟨e1, e2⟩
      exact hn9 ⟨e1, e2⟩), set2_other _ _ _ _ _ _ (by
      rintro ⟨e1, e2⟩
      exact hne ⟨e1, e2⟩)]
  by_cases hP : (s.Ribo i).pos + 1 > 10 ∧
      s.R_grid (s.Ribo i).mRNA ((s.Ribo i).pos - 10) < cfg.tot_ribo
  · obtain ⟨k1, k2, k3, k4, k5⟩ := behind_blocked h i hi (by omega) hP.2
    have fk : stall_ind s φ (s.R_grid (s.Ribo i).mRNA ((s.Ribo i).pos - 10)) =
        if φ (s.mRNA (s.Ribo i).mRNA).gene ((s.Ribo i).pos - 10) then 1 else 0 := by
      rw [stall_ind_eq h φ _ k1]
      simp only [k2, k3, k5, not_false_eq_true, and_true]
    have fk' : stall_ind s' φ (s.R_grid (s.Ribo i).mRNA ((s.Ribo i).pos - 10)) = 0 := by
      rw [stall_ind_eq h' φ _ (by omega)]
      obtain ⟨b1, b2⟩ := hs _ k1 k4
      have he : elongatable cfg s' (s.R_grid (s.Ribo i).mRNA ((s.Ribo i).pos - 10)) := by
        right
        rw [b1, b2, k2, k3, hgrid]
        have e : (s.Ribo i).pos - 10 + 10 = (s.Ribo i).pos := by omega
        rw [e, set2_other _ _ _ _ _ _ (by omega), set2_same]
      rw [if_neg (fun hh => hh.2 he)]
    rw [sum_range_change2 (stall_ind s φ) (stall_ind s' φ) s.next_avail_ribo i
      (s.R_grid (s.Ribo i).mRNA ((s.Ribo i).pos - 10)) hi k1 (Ne.symm k4) (by
        intro j hj hji hjk
        apply frame j hj hji
        rintro ⟨e1, e2⟩
        exact hjk (slot_ten_behind h i j hj e1 e2).2.1.symm)]
    have hB : (if ((s.Ribo i).pos + 1 > 10 ∧
          s.R_grid (s.Ribo i).mRNA ((s.Ribo i).pos - 10) < cfg.tot_ribo) ∧
          φ (s.mRNA (s.Ribo i).mRNA).gene ((s.Ribo i).pos - 10) then (1 : Int) else 0) =
        if φ (s.mRNA (s.Ribo i).mRNA).gene ((s.Ribo i).pos - 10) then 1 else 0 := by
      simp only [hP, and_self, true_and]
    rw [fi, fi', fk, fk', hB]
    ring
  · rw [sum_range_change (stall_ind s φ) (stall_ind s' φ) s.next_avail_ribo i hi (by
      intro j hj hji
      apply frame j hj hji
      rintro ⟨e1, e2⟩
      obtain ⟨c1, c2, c3⟩ := slot_ten_behind h i j hj e1 e2
      apply hP
      refine ⟨by omega, ?_⟩
      rw [c2]
      exact c3)]
    have hB : (if ((s.Ribo i).pos + 1 > 10 ∧
          s.R_grid (s.Ribo i).mRNA ((s.Ribo i).pos - 10) < cfg.tot_ribo) ∧
          φ (s.mRNA (s.Ribo i).mRNA).gene ((s.Ribo i).pos - 10) then (1 : Int) else 0) = 0 :=
      if_neg (fun hh => hP hh.1)
    rw [fi, fi', hB]
    ring


/-- The count of stalled ribosomes after slot `i` terminated and the last
slot was moved into it. -/
theorem stall_term {cfg : Config} {s s' : State} (h : Inv cfg s) (h' : Inv cfg s')
    (φ : Nat → Nat → Prop) [∀ a q, Decidable (φ a q)] (i : Nat)
    (hi : i < s.next_avail_ribo) (hel : elongatable cfg s i)
    (hN : s'.next_avail_ribo = s.next_avail_ribo - 1)
    (hg : ∀ t, (s'.mRNA t).gene = (s.mRNA t).gene)
    (hs : ∀ j, j < s.next_avail_ribo - 1 →
      (s'.Ribo j).mRNA = (s.Ribo (if j = i then s.next_avail_ribo - 1 else j)).mRNA ∧
      (s'.Ribo j).pos = (s.Ribo (if j = i then s.next_avail_ribo - 1 else j)).pos)
    (hgrid : ∀ a b, s'.R_grid a b = cfg.tot_ribo ↔
      (s.R_grid a b = cfg.tot_ribo ∨ (a = (s.Ribo i).mRNA ∧ b = (s.Ribo i).pos)))
    (hp10 : 10 ≤ (s.Ribo i).pos) :
    ∑ j in Finset.range s'.next_avail_ribo, stall_ind s' φ j =
      ∑ j in Finset.range s.next_avail_ribo, stall_ind s φ j -
        (if s.R_grid (s.Ribo i).mRNA ((s.Ribo i).pos - 10) < cfg.tot_ribo ∧
            φ (s.mRNA (s.Ribo i).mRNA).gene ((s.Ribo i).pos - 10) then 1 else 0) := by
  rw [hN]
  have hstep : ∀ j, j < s.next_avail_ribo - 1 →
      stall_ind s' φ j =
        (fun t => if (s.Ribo t).mRNA = (s.Ribo i).mRNA ∧ (s.Ribo t).pos + 10 = (s.Ribo i).pos
          then (0 : Int) else stall_ind s φ t) (if j = i then s.next_avail_ribo - 1 else j) := by
    intro j hj
    obtain ⟨b1, b2⟩ := hs j hj
    have ht : (if j = i then s.next_avail_ribo - 1 else j) < s.next_avail_ribo := by
      split <;> omega
    generalize (if j = i then s.next_avail_ribo - 1 else j) = t at b1 b2 ht ⊢
    by_cases hc : (s.Ribo t).mRNA = (s.Ribo i).mRNA ∧ (s.Ribo t).pos + 10 = (s.Ribo i).pos
    · simp only [hc, and_self, if_true]
      rw [stall_ind_eq h' φ j (by omega)]
      have he : elongatable cfg s' j := by
        right
        rw [b1, b2, hc.1, hc.2]
        exact (hgrid _ _).mpr (Or.inr ⟨rfl, rfl⟩)
      rw [if_neg (fun hh => hh.2 he)]
    · simp only [hc, if_false]
      apply stall_ind_frame h h' φ j t (by omega) ht hg b1 b2
      rw [hgrid]
      constructor
      · rintro (a | a)
        · exact a
        · exact absurd a hc
      · intro a
        exact Or.inl a
  rw [sum_range_compact (fun t => if (s.Ribo t).mRNA = (s.Ribo i).mRNA ∧
      (s.Ribo t).pos + 10 = (s.Ribo i).pos then (0 : Int) else stall_ind s φ t)
    (stall_ind s' φ) s.next_avail_ribo i hi hstep]
  have hi0 : (if (s.Ribo i).mRNA = (s.Ribo i).mRNA ∧
      (s.Ribo i).pos + 10 = (s.Ribo i).pos then (0 : Int) else stall_ind s φ i) = 0 := by
    rw [if_neg (by omega), stall_ind_eq h φ i hi, if_neg (fun hh => hh.2 hel)]
  rw [hi0, sub_zero]
  by_cases hP : s.R_grid (s.Ribo i).mRNA ((s.Ribo i).pos - 10) < cfg.tot_ribo
  · obtain ⟨k1, k2, k3, k4, k5⟩ := behind_blocked h i hi hp10 hP
    rw [sum_range_change (stall_ind s φ) (fun t => if (s.Ribo t).mRNA = (s.Ribo i).mRNA ∧
        (s.Ribo t).pos + 10 = (s.Ribo i).pos then (0 : Int) else stall_ind s φ t)
      s.next_avail_ribo (s.R_grid (s.Ribo i).mRNA ((s.Ribo i).pos - 10)) k1 (by
        intro j hj hjk
        simp only []
        rw [if_neg]
        rintro ⟨e1, e2⟩
        exact hjk (slot_ten_behind h i j hj e1 e2).2.1.symm)]
    have fk : stall_ind s φ (s.R_grid (s.Ribo i).mRNA ((s.Ribo i).pos - 10)) =
        if φ (s.mRNA (s.Ribo i).mRNA).gene ((s.Ribo i).pos - 10) then 1 else 0 := by
      rw [stall_ind_eq h φ _ k1]
      simp only [k2, k3, k5, not_false_eq_true, and_true]
    have hk : (if (s.Ribo (s.R_grid (s.Ribo i).mRNA ((s.Ribo i).pos - 10))).mRNA =
          (s.Ribo i).mRNA ∧
        (s.Ribo (s.R_grid (s.Ribo i).mRNA ((s.Ribo i).pos - 10))).pos + 10 = (s.Ribo i).pos
        then (0 : Int)
        else stall_ind s φ (s.R_grid (s.Ribo i).mRNA ((s.Ribo i).pos - 10))) = 0 :=
      if_pos ⟨k2, by rw [k3]; omega⟩
    have hB : (if s.R_grid (s.Ribo i).mRNA ((s.Ribo i).pos - 10) < cfg.tot_ribo ∧
          φ (s.mRNA (s.Ribo i).mRNA).gene ((s.Ribo i).pos - 10) then (1 : Int) else 0) =
        if φ (s.mRNA (s.Ribo i).mRNA).gene ((s.Ribo i).pos - 10) then 1 else 0 := by
      simp only [hP, true_and]
    rw [hk, fk, hB]
    ring
  · have hB : (if s.R_grid (s.Ribo i).mRNA ((s.Ribo i).pos - 10) < cfg.tot_ribo ∧
          φ (s.mRNA (s.Ribo i).mRNA).gene ((s.Ribo i).pos - 10) then (1 : Int) else 0) = 0 :=
      if_neg (fun hh => hP hh.1)
    rw [hB, sub_zero]
    apply Finset.sum_congr rfl
    intro j hj
    have hj' := Finset.mem_range.mp hj
    rw [if_neg]
    rintro ⟨e1, e2⟩
    obtain ⟨_, c2, c3⟩ := slot_ten_behind h i j hj' e1 e2
    apply hP
    rw [c2]
    exact c3


/-- The grid after a termination: a cell is empty exactly when it was empty
or was the cell of the terminated ribosome. -/
theorem terminate_grid_empty {cfg : Config} {s : State} {x : Nat} (hP : Picked cfg s x)
    (a b : Nat) :
    (terminate cfg s x).R_grid a b = cfg.tot_ribo ↔
      (s.R_grid a b = cfg.tot_ribo ∨ (a = s.m_id ∧ b = (s.Ribo s.r_id).pos)) := by
  have hrE := hP.lt_E
  have hrN := hP.lt_N
  by_cases hne : s.r_id = s.next_avail_ribo - 1
  · rw [terminate_eq, compact_last_grid cfg _ (by simpa using hne)]
    simp only [promote_R_grid, term_stats_R_grid, queue_remove_R_grid, term_clear_grid, set2]
    by_cases hc : a = s.m_id ∧ b = (s.Ribo s.r_id).pos
    · simp [hc]
    · simp [hc]
  · obtain ⟨_, _, _, _, hg⟩ := terminate_moved cfg s x hne
    rw [hg]
    have hlN : s.next_avail_ribo - 1 < s.next_avail_ribo := by omega
    obtain ⟨l1, l2, _, _⟩ := cell_occupied hP.inv _ hlN
    have hdiff : ¬ ((s.Ribo (s.next_avail_ribo - 1)).mRNA = s.m_id ∧
        (s.Ribo (s.next_avail_ribo - 1)).pos = (s.Ribo s.r_id).pos) := by
      rintro ⟨e1, e2⟩
      apply hne
      exact (slot_inj hP.inv hlN hrN (by rw [e1, hP.mid]) e2).symm
    simp only [set2]
    by_cases hl : a = (s.Ribo (s.next_avail_ribo - 1)).mRNA ∧
        b = (s.Ribo (s.next_avail_ribo - 1)).pos
    · rw [if_pos hl]
      obtain ⟨ha, hb⟩ := hl
      subst ha hb
      constructor
      · intro e; omega
      · rintro (e | e)
        · rw [l1] at e; omega
        · exact absurd e hdiff
    · rw [if_neg hl]
      by_cases hc : a = s.m_id ∧ b = (s.Ribo s.r_id).pos
      · simp [hc]
      · simp [hc]


/-! ## The change of the stall counters in each kind of tick -/

theorem set1_incr (a : Nat → Int) (i j : Nat) (d : Int) :
    set1 a i (a i + d) j = a j + (if i = j then d else 0) := by
  simp only [set1]
  by_cases h : j = i
  · subst h; simp
  · rw [if_neg h, if_neg (fun e => h e.symm), add_zero]

theorem set1_decr (a : Nat → Int) (i j : Nat) :
    set1 a i (a i - 1) j = a j - (if i = j then 1 else 0) := by
  simp only [set1]
  by_cases h : j = i
  · subst h; simp
  · rw [if_neg h, if_neg (fun e => h e.symm), sub_zero]

theorem waste_initiate (cfg : Config) (s : State) (ir : ℚ) (g0 c2 : Nat) :
    (∀ g, (ini_place cfg (ini_stats cfg (ini_pick cfg (ini_alloc (advance cfg s ir)) g0
        c2))).num_waste_ribo g = s.num_waste_ribo g +
        (if (s.mRNA (s.free_mRNA g0 c2)).gene = g ∧
            s.R_grid (s.free_mRNA g0 c2) 10 ≠ cfg.tot_ribo then 1 else 0)) ∧
    (∀ p, (ini_place cfg (ini_stats cfg (ini_pick cfg (ini_alloc (advance cfg s ir)) g0
        c2))).num_waste_ribo_pos p = s.num_waste_ribo_pos p +
        (if ((s.mRNA (s.free_mRNA g0 c2)).gene = 0 ∧ 0 = p) ∧
            s.R_grid (s.free_mRNA g0 c2) 10 ≠ cfg.tot_ribo then 1 else 0)) := by
  obtain ⟨w1, w2⟩ := advance_waste cfg s ir
  by_cases h : s.R_grid (s.free_mRNA g0 c2) 10 = cfg.tot_ribo
  · obtain ⟨_, _, q3, q4, _⟩ := ini_queued_fields cfg (advance cfg s ir) g0 c2 (by simpa using h)
    rw [q3, q4, w1, w2]
    constructor
    · intro g
      rw [if_neg (fun hh => hh.2 h), add_zero]
    · intro p
      rw [if_neg (fun hh => hh.2 h), add_zero]
  · obtain ⟨_, _, q3, q4⟩ := ini_stalled_fields cfg (advance cfg s ir) g0 c2 (by simpa using h)
    rw [q3, q4, w1, w2]
    simp only [advance_mRNA, advance_free_mRNA]
    constructor
    · intro g
      rw [set1_incr]
      simp only [h, ne_eq, not_false_eq_true, and_true]
    · intro p
      by_cases hg : (s.mRNA (s.free_mRNA g0 c2)).gene = 0
      · rw [if_pos hg, set1_incr]
        simp only [hg, h, ne_eq, not_false_eq_true, and_true, true_and]
      · rw [if_neg hg, if_neg (fun hh => hg hh.1.1), add_zero]

theorem waste_terminate {cfg : Config} {sp : State} {x : Nat}
    (hp : 10 ≤ (sp.Ribo sp.r_id).pos) :
    (∀ g, (snapshot cfg (terminate cfg sp x)).num_waste_ribo g = sp.num_waste_ribo g -
        (if sp.R_grid sp.m_id ((sp.Ribo sp.r_id).pos - 10) < cfg.tot_ribo ∧
            (sp.mRNA sp.m_id).gene = g then 1 else 0)) ∧
    (∀ p, (snapshot cfg (terminate cfg sp x)).num_waste_ribo_pos p = sp.num_waste_ribo_pos p -
        (if sp.R_grid sp.m_id ((sp.Ribo sp.r_id).pos - 10) < cfg.tot_ribo ∧
            ((sp.mRNA sp.m_id).gene = 0 ∧ (sp.Ribo sp.r_id).pos - 10 = p) then 1 else 0)) := by
  obtain ⟨s1, s2⟩ := snapshot_waste cfg (terminate cfg sp x)
  obtain ⟨t1, t2⟩ := terminate_waste cfg sp x hp
  rw [s1, s2, t1, t2]
  constructor
  · intro g
    by_cases h : sp.R_grid sp.m_id ((sp.Ribo sp.r_id).pos - 10) < cfg.tot_ribo
    · rw [if_pos h, set1_decr]
      simp only [h, true_and]
    · rw [if_neg h, if_neg (fun hh => h hh.1), sub_zero]
  · intro p
    by_cases h : sp.R_grid sp.m_id ((sp.Ribo sp.r_id).pos - 10) < cfg.tot_ribo ∧
        (sp.mRNA sp.m_id).gene = 0
    · rw [if_pos h, set1_decr]
      simp only [h.1, h.2, true_and]
    · rw [if_neg h, if_neg (fun hh => h ⟨hh.1, hh.2.1⟩), sub_zero]


theorem waste_post_move {cfg : Config} {sp sm : State} {still : Prop}
    (hm : Moved cfg sp sm still) :
    (∀ g, (snapshot cfg (post_move cfg sm)).num_waste_ribo g = sm.num_waste_ribo g -
        (if ((sp.Ribo sp.r_id).pos + 1 > 10 ∧
            sp.R_grid sp.m_id ((sp.Ribo sp.r_id).pos + 1 - 11) < cfg.tot_ribo) ∧
            (sp.mRNA sp.m_id).gene = g then 1 else 0)) ∧
    (∀ p, (snapshot cfg (post_move cfg sm)).num_waste_ribo_pos p = sm.num_waste_ribo_pos p -
        (if ((sp.Ribo sp.r_id).pos + 1 > 10 ∧
            sp.R_grid sp.m_id ((sp.Ribo sp.r_id).pos + 1 - 11) < cfg.tot_ribo) ∧
            ((sp.mRNA sp.m_id).gene = 0 ∧ (sp.Ribo sp.r_id).pos + 1 - 11 = p) then 1 else 0)) := by
  obtain ⟨s1, s2⟩ := snapshot_waste cfg (post_move cfg sm)
  obtain ⟨t1, t2⟩ := post_move_waste cfg sm
  have hpos : (sm.Ribo sm.r_id).pos = (sp.Ribo sp.r_id).pos + 1 := by
    rw [hm.rid, hm.ps, move_ribo_ps', if_pos rfl]
  have hgene : (sm.mRNA sm.m_id).gene = (sp.mRNA sp.m_id).gene := by
    rw [hm.mid, hm.gene]
  have hcond : ((sm.Ribo sm.r_id).pos > 10 ∧
      sm.R_grid sm.m_id ((sm.Ribo sm.r_id).pos - 11) < cfg.tot_ribo) ↔
      ((sp.Ribo sp.r_id).pos + 1 > 10 ∧
        sp.R_grid sp.m_id ((sp.Ribo sp.r_id).pos + 1 - 11) < cfg.tot_ribo) := by
    rw [hpos, hm.mid, hm.grid, move_ribo_grid]
    constructor
    · rintro ⟨a, b⟩
      rw [set2_other _ _ _ _ _ _ (by omega), set2_other _ _ _ _ _ _ (by omega)] at b
      exact ⟨a, b⟩
    · rintro ⟨a, b⟩
      rw [set2_other _ _ _ _ _ _ (by omega), set2_other _ _ _ _ _ _ (by omega)]
      exact ⟨a, b⟩
  rw [s1, s2, t1, t2]
  simp only [hcond]
  simp only [hgene, hpos]
  constructor
  · intro g
    by_cases h : (sp.Ribo sp.r_id).pos + 1 > 10 ∧
        sp.R_grid sp.m_id ((sp.Ribo sp.r_id).pos + 1 - 11) < cfg.tot_ribo
    · rw [if_pos h, set1_decr]
      simp only [h, and_self, true_and]
    · rw [if_neg h, if_neg (fun hh => h hh.1), sub_zero]
  · intro p
    by_cases h : ((sp.Ribo sp.r_id).pos + 1 > 10 ∧
        sp.R_grid sp.m_id ((sp.Ribo sp.r_id).pos + 1 - 11) < cfg.tot_ribo) ∧
        (sp.mRNA sp.m_id).gene = 0
    · rw [if_pos h, set1_decr]
      simp only [h.1, h.2, and_self, true_and]
    · rw [if_neg h, if_neg (fun hh => h ⟨hh.1, hh.2.1⟩), sub_zero]

/-- The stall counters after a non-terminal elongation. -/
theorem waste_moved {cfg : Config} {sp : State} {x : Nat} (hP : Picked cfg sp x)
    (hnt : (sp.Ribo sp.r_id).pos + 1 ≠ (cfg.Gene (sp.mRNA sp.m_id).gene).len)
    (s' : State)
    (hs : (((sp.Ribo sp.r_id).pos + 11 ≥ (cfg.Gene (sp.mRNA sp.m_id).gene).len ∨
            sp.R_grid sp.m_id ((sp.Ribo sp.r_id).pos + 11) = cfg.tot_ribo) ∧
          s' = snapshot cfg (post_move cfg (move_still cfg sp x))) ∨
        (¬ ((sp.Ribo sp.r_id).pos + 11 ≥ (cfg.Gene (sp.mRNA sp.m_id).gene).len ∨
            sp.R_grid sp.m_id ((sp.Ribo sp.r_id).pos + 11) = cfg.tot_ribo) ∧
          s' = snapshot cfg (post_move cfg (move_blocked cfg sp x)))) :
    (∀ g, s'.num_waste_ribo g = sp.num_waste_ribo g +
        (if (sp.mRNA sp.m_id).gene = g ∧
            ¬ ((sp.Ribo sp.r_id).pos + 11 ≥ (cfg.Gene (sp.mRNA sp.m_id).gene).len ∨
              sp.R_grid sp.m_id ((sp.Ribo sp.r_id).pos + 11) = cfg.tot_ribo) then 1 else 0) -
        (if ((sp.Ribo sp.r_id).pos + 1 > 10 ∧
            sp.R_grid sp.m_id ((sp.Ribo sp.r_id).pos + 1 - 11) < cfg.tot_ribo) ∧
            (sp.mRNA sp.m_id).gene = g then 1 else 0)) ∧
    (∀ p, s'.num_waste_ribo_pos p = sp.num_waste_ribo_pos p +
        (if ((sp.mRNA sp.m_id).gene = 0 ∧ (sp.Ribo sp.r_id).pos + 1 = p) ∧
            ¬ ((sp.Ribo sp.r_id).pos + 11 ≥ (cfg.Gene (sp.mRNA sp.m_id).gene).len ∨
              sp.R_grid sp.m_id ((sp.Ribo sp.r_id).pos + 11) = cfg.tot_ribo) then 1 else 0) -
        (if ((sp.Ribo sp.r_id).pos + 1 > 10 ∧
            sp.R_grid sp.m_id ((sp.Ribo sp.r_id).pos + 1 - 11) < cfg.tot_ribo) ∧
            ((sp.mRNA sp.m_id).gene = 0 ∧ (sp.Ribo sp.r_id).pos + 1 - 11 = p) then 1 else 0)) := by
  rcases hs with ⟨hst, rfl⟩ | ⟨hst, rfl⟩
  · obtain ⟨a1, a2⟩ := waste_post_move (Moved.still hP hnt)
    obtain ⟨b1, b2⟩ := move_still_waste cfg sp x
    constructor
    · intro g
      rw [a1, b1]
      simp only [hst, not_true_eq_false, and_false, if_false, add_zero]
    · intro p
      rw [a2, b2]
      simp only [hst, not_true_eq_false, and_false, if_false, add_zero]
  · obtain ⟨a1, a2⟩ := waste_post_move (Moved.blocked hP (s := sp) (x := x))
    obtain ⟨b1, b2⟩ := move_blocked_waste cfg sp x
    constructor
    · intro g
      rw [a1, b1, set1_incr]
      simp only [hst, not_false_eq_true, and_true]
    · intro p
      rw [a2, b2]
      simp only [hst, not_false_eq_true, and_true]
      by_cases hg : (sp.mRNA sp.m_id).gene = 0
      · rw [if_pos hg, set1_incr]
        simp only [hg, true_and]
      · rw [if_neg hg]
        simp only [hg, false_and, and_false, if_false, add_zero]


/-! ## The stall counters count the ribosomes that are in no queue -/

theorem initiate_grid (cfg : Config) (s : State) (ir : ℚ) (g c2 : Nat) :
    (ini_place cfg (ini_stats cfg (ini_pick cfg (ini_alloc (advance cfg s ir)) g c2))).R_grid =
        set2 s.R_grid (s.free_mRNA g c2) 0 s.next_avail_ribo ∧
      ∀ t, ((ini_place cfg (ini_stats cfg (ini_pick cfg (ini_alloc (advance cfg s ir)) g
        c2))).mRNA t).gene = (s.mRNA t).gene := by
  constructor
  · simp only [ini_place_grid, ini_stats_R_grid, ini_pick_R_grid, ini_alloc_R_grid,
      advance_R_grid, ini_stats_m_id, ini_pick_m_id, ini_alloc_free_mRNA, advance_free_mRNA,
      ini_stats_r_id, ini_pick_r_id, ini_alloc_r_id, advance_next_avail_ribo]
  · intro t
    rw [ini_place_mRNA, ini_stats_gene, ini_pick_mRNA, ini_alloc_mRNA, advance_mRNA]

/-- In every tick of a run the difference between each stall counter and the
number of bound ribosomes it stands for is unchanged. -/
theorem stall_step {cfg : Config} {s s' : State} {r1 r2 r3 : Nat} (hI : Inv cfg s)
    (hL : LenOK cfg) (hC : CodonOK cfg) (hp : gene_picked cfg s r1 r2)
    (ht : tick cfg s r1 r2 r3 = some s') :
    (∀ g, s'.num_waste_ribo g - (n_stalled s' g : Int) =
      s.num_waste_ribo g - (n_stalled s g : Int)) ∧
    (∀ p, s'.num_waste_ribo_pos p - (n_stalled_pos s' p : Int) =
      s.num_waste_ribo_pos p - (n_stalled_pos s p : Int)) := by
  have hI' := hI.tick_step hL hC r1 r2 r3 hp ht
  rcases tick_cases hI hC hp ht with ⟨_, g0, hg0, hM, rfl⟩ | ⟨_, c, x, sp, _, hc, hx, rfl, hP, hcase⟩
  · obtain ⟨e1, e2, e3⟩ := initiate_records cfg s (1 / tot_rate cfg s) g0 (r3 % s.Mf g0)
    obtain ⟨g1, g2⟩ := initiate_grid cfg s (1 / tot_rate cfg s) g0 (r3 % s.Mf g0)
    obtain ⟨w1, w2⟩ := waste_initiate cfg s (1 / tot_rate cfg s) g0 (r3 % s.Mf g0)
    have hc2 : r3 % s.Mf g0 < s.Mf g0 := Nat.mod_lt _ (by omega)
    obtain ⟨f1, _, _⟩ := hI.free.entry g0 _ hg0 hc2
    have hs : ∀ j, j < s.next_avail_ribo →
        ((ini_place cfg (ini_stats cfg (ini_pick cfg
          (ini_alloc (advance cfg s (1 / tot_rate cfg s))) g0 (r3 % s.Mf g0)))).Ribo j).mRNA
            = (s.Ribo j).mRNA ∧
        ((ini_place cfg (ini_stats cfg (ini_pick cfg
          (ini_alloc (advance cfg s (1 / tot_rate cfg s))) g0 (r3 % s.Mf g0)))).Ribo j).pos
            = (s.Ribo j).pos := by
      intro j hj
      rw [e2, e3, if_neg (by omega), if_neg (by omega)]
      exact ⟨rfl, rfl⟩
    have key : ∀ (φ : Nat → Nat → Prop) [∀ a q, Decidable (φ a q)], _ :=
      fun φ _ => stall_add hI hI' hL φ (s.free_mRNA g0 (r3 % s.Mf g0)) f1 e1 g2
        (by rw [e2, if_pos rfl]) (by rw [e3, if_pos rfl]) hs g1
    constructor
    · intro g
      rw [w1, n_stalled_sum, n_stalled_sum, key (fun a _ => a = g)]
      ring
    · intro p
      rw [w2, n_stalled_pos_sum, n_stalled_pos_sum, key (fun a q => a = 0 ∧ q = p)]
      ring
  · have hrN : s.Rb_e c x < s.next_avail_ribo := by simpa using hP.lt_N
    have hel : elongatable cfg s (s.Rb_e c x) := (hI.queue.entry c x hc hx (by simp)).1.2
    obtain ⟨pw1, pw2⟩ := picked_waste cfg s c x
    rcases hcase with ⟨hterm, rfl⟩ | hmv
    · obtain ⟨e1, e2⟩ := terminated_records cfg (picked cfg s c x) x
      simp only [picked_N, picked_Ribo, picked_r_id] at e1 e2
      have hlen : 11 ≤ (cfg.Gene ((picked cfg s c x).mRNA (picked cfg s c x).m_id).gene).len :=
        hL _ (hP.inv.gene_lt _ hP.m_lt)
      have hp10 : 10 ≤ ((picked cfg s c x).Ribo (picked cfg s c x).r_id).pos := by omega
      obtain ⟨w1, w2⟩ := @waste_terminate cfg (picked cfg s c x) x hp10
      simp only [picked_Ribo, picked_r_id, picked_mRNA, picked_m_id, picked_R_grid, pw1, pw2]
        at w1 w2 hp10
      have hgrid : ∀ a b, (snapshot cfg (terminate cfg (picked cfg s c x) x)).R_grid a b =
          cfg.tot_ribo ↔ (s.R_grid a b = cfg.tot_ribo ∨
            (a = (s.Ribo (s.Rb_e c x)).mRNA ∧ b = (s.Ribo (s.Rb_e c x)).pos)) := by
        intro a b
        rw [snapshot_R_grid, terminate_grid_empty hP]
        simp only [picked_Ribo, picked_r_id, picked_m_id, picked_R_grid]
      have hgene : ∀ t, ((snapshot cfg (terminate cfg (picked cfg s c x) x)).mRNA t).gene =
          (s.mRNA t).gene := by
        intro t
        rw [snapshot_mRNA, terminate_gene, picked_mRNA]
      have key : ∀ (φ : Nat → Nat → Prop) [∀ a q, Decidable (φ a q)], _ :=
        fun φ _ => stall_term hI hI' φ (s.Rb_e c x) hrN hel e1 hgene e2 hgrid hp10
      constructor
      · intro g
        rw [w1, n_stalled_sum, n_stalled_sum, key (fun a _ => a = g)]
        ring
      · intro p
        rw [w2, n_stalled_pos_sum, n_stalled_pos_sum, key (fun a q => a = 0 ∧ q = p)]
        ring
    · have hnt : ((picked cfg s c x).Ribo (picked cfg s c x).r_id).pos + 1 ≠
          (cfg.Gene ((picked cfg s c x).mRNA (picked cfg s c x).m_id).gene).len := by
        rcases hmv with ⟨a, _⟩ | ⟨a, _⟩ <;> exact a
      have hmv' : (((picked cfg s c x).Ribo (picked cfg s c x).r_id).pos + 11 ≥
            (cfg.Gene ((picked cfg s c x).mRNA (picked cfg s c x).m_id).gene).len ∨
            (picked cfg s c x).R_grid (picked cfg s c x).m_id
              (((picked cfg s c x).Ribo (picked cfg s c x).r_id).pos + 11) = cfg.tot_ribo) ∧
          s' = snapshot cfg (post_move cfg (move_still cfg (picked cfg s c x) x)) ∨
          ¬ (((picked cfg s c x).Ribo (picked cfg s c x).r_id).pos + 11 ≥
            (cfg.Gene ((picked cfg s c x).mRNA (picked cfg s c x).m_id).gene).len ∨
            (picked cfg s c x).R_grid (picked cfg s c x).m_id
              (((picked cfg s c x).Ribo (picked cfg s c x).r_id).pos + 11) = cfg.tot_ribo) ∧
          s' = snapshot cfg (post_move cfg (move_blocked cfg (picked cfg s c x) x)) := by
        rcases hmv with ⟨_, a, b⟩ | ⟨_, a, b⟩
        · exact Or.inl ⟨a, b⟩
        · exact Or.inr ⟨a, b⟩
      obtain ⟨w1, w2⟩ := waste_moved hP hnt s' hmv'
      simp only [picked_Ribo, picked_r_id, picked_mRNA, picked_m_id, picked_R_grid, pw1, pw2]
        at w1 w2
      have hrec : ∃ sm still, Moved cfg (picked cfg s c x) sm still ∧
          s' = snapshot cfg (post_move cfg sm) := by
        rcases hmv with ⟨_, _, b⟩ | ⟨_, _, b⟩
        · exact ⟨_, True, Moved.still hP hnt, b⟩
        · exact ⟨_, False, Moved.blocked hP, b⟩
      obtain ⟨sm, still, hm, rfl⟩ := hrec
      obtain ⟨e1, e2, e3⟩ := moved_records hm
      simp only [picked_N, picked_Ribo, picked_r_id] at e1 e2 e3
      have hgrid : (snapshot cfg (post_move cfg sm)).R_grid =
          set2 (set2 s.R_grid (s.Ribo (s.Rb_e c x)).mRNA (s.Ribo (s.Rb_e c x)).pos cfg.tot_ribo)
            (s.Ribo (s.Rb_e c x)).mRNA ((s.Ribo (s.Rb_e c x)).pos + 1) (s.Rb_e c x) := by
        rw [snapshot_R_grid, post_move_grid, hm.grid, move_ribo_grid]
        simp only [picked_Ribo, picked_r_id, picked_m_id, picked_R_grid]
      have hgene : ∀ t, ((snapshot cfg (post_move cfg sm)).mRNA t).gene = (s.mRNA t).gene := by
        intro t
        rw [snapshot_mRNA, post_move_mRNA, hm.gene, picked_mRNA]
      have key : ∀ (φ : Nat → Nat → Prop) [∀ a q, Decidable (φ a q)], _ :=
        fun φ _ => stall_move hI hI' φ (s.Rb_e c x) hrN hel e1 hgene (e2 _)
          (by rw [e3, if_pos rfl]) (fun j _ hj => ⟨e2 j, by rw [e3, if_neg hj]⟩) hgrid
      constructor
      · intro g
        rw [w1, n_stalled_sum, n_stalled_sum, key (fun a _ => a = g)]
        ring
      · intro p
        rw [w2, n_stalled_pos_sum, n_stalled_pos_sum, key (fun a q => a = 0 ∧ q = p)]
        ring


/-! ## Queue sizes and bound ribosomes -/

/-- The ribosome closest to the 3' end of an occupied transcript is in an
elongation queue. -/
theorem last_ribosome_queued {cfg : Config} {s : State} (h : Inv cfg s) (m p0 : Nat)
    (ho : occupied cfg s m p0) :
    ∃ i, i < s.next_avail_ribo ∧ (s.Ribo i).mRNA = m ∧ queued s i ∧
      ∀ p, occupied cfg s m p → p ≤ (s.Ribo i).pos := by
  classical
  have hb : p0 ≤ tlen cfg s m := le_of_lt ho.2.1
  have hspec : occupied cfg s m (Nat.findGreatest (fun p => occupied cfg s m p) (tlen cfg s m)) :=
    Nat.findGreatest_spec (P := fun p => occupied cfg s m p) hb ho
  have hmax : ∀ p, occupied cfg s m p →
      p ≤ Nat.findGreatest (fun p => occupied cfg s m p) (tlen cfg s m) := by
    intro p hp
    exact Nat.le_findGreatest (le_of_lt hp.2.1) hp
  generalize Nat.findGreatest (fun p => occupied cfg s m p) (tlen cfg s m) = q at hspec hmax
  obtain ⟨hm, hq, hne⟩ := hspec
  obtain ⟨o1, o2, o3⟩ := h.grid.occ m q hm hq hne
  have o1' : s.R_grid m q < s.next_avail_ribo := o1
  have o2' : (s.Ribo (s.R_grid m q)).mRNA = m := o2
  have o3' : (s.Ribo (s.R_grid m q)).pos = q := o3
  refine ⟨s.R_grid m q, o1', o2', ?_, ?_⟩
  · rw [queued_iff h]
    refine ⟨o1', ?_⟩
    by_contra hne'
    simp only [elongatable, not_or, not_le, o2', o3'] at hne'
    have := hmax (q + 10) ⟨hm, hne'.1, hne'.2⟩
    omega
  · intro p hp
    rw [o3']
    exact hmax p hp

theorem QInv.sum_le {K : Nat} {R : Nat → ribosome} {Q : Nat → Nat → Nat} {n : Nat → Nat}
    {P : Nat → Prop} (h : QInv K R Q n P none) (N : Nat) (hP : ∀ r, P r → r < N) :
    ∑ c in Finset.range K, n c ≤ N := by
  have hcard : ((Finset.range K).sigma (fun c => Finset.range (n c))).card =
      ∑ c in Finset.range K, n c := by
    rw [Finset.card_sigma]
    simp
  rw [← hcard]
  have hN : N = (Finset.range N).card := by simp
  rw [hN]
  apply Finset.card_le_card_of_injOn (fun a => Q a.1 a.2)
  · intro a ha
    have ha' := Finset.mem_sigma.mp ha
    have hc := Finset.mem_range.mp ha'.1
    have hx := Finset.mem_range.mp ha'.2
    exact Finset.mem_range.mpr (hP _ (h.entry a.1 a.2 hc hx (by simp)).1)
  · intro a ha b hb hab
    have ha' := Finset.mem_sigma.mp (Finset.mem_coe.mp ha)
    have hb' := Finset.mem_sigma.mp (Finset.mem_coe.mp hb)
    obtain ⟨_, a2, a3⟩ := h.entry a.1 a.2 (Finset.mem_range.mp ha'.1)
      (Finset.mem_range.mp ha'.2) (by simp)
    obtain ⟨_, b2, b3⟩ := h.entry b.1 b.2 (Finset.mem_range.mp hb'.1)
      (Finset.mem_range.mp hb'.2) (by simp)
    have hab' : Q a.1 a.2 = Q b.1 b.2 := hab
    rw [hab'] at a2 a3
    have e1 : a.1 = b.1 := a2.symm.trans b2
    have e2 : a.2 = b.2 := a3.symm.trans b3
    cases a
    cases b
    simp only at e1 e2
    subst e1 e2
    rfl

theorem queue_sum_le {cfg : Config} {s : State} (h : Inv cfg s) :
    ∑ c in Finset.range 61, s.n_Rb_e c ≤ s.next_avail_ribo :=
  h.queue.sum_le s.next_avail_ribo (fun _ hr => hr.1)

theorem queue_sum_pos {s : State} {i : Nat} (hq : queued s i) :
    1 ≤ ∑ c in Finset.range 61, s.n_Rb_e c := by
  obtain ⟨c, hc, x, hx, _⟩ := hq
  have h1 : s.n_Rb_e c ≤ ∑ c in Finset.range 61, s.n_Rb_e c :=
    Finset.single_le_sum (f := fun c => s.n_Rb_e c) (fun _ _ => Nat.zero_le _)
      (Finset.mem_range.mpr hc)
  omega


/-! ## The invariant of a second two-ribosome state -/

theorem tlen_s5 (m : Nat) : tlen cfg0 s5 m = 11 := rfl

theorem elongatable_s5 (i : Nat) : elongatable cfg0 s5 i := by
  left
  by_cases h : i = 0
  · subst h; simp [s5, tlen, cfg0]
  · simp [s5, h, tlen, cfg0]

theorem inv_s5 : Inv cfg0 s5 where
  rf := by simp [s5, s2, cfg0]
  rf_nn := by simp [s5, s2]
  gene_lt := by intro m _; simp [s5, s2, U0, cfg0]
  grid := by
    refine ⟨?_, ?_, ?_⟩
    · intro i hi; simpa [s5, s2, cfg0] using hi
    · intro i hi
      have hi' : i < 2 := hi
      rw [tot_mRNA_cfg0, tlen_s5]
      interval_cases i <;> simp [s5]
    · intro m p hm hp ho
      rw [tot_mRNA_cfg0] at hm
      rw [tlen_s5] at hp
      simp only [s5, s2, cfg0] at ho ⊢
      interval_cases m <;> interval_cases p <;> simp_all
  foot := by
    intro m p q hm hpq hq hqp ho
    rw [tot_mRNA_cfg0] at hm
    rw [tlen_s5] at hq
    simp only [s5, cfg0] at ho ⊢
    interval_cases m
    · have : p = 10 := by
        by_contra hne
        simp [hne] at ho
      omega
    · have : p = 1 := by
        by_contra hne
        simp [hne] at ho
      have : q ≠ 1 := by omega
      simp [this]
  queue := by
    refine ⟨by simp, ?_, ?_⟩
    · intro c i hc hi _
      have hc0 : c = 0 := by
        by_contra hne
        simp [s5, s2, hne] at hi
      subst hc0
      have hi' : i < 2 := by simpa [s5, s2] using hi
      refine ⟨⟨by simpa [s5, s2] using hi', elongatable_s5 _⟩, ?_, ?_⟩
      · interval_cases i <;> simp [s5, s2]
      · interval_cases i <;> simp [s5, s2]
    · rintro r ⟨hr, _⟩
      have hr' : r < 2 := hr
      interval_cases r <;> simp [s5, s2]
  codon := by intro i _ _; by_cases h : i = 0 <;> simp [s5, h, codon_at, cfg0]
  free := by
    refine ⟨?_, ?_, ?_⟩
    · intro g i hg hi
      have hi' : i < 1 := hi
      refine ⟨by rw [tot_mRNA_cfg0]; simp [s5, s2, U0],
        by simp [s5, s2, U0, cfg0] at hg ⊢; omega, ?_⟩
      intro p hp
      simp [s5, s2, U0, cfg0]
      omega
    · intro g i j _ hi hj _
      have hi' : i < 1 := hi
      have hj' : j < 1 := hj
      omega
    · intro m hm he
      rw [tot_mRNA_cfg0] at hm
      refine ⟨0, by simp [s5, s2], ?_⟩
      interval_cases m
      · rfl
      · have := he 1 (by omega)
        simp [s5, cfg0] at this
  scld := by
    refine ⟨?_, ?_⟩
    · intro g _; simp [s5, s2, cfg0]
    · simp [s5, s2, cfg0]


/-! ## The grid cells a handler accesses -/

theorem elng_cells_term (cfg : Config) (s : State) (x : Nat)
    (h : (s.Ribo (s.Rb_e s.c_id x)).pos + 1 = tlen cfg s (s.Ribo (s.Rb_e s.c_id x)).mRNA) :
    elng_cells cfg s x =
      [((s.Ribo (s.Rb_e s.c_id x)).mRNA, ((s.Ribo (s.Rb_e s.c_id x)).pos : Int)),
       ((s.Ribo (s.Rb_e s.c_id x)).mRNA, ((s.Ribo (s.Rb_e s.c_id x)).pos : Int) + 1 - 11)] ++
      (if s.Rb_e s.c_id x ≠ s.next_avail_ribo - 1 then
        [((s.Ribo (s.next_avail_ribo - 1)).mRNA, ((s.Ribo (s.next_avail_ribo - 1)).pos : Int)),
         ((s.Ribo (s.next_avail_ribo - 1)).mRNA,
            ((s.Ribo (s.next_avail_ribo - 1)).pos : Int) + 10)]
       else []) := by
  have h' : (s.Ribo (s.Rb_e s.c_id x)).pos + 1 =
      (cfg.Gene (s.mRNA (s.Ribo (s.Rb_e s.c_id x)).mRNA).gene).len := h
  simp only [elng_cells, compact_cells, release_tRNA_Ribo, pick_ribo_Ribo, release_tRNA_r_id,
    pick_ribo_r_id', release_tRNA_m_id, pick_ribo_m_id', release_tRNA_mRNA, pick_ribo_mRNA,
    if_pos h', promote_r_id, term_stats_r_id, queue_remove_r_id, term_clear_r_id,
    promote_next_avail_ribo, term_stats_next_avail_ribo, queue_remove_next_avail_ribo,
    term_clear_next_avail_ribo, release_tRNA_next_avail_ribo, pick_ribo_next_avail_ribo,
    promote_mr, promote_ps, term_stats_Ribo, queue_remove_mr, queue_remove_ps, term_clear_mr,
    term_clear_ps']
  by_cases hne : s.Rb_e s.c_id x = s.next_avail_ribo - 1
  · simp only [hne, ne_eq, not_true_eq_false, if_false]
  · have hl : ¬ (s.next_avail_ribo - 1 = s.Rb_e s.c_id x) := fun e => hne e.symm
    simp only [ne_eq, hne, not_false_eq_true, if_true, if_neg hl]

theorem elng_cells_move (cfg : Config) (s : State) (x : Nat)
    (h : ¬ (s.Ribo (s.Rb_e s.c_id x)).pos + 1 = tlen cfg s (s.Ribo (s.Rb_e s.c_id x)).mRNA) :
    elng_cells cfg s x =
      (if (s.Ribo (s.Rb_e s.c_id x)).pos + 11 ≥ tlen cfg s (s.Ribo (s.Rb_e s.c_id x)).mRNA
        then []
        else [((s.Ribo (s.Rb_e s.c_id x)).mRNA, ((s.Ribo (s.Rb_e s.c_id x)).pos : Int) + 11)]) ++
      [((s.Ribo (s.Rb_e s.c_id x)).mRNA, ((s.Ribo (s.Rb_e s.c_id x)).pos : Int)),
       ((s.Ribo (s.Rb_e s.c_id x)).mRNA, ((s.Ribo (s.Rb_e s.c_id x)).pos : Int) + 1)] ++
      (if (s.Ribo (s.Rb_e s.c_id x)).pos + 1 > 10 then
        [((s.Ribo (s.Rb_e s.c_id x)).mRNA, ((s.Ribo (s.Rb_e s.c_id x)).pos : Int) + 1 - 11)]
       else []) := by
  have h' : ¬ (s.Ribo (s.Rb_e s.c_id x)).pos + 1 =
      (cfg.Gene (s.mRNA (s.Ribo (s.Rb_e s.c_id x)).mRNA).gene).len := h
  simp only [elng_cells, release_tRNA_Ribo, pick_ribo_Ribo, release_tRNA_r_id,
    pick_ribo_r_id', release_tRNA_m_id, pick_ribo_m_id', release_tRNA_mRNA, pick_ribo_mRNA,
    if_neg h', tlen]

theorem in_grid_iff (cfg : Config) (s : State) (m : Nat) (p : Int) :
    in_grid cfg s (m, p) ↔ m < tot_mRNA cfg ∧ 0 ≤ p ∧ p < (tlen cfg s m : Int) := Iff.rfl

/-- The transcript of an active slot has at least 11 codons and the slot is
inside it. -/
theorem slot_in_grid {cfg : Config} {s : State} (hL : LenOK cfg) (hI : Inv cfg s) {i : Nat}
    (hi : i < s.next_avail_ribo) :
    (s.Ribo i).mRNA < tot_mRNA cfg ∧ (s.Ribo i).pos < tlen cfg s (s.Ribo i).mRNA ∧
      11 ≤ tlen cfg s (s.Ribo i).mRNA := by
  obtain ⟨a, b, _⟩ := hI.grid.cell i hi
  exact ⟨a, b, hL _ (hI.gene_lt _ a)⟩

theorem ini_cells_in_grid {cfg : Config} {s : State} (hL : LenOK cfg) (hI : Inv cfg s)
    (g c2 : Nat) (hg : g < cfg.n_genes) (hc2 : c2 < s.Mf g) (c : Nat × Int)
    (hc : c ∈ ini_cells (ini_stats cfg (ini_pick cfg (ini_alloc s) g c2))) :
    in_grid cfg s c := by
  obtain ⟨a, _, _⟩ := hI.free.entry g c2 hg hc2
  have hlen : 11 ≤ tlen cfg s (s.free_mRNA g c2) := hL _ (hI.gene_lt _ a)
  simp only [ini_cells, ini_stats_m_id, ini_pick_m_id, ini_alloc_free_mRNA, List.mem_cons,
    List.mem_singleton, List.not_mem_nil, or_false] at hc
  rcases hc with rfl | rfl
  · exact (in_grid_iff _ _ _ _).2 ⟨a, by omega, by omega⟩
  · exact (in_grid_iff _ _ _ _).2 ⟨a, by omega, by omega⟩

theorem elng_cells_in_grid {cfg : Config} {s : State} {x : Nat} (hL : LenOK cfg)
    (hI : Inv cfg s) (hc : s.c_id < 61) (hx : x < s.n_Rb_e s.c_id) (c : Nat × Int)
    (hmem : c ∈ elng_cells cfg s x) :
    in_grid cfg s c ∨
      c = ((s.Ribo (s.next_avail_ribo - 1)).mRNA,
        ((s.Ribo (s.next_avail_ribo - 1)).pos : Int) + 10) := by
  obtain ⟨⟨hr, _⟩, _, _⟩ := hI.queue.entry s.c_id x hc hx (by simp)
  obtain ⟨a, b, d⟩ := slot_in_grid hL hI hr
  by_cases h : (s.Ribo (s.Rb_e s.c_id x)).pos + 1 = tlen cfg s (s.Ribo (s.Rb_e s.c_id x)).mRNA
  · rw [elng_cells_term cfg s x h] at hmem
    simp only [List.mem_append, List.mem_cons, List.mem_singleton, List.not_mem_nil,
      or_false] at hmem
    rcases hmem with (rfl | rfl) | hmem
    · left
      exact (in_grid_iff _ _ _ _).2 ⟨a, by omega, by omega⟩
    · left
      exact (in_grid_iff _ _ _ _).2 ⟨a, by omega, by omega⟩
    · split at hmem
      · simp only [List.mem_cons, List.mem_singleton, List.not_mem_nil, or_false] at hmem
        rcases hmem with rfl | rfl
        · left
          obtain ⟨a', b', _⟩ :=
            slot_in_grid hL hI (show s.next_avail_ribo - 1 < s.next_avail_ribo by omega)
          exact (in_grid_iff _ _ _ _).2 ⟨a', by omega, by omega⟩
        · right; rfl
      · simp at hmem
  · rw [elng_cells_move cfg s x h] at hmem
    simp only [List.mem_append, List.mem_cons, List.mem_singleton, List.not_mem_nil,
      or_false] at hmem
    left
    rcases hmem with (hmem | rfl | rfl) | hmem
    · split at hmem
      · simp at hmem
      · simp only [List.mem_singleton] at hmem
        subst hmem
        exact (in_grid_iff _ _ _ _).2 ⟨a, by omega, by omega⟩
    · exact (in_grid_iff _ _ _ _).2 ⟨a, by omega, by omega⟩
    · exact (in_grid_iff _ _ _ _).2 ⟨a, by omega, by omega⟩
    · split at hmem
      · simp only [List.mem_singleton] at hmem
        subst hmem
        exact (in_grid_iff _ _ _ _).2 ⟨a, by omega, by omega⟩
      · simp at hmem

theorem compaction_cell_outside (cfg : Config) (s : State) (x : Nat)
    (h : (s.Ribo (s.Rb_e s.c_id x)).pos + 1 = tlen cfg s (s.Ribo (s.Rb_e s.c_id x)).mRNA)
    (hne : s.Rb_e s.c_id x ≠ s.next_avail_ribo - 1)
    (hend : (s.Ribo (s.next_avail_ribo - 1)).pos + 10 ≥
      tlen cfg s (s.Ribo (s.next_avail_ribo - 1)).mRNA) :
    ((s.Ribo (s.next_avail_ribo - 1)).mRNA,
        ((s.Ribo (s.next_avail_ribo - 1)).pos : Int) + 10) ∈ elng_cells cfg s x ∧
      ¬ in_grid cfg s ((s.Ribo (s.next_avail_ribo - 1)).mRNA,
        ((s.Ribo (s.next_avail_ribo - 1)).pos : Int) + 10) := by
  refine ⟨?_, ?_⟩
  · rw [elng_cells_term cfg s x h, if_pos hne]
    simp
  · intro hg
    have h3 := ((in_grid_iff _ _ _ _).1 hg).2.2
    omega

/-! ## Runs with given `rand()` results -/

theorem ticks_reachable {cfg : Config} {U : State} :
    ∀ (ds : List (Nat × Nat × Nat)) {s s' : State}, Reachable cfg U s →
      ticks cfg s ds = some s' → Reachable cfg U s'
  | [], s, s', h, e => by
      simp only [ticks, Option.some.injEq] at e
      exact e ▸ h
  | d :: ds, s, s', h, e => by
      simp only [ticks] at e
      split at e
      · split at e
        · rename_i s1 h1
          exact ticks_reachable ds (Reachable.tick d.1 d.2.1 d.2.2 h h1) e
        · exact absurd e (by simp)
      · exact absurd e (by simp)

theorem holds_some {o : Option State} {p : State → Bool} (h : holds o p = true) :
    ∃ s, o = some s ∧ p s = true := by
  cases o with
  | none => exact absurd h (by simp [holds])
  | some s => exact ⟨s, rfl, h⟩

theorem ticks_init_reachable {cfg : Config} {U s : State} {ds : List (Nat × Nat × Nat)}
    (e : ticks cfg (SMoPT.init cfg U) ds = some s) : Reachable cfg U s :=
  ticks_reachable ds Reachable.init e

theorem ticks_facts {cfg : Config} {U : State} {ds : List (Nat × Nat × Nat)}
    (P : State → Prop) [DecidablePred P]
    (h : holds (ticks cfg (SMoPT.init cfg U) ds) (fun s => decide (P s)) = true) :
    ∃ s, ticks cfg (SMoPT.init cfg U) ds = some s ∧ Reachable cfg U s ∧ P s := by
  obtain ⟨s, hs, hp⟩ := holds_some h
  exact ⟨s, hs, ticks_init_reachable hs, of_decide_eq_true hp⟩

theorem ticks_tick_facts {cfg : Config} {U : State} {ds : List (Nat × Nat × Nat)}
    {r1 r2 r3 : Nat} (P : State → State → Prop) [∀ s s', Decidable (P s s')]
    (h : holds (ticks cfg (SMoPT.init cfg U) ds)
      (fun s => holds (tick cfg s r1 r2 r3) (fun s' => decide (P s s'))) = true) :
    ∃ s s', ticks cfg (SMoPT.init cfg U) ds = some s ∧ Reachable cfg U s ∧
      tick cfg s r1 r2 r3 = some s' ∧ P s s' := by
  obtain ⟨s, hs, hp⟩ := holds_some h
  obtain ⟨s', hs', hp'⟩ := holds_some hp
  exact ⟨s, s', hs, ticks_init_reachable hs, hs', of_decide_eq_true hp'⟩

theorem tot_mRNA_cfg5 : tot_mRNA cfg5 = 2 := rfl

theorem tlen_cfg5 (s : State) (m : Nat) : tlen cfg5 s m = 11 := rfl

theorem lenOK_cfg5 : LenOK cfg5 := fun _ _ => Nat.le_refl 11

theorem lenOK_cfg6 : LenOK cfg6 := fun _ _ => Nat.le_refl 11

/-! ## Conservation of ribosomes and of tRNAs -/

/-- C1. Ribosome conservation: at the first loop head and after every tick
(initiation, non-terminal elongation or termination), `Rf + next_avail_ribo`
equals `tot_ribo`, with `0 ≤ Rf` and `next_avail_ribo ≤ tot_ribo`; and the
initiation branch, which advances the cursor, is only taken when `Rf ≥ 1`. -/
theorem ribosome_conservation (cfg : Config) (U s : State) (h : Reachable cfg U s) :
    s.Rf + (s.next_avail_ribo : Int) = (cfg.tot_ribo : Int) ∧ 0 ≤ s.Rf ∧
      s.next_avail_ribo ≤ cfg.tot_ribo ∧ ∀ r1, ini_branch cfg s r1 → 1 ≤ s.Rf := by
  obtain ⟨h1, h2⟩ := h.counters
  exact ⟨h1, h2, by omega, fun r1 hb => ini_branch_Rf hb h2⟩

/-- The conservation of ribosomes after the first tick of the small run. -/
theorem ribosome_conservation_witness :
    s1.Rf + (s1.next_avail_ribo : Int) = (cfg0.tot_ribo : Int) ∧ 0 ≤ s1.Rf ∧
      s1.next_avail_ribo ≤ cfg0.tot_ribo ∧ ∀ r1, ini_branch cfg0 s1 r1 → 1 ≤ s1.Rf :=
  ribosome_conservation cfg0 U0 s1 (Reachable.tick 0 0 0 Reachable.init tick_s0)

/-- C2, as the spec states it, fails: after the first tick of the small run
(an initiation) the ribosome at position 0 has a current codon read by
species 0, so the spec's count is 1, but no tRNA has been taken: `Tf[0]` is
still the initial pool of 5. -/
theorem tRNA_current_codon_fails :
    Run cfg0 U0 s1 ∧ (SMoPT.init cfg0 U0).Tf 0 = 5 ∧ s1.Tf 0 = 5 ∧ n_current cfg0 s1 0 = 1 ∧
      s1.Tf 0 + (n_current cfg0 s1 0 : Int) ≠ (SMoPT.init cfg0 U0).Tf 0 := by
  refine ⟨run_s1, init_Tf_s0, s1_Tf, n_current_s1, ?_⟩
  rw [s1_Tf, n_current_s1, init_Tf_s0]
  decide

/-- C2, amended. At every loop head of a run on genes of length at least 11
with codons below 61, for every tRNA species `sp`, `Tf[sp]` plus the number of
bound ribosomes at a position `p ≥ 1` whose previous codon `seq[p-1]` is read
by `sp` equals the initial pool of `sp`. -/
theorem tRNA_previous_codon (cfg : Config) (U s : State) (hL : LenOK cfg) (hC : CodonOK cfg)
    (h : Run cfg U s) (sp : Nat) :
    s.Tf sp + (((Finset.range s.next_avail_ribo).filter (fun i =>
        1 ≤ (s.Ribo i).pos ∧
          (cfg.cTRNA ((cfg.Gene (s.mRNA (s.Ribo i).mRNA).gene).seq ((s.Ribo i).pos - 1))).tid
            = sp)).card : Int) = (SMoPT.init cfg U).Tf sp :=
  Run.tf hL hC h sp

/-- The amended tRNA conservation after the first tick of the small run. -/
theorem tRNA_previous_codon_witness :
    s1.Tf 0 + (((Finset.range s1.next_avail_ribo).filter (fun i =>
        1 ≤ (s1.Ribo i).pos ∧
          (cfg0.cTRNA ((cfg0.Gene (s1.mRNA (s1.Ribo i).mRNA).gene).seq ((s1.Ribo i).pos - 1))).tid
            = 0)).card : Int) = (SMoPT.init cfg0 U0).Tf 0 :=
  tRNA_previous_codon cfg0 U0 s1 lenOK_cfg0 codonOK_cfg0 run_s1 0

/-! ## The structural invariants at every loop head of a run -/

/-- C3. Footprint: in a run on genes of length at least 11 (codons below 61)
in which every initiation is on a transcript taken from an initiation queue,
at every loop head any two distinct occupied positions of one transcript
differ by at least 10. -/
theorem footprint_invariant (cfg : Config) (U s : State) (hL : LenOK cfg) (hC : CodonOK cfg)
    (h : Run cfg U s) :
    ∀ m p q, m < tot_mRNA cfg → p < (cfg.Gene (s.mRNA m).gene).len →
      q < (cfg.Gene (s.mRNA m).gene).len → p ≠ q →
      s.R_grid m p ≠ cfg.tot_ribo → s.R_grid m q ≠ cfg.tot_ribo → p + 10 ≤ q ∨ q + 10 ≤ p := by
  intro m p q hm hp hq hpq hop hoq
  have hf := (Run.inv hL hC h).foot
  by_contra hcon
  rcases Nat.lt_or_gt_of_ne hpq with hlt | hgt
  · exact hoq (hf m p q hm hlt hq (by omega) hop)
  · exact hop (hf m q p hm hgt hp (by omega) hoq)

/-- The footprint property on a run of the small configuration that
reaches a state with two ribosomes on transcript 0, at positions 0 and 10. -/
theorem footprint_invariant_witness :
    ∃ s, Run cfg0 U0 s ∧ s.R_grid 0 0 ≠ cfg0.tot_ribo ∧ s.R_grid 0 10 ≠ cfg0.tot_ribo ∧
      (0 + 10 ≤ 10 ∨ 10 + 10 ≤ 0) := by
  obtain ⟨s, hr, h0, h10⟩ := run_two
  exact ⟨s, hr, h0, h10,
    footprint_invariant cfg0 U0 s lenOK_cfg0 codonOK_cfg0 hr 0 0 10 (by decide)
      (by show 0 < 11; decide) (by show 10 < 11; decide) (by decide) h0 h10⟩

/-- Queue membership equals elongatability when every gene loop breaks: at
every loop head of a run whose initiations all take their transcript from an
initiation queue (genes of length at least 11, codons below 61), a bound ribosome `i` at
position `p` occurs in the live part of some elongation queue iff `p + 10`
is at or past the transcript end or the cell at `p + 10` is empty; every
occurrence is in the queue of the codon at `p`, and there is at most one; and
no queue holds an unbound id or a duplicate. -/
theorem queue_membership (cfg : Config) (U s : State) (hL : LenOK cfg) (hC : CodonOK cfg)
    (h : Run cfg U s) :
    (∀ i, i < s.next_avail_ribo →
      ((∃ c j, c < 61 ∧ j < s.n_Rb_e c ∧ s.Rb_e c j = i) ↔
        ((s.Ribo i).pos + 10 ≥ (cfg.Gene (s.mRNA (s.Ribo i).mRNA).gene).len ∨
          s.R_grid (s.Ribo i).mRNA ((s.Ribo i).pos + 10) = cfg.tot_ribo)) ∧
      (∀ c j, c < 61 → j < s.n_Rb_e c → s.Rb_e c j = i →
        c = (cfg.Gene (s.mRNA (s.Ribo i).mRNA).gene).seq (s.Ribo i).pos)) ∧
    (∀ c j, c < 61 → j < s.n_Rb_e c → s.Rb_e c j < s.next_avail_ribo) ∧
    (∀ c j c' j', c < 61 → j < s.n_Rb_e c → c' < 61 → j' < s.n_Rb_e c' →
      s.Rb_e c j = s.Rb_e c' j' → c = c' ∧ j = j') := by
  have hI := Run.inv hL hC h
  refine ⟨fun i hi => ⟨⟨?_, ?_⟩, ?_⟩, ?_, ?_⟩
  · rintro ⟨c, j, hc, hj, e⟩
    have := (hI.queue.entry c j hc hj (by simp)).1.2
    rw [e] at this
    exact this
  · intro he
    have hm := hI.queue.member i ⟨hi, he⟩
    exact ⟨_, _, hm.1, hm.2.1, hm.2.2.1⟩
  · intro c j hc hj e
    have hen := hI.queue.entry c j hc hj (by simp)
    rw [e] at hen
    have := hI.codon i hi hen.1.2
    rw [hen.2.1] at this
    exact this
  · intro c j hc hj
    exact (hI.queue.entry c j hc hj (by simp)).1.1
  · intro c j c' j' hc hj hc' hj' e
    have h1 := hI.queue.entry c j hc hj (by simp)
    have h2 := hI.queue.entry c' j' hc' hj' (by simp)
    rw [e] at h1
    exact ⟨h1.2.1.symm.trans h2.2.1, h1.2.2.symm.trans h2.2.2⟩

/-- The queue characterisation after the first tick of the small run. -/
theorem queue_membership_witness :
    (∀ i, i < s1.next_avail_ribo →
      ((∃ c j, c < 61 ∧ j < s1.n_Rb_e c ∧ s1.Rb_e c j = i) ↔
        ((s1.Ribo i).pos + 10 ≥ (cfg0.Gene (s1.mRNA (s1.Ribo i).mRNA).gene).len ∨
          s1.R_grid (s1.Ribo i).mRNA ((s1.Ribo i).pos + 10) = cfg0.tot_ribo)) ∧
      (∀ c j, c < 61 → j < s1.n_Rb_e c → s1.Rb_e c j = i →
        c = (cfg0.Gene (s1.mRNA (s1.Ribo i).mRNA).gene).seq (s1.Ribo i).pos)) ∧
    (∀ c j, c < 61 → j < s1.n_Rb_e c → s1.Rb_e c j < s1.next_avail_ribo) ∧
    (∀ c j c' j', c < 61 → j < s1.n_Rb_e c → c' < 61 → j' < s1.n_Rb_e c' →
      s1.Rb_e c j = s1.Rb_e c' j' → c = c' ∧ j = j') :=
  queue_membership cfg0 U0 s1 lenOK_cfg0 codonOK_cfg0 run_s1

/-- Queue back-pointers when every gene loop breaks: at every loop head of a
run whose initiations all take their transcript from an initiation queue
(genes of length at least 11, codons below 61), that is after every event of
such a run with its swap-removals, appends, promotion and compaction, for every
codon `c` and slot `i < n_Rb_e[c]` the ribosome `r = Rb_e[c][i]` has
`elng_cod_list = c` and `elng_pos_list = i`. -/
theorem queue_back_pointers (cfg : Config) (U s : State) (hL : LenOK cfg) (hC : CodonOK cfg)
    (h : Run cfg U s) :
    ∀ c i, c < 61 → i < s.n_Rb_e c →
      (s.Ribo (s.Rb_e c i)).elng_cod_list = c ∧ (s.Ribo (s.Rb_e c i)).elng_pos_list = i :=
  fun c i hc hi => ((Run.inv hL hC h).queue.entry c i hc hi (by simp)).2

/-- The back-pointers after the first tick of the small run, whose queue of
codon 0 holds one ribosome. -/
theorem queue_back_pointers_witness :
    0 < s1.n_Rb_e 0 ∧ (s1.Ribo (s1.Rb_e 0 0)).elng_cod_list = 0 ∧
      (s1.Ribo (s1.Rb_e 0 0)).elng_pos_list = 0 :=
  have h : 0 < s1.n_Rb_e 0 := by rw [s1_n_Rb_e 0 (by decide)]; decide
  ⟨h, queue_back_pointers cfg0 U0 s1 lenOK_cfg0 codonOK_cfg0 run_s1 0 0 (by decide) h⟩

/-- Grid and records agree when every gene loop breaks: at every loop head of
a run whose initiations all take their transcript from an initiation queue
(genes of length at least 11, codons below 61), the cell of
every active slot `i < next_avail_ribo` holds `i`, and every cell of a
transcript that differs from the sentinel `tot_ribo` holds an active slot
whose record has that transcript and position; so two active records never
share a cell. -/
theorem grid_record_consistency (cfg : Config) (U s : State) (hL : LenOK cfg)
    (hC : CodonOK cfg) (h : Run cfg U s) :
    (∀ i, i < s.next_avail_ribo → s.R_grid (s.Ribo i).mRNA (s.Ribo i).pos = i) ∧
    (∀ m p, m < tot_mRNA cfg → p < (cfg.Gene (s.mRNA m).gene).len →
      s.R_grid m p ≠ cfg.tot_ribo →
        s.R_grid m p < s.next_avail_ribo ∧ (s.Ribo (s.R_grid m p)).mRNA = m ∧
          (s.Ribo (s.R_grid m p)).pos = p) ∧
    (∀ i j, i < s.next_avail_ribo → j < s.next_avail_ribo →
      (s.Ribo i).mRNA = (s.Ribo j).mRNA → (s.Ribo i).pos = (s.Ribo j).pos → i = j) := by
  have hg := (Run.inv hL hC h).grid
  refine ⟨fun i hi => (hg.cell i hi).2.2, fun m p hm hp ho => hg.occ m p hm hp ho, ?_⟩
  intro i j hi hj e1 e2
  have h1 := (hg.cell i hi).2.2
  have h2 := (hg.cell j hj).2.2
  simp only [e1, e2] at h1
  exact h1.symm.trans h2

/-- Grid and records after the first tick of the small run. -/
theorem grid_record_consistency_witness :
    (∀ i, i < s1.next_avail_ribo → s1.R_grid (s1.Ribo i).mRNA (s1.Ribo i).pos = i) ∧
    (∀ m p, m < tot_mRNA cfg0 → p < (cfg0.Gene (s1.mRNA m).gene).len →
      s1.R_grid m p ≠ cfg0.tot_ribo →
        s1.R_grid m p < s1.next_avail_ribo ∧ (s1.Ribo (s1.R_grid m p)).mRNA = m ∧
          (s1.Ribo (s1.R_grid m p)).pos = p) ∧
    (∀ i j, i < s1.next_avail_ribo → j < s1.next_avail_ribo →
      (s1.Ribo i).mRNA = (s1.Ribo j).mRNA → (s1.Ribo i).pos = (s1.Ribo j).pos → i = j) :=
  grid_record_consistency cfg0 U0 s1 lenOK_cfg0 codonOK_cfg0 run_s1

/-- Initiation-queue membership when every gene loop breaks: at every loop
head of a run whose initiations all take their transcript from an initiation
queue, on genes of length at least 11, a transcript `m` occurs in the live part of the
initiation queue of its gene iff none of its positions 0..9 is occupied; it
occurs there at most once and in no queue of another gene.  So `m` is absent
while a ribosome is at one of the positions 0..9 (from its initiation on),
and present again once that ribosome stands at position 10 with position 0
still empty. -/
theorem initiation_queue_membership (cfg : Config) (U s : State) (hL : LenOK cfg)
    (hC : CodonOK cfg) (h : Run cfg U s) :
    ∀ m, m < tot_mRNA cfg →
      ((∃ i, i < s.Mf (s.mRNA m).gene ∧ s.free_mRNA (s.mRNA m).gene i = m) ↔
        ∀ p, p < 10 → s.R_grid m p = cfg.tot_ribo) ∧
      (∀ i j, i < s.Mf (s.mRNA m).gene → j < s.Mf (s.mRNA m).gene →
        s.free_mRNA (s.mRNA m).gene i = m → s.free_mRNA (s.mRNA m).gene j = m → i = j) ∧
      (∀ g i, g < cfg.n_genes → i < s.Mf g → s.free_mRNA g i = m → g = (s.mRNA m).gene) ∧
      (∀ p, p < 10 → s.R_grid m p ≠ cfg.tot_ribo →
        ¬ ∃ i, i < s.Mf (s.mRNA m).gene ∧ s.free_mRNA (s.mRNA m).gene i = m) ∧
      (s.R_grid m 10 ≠ cfg.tot_ribo → s.R_grid m 0 = cfg.tot_ribo →
        ∃ i, i < s.Mf (s.mRNA m).gene ∧ s.free_mRNA (s.mRNA m).gene i = m) := by
  intro m hm
  have hI := Run.inv hL hC h
  have hg := hI.gene_lt m hm
  have hiff : (∃ i, i < s.Mf (s.mRNA m).gene ∧ s.free_mRNA (s.mRNA m).gene i = m) ↔
      ∀ p, p < 10 → s.R_grid m p = cfg.tot_ribo := by
    constructor
    · rintro ⟨i, hi, e⟩
      have := (hI.free.entry _ i hg hi).2.2
      rw [e] at this
      exact this
    · intro he
      exact hI.free.complete m hm he
  refine ⟨hiff, ?_, ?_, ?_, ?_⟩
  · intro i j hi hj e1 e2
    exact hI.free.inj _ i j hg hi hj (e1.trans e2.symm)
  · intro g i hg' hi e
    have := (hI.free.entry g i hg' hi).2.1
    rw [e] at this
    exact this.symm
  · intro p hp ho hex
    exact ho (hiff.mp hex p hp)
  · intro h10 h0
    apply hiff.mpr
    intro p hp
    by_cases hp0 : p = 0
    · rw [hp0]; exact h0
    · by_contra hocc
      have hlen : 10 < tlen cfg s m := by
        have := hL _ hg
        simp only [tlen]
        omega
      exact h10 (hI.foot m p 10 hm hp hlen (by omega) hocc)

/-- The initiation queue after the first tick of the small run, for
transcript 0, on which the ribosome stands at position 0. -/
theorem initiation_queue_membership_witness :
    ((∃ i, i < s1.Mf (s1.mRNA 0).gene ∧ s1.free_mRNA (s1.mRNA 0).gene i = 0) ↔
        ∀ p, p < 10 → s1.R_grid 0 p = cfg0.tot_ribo) ∧
      (∀ i j, i < s1.Mf (s1.mRNA 0).gene → j < s1.Mf (s1.mRNA 0).gene →
        s1.free_mRNA (s1.mRNA 0).gene i = 0 → s1.free_mRNA (s1.mRNA 0).gene j = 0 → i = j) ∧
      (∀ g i, g < cfg0.n_genes → i < s1.Mf g → s1.free_mRNA g i = 0 → g = (s1.mRNA 0).gene) ∧
      (∀ p, p < 10 → s1.R_grid 0 p ≠ cfg0.tot_ribo →
        ¬ ∃ i, i < s1.Mf (s1.mRNA 0).gene ∧ s1.free_mRNA (s1.mRNA 0).gene i = 0) ∧
      (s1.R_grid 0 10 ≠ cfg0.tot_ribo → s1.R_grid 0 0 = cfg0.tot_ribo →
        ∃ i, i < s1.Mf (s1.mRNA 0).gene ∧ s1.free_mRNA (s1.mRNA 0).gene i = 0) :=
  initiation_queue_membership cfg0 U0 s1 lenOK_cfg0 codonOK_cfg0 run_s1 0 (by decide)

/-- The rate accumulators in exact arithmetic when every gene loop breaks: at
every loop head of a run whose initiations all take their transcript from an
initiation queue, `scld_Mf[g] = Mf[g] * ini_prob[g]` for every gene, `tot_scld_Mf` is
the sum of these products, and the initiation rate of the tick is that sum
times `Rf` over `char_time_ribo * avail_space_r`. -/
theorem cumulative_rate_consistency (cfg : Config) (U s : State) (hL : LenOK cfg)
    (hC : CodonOK cfg) (h : Run cfg U s) :
    (∀ g, g < cfg.n_genes → s.scld_Mf g = (s.Mf g : ℚ) * (cfg.Gene g).ini_prob) ∧
    s.tot_scld_Mf = ∑ g in Finset.range cfg.n_genes, (s.Mf g : ℚ) * (cfg.Gene g).ini_prob ∧
    r_ini cfg s =
      (∑ g in Finset.range cfg.n_genes, (s.Mf g : ℚ) * (cfg.Gene g).ini_prob) * (s.Rf : ℚ) /
        (char_time_ribo * cfg.avail_space_r) := by
  have hs := (Run.inv hL hC h).scld
  refine ⟨hs.scld, hs.tot, ?_⟩
  simp only [r_ini]
  rw [hs.tot]

/-- The rate accumulators after the first tick of the small run. -/
theorem cumulative_rate_consistency_witness :
    (∀ g, g < cfg0.n_genes → s1.scld_Mf g = (s1.Mf g : ℚ) * (cfg0.Gene g).ini_prob) ∧
    s1.tot_scld_Mf = ∑ g in Finset.range cfg0.n_genes, (s1.Mf g : ℚ) * (cfg0.Gene g).ini_prob ∧
    r_ini cfg0 s1 =
      (∑ g in Finset.range cfg0.n_genes, (s1.Mf g : ℚ) * (cfg0.Gene g).ini_prob) * (s1.Rf : ℚ) /
        (char_time_ribo * cfg0.avail_space_r) :=
  cumulative_rate_consistency cfg0 U0 s1 lenOK_cfg0 codonOK_cfg0 run_s1

/-! ## Event selection -/

/-- C10. Event selection in exact arithmetic: in a state with total rate
`> 0` and for a draw `u < 1`, the test of line 649 holds iff
`u * tot_rate < r_ini`; otherwise the codon loop breaks, at the least codon
`c < 61` with `u * tot_rate < r_ini + Σ_{j ≤ c} r_elng[j]`, and `r_elng[c] > 0`,
so the queue of `c` is non-empty and the free count of its tRNA species is
nonzero, positive when the rate constant or the count is not negative. -/
theorem event_selection (cfg : Config) (s : State) (u : ℚ) (ht : 0 < tot_rate cfg s)
    (hu : u < 1) :
    ((u < r_ini cfg s * (1 / tot_rate cfg s)) ↔ u * tot_rate cfg s < r_ini cfg s) ∧
    (∀ r1, coin_of cfg r1 = u → (ini_branch cfg s r1 ↔ u * tot_rate cfg s < r_ini cfg s)) ∧
    (¬ u * tot_rate cfg s < r_ini cfg s →
      ∃ c, codon_loop (r_elng cfg s) (1 / tot_rate cfg s) u 61 0
            (r_ini cfg s * (1 / tot_rate cfg s)) = some c ∧ c < 61 ∧
        u * tot_rate cfg s < r_ini cfg s + ∑ j in Finset.range (c + 1), r_elng cfg s j ∧
        (∀ k, k < c →
          ¬ u * tot_rate cfg s < r_ini cfg s + ∑ j in Finset.range (k + 1), r_elng cfg s j) ∧
        0 < r_elng cfg s c ∧ 0 < s.n_Rb_e c ∧ s.Tf (cfg.cTRNA c).tid ≠ 0 ∧
        (0 ≤ wobble cfg c ∨ 0 ≤ s.Tf (cfg.cTRNA c).tid → 0 < s.Tf (cfg.cTRNA c).tid)) := by
  have hdiv : ∀ a : ℚ, (u < a * (1 / tot_rate cfg s)) ↔ u * tot_rate cfg s < a := by
    intro a
    rw [mul_one_div, lt_div_iff₀ ht]
  refine ⟨hdiv _, ?_, ?_⟩
  · intro r1 e
    simp only [ini_branch, e]
    exact hdiv _
  · intro hni
    have hS : ∀ k, rate_upto cfg s (k + 1) * (1 / tot_rate cfg s) =
        rate_upto cfg s k * (1 / tot_rate cfg s) + r_elng cfg s k * (1 / tot_rate cfg s) := by
      intro k
      simp only [rate_upto]
      ring
    have hmin : ∀ k, k ≤ 0 → ¬ u < rate_upto cfg s k * (1 / tot_rate cfg s) := by
      intro k hk
      have : k = 0 := by omega
      rw [this, hdiv]
      exact hni
    have hlast : u < rate_upto cfg s (0 + 61) * (1 / tot_rate cfg s) := by
      rw [hdiv]
      have : rate_upto cfg s (0 + 61) = tot_rate cfg s := rfl
      rw [this]
      nlinarith
    obtain ⟨c, h1, h2, h3, h4, h5⟩ :=
      codon_loop_least (r_elng cfg s) (1 / tot_rate cfg s) u
        (fun k => rate_upto cfg s k * (1 / tot_rate cfg s)) hS 61 0 hmin hlast
    have hpos : 0 < r_elng cfg s c := by
      have hinv : 0 < 1 / tot_rate cfg s := one_div_pos.mpr ht
      exact (mul_pos_iff_of_pos_right hinv).mp h5
    have hn : 0 < s.n_Rb_e c := by
      rcases Nat.eq_zero_or_pos (s.n_Rb_e c) with h0 | h0
      · simp [r_elng, h0] at hpos
      · exact h0
    have hn' : (0 : ℚ) < (s.n_Rb_e c : ℚ) := by exact_mod_cast hn
    have hTw : 0 < (s.Tf (cfg.cTRNA c).tid : ℚ) * wobble cfg c := by
      simp only [r_elng] at hpos
      exact (mul_pos_iff_of_pos_right hn').mp hpos
    have hT0 : s.Tf (cfg.cTRNA c).tid ≠ 0 := by
      intro h0
      simp [h0] at hTw
    refine ⟨c, h1, by omega, ?_, ?_, hpos, hn, hT0, ?_⟩
    · have := (hdiv _).mp h3
      rwa [rate_upto_eq_sum] at this
    · intro k hk hlt
      have h' : u * tot_rate cfg s < rate_upto cfg s (k + 1) := by
        rw [rate_upto_eq_sum]; exact hlt
      exact h4 (k + 1) (by omega) ((hdiv _).mpr h')
    · intro hor
      rcases hor with hw | hT
      · have : (0 : ℚ) < (s.Tf (cfg.cTRNA c).tid : ℚ) := by
          by_contra hneg
          have hle : (s.Tf (cfg.cTRNA c).tid : ℚ) ≤ 0 := not_lt.mp hneg
          nlinarith [mul_nonpos_of_nonpos_of_nonneg hle hw]
        exact_mod_cast this
      · omega

/-- Event selection after the first tick of the small run with the draw
`1/2`: the total rate is `2000 + 50000000/5719`, the initiation rate 2000,
so the elongation branch is taken and the loop breaks at a codon. -/
theorem event_selection_witness :
    0 < tot_rate cfg0 s1 ∧ ¬ (1 / 2 : ℚ) * tot_rate cfg0 s1 < r_ini cfg0 s1 ∧
      ∃ c, codon_loop (r_elng cfg0 s1) (1 / tot_rate cfg0 s1) (1 / 2) 61 0
            (r_ini cfg0 s1 * (1 / tot_rate cfg0 s1)) = some c ∧ c < 61 ∧
        0 < r_elng cfg0 s1 c ∧ 0 < s1.n_Rb_e c ∧ s1.Tf (cfg0.cTRNA c).tid ≠ 0 := by
  have h1 : 0 < tot_rate cfg0 s1 := by rw [tot_rate_s1]; norm_num
  have h2 : ¬ (1 / 2 : ℚ) * tot_rate cfg0 s1 < r_ini cfg0 s1 := by
    rw [tot_rate_s1, r_ini_s1]; norm_num
  obtain ⟨c, e, hc, _, _, hr, hn, hT, _⟩ :=
    (event_selection cfg0 s1 (1 / 2) h1 (by norm_num)).2.2 h2
  exact ⟨h1, h2, c, e, hc, hr, hn, hT⟩

/-! ## Termination compaction -/

/-- C20 fails on the code: `-H 1500` with the default total time 1500 is
accepted and becomes `time_thres`; the test of line 341 rejects exactly the
values below 0 and the values above `tot_time`. -/
theorem opt_H_accepts_total_time :
    opt_H 1500 1500 = Except.ok 1500 ∧
      ∀ T h : ℚ, (opt_H T h = Except.ok h ↔ 0 ≤ h ∧ h ≤ T) ∧
        (opt_H T h = Except.error 1 ↔ h < 0 ∨ T < h) := by
  refine ⟨by simp [opt_H], ?_⟩
  intro T h
  unfold opt_H
  by_cases hc : h < 0 ∨ h > T
  · rw [if_pos hc]
    constructor
    · constructor
      · intro e; cases e
      · intro e
        rcases hc with hc | hc
        · exact absurd e.1 (not_le.mpr hc)
        · exact absurd e.2 (not_le.mpr hc)
    · exact ⟨fun _ => hc, fun _ => rfl⟩
  · rw [if_neg hc]
    simp only [not_or, not_lt] at hc
    constructor
    · exact ⟨fun _ => hc, fun _ => rfl⟩
    · constructor
      · intro e; cases e
      · intro e
        rcases e with e | e
        · exact absurd hc.1 (not_le.mpr e)
        · exact absurd hc.2 (not_le.mpr e)

/-! ## The draws of a tick -/

/-- C11 fails on the code: `rand()` can return `RAND_MAX`, and then
`coin = rand()/((double)RAND_MAX)` is 1.  In a state with a positive total
rate and no negative elongation rate the test `coin<prob_ini` fails, the
codon loop reaches no `break` and assigns no `c_id`, and the tick is an
elongation event of the codon id left in `c_id` by an earlier tick (with no
defined result when that id is above 60 or its queue is empty). -/
theorem draw_RAND_MAX_selects_no_codon (cfg : Config) (s : State) (r2 r3 : Nat)
    (hR : 0 < cfg.RAND_MAX) (hpos : 0 < tot_rate cfg s)
    (hnn : ∀ c, c < 61 → 0 ≤ r_elng cfg s c) :
    coin_of cfg cfg.RAND_MAX = 1 ∧ ¬ ini_branch cfg s cfg.RAND_MAX ∧
      codon_loop (r_elng cfg s) (1 / tot_rate cfg s) (coin_of cfg cfg.RAND_MAX) 61 0
        (r_ini cfg s * (1 / tot_rate cfg s)) = none ∧
      tick cfg s cfg.RAND_MAX r2 r3 =
        if 61 ≤ s.c_id ∨ s.n_Rb_e s.c_id = 0 then none
        else (elng_event cfg (advance cfg s (1 / tot_rate cfg s))
          (r2 % s.n_Rb_e s.c_id)).map (snapshot cfg) := by
  obtain ⟨h1, h2⟩ := draw_one_falls_through cfg s hpos hnn
  have hc := coin_of_RAND_MAX cfg hR
  refine ⟨hc, ?_, ?_, tick_stale cfg s r2 r3 hR hpos hnn⟩
  · simp only [ini_branch, hc]
    exact h1
  · rw [hc]
    exact h2

/-- The draw `RAND_MAX` in the state after the first initiation of the small
run: no codon is selected, and the ribosome of the queue of the left-over
codon id 0 is moved. -/
theorem draw_RAND_MAX_selects_no_codon_witness :
    (coin_of cfg0 cfg0.RAND_MAX = 1 ∧ ¬ ini_branch cfg0 s1 cfg0.RAND_MAX ∧
      codon_loop (r_elng cfg0 s1) (1 / tot_rate cfg0 s1) (coin_of cfg0 cfg0.RAND_MAX) 61 0
        (r_ini cfg0 s1 * (1 / tot_rate cfg0 s1)) = none ∧
      tick cfg0 s1 cfg0.RAND_MAX 0 0 =
        if 61 ≤ s1.c_id ∨ s1.n_Rb_e s1.c_id = 0 then none
        else (elng_event cfg0 (advance cfg0 s1 (1 / tot_rate cfg0 s1))
          (0 % s1.n_Rb_e s1.c_id)).map (snapshot cfg0)) ∧
    ∃ s', tick cfg0 s1 2147483647 0 0 = some s' ∧ (s'.Ribo 0).pos = 1 :=
  ⟨draw_RAND_MAX_selects_no_codon cfg0 s1 0 0 (by decide) tot_rate_s1_pos r_elng_s1_nonneg,
    tick_s1_stale⟩

/-- C12. Gene selection in exact arithmetic: in a state whose eligible
weights are consistent (`scld_Mf[g] = Mf[g] * ini_prob[g]`, `tot_scld_Mf` their
sum, as at every loop head of a run) with `tot_scld_Mf > 0`, and for a draw
`0 ≤ u < 1`, the gene loop breaks at the first gene `g` with
`u < (Σ_{j ≤ g} scld_Mf[j]) / tot_scld_Mf`; that gene has
`Mf[g] * ini_prob[g] > 0`, so `ini_prob[g] ≠ 0` and `Mf[g] ≠ 0`, and the
initiation with the pick `rand() % Mf[g]` has a result. -/
theorem gene_selection (cfg : Config) (s : State) (u : ℚ) (hS : ScldInv cfg s)
    (htot : 0 < s.tot_scld_Mf) (hu0 : 0 ≤ u) (hu1 : u < 1) :
    ∃ g, g < cfg.n_genes ∧ gene_loop s u cfg.n_genes 0 0 = some g ∧
      u < (∑ j in Finset.range (g + 1), s.scld_Mf j) / s.tot_scld_Mf ∧
      (∀ k, k < g → ¬ u < (∑ j in Finset.range (k + 1), s.scld_Mf j) / s.tot_scld_Mf) ∧
      0 < (s.Mf g : ℚ) * (cfg.Gene g).ini_prob ∧ (cfg.Gene g).ini_prob ≠ 0 ∧ s.Mf g ≠ 0 ∧
      ∀ r2 r3, coin_of cfg r2 = u →
        initiation cfg s r2 r3 =
          some (ini_place cfg (ini_stats cfg (ini_pick cfg (ini_alloc s) g (r3 % s.Mf g)))) := by
  obtain ⟨g, hg, h1, h2, h3, h4⟩ := gene_loop_pick hS htot u hu0 hu1
  have hip : (cfg.Gene g).ini_prob ≠ 0 := by
    intro h0
    rw [h0, mul_zero] at h4
    exact lt_irrefl _ h4
  have hMf : s.Mf g ≠ 0 := by
    intro h0
    rw [h0] at h4
    simp at h4
  refine ⟨g, hg, h1, h2, h3, h4, hip, hMf, ?_⟩
  intro r2 r3 hc
  have hgl : gene_loop (ini_alloc s) ((r2 : ℚ) / (cfg.RAND_MAX : ℚ)) cfg.n_genes 0 0 = some g := by
    rw [gene_loop_congr (s := s) (by simp) (by simp)]
    have : (r2 : ℚ) / (cfg.RAND_MAX : ℚ) = u := hc
    rw [this]
    exact h1
  have hM : (ini_alloc s).Mf g = s.Mf g := by simp
  simp only [initiation]
  rw [hgl]
  simp only [hM]
  rw [if_neg hMf]

/-- Gene selection at the first loop head of the small run with the draw 0. -/
theorem gene_selection_witness :
    ∃ g, g < cfg0.n_genes ∧
      gene_loop (SMoPT.init cfg0 U0) 0 cfg0.n_genes 0 0 = some g ∧
      0 < ((SMoPT.init cfg0 U0).Mf g : ℚ) * (cfg0.Gene g).ini_prob ∧
      (SMoPT.init cfg0 U0).Mf g ≠ 0 := by
  obtain ⟨g, hg, h1, _, _, h4, _, h6, _⟩ :=
    gene_selection cfg0 (SMoPT.init cfg0 U0) 0 (Inv.init U0 lenOK_cfg0).scld
      (by simp [init, cfg0, init_tot_scld]) (le_refl 0) (by norm_num)
  exact ⟨g, hg, h1, h4, h6⟩

/-! ## Burn-in -/

/-- Burn-in gating under a positive total rate: a tick from a state with a
positive total rate whose
event time `t + 1/tot_rate` is at most `time_thres` changes none of the
statistic accumulators: `avg_Rf`, `avg_tRNA_abndc`, `time_waste_ribo`,
`time_waste_ribo_pos`, `e_times`, `n_e_times`, and `ini_n`,
`avg_time_to_ini`, `trans_n`, `avg_time_to_trans` of every transcript. -/
theorem burn_in_gating (cfg : Config) (s s' : State) (r1 r2 r3 : Nat)
    (hpos : 0 < tot_rate cfg s) (hpost : s.t + 1 / tot_rate cfg s ≤ cfg.time_thres)
    (he : tick cfg s r1 r2 r3 = some s') :
    s'.avg_Rf = s.avg_Rf ∧ (∀ c, s'.avg_tRNA_abndc c = s.avg_tRNA_abndc c) ∧
      (∀ g, s'.time_waste_ribo g = s.time_waste_ribo g) ∧
      (∀ p, s'.time_waste_ribo_pos p = s.time_waste_ribo_pos p) ∧
      (∀ c, s'.e_times c = s.e_times c) ∧ (∀ c, s'.n_e_times c = s.n_e_times c) ∧
      ∀ m, (s'.mRNA m).ini_n = (s.mRNA m).ini_n ∧
        (s'.mRNA m).avg_time_to_ini = (s.mRNA m).avg_time_to_ini ∧
        (s'.mRNA m).trans_n = (s.mRNA m).trans_n ∧
        (s'.mRNA m).avg_time_to_trans = (s.mRNA m).avg_time_to_trans := by
  have h := stats_tick hpos hpost he
  exact ⟨h.avg_Rf, fun c => by rw [h.avg_tRNA_abndc], fun g => by rw [h.time_waste_ribo],
    fun p => by rw [h.time_waste_ribo_pos], fun c => by rw [h.e_times],
    fun c => by rw [h.n_e_times], h.transcripts⟩

/-- The first tick of the small run under the burn-in threshold 1: the event
time is `1/8000`, and the initiation it performs is not recorded. -/
theorem burn_in_gating_witness :
    ∃ s', tick cfgB (SMoPT.init cfgB U0) 0 0 0 = some s' ∧
      (SMoPT.init cfgB U0).t + 1 / tot_rate cfgB (SMoPT.init cfgB U0) ≤ cfgB.time_thres ∧
      s'.avg_Rf = (SMoPT.init cfgB U0).avg_Rf ∧
      (∀ c, s'.n_e_times c = (SMoPT.init cfgB U0).n_e_times c) ∧
      ∀ m, (s'.mRNA m).ini_n = ((SMoPT.init cfgB U0).mRNA m).ini_n := by
  have hpost : (SMoPT.init cfgB U0).t + 1 / tot_rate cfgB (SMoPT.init cfgB U0)
      ≤ cfgB.time_thres := by
    rw [tot_rate_B]
    simp [init, cfgB]
    norm_num
  obtain ⟨h1, _, _, _, _, h6, h7⟩ :=
    burn_in_gating cfgB (SMoPT.init cfgB U0) _ 0 0 0 (by rw [tot_rate_B]; norm_num) hpost tick_B
  exact ⟨_, tick_B, hpost, h1, h6, fun m => (h7 m).1⟩

/-! ## Handler effects -/

/-- C14. Initiation handler effects: when the gene loop breaks at gene `g`
and its queue is not empty, the initiation on the chosen transcript
`m = free_mRNA[g][rand() % Mf[g]]` returns; slot `r = next_avail_ribo` gets
position 0 and transcript `m`, cell `(m,0)` holds `r`, the cursor advances
and `Rf` decreases by one; `r` is appended to the queue of the codon `c0` at
position 0 iff cell `(m,10)` is empty, and otherwise the stall counter of the
gene of `m` (and the counter of position 0 when that gene is gene 0) is
incremented; no free tRNA count, no other cell, no other elongation queue
and no other gene's initiation queue or eligible weight changes. -/
theorem initiation_effects (cfg : Config) (s : State) (r2 r3 g m r c0 : Nat)
    (hg : gene_loop s (coin_of cfg r2) cfg.n_genes 0 0 = some g) (hM : s.Mf g ≠ 0)
    (hm : m = s.free_mRNA g (r3 % s.Mf g)) (hr : r = s.next_avail_ribo)
    (hc : c0 = (cfg.Gene (s.mRNA m).gene).seq 0) :
    ∃ s', initiation cfg s r2 r3 = some s' ∧
      (s'.Ribo r).pos = 0 ∧ (s'.Ribo r).mRNA = m ∧ s'.R_grid m 0 = r ∧
      s'.next_avail_ribo = s.next_avail_ribo + 1 ∧ s'.Rf = s.Rf - 1 ∧
      (s.R_grid m 10 = cfg.tot_ribo →
        s'.n_Rb_e c0 = s.n_Rb_e c0 + 1 ∧ s'.Rb_e c0 (s.n_Rb_e c0) = r ∧
        (∀ i, i ≠ s.n_Rb_e c0 → s'.Rb_e c0 i = s.Rb_e c0 i) ∧
        (s'.Ribo r).elng_cod_list = c0 ∧ (s'.Ribo r).elng_pos_list = s.n_Rb_e c0 ∧
        s'.num_waste_ribo = s.num_waste_ribo ∧ s'.num_waste_ribo_pos = s.num_waste_ribo_pos) ∧
      (s.R_grid m 10 ≠ cfg.tot_ribo →
        s'.n_Rb_e = s.n_Rb_e ∧ s'.Rb_e = s.Rb_e ∧
        s'.num_waste_ribo (s.mRNA m).gene = s.num_waste_ribo (s.mRNA m).gene + 1 ∧
        (∀ k, k ≠ (s.mRNA m).gene → s'.num_waste_ribo k = s.num_waste_ribo k) ∧
        ((s.mRNA m).gene = 0 → s'.num_waste_ribo_pos 0 = s.num_waste_ribo_pos 0 + 1) ∧
        ((s.mRNA m).gene ≠ 0 → s'.num_waste_ribo_pos 0 = s.num_waste_ribo_pos 0) ∧
        (∀ p, p ≠ 0 → s'.num_waste_ribo_pos p = s.num_waste_ribo_pos p)) ∧
      s'.Tf = s.Tf ∧
      (∀ m' p, ¬ (m' = m ∧ p = 0) → s'.R_grid m' p = s.R_grid m' p) ∧
      (∀ c, c ≠ c0 → s'.n_Rb_e c = s.n_Rb_e c ∧ ∀ i, s'.Rb_e c i = s.Rb_e c i) ∧
      (∀ k, k ≠ g → s'.Mf k = s.Mf k ∧ s'.scld_Mf k = s.scld_Mf k ∧
        ∀ i, s'.free_mRNA k i = s.free_mRNA k i) := by
  have hgl : gene_loop (ini_alloc s) ((r2 : ℚ) / (cfg.RAND_MAX : ℚ)) cfg.n_genes 0 0 = some g := by
    rw [gene_loop_congr (s := s) (by simp) (by simp)]
    exact hg
  have hMa : (ini_alloc s).Mf g = s.Mf g := by simp
  have hev : initiation cfg s r2 r3 =
      some (ini_place cfg (ini_stats cfg (ini_pick cfg (ini_alloc s) g (r3 % s.Mf g)))) := by
    simp only [initiation]
    rw [hgl]
    simp only [hMa]
    rw [if_neg hM]
  have hmid : (ini_stats cfg (ini_pick cfg (ini_alloc s) g (r3 % s.Mf g))).m_id = m := by
    simp [hm]
  have hrid : (ini_stats cfg (ini_pick cfg (ini_alloc s) g (r3 % s.Mf g))).r_id = r := by
    simp [hr]
  have hgrid : (ini_place cfg (ini_stats cfg (ini_pick cfg (ini_alloc s) g
      (r3 % s.Mf g)))).R_grid = set2 s.R_grid m 0 r := by
    rw [ini_place_grid, hmid, hrid]
    simp
  refine ⟨_, hev, ?_, ?_, ?_, ?_, ?_, ?_, ?_, ?_, ?_, ?_, ?_⟩
  · rw [ini_place_ps]; simp [hr]
  · rw [ini_place_mr, hmid, hrid, if_pos rfl]
  · rw [hgrid]; simp [set2]
  · rw [ini_place_N]; simp
  · rw [ini_place_Rf]; simp
  · intro hq
    rw [hm] at hq
    obtain ⟨q1, q2, q3, q4, q5, q6⟩ := ini_queued_fields cfg s g (r3 % s.Mf g) hq
    rw [← hm, ← hc] at q1 q2 q5 q6
    rw [hr]
    refine ⟨by rw [q1]; simp [set1], by rw [q2]; simp [set2], ?_, q5, q6, q3, q4⟩
    intro i hi
    rw [q2]; simp [set2, hi]
  · intro hq
    rw [hm] at hq
    obtain ⟨q1, q2, q3, q4⟩ := ini_stalled_fields cfg s g (r3 % s.Mf g) hq
    rw [← hm] at q3 q4
    refine ⟨q1, q2, by rw [q3]; simp [set1], ?_, ?_, ?_, ?_⟩
    · intro k hk; rw [q3]; simp [set1, hk]
    · intro h0; rw [q4, if_pos h0]; simp [set1]
    · intro h0; rw [q4, if_neg h0]
    · intro p hp
      rw [q4]
      split
      · simp [set1, hp]
      · rfl
  · rw [ini_place_Tf]; simp
  · intro m' p hne
    rw [hgrid]
    simp only [set2]
    rw [if_neg hne]
  · intro c hne
    by_cases hq : s.R_grid (s.free_mRNA g (r3 % s.Mf g)) 10 = cfg.tot_ribo
    · obtain ⟨q1, q2, _⟩ := ini_queued_fields cfg s g (r3 % s.Mf g) hq
      rw [← hm, ← hc] at q1 q2
      rw [q1, q2]
      refine ⟨by simp [set1, hne], fun i => by simp [set2, hne]⟩
    · obtain ⟨q1, q2, _⟩ := ini_stalled_fields cfg s g (r3 % s.Mf g) hq
      rw [q1, q2]
      exact ⟨rfl, fun _ => rfl⟩
  · intro k hne
    rw [ini_place_Mf, ini_place_scld, ini_place_free]
    simp only [ini_stats_Mf, ini_pick_Mf, ini_alloc_Mf, ini_stats_scld_Mf, ini_pick_scld,
      ini_alloc_scld_Mf, ini_stats_free_mRNA, ini_pick_free, ini_alloc_free_mRNA]
    refine ⟨by simp [set1, hne], by simp [set1, hne], fun i => ?_⟩
    split
    · simp [set2, hne]
    · rfl

/-- The first initiation of the small run: transcript 0, slot 0, codon 0. -/
theorem initiation_effects_witness :
    ∃ s', initiation cfg0 (SMoPT.init cfg0 U0) 0 0 = some s' ∧
      (s'.Ribo 0).pos = 0 ∧ (s'.Ribo 0).mRNA = 0 ∧ s'.R_grid 0 0 = 0 ∧
      s'.next_avail_ribo = 1 ∧ s'.Rf = 1 ∧ s'.Tf = (SMoPT.init cfg0 U0).Tf := by
  have hM : (SMoPT.init cfg0 U0).Mf 0 = 2 := by simp [init, cfg0]
  obtain ⟨s', h1, h2, h3, h4, h5, h6, _, _, h9, _⟩ :=
    initiation_effects cfg0 (SMoPT.init cfg0 U0) 0 0 0 0 0 0 gene_loop_s0
      (by rw [hM]; decide) (by rw [hM]; simp [init, cfg0, mRNA_start]) rfl rfl
  refine ⟨s', h1, h2, h3, h4, by rw [h5]; rfl, by rw [h6]; simp [init, cfg0], h9⟩

/-! ## The per-codon elongation statistics -/

/-- C18 fails on the code: an elongation event that is not a termination
moves the ribosome of slot `x` of the queue of `c_id` one codon forward and
leaves `n_e_times` and `e_times` as they were, whatever the event time and
`printOpt[0]` are; only the termination branch (lines 736-740) records an
elongation. -/
theorem nonterminal_elongation_unrecorded (cfg : Config) (s s' : State) (x : Nat)
    (hnt : (s.Ribo (s.Rb_e s.c_id x)).pos + 1 ≠
      (cfg.Gene (s.mRNA (s.Ribo (s.Rb_e s.c_id x)).mRNA).gene).len)
    (he : elng_event cfg s x = some s') :
    (s'.Ribo (s.Rb_e s.c_id x)).pos = (s.Ribo (s.Rb_e s.c_id x)).pos + 1 ∧
      (∀ c, s'.n_e_times c = s.n_e_times c) ∧ (∀ c, s'.e_times c = s.e_times c) := by
  have h := stats_nonterminal hnt he
  exact ⟨(elng_event_nonterminal hnt he).2, fun c => by rw [h.n_e_times],
    fun c => by rw [h.e_times]⟩

/-- With `-p1` and past the burn-in threshold, the elongation of codon 0 that
moves the ribosome of slot 1 from position 0 to position 1 leaves
`n_e_times[0]` at 0. -/
theorem nonterminal_elongation_unrecorded_witness :
    cfg1.printOpt 0 = 1 ∧ cfg1.time_thres < s2.t ∧
      ∃ s', elng_event cfg1 s2 1 = some s' ∧ (s'.Ribo 1).pos = 1 ∧
        s'.n_e_times 0 = 0 ∧ s'.e_times 0 = 0 := by
  refine ⟨rfl, by simp [cfg1, cfg0, s2], _, elng_event_s2, ?_⟩
  obtain ⟨h1, h2, h3⟩ :=
    nonterminal_elongation_unrecorded cfg1 s2 _ 1 (by decide) elng_event_s2
  exact ⟨h1, h2 0, h3 0⟩

/-! ## The inter-initiation report -/

/-- C19 fails on the code: the run of `cfg2` whose loop ends after one tick,
an initiation at time 195 past the burn-in threshold 0, has recorded one
initiation event for gene 0 (`ini_n` sums to 1, `avg_time_to_ini` to
195), but the line of gene 0 in `_gene_initimes.out` gives the event
count 0 and divides by it: the report uses `n_trans`, the number of
terminations. -/
theorem initimes_report_counts_terminations :
    run_loop cfg2 (SMoPT.init cfg2 U0) [(0, 0, 0)] = some s_rep ∧
      n_ini cfg2 s_rep 0 = 1 ∧ g_ini cfg2 s_rep 0 = 195 ∧
      initimes_report cfg2 s_rep = some [(0, 0, none)] := by
  have hexp : (cfg2.Gene 0).exp = 2 := rfl
  have hst : mRNA_start cfg2.Gene 0 = 0 := rfl
  have hn : n_trans cfg2 s_rep 0 = 0 := by
    simp [n_trans, hexp, hst, Finset.sum_range_succ, s_rep_mRNA]
  refine ⟨run_loop_2, ?_, ?_, ?_⟩
  · simp [n_ini, hexp, hst, Finset.sum_range_succ, s_rep_mRNA]
  · simp [g_ini, hexp, hst, Finset.sum_range_succ, s_rep_mRNA]
  · have hp : cfg2.printOpt 2 = 1 := rfl
    have hg : cfg2.n_genes = 1 := rfl
    have hr : List.range 1 = [0] := rfl
    simp only [initimes_report, hp, hg, if_true, hr, List.map, initimes_line, hn]

/-! ## The total rate -/

/-- C13, as the spec states it, fails: the run of `cfg3` (two ribosomes, one
transcript of eleven codons 0, one tRNA per species, all rate constants
positive) after an initiation and one elongation, both with `rand()` results
0, is at a loop head before `tot_time` with a free ribosome, free tRNAs of
species 1 and a ribosome in the queue of codon 0, but no eligible transcript
and no free tRNA of species 0: the total rate is 0 and the tick divides by
it. -/
theorem total_rate_zero_reachable :
    1 ≤ cfg3.tot_ribo ∧ 1 ≤ tot_mRNA cfg3 ∧ (∀ c, c < 61 → 0 < wobble cfg3 c) ∧
      (∀ g, g < cfg3.n_genes → 0 < (cfg3.Gene g).ini_prob) ∧
      tick cfg3 (SMoPT.init cfg3 U0) 0 0 0 = some s3a ∧ tick cfg3 s3a 0 0 0 = some s3b ∧
      Run cfg3 U0 s3b ∧ s3b.t < cfg3.tot_time ∧
      s3b.Rf = 1 ∧ s3b.Tf 1 = 1 ∧ s3b.n_Rb_e 0 = 1 ∧
      tot_rate cfg3 s3b = 0 ∧ ∀ r1 r2 r3, tick cfg3 s3b r1 r2 r3 = none := by
  refine ⟨by decide, by decide, ?_, ?_, tick_3a, tick_3b, run_3b, ?_, s3b_Rf, ?_, ?_,
    tot_rate_3b, ?_⟩
  · intro c _
    rw [wobble_3]
    norm_num
  · intro g _
    show (0 : ℚ) < 1
    norm_num
  · rw [s3b_t]
    show (390 : ℚ) + 177289 / 25 < 10000
    norm_num
  · rw [s3b_Tf 1 (by decide)]
    rfl
  · rw [s3b_n_Rb_e 0 (by decide)]
    rfl
  · intro r1 r2 r3
    simp only [tick]
    rw [if_pos tot_rate_3b]

/-- The total rate in exact arithmetic on the runs whose initiations all take
their transcript from an initiation queue (genes of length at least 11, codons
below 61, positive spaces, wobble parameters and initiation probabilities): at
a loop head of such a run at which no free tRNA count is negative, the total
rate is never negative, and it is strictly positive exactly when there is a
free ribosome together with a non-empty initiation queue, or some codon has
both a free tRNA of its species and a non-empty elongation queue. -/
theorem total_rate_positive_iff (cfg : Config) (U s : State) (hL : LenOK cfg)
    (hC : CodonOK cfg) (h : Run cfg U s) (hsr : 0 < cfg.avail_space_r)
    (hst : 0 < cfg.avail_space_t) (hw : ∀ c, c < 61 → 0 < (cfg.cTRNA c).wobble)
    (hp : ∀ g, g < cfg.n_genes → 0 < (cfg.Gene g).ini_prob)
    (hT : ∀ c, c < 61 → 0 ≤ s.Tf (cfg.cTRNA c).tid) :
    (0 < tot_rate cfg s ↔
      (s.Rf ≠ 0 ∧ ∃ g, g < cfg.n_genes ∧ s.Mf g ≠ 0) ∨
        ∃ c, c < 61 ∧ s.Tf (cfg.cTRNA c).tid ≠ 0 ∧ s.n_Rb_e c ≠ 0) ∧
      0 ≤ tot_rate cfg s := by
  have hI := Run.inv hL hC h
  exact tot_rate_pos_iff cfg s hsr hst hw hp hI.rf_nn hI.scld hT

/-- The total rate after the first tick of the run of `cfg3`: it is positive,
through the free tRNA of species 0 and the ribosome queued at codon 0. -/
theorem total_rate_positive_iff_witness :
    Run cfg3 U0 s3a ∧ (∀ c, c < 61 → 0 ≤ s3a.Tf (cfg3.cTRNA c).tid) ∧
      (0 < tot_rate cfg3 s3a ↔
        (s3a.Rf ≠ 0 ∧ ∃ g, g < cfg3.n_genes ∧ s3a.Mf g ≠ 0) ∨
          ∃ c, c < 61 ∧ s3a.Tf (cfg3.cTRNA c).tid ≠ 0 ∧ s3a.n_Rb_e c ≠ 0) ∧
      0 ≤ tot_rate cfg3 s3a := by
  have hT : ∀ c, c < 61 → 0 ≤ s3a.Tf (cfg3.cTRNA c).tid := by
    intro c hc
    show 0 ≤ s3a.Tf c
    rw [s3a_Tf c hc]
    decide
  exact ⟨run_3a, hT,
    total_rate_positive_iff cfg3 U0 s3a lenOK_cfg3 codonOK_cfg3 run_3a
      (by show (0 : ℚ) < 1560000; norm_num) (by show (0 : ℚ) < 12400000; norm_num)
      (fun c _ => by show (0 : ℚ) < 1; norm_num) (fun g _ => by show (0 : ℚ) < 1; norm_num) hT⟩

/-- C13, amended. In every state in which the free-ribosome count `Rf`, the
accumulator `tot_scld_Mf` and the free-tRNA count of the species of every
codon are non-negative (positive spaces and wobble parameters), the total rate
computed at the top of the tick is not negative, and it is strictly positive
exactly when `Rf` and `tot_scld_Mf` are both nonzero, or some codon has both a
nonzero free-tRNA count of its species and a non-empty elongation queue. -/
theorem total_rate_positive_exactly_when (cfg : Config) (s : State)
    (hsr : 0 < cfg.avail_space_r) (hst : 0 < cfg.avail_space_t)
    (hw : ∀ c, c < 61 → 0 < (cfg.cTRNA c).wobble) (hR : 0 ≤ s.Rf)
    (hM : 0 ≤ s.tot_scld_Mf) (hT : ∀ c, c < 61 → 0 ≤ s.Tf (cfg.cTRNA c).tid) :
    (0 < tot_rate cfg s ↔
      (s.Rf ≠ 0 ∧ s.tot_scld_Mf ≠ 0) ∨
        ∃ c, c < 61 ∧ s.Tf (cfg.cTRNA c).tid ≠ 0 ∧ s.n_Rb_e c ≠ 0) ∧
      0 ≤ tot_rate cfg s := by
  have hin := r_ini_nonneg cfg s hsr hR hM
  have hen : ∀ c ∈ Finset.range 61, 0 ≤ r_elng cfg s c := by
    intro c hc
    have hc' := Finset.mem_range.mp hc
    exact r_elng_nonneg cfg s c (wobble_pos cfg c hst (hw c hc')) (hT c hc')
  have hsum := Finset.sum_nonneg hen
  have heq : tot_rate cfg s = r_ini cfg s + ∑ j in Finset.range 61, r_elng cfg s j :=
    rate_upto_eq_sum cfg s 61
  have hini : 0 < r_ini cfg s ↔ s.Rf ≠ 0 ∧ s.tot_scld_Mf ≠ 0 := by
    rw [r_ini_pos_iff cfg s hsr hR hM]
    exact ⟨fun h => ⟨h.1, ne_of_gt h.2⟩, fun h => ⟨h.1, lt_of_le_of_ne hM (Ne.symm h.2)⟩⟩
  refine ⟨?_, by rw [heq]; exact add_nonneg hin hsum⟩
  rw [heq]
  constructor
  · intro h
    by_cases hi : 0 < r_ini cfg s
    · exact Or.inl (hini.mp hi)
    · right
      have hi0 : r_ini cfg s = 0 := le_antisymm (not_lt.mp hi) hin
      rw [hi0, zero_add, sum_pos_iff_nn hen] at h
      obtain ⟨c, hc, hpos⟩ := h
      have hc' := Finset.mem_range.mp hc
      exact ⟨c, hc', (r_elng_pos_iff cfg s c (wobble_pos cfg c hst (hw c hc')) (hT c hc')).mp hpos⟩
  · rintro (hab | ⟨c, hc, d⟩)
    · exact add_pos_of_pos_of_nonneg (hini.mpr hab) hsum
    · have := (r_elng_pos_iff cfg s c (wobble_pos cfg c hst (hw c hc)) (hT c hc)).mpr d
      exact add_pos_of_nonneg_of_pos hin
        ((sum_pos_iff_nn hen).mpr ⟨c, Finset.mem_range.mpr hc, this⟩)

/-- The amended claim after the first tick of the run of `cfg3`, where one
ribosome is free, the accumulator `tot_scld_Mf` is 0 and every species has one
free tRNA: the total rate is positive exactly through the ribosome queued at
codon 0 and the free tRNA of species 0. -/
theorem total_rate_positive_exactly_when_witness :
    0 < cfg3.avail_space_r ∧ 0 < cfg3.avail_space_t ∧
      (∀ c, c < 61 → 0 < (cfg3.cTRNA c).wobble) ∧ 0 ≤ s3a.Rf ∧ 0 ≤ s3a.tot_scld_Mf ∧
      (∀ c, c < 61 → 0 ≤ s3a.Tf (cfg3.cTRNA c).tid) ∧
      (0 < tot_rate cfg3 s3a ↔
        (s3a.Rf ≠ 0 ∧ s3a.tot_scld_Mf ≠ 0) ∨
          ∃ c, c < 61 ∧ s3a.Tf (cfg3.cTRNA c).tid ≠ 0 ∧ s3a.n_Rb_e c ≠ 0) ∧
      0 ≤ tot_rate cfg3 s3a :=
  have hsr : 0 < cfg3.avail_space_r := by show (0 : ℚ) < 1560000; norm_num
  have hst : 0 < cfg3.avail_space_t := by show (0 : ℚ) < 12400000; norm_num
  have hw : ∀ c, c < 61 → 0 < (cfg3.cTRNA c).wobble := fun c _ => by
    show (0 : ℚ) < 1; norm_num
  have hR : 0 ≤ s3a.Rf := by rw [s3a_Rf]; decide
  have hM : 0 ≤ s3a.tot_scld_Mf := by rw [s3a_tot]
  have hT : ∀ c, c < 61 → 0 ≤ s3a.Tf (cfg3.cTRNA c).tid := fun c hc => by
    show 0 ≤ s3a.Tf c
    rw [s3a_Tf c hc]
    decide
  ⟨hsr, hst, hw, hR, hM, hT, total_rate_positive_exactly_when cfg3 s3a hsr hst hw hR hM hT⟩

/-! ## Ribosome transitions -/

/-- Ribosome transitions when every gene loop breaks: a tick, whose gene loop
breaks if it is an initiation, of a run whose initiations all take their
transcript from an initiation queue (genes of length at least 11, codons
below 61) changes the set of occupied
cells in exactly one of three ways. An initiation adds `(m, 0)`, a cell that
was empty, in the new slot. A non-terminal elongation of a ribosome `i` that is
in an elongation queue replaces its cell `(m, p)` by `(m, p+1)`. A termination
of a queued ribosome `i` at the last codon removes its cell. Every other bound
ribosome keeps its transcript and position, and its slot except that a
termination moves the last slot into the freed one. -/
theorem ribosome_transitions (cfg : Config) (U s s' : State) (r1 r2 r3 : Nat)
    (hL : LenOK cfg) (hC : CodonOK cfg) (h : Run cfg U s) (hp : gene_picked cfg s r1 r2)
    (ht : tick cfg s r1 r2 r3 = some s') :
    (∃ m, m < tot_mRNA cfg ∧ ¬ occupied cfg s m 0 ∧
      s'.next_avail_ribo = s.next_avail_ribo + 1 ∧
      (s'.Ribo s.next_avail_ribo).mRNA = m ∧ (s'.Ribo s.next_avail_ribo).pos = 0 ∧
      (∀ m' p', occupied cfg s' m' p' ↔ occupied cfg s m' p' ∨ (m' = m ∧ p' = 0)) ∧
      ∀ j, j < s.next_avail_ribo →
        (s'.Ribo j).mRNA = (s.Ribo j).mRNA ∧ (s'.Ribo j).pos = (s.Ribo j).pos) ∨
    (∃ i, i < s.next_avail_ribo ∧ queued s i ∧
      (s.Ribo i).pos + 1 < tlen cfg s (s.Ribo i).mRNA ∧
      s'.next_avail_ribo = s.next_avail_ribo ∧
      (s'.Ribo i).mRNA = (s.Ribo i).mRNA ∧ (s'.Ribo i).pos = (s.Ribo i).pos + 1 ∧
      (∀ m' p', occupied cfg s' m' p' ↔
        (occupied cfg s m' p' ∧ ¬ (m' = (s.Ribo i).mRNA ∧ p' = (s.Ribo i).pos)) ∨
          (m' = (s.Ribo i).mRNA ∧ p' = (s.Ribo i).pos + 1)) ∧
      ∀ j, j < s.next_avail_ribo → j ≠ i →
        (s'.Ribo j).mRNA = (s.Ribo j).mRNA ∧ (s'.Ribo j).pos = (s.Ribo j).pos) ∨
    (∃ i, i < s.next_avail_ribo ∧ queued s i ∧
      (s.Ribo i).pos + 1 = tlen cfg s (s.Ribo i).mRNA ∧
      s'.next_avail_ribo + 1 = s.next_avail_ribo ∧
      (∀ m' p', occupied cfg s' m' p' ↔
        occupied cfg s m' p' ∧ ¬ (m' = (s.Ribo i).mRNA ∧ p' = (s.Ribo i).pos)) ∧
      ∀ j, j < s.next_avail_ribo → j ≠ i →
        ∃ j', j' < s'.next_avail_ribo ∧ (j' = j ∨ (j = s.next_avail_ribo - 1 ∧ j' = i)) ∧
          (s'.Ribo j').mRNA = (s.Ribo j).mRNA ∧ (s'.Ribo j').pos = (s.Ribo j).pos) := by
  have hI := Run.inv hL hC h
  have hI' := hI.tick_step hL hC r1 r2 r3 hp ht
  rcases tick_cases hI hC hp ht with ⟨_, g, hg, hM, rfl⟩ | ⟨_, c, x, sp, _, hc, hx, rfl, hP, hcase⟩
  · left
    obtain ⟨e1, e2, e3⟩ := initiate_records cfg s (1 / tot_rate cfg s) g (r3 % s.Mf g)
    have hc2 : r3 % s.Mf g < s.Mf g := Nat.mod_lt _ (by omega)
    obtain ⟨f1, _, f3⟩ := hI.free.entry g _ hg hc2
    have hm : ((ini_place cfg (ini_stats cfg (ini_pick cfg
        (ini_alloc (advance cfg s (1 / tot_rate cfg s))) g (r3 % s.Mf g)))).Ribo
          s.next_avail_ribo).mRNA = s.free_mRNA g (r3 % s.Mf g) := by
      rw [e2, if_pos rfl]
    have hp0 : ((ini_place cfg (ini_stats cfg (ini_pick cfg
        (ini_alloc (advance cfg s (1 / tot_rate cfg s))) g (r3 % s.Mf g)))).Ribo
          s.next_avail_ribo).pos = 0 := by
      rw [e3, if_pos rfl]
    have hs : ∀ j, j < s.next_avail_ribo →
        ((ini_place cfg (ini_stats cfg (ini_pick cfg
          (ini_alloc (advance cfg s (1 / tot_rate cfg s))) g (r3 % s.Mf g)))).Ribo j).mRNA
            = (s.Ribo j).mRNA ∧
        ((ini_place cfg (ini_stats cfg (ini_pick cfg
          (ini_alloc (advance cfg s (1 / tot_rate cfg s))) g (r3 % s.Mf g)))).Ribo j).pos
            = (s.Ribo j).pos := by
      intro j hj
      rw [e2, e3, if_neg (by omega), if_neg (by omega)]
      exact ⟨rfl, rfl⟩
    refine ⟨s.free_mRNA g (r3 % s.Mf g), f1, ?_, e1, hm, hp0,
      occupied_add hI hI' _ e1 hm hp0 hs, hs⟩
    rintro ⟨_, _, ho⟩
    exact ho (f3 0 (by decide))
  · have hrN : s.Rb_e c x < s.next_avail_ribo := by simpa using hP.lt_N
    have hq : queued s (s.Rb_e c x) := ⟨c, hc, x, hx, rfl⟩
    have hpl : (s.Ribo (s.Rb_e c x)).pos < tlen cfg s (s.Ribo (s.Rb_e c x)).mRNA := by
      simpa using hP.p_lt
    have hmoved : ∀ {sm : State} {still : Prop}, Moved cfg (picked cfg s c x) sm still →
        ((picked cfg s c x).Ribo (picked cfg s c x).r_id).pos + 1 ≠
          (cfg.Gene ((picked cfg s c x).mRNA (picked cfg s c x).m_id).gene).len →
        Inv cfg (snapshot cfg (post_move cfg sm)) →
        ∃ i, i < s.next_avail_ribo ∧ queued s i ∧
          (s.Ribo i).pos + 1 < tlen cfg s (s.Ribo i).mRNA ∧
          (snapshot cfg (post_move cfg sm)).next_avail_ribo = s.next_avail_ribo ∧
          ((snapshot cfg (post_move cfg sm)).Ribo i).mRNA = (s.Ribo i).mRNA ∧
          ((snapshot cfg (post_move cfg sm)).Ribo i).pos = (s.Ribo i).pos + 1 ∧
          (∀ m' p', occupied cfg (snapshot cfg (post_move cfg sm)) m' p' ↔
            (occupied cfg s m' p' ∧ ¬ (m' = (s.Ribo i).mRNA ∧ p' = (s.Ribo i).pos)) ∨
              (m' = (s.Ribo i).mRNA ∧ p' = (s.Ribo i).pos + 1)) ∧
          ∀ j, j < s.next_avail_ribo → j ≠ i →
            ((snapshot cfg (post_move cfg sm)).Ribo j).mRNA = (s.Ribo j).mRNA ∧
              ((snapshot cfg (post_move cfg sm)).Ribo j).pos = (s.Ribo j).pos := by
      intro sm still hm hnt hInv
      obtain ⟨e1, e2, e3⟩ := moved_records hm
      simp only [picked_N, picked_Ribo, picked_r_id] at e1 e2 e3
      simp only [picked_Ribo, picked_r_id, picked_mRNA, picked_m_id] at hnt
      have a2 : ((snapshot cfg (post_move cfg sm)).Ribo (s.Rb_e c x)).pos =
          (s.Ribo (s.Rb_e c x)).pos + 1 := by rw [e3, if_pos rfl]
      have hs : ∀ j, j < s.next_avail_ribo → j ≠ s.Rb_e c x →
          ((snapshot cfg (post_move cfg sm)).Ribo j).mRNA = (s.Ribo j).mRNA ∧
            ((snapshot cfg (post_move cfg sm)).Ribo j).pos = (s.Ribo j).pos := by
        intro j _ hj
        exact ⟨e2 j, by rw [e3, if_neg hj]⟩
      refine ⟨s.Rb_e c x, hrN, hq, ?_, e1, e2 _, a2,
        occupied_move hI hInv _ hrN e1 (e2 _) a2 hs, hs⟩
      simp only [tlen_eq] at hpl ⊢
      omega
    rcases hcase with ⟨hterm, rfl⟩ | ⟨hnt, _, rfl⟩ | ⟨hnt, _, rfl⟩
    · right; right
      obtain ⟨e1, e2⟩ := terminated_records cfg (picked cfg s c x) x
      simp only [picked_N, picked_Ribo, picked_r_id] at e1 e2
      simp only [picked_Ribo, picked_r_id, picked_mRNA, picked_m_id] at hterm
      refine ⟨s.Rb_e c x, hrN, hq, by simp only [tlen_eq]; exact hterm, by omega,
        occupied_remove hI hI' _ hrN e1 e2, ?_⟩
      intro j hj hne
      by_cases hl : j = s.next_avail_ribo - 1
      · have hil : s.Rb_e c x < s.next_avail_ribo - 1 := by omega
        obtain ⟨a1, a2⟩ := e2 _ hil
        rw [if_pos rfl] at a1 a2
        exact ⟨s.Rb_e c x, by omega, Or.inr ⟨hl, rfl⟩, by rw [a1, hl], by rw [a2, hl]⟩
      · have hjl : j < s.next_avail_ribo - 1 := by omega
        obtain ⟨a1, a2⟩ := e2 j hjl
        rw [if_neg hne] at a1 a2
        exact ⟨j, by omega, Or.inl rfl, a1, a2⟩
    · right; left
      exact hmoved (Moved.still hP hnt) hnt hI'
    · right; left
      exact hmoved (Moved.blocked hP) hnt hI'


/-- The second tick of the run of `cfg3`, the elongation that moves the only
bound ribosome from position 0 to position 1 of transcript 0. -/
theorem ribosome_transitions_witness :
    Run cfg3 U0 s3a ∧ tick cfg3 s3a 0 0 0 = some s3b ∧
  ((∃ m, m < tot_mRNA cfg3 ∧ ¬ occupied cfg3 s3a m 0 ∧
        s3b.next_avail_ribo = s3a.next_avail_ribo + 1 ∧
        (s3b.Ribo s3a.next_avail_ribo).mRNA = m ∧ (s3b.Ribo s3a.next_avail_ribo).pos = 0 ∧
        (∀ m' p', occupied cfg3 s3b m' p' ↔ occupied cfg3 s3a m' p' ∨ (m' = m ∧ p' = 0)) ∧
        ∀ j, j < s3a.next_avail_ribo →
          (s3b.Ribo j).mRNA = (s3a.Ribo j).mRNA ∧ (s3b.Ribo j).pos = (s3a.Ribo j).pos) ∨
      (∃ i, i < s3a.next_avail_ribo ∧ queued s3a i ∧
        (s3a.Ribo i).pos + 1 < tlen cfg3 s3a (s3a.Ribo i).mRNA ∧
        s3b.next_avail_ribo = s3a.next_avail_ribo ∧
        (s3b.Ribo i).mRNA = (s3a.Ribo i).mRNA ∧ (s3b.Ribo i).pos = (s3a.Ribo i).pos + 1 ∧
        (∀ m' p', occupied cfg3 s3b m' p' ↔
          (occupied cfg3 s3a m' p' ∧ ¬ (m' = (s3a.Ribo i).mRNA ∧ p' = (s3a.Ribo i).pos)) ∨
            (m' = (s3a.Ribo i).mRNA ∧ p' = (s3a.Ribo i).pos + 1)) ∧
        ∀ j, j < s3a.next_avail_ribo → j ≠ i →
          (s3b.Ribo j).mRNA = (s3a.Ribo j).mRNA ∧ (s3b.Ribo j).pos = (s3a.Ribo j).pos) ∨
      (∃ i, i < s3a.next_avail_ribo ∧ queued s3a i ∧
        (s3a.Ribo i).pos + 1 = tlen cfg3 s3a (s3a.Ribo i).mRNA ∧
        s3b.next_avail_ribo + 1 = s3a.next_avail_ribo ∧
        (∀ m' p', occupied cfg3 s3b m' p' ↔
          occupied cfg3 s3a m' p' ∧ ¬ (m' = (s3a.Ribo i).mRNA ∧ p' = (s3a.Ribo i).pos)) ∧
        ∀ j, j < s3a.next_avail_ribo → j ≠ i →
          ∃ j', j' < s3b.next_avail_ribo ∧ (j' = j ∨ (j = s3a.next_avail_ribo - 1 ∧ j' = i)) ∧
            (s3b.Ribo j').mRNA = (s3a.Ribo j).mRNA ∧ (s3b.Ribo j').pos = (s3a.Ribo j).pos)) := by
  have hnb : ¬ ini_branch cfg3 s3a 0 := by
    unfold ini_branch coin_of
    rw [r_ini_3a]
    simp
  exact ⟨run_3a, tick_3b,
    ribosome_transitions cfg3 U0 s3a s3b 0 0 0 lenOK_cfg3 codonOK_cfg3 run_3a
      (fun hb => absurd hb hnb) tick_3b⟩


/-! ## The inter-initiation samples -/

/-- C21 fails on the code: an initiation on transcript `m` at the event time
`t'` always sets `last_ini` of `m` to `t'`, before burn-in too, and when
`t' > time_thres` it adds `t' - last_ini` to `avg_time_to_ini`, whatever the
old `last_ini` is: the time of an initiation at or before burn-in, or the
initial 0.0 of a transcript that was never initiated on. -/
theorem sample_measured_from_last_ini (cfg : Config) (s s' : State) (r1 r2 r3 g : Nat)
    (hb : ini_branch cfg s r1)
    (hg : gene_loop s (coin_of cfg r2) cfg.n_genes 0 0 = some g)
    (ht : tick cfg s r1 r2 r3 = some s') :
    s'.t = s.t + 1 / tot_rate cfg s ∧
      (s'.mRNA (s.free_mRNA g (r3 % s.Mf g))).last_ini = s'.t ∧
      (cfg.time_thres < s'.t →
        (s'.mRNA (s.free_mRNA g (r3 % s.Mf g))).ini_n =
            (s.mRNA (s.free_mRNA g (r3 % s.Mf g))).ini_n + 1 ∧
          (s'.mRNA (s.free_mRNA g (r3 % s.Mf g))).avg_time_to_ini =
            (s.mRNA (s.free_mRNA g (r3 % s.Mf g))).avg_time_to_ini +
              (s'.t - (s.mRNA (s.free_mRNA g (r3 % s.Mf g))).last_ini)) ∧
      (¬ cfg.time_thres < s'.t →
        (s'.mRNA (s.free_mRNA g (r3 % s.Mf g))).ini_n =
            (s.mRNA (s.free_mRNA g (r3 % s.Mf g))).ini_n ∧
          (s'.mRNA (s.free_mRNA g (r3 % s.Mf g))).avg_time_to_ini =
            (s.mRNA (s.free_mRNA g (r3 % s.Mf g))).avg_time_to_ini) := by
  have hT := tick_t ht
  obtain ⟨_, hs⟩ := tick_ini_eq hb hg ht
  have hsam := ini_sample cfg (advance cfg s (1 / tot_rate cfg s)) g (r3 % s.Mf g)
  simp only [advance_free_mRNA, advance_mRNA, advance_t] at hsam
  rw [← hs, ← hT] at hsam
  refine ⟨hT, ?_, ?_, ?_⟩
  · rw [hsam]
  · intro hgt
    rw [hsam, if_pos hgt]
    exact ⟨rfl, rfl⟩
  · intro hle
    rw [hsam, if_neg hle]
    exact ⟨rfl, rfl⟩

/-- The first tick of the run of `cfg3` (no burn-in): the only initiation of
the run, at time 390, on a transcript whose `last_ini` is the initial 0,
records the sample `390 - 0`. -/
theorem sample_measured_from_last_ini_witness :
    tick cfg3 (SMoPT.init cfg3 U0) 0 0 0 = some s3a ∧
      ((SMoPT.init cfg3 U0).mRNA 0).last_ini = 0 ∧ ((SMoPT.init cfg3 U0).mRNA 0).ini_n = 0 ∧
      s3a.t = 390 ∧ cfg3.time_thres < s3a.t ∧
      (s3a.mRNA 0).ini_n = 1 ∧ (s3a.mRNA 0).avg_time_to_ini = 390 - 0 ∧
      (s3a.mRNA 0).last_ini = 390 := by
  have hb : ini_branch cfg3 (SMoPT.init cfg3 U0) 0 := by
    unfold ini_branch coin_of
    rw [r_ini_3, tot_rate_3]
    norm_num
  have hg : gene_loop (SMoPT.init cfg3 U0) (coin_of cfg3 0) cfg3.n_genes 0 0 = some 0 := by
    simp [gene_loop, cfg3, coin_of, init, init_tot_scld]
  have hm : (SMoPT.init cfg3 U0).free_mRNA 0 (0 % (SMoPT.init cfg3 U0).Mf 0) = 0 := by
    simp [init, cfg3, mRNA_start]
  obtain ⟨l0, n0, a0⟩ := init_last_ini cfg3 U0 0 (by decide)
  have hthr : cfg3.time_thres < s3a.t := by
    rw [s3a_t]
    show (0 : ℚ) < 390
    norm_num
  obtain ⟨_, h2, h3, _⟩ :=
    sample_measured_from_last_ini cfg3 (SMoPT.init cfg3 U0) s3a 0 0 0 0 hb hg tick_3a
  rw [hm] at h2 h3
  obtain ⟨h3a, h3b⟩ := h3 hthr
  rw [n0] at h3a
  rw [a0, l0, s3a_t] at h3b
  refine ⟨tick_3a, l0, n0, s3a_t, hthr, h3a, ?_, by rw [h2, s3a_t]⟩
  rw [h3b]
  norm_num

/-! ## Transcripts shorter than the footprint -/

/-- C22 fails on the code: a transcript of at most 10 codons is never put
back into its initiation queue. For the ribosome in slot `x` of the queue of
`c_id` on such a transcript, the event at the last codon has no result (the
termination branch reads `R_grid[m_id][len-11]` at a negative position), an
event before the last codon returns and leaves `Mf`, `free_mRNA`, `scld_Mf`
and `tot_scld_Mf` unchanged, and the termination branch writes none of them
in any state. -/
theorem short_transcript_never_requeued (cfg : Config) (s : State) (x : Nat)
    (hlen : (cfg.Gene (s.mRNA (s.Ribo (s.Rb_e s.c_id x)).mRNA).gene).len ≤ 10)
    (hpos : (s.Ribo (s.Rb_e s.c_id x)).pos <
      (cfg.Gene (s.mRNA (s.Ribo (s.Rb_e s.c_id x)).mRNA).gene).len) :
    ((s.Ribo (s.Rb_e s.c_id x)).pos + 1 =
        (cfg.Gene (s.mRNA (s.Ribo (s.Rb_e s.c_id x)).mRNA).gene).len →
      elng_event cfg s x = none) ∧
    ((s.Ribo (s.Rb_e s.c_id x)).pos + 1 ≠
        (cfg.Gene (s.mRNA (s.Ribo (s.Rb_e s.c_id x)).mRNA).gene).len →
      ∃ s', elng_event cfg s x = some s' ∧ s'.Mf = s.Mf ∧ s'.free_mRNA = s.free_mRNA ∧
        s'.scld_Mf = s.scld_Mf ∧ s'.tot_scld_Mf = s.tot_scld_Mf) ∧
    ∀ sa y, (terminate cfg sa y).Mf = sa.Mf ∧ (terminate cfg sa y).free_mRNA = sa.free_mRNA ∧
      (terminate cfg sa y).scld_Mf = sa.scld_Mf ∧
      (terminate cfg sa y).tot_scld_Mf = sa.tot_scld_Mf := by
  obtain ⟨h1, h2⟩ := short_event cfg s x hlen hpos
  exact ⟨h1, h2, fun sa y => terminate_queue_free cfg sa y⟩

/-- The first elongation on the transcript of 5 codons of `cfg4`: the
initiation queue of gene 0 is empty before and after it. -/
theorem short_transcript_never_requeued_witness :
    (cfg4.Gene (s4.mRNA (s4.Ribo (s4.Rb_e s4.c_id 0)).mRNA).gene).len = 5 ∧
      (s4.Ribo (s4.Rb_e s4.c_id 0)).pos = 0 ∧ s4.Mf 0 = 0 ∧ s4.tot_scld_Mf = 0 ∧
      ∃ s', elng_event cfg4 s4 0 = some s' ∧ s'.Mf 0 = 0 ∧ s'.tot_scld_Mf = 0 := by
  obtain ⟨_, h2, _⟩ := short_transcript_never_requeued cfg4 s4 0
    (by show 5 ≤ 10; decide) (by show 0 < 5; decide)
  obtain ⟨s', e, a1, _, _, a4⟩ := h2 (by show 0 + 1 ≠ 5; decide)
  exact ⟨rfl, rfl, rfl, rfl, s', e, by rw [a1]; rfl, by rw [a4]; rfl⟩

/-! ## The tRNA pools -/

/-- Conservation of tRNAs when every gene loop breaks: at every loop head of
a run whose initiations all take their transcript from an initiation queue
(genes of length at least 11, codons below 61) and for every
species `sp`, `Tf[sp]` plus the number of bound ribosomes at a position
`p ≥ 1` whose previous codon is read by `sp` is the initial pool of `sp`; a
ribosome at position 0 holds no tRNA; an initiation leaves `Tf` unchanged; an
elongation event on the ribosome in slot `x` of the queue of codon `c`, which
is the codon at its position `p`, first releases the species of `seq[p-1]`
when `p > 0`, and then a termination does nothing more, while a non-terminal
elongation deducts one tRNA of the species of `c`. -/
theorem tRNA_handler_conservation (cfg : Config) (U s : State) (hL : LenOK cfg)
    (hC : CodonOK cfg) (h : Run cfg U s) :
    (∀ sp, s.Tf sp + (n_held cfg s sp : Int) = (SMoPT.init cfg U).Tf sp) ∧
    (∀ i sp, (s.Ribo i).pos = 0 → ¬ holds_tRNA cfg s sp i) ∧
    ∀ r1 r2 r3 s', gene_picked cfg s r1 r2 → tick cfg s r1 r2 r3 = some s' →
      (ini_branch cfg s r1 ∧ s'.Tf = s.Tf) ∨
      (¬ ini_branch cfg s r1 ∧ ∃ c x, c < 61 ∧ x < s.n_Rb_e c ∧
        codon_at cfg s (s.Ribo (s.Rb_e c x)).mRNA (s.Ribo (s.Rb_e c x)).pos = c ∧
        (picked cfg s c x).Tf =
          (if (s.Ribo (s.Rb_e c x)).pos > 0 then
            set1 s.Tf
              (cfg.cTRNA (codon_at cfg s (s.Ribo (s.Rb_e c x)).mRNA
                ((s.Ribo (s.Rb_e c x)).pos - 1))).tid
              (s.Tf (cfg.cTRNA (codon_at cfg s (s.Ribo (s.Rb_e c x)).mRNA
                ((s.Ribo (s.Rb_e c x)).pos - 1))).tid + 1)
           else s.Tf) ∧
        (((s.Ribo (s.Rb_e c x)).pos + 1 = tlen cfg s (s.Ribo (s.Rb_e c x)).mRNA ∧
            s'.Tf = (picked cfg s c x).Tf) ∨
          ((s.Ribo (s.Rb_e c x)).pos + 1 ≠ tlen cfg s (s.Ribo (s.Rb_e c x)).mRNA ∧
            s'.Tf = set1 (picked cfg s c x).Tf (cfg.cTRNA c).tid
              ((picked cfg s c x).Tf (cfg.cTRNA c).tid - 1)))) := by
  have hI := Run.inv hL hC h
  refine ⟨fun sp => Run.tf hL hC h sp, ?_, ?_⟩
  · intro i sp hp hh
    have := hh.1
    omega
  · intro r1 r2 r3 s' hp ht
    rcases tick_cases hI hC hp ht with ⟨hb, g, _, _, rfl⟩ | ⟨hb, c, x, sp, _, hc, hx, rfl, hP, hcase⟩
    · left
      refine ⟨hb, ?_⟩
      rw [ini_place_Tf, ini_stats_Tf, ini_pick_Tf, ini_alloc_Tf, advance_Tf]
    · right
      refine ⟨hb, c, x, hc, hx, ?_, ?_, ?_⟩
      · have := hP.codon
        simpa using this
      · simp only [picked, release_tRNA_Tf', pick_ribo_Ribo, pick_ribo_r_id', pick_ribo_m_id',
          pick_ribo_mRNA, pick_ribo_Tf, advance_Ribo, advance_mRNA, advance_Tf, advance_Rb_e,
          codon_at_eq]
      · rcases hcase with ⟨hterm, rfl⟩ | ⟨hnt, _, rfl⟩ | ⟨hnt, _, rfl⟩
        · left
          refine ⟨by simpa using hterm, ?_⟩
          rw [snapshot_Tf, terminate_Tf]
        · right
          refine ⟨by simpa using hnt, ?_⟩
          rw [snapshot_Tf, post_move_Tf, move_still_Tf, picked_c_id]
        · right
          refine ⟨by simpa using hnt, ?_⟩
          rw [snapshot_Tf, post_move_Tf, move_blocked_Tf, picked_c_id]

/-- The conservation after the first tick of the run of `cfg3`, for
species 0, whose pool is one tRNA. -/
theorem tRNA_handler_conservation_witness :
    Run cfg3 U0 s3a ∧ s3a.Tf 0 + (n_held cfg3 s3a 0 : Int) = (SMoPT.init cfg3 U0).Tf 0 ∧
      (SMoPT.init cfg3 U0).Tf 0 = 1 :=
  ⟨run_3a, (tRNA_handler_conservation cfg3 U0 s3a lenOK_cfg3 codonOK_cfg3 run_3a).1 0,
    init_Tf_3 0 (by decide)⟩

/-- C24. Free tRNA counts never go negative: with a positive tRNA space and
positive wobble parameters, at every loop head reached from the set-up by
ticks whose elongation events all picked a codon with a strictly positive
elongation rate, `Tf[sp] ≥ 0` for each of the 61 species ids; the set-up
pools are non-negative, and each such tick keeps any non-negative count
non-negative. -/
theorem free_tRNA_nonneg (cfg : Config) (U s : State) (hst : 0 < cfg.avail_space_t)
    (hw : ∀ c, c < 61 → 0 < (cfg.cTRNA c).wobble) (h : PosRun cfg U s) :
    (∀ sp, sp < 61 → 0 ≤ (SMoPT.init cfg U).Tf sp) ∧ (∀ sp, sp < 61 → 0 ≤ s.Tf sp) ∧
      ∀ r1 r2 r3 s', tick cfg s r1 r2 r3 = some s' →
        (¬ ini_branch cfg s r1 → 0 < r_elng cfg s (sel_codon cfg s r1)) →
        ∀ sp, 0 ≤ s.Tf sp → 0 ≤ s'.Tf sp := by
  have h0 : ∀ sp, sp < 61 → 0 ≤ (SMoPT.init cfg U).Tf sp := by
    intro sp hsp
    simp only [SMoPT.init]
    exact init_Tf_nonneg cfg U.Tf 61 sp hsp
  refine ⟨h0, ?_, ?_⟩
  · induction h with
    | init => exact h0
    | tick r1 r2 r3 _ ht hsel ih =>
      intro sp hsp
      exact tick_Tf_nonneg hst hw ht hsel sp (ih sp hsp)
  · intro r1 r2 r3 s' ht hsel sp hsp
    exact tick_Tf_nonneg hst hw ht hsel sp hsp

/-- The run of `cfg3` after its elongation, which took the only tRNA of
species 0 at a rate of `25/177289`: the count is 0, not negative. -/
theorem free_tRNA_nonneg_witness :
    PosRun cfg3 U0 s3b ∧ s3b.Tf 0 = 0 ∧ ∀ sp, sp < 61 → 0 ≤ s3b.Tf sp :=
  ⟨posrun_3b, by rw [s3b_Tf 0 (by decide)]; rfl,
    (free_tRNA_nonneg cfg3 U0 s3b (by show (0 : ℚ) < 12400000; norm_num)
      (fun c _ => by show (0 : ℚ) < 1; norm_num) posrun_3b).2.1⟩

/-! ## The stall counters -/

/-- Stall counters when every gene loop breaks: at every loop head of a run
whose initiations all take their transcript from an initiation queue (genes of length at least 11, codons below 61), for every gene `g` the counter
`num_waste_ribo[g]` is the number of bound ribosomes on transcripts of `g` that
are in no elongation queue, and for every position `p` of gene 0 the counter
`num_waste_ribo_pos[p]` is the number of such ribosomes at position `p` of a
transcript of gene 0; neither counter is negative. -/
theorem stall_counters (cfg : Config) (U s : State) (hL : LenOK cfg) (hC : CodonOK cfg)
    (h : Run cfg U s) :
    (∀ g, g < cfg.n_genes → s.num_waste_ribo g = (n_stalled s g : Int)) ∧
      (∀ p, p < (cfg.Gene 0).len → s.num_waste_ribo_pos p = (n_stalled_pos s p : Int)) ∧
      (∀ g, g < cfg.n_genes → 0 ≤ s.num_waste_ribo g) ∧
      ∀ p, p < (cfg.Gene 0).len → 0 ≤ s.num_waste_ribo_pos p := by
  have key : (∀ g, g < cfg.n_genes → s.num_waste_ribo g = (n_stalled s g : Int)) ∧
      (∀ p, p < (cfg.Gene 0).len → s.num_waste_ribo_pos p = (n_stalled_pos s p : Int)) := by
    induction h with
    | init =>
      constructor
      · intro g hg
        simp [SMoPT.init, n_stalled, hg]
      · intro p hp
        simp [SMoPT.init, n_stalled_pos, hp]
    | tick r1 r2 r3 hr ht hp ih =>
      obtain ⟨a1, a2⟩ := stall_step (Run.inv hL hC hr) hL hC hp ht
      constructor
      · intro g hg
        have := a1 g
        rw [ih.1 g hg] at this
        omega
      · intro p hpl
        have := a2 p
        rw [ih.2 p hpl] at this
        omega
  refine ⟨key.1, key.2, ?_, ?_⟩
  · intro g hg
    rw [key.1 g hg]
    exact Int.ofNat_nonneg _
  · intro p hp
    rw [key.2 p hp]
    exact Int.ofNat_nonneg _

/-- The counters on a run of the small configuration that reaches a state
with two ribosomes on transcript 0, at positions 0 and 10. -/
theorem stall_counters_witness :
    ∃ s, Run cfg0 U0 s ∧ s.R_grid 0 0 ≠ cfg0.tot_ribo ∧ s.R_grid 0 10 ≠ cfg0.tot_ribo ∧
      s.num_waste_ribo 0 = (n_stalled s 0 : Int) ∧
      s.num_waste_ribo_pos 0 = (n_stalled_pos s 0 : Int) := by
  obtain ⟨s, hr, h0, h10⟩ := run_two
  obtain ⟨a1, a2, _, _⟩ := stall_counters cfg0 U0 s lenOK_cfg0 codonOK_cfg0 hr
  exact ⟨s, hr, h0, h10, a1 0 (by decide), a2 0 (by show 0 < 11; decide)⟩

/-! ## Bound ribosomes and the elongation queues -/

/-- Bound ribosomes and queue sizes when every gene loop breaks: at every loop
head of a run whose initiations all take their transcript from an initiation
queue (genes of length at least 11, codons below 61), on every
transcript with an occupied cell the ribosome closest to the 3' end is an
entry of an elongation queue; hence if `next_avail_ribo > 0` the sum of the 61
queue sizes `n_Rb_e[c]` is at least 1; and that sum never exceeds
`next_avail_ribo`. -/
theorem bound_implies_queued (cfg : Config) (U s : State) (hL : LenOK cfg) (hC : CodonOK cfg)
    (h : Run cfg U s) :
    (0 < s.next_avail_ribo → 1 ≤ ∑ c in Finset.range 61, s.n_Rb_e c) ∧
      (∑ c in Finset.range 61, s.n_Rb_e c ≤ s.next_avail_ribo) ∧
      ∀ m p0, occupied cfg s m p0 →
        ∃ i, i < s.next_avail_ribo ∧ (s.Ribo i).mRNA = m ∧ queued s i ∧
          ∀ p, occupied cfg s m p → p ≤ (s.Ribo i).pos := by
  have hI := Run.inv hL hC h
  refine ⟨?_, queue_sum_le hI, fun m p0 ho => last_ribosome_queued hI m p0 ho⟩
  intro hN
  have ho : occupied cfg s (s.Ribo 0).mRNA (s.Ribo 0).pos :=
    (occupied_iff hI _ _).mpr ⟨0, hN, rfl, rfl⟩
  obtain ⟨i, _, _, hq, _⟩ := last_ribosome_queued hI _ _ ho
  exact queue_sum_pos hq

/-- The queue sizes on a run of the small configuration that reaches a state
with two ribosomes on transcript 0, at positions 0 and 10: the one at position
10 is queued, the one at position 0 is not. -/
theorem bound_implies_queued_witness :
    ∃ s, Run cfg0 U0 s ∧ s.R_grid 0 0 ≠ cfg0.tot_ribo ∧ s.R_grid 0 10 ≠ cfg0.tot_ribo ∧
      (0 < s.next_avail_ribo → 1 ≤ ∑ c in Finset.range 61, s.n_Rb_e c) ∧
      ∑ c in Finset.range 61, s.n_Rb_e c ≤ s.next_avail_ribo := by
  obtain ⟨s, hr, h0, h10⟩ := run_two
  obtain ⟨a1, a2, _⟩ := bound_implies_queued cfg0 U0 s lenOK_cfg0 codonOK_cfg0 hr
  exact ⟨s, hr, h0, h10, a1, a2⟩

/-! ## Grid accesses -/

/-- C26. Grid accesses and the transcript: at a loop head that satisfies the
invariant, with every gene at least 11 codons long, the two cells of an
initiation and every cell that the elongation/termination handler accesses lie
inside their transcript, with one exception: the cell ten codons ahead of the
moved record, which the compaction step reads at line 773 before it tests the
length. That cell is accessed, and lies past the end of its transcript,
whenever a slot other than the last one terminates while the last slot is
within ten codons of the end of its transcript. -/
theorem compaction_reads_past_transcript (cfg : Config) (s : State) (x : Nat)
    (hL : LenOK cfg) (hI : Inv cfg s) (hc : s.c_id < 61) (hx : x < s.n_Rb_e s.c_id) :
    (∀ g c2, g < cfg.n_genes → c2 < s.Mf g →
      ∀ c ∈ ini_cells (ini_stats cfg (ini_pick cfg (ini_alloc s) g c2)), in_grid cfg s c) ∧
    (∀ c ∈ elng_cells cfg s x, in_grid cfg s c ∨
      c = ((s.Ribo (s.next_avail_ribo - 1)).mRNA,
        ((s.Ribo (s.next_avail_ribo - 1)).pos : Int) + 10)) ∧
    ((s.Ribo (s.Rb_e s.c_id x)).pos + 1 = tlen cfg s (s.Ribo (s.Rb_e s.c_id x)).mRNA →
      s.Rb_e s.c_id x ≠ s.next_avail_ribo - 1 →
      (s.Ribo (s.next_avail_ribo - 1)).pos + 10 ≥
        tlen cfg s (s.Ribo (s.next_avail_ribo - 1)).mRNA →
      ((s.Ribo (s.next_avail_ribo - 1)).mRNA,
          ((s.Ribo (s.next_avail_ribo - 1)).pos : Int) + 10) ∈ elng_cells cfg s x ∧
        ¬ in_grid cfg s ((s.Ribo (s.next_avail_ribo - 1)).mRNA,
          ((s.Ribo (s.next_avail_ribo - 1)).pos : Int) + 10)) :=
  ⟨fun g c2 hg hc2 c hmem => ini_cells_in_grid hL hI g c2 hg hc2 c hmem,
   fun c hmem => elng_cells_in_grid hL hI hc hx c hmem,
   fun h hne hend => compaction_cell_outside cfg s x h hne hend⟩

/-- The termination of slot 0 at the last codon of transcript 0 in the state
`s5`, whose last slot 1 is at position 1 of transcript 1 (11 codons): the
compaction reads the cell `(1, 11)`. -/
theorem compaction_reads_past_transcript_witness :
    LenOK cfg0 ∧ Inv cfg0 s5 ∧ s5.c_id < 61 ∧ 0 < s5.n_Rb_e s5.c_id ∧
      tlen cfg0 s5 1 = 11 ∧
      ((1 : Nat), (11 : Int)) ∈ elng_cells cfg0 s5 0 ∧ ¬ in_grid cfg0 s5 ((1 : Nat), (11 : Int)) :=
  ⟨lenOK_cfg0, inv_s5, by decide, by decide, rfl,
    (compaction_reads_past_transcript cfg0 s5 0 lenOK_cfg0 inv_s5 (by decide) (by decide)).2.2
      (by decide) (by decide) (by decide)⟩

/-! ## The gene loop without a break: states of a run with a gene draw `RAND_MAX` -/

/-- C6 fails on the code: grid and records do not agree at every tick. In the
run of `cfg5` (one gene of 11 codons, two transcripts, two ribosomes) the first
tick initiates on transcript 0 and the second tick is an initiation whose gene
draw is `RAND_MAX`: the loop of lines 662-675 reaches no `break`, `m_id` keeps
the value 0, and lines 685-699 bind slot 1 at cell `(0, 0)`, where slot 0
stands. At the next loop head the two active records share the cell `(0, 0)`,
which holds 1, so the cell of the active slot 0 does not hold 0. -/
theorem two_records_share_cell :
    ∃ s, ticks cfg5 (SMoPT.init cfg5 U0) draws2 = some s ∧ Reachable cfg5 U0 s ∧
      (s.t < cfg5.tot_time ∧ s.next_avail_ribo = 2 ∧
        (s.Ribo 0).mRNA = 0 ∧ (s.Ribo 0).pos = 0 ∧ (s.Ribo 1).mRNA = 0 ∧ (s.Ribo 1).pos = 0 ∧
        s.R_grid (s.Ribo 0).mRNA (s.Ribo 0).pos = 1) :=
  ticks_facts _ (by decide!)

/-- C15 fails on the code: an event that changes the set of occupied cells in
none of the three ways. In the run of `cfg5`, after the initiation on
transcript 0, the tick with the `rand()` results 0 and `RAND_MAX` is an
initiation whose gene loop reaches no `break`: it binds the new slot 1 on the
old `m_id` 0, at the cell `(0, 0)` that slot 0 occupies. The number of bound
ribosomes grows by one, the set of occupied cells stays what it was, no cell is
added, and two records stand on one cell. -/
theorem initiation_adds_no_cell :
    ∃ s s', ticks cfg5 (SMoPT.init cfg5 U0) [(0, 0, 0)] = some s ∧ Reachable cfg5 U0 s ∧
      tick cfg5 s 0 2147483647 0 = some s' ∧ s.t < cfg5.tot_time ∧ ini_branch cfg5 s 0 ∧
      s.next_avail_ribo = 1 ∧ s'.next_avail_ribo = 2 ∧ occupied cfg5 s 0 0 ∧
      (s'.Ribo 0).mRNA = 0 ∧ (s'.Ribo 0).pos = 0 ∧ (s'.Ribo 1).mRNA = 0 ∧ (s'.Ribo 1).pos = 0 ∧
      ∀ m p, occupied cfg5 s' m p ↔ occupied cfg5 s m p := by
  have h : holds (ticks cfg5 (SMoPT.init cfg5 U0) [(0, 0, 0)])
      (fun s => holds (tick cfg5 s 0 2147483647 0) (fun s' =>
        decide (s.t < cfg5.tot_time ∧ ini_branch cfg5 s 0 ∧ s.next_avail_ribo = 1 ∧
          s'.next_avail_ribo = 2 ∧ s.R_grid 0 0 ≠ 2 ∧
          (s'.Ribo 0).mRNA = 0 ∧ (s'.Ribo 0).pos = 0 ∧ (s'.Ribo 1).mRNA = 0 ∧
          (s'.Ribo 1).pos = 0) &&
        decide (∀ m : Nat, m < 2 → ∀ p : Nat, p < 11 → (s'.R_grid m p ≠ 2 ↔ s.R_grid m p ≠ 2)))) =
        true := by
    decide!
  obtain ⟨s, hs, hp⟩ := holds_some h
  obtain ⟨s', hs', hp'⟩ := holds_some hp
  obtain ⟨hq1, hq2⟩ := Bool.and_eq_true_iff.mp hp'
  obtain ⟨h1, h2, h3, h4, h5, h6, h7, h8, h9⟩ := of_decide_eq_true hq1
  have h10 := of_decide_eq_true hq2
  have hr := ticks_init_reachable hs
  refine ⟨s, s', hs, hr, hs', h1, h2, h3, h4, ⟨by decide, (by decide : (0 : Nat) < 11), h5⟩, h6, h7, h8, h9, ?_⟩
  intro m p
  constructor
  · rintro ⟨a, b, c⟩
    exact ⟨a, b, (h10 m a p b).1 c⟩
  · rintro ⟨a, b, c⟩
    exact ⟨a, b, (h10 m a p b).2 c⟩

/-- C4 fails on the code: a ribosome that is not elongatable stays in an
elongation queue. In the run of `cfg5` with the `rand()` results `draws12`,
slot 0 initiates on transcript 0 and moves to position 1; the third tick is an
initiation whose gene draw is `RAND_MAX`, so the gene loop reaches no `break`
and slot 1 is bound on the old `m_id`, transcript 0, at position 0, one codon
behind slot 0, and queued (cell 10 is empty); nine elongations then take slot 0
to position 10. At that loop head slot 1, at position 0 of a transcript of 11
codons, is entry 1 of the queue of codon 0 although cell 10 of its transcript
holds slot 0. -/
theorem blocked_ribosome_stays_queued :
    ∃ s, ticks cfg5 (SMoPT.init cfg5 U0) draws12 = some s ∧ Reachable cfg5 U0 s ∧
      (s.t < cfg5.tot_time ∧ s.next_avail_ribo = 2 ∧
        (s.Ribo 0).mRNA = 0 ∧ (s.Ribo 0).pos = 10 ∧ (s.Ribo 1).mRNA = 0 ∧ (s.Ribo 1).pos = 0 ∧
        s.n_Rb_e 0 = 2 ∧ s.Rb_e 0 1 = 1 ∧ s.R_grid 0 10 = 0 ∧
        queued s 1 ∧ ¬ elongatable cfg5 s 1) :=
  ticks_facts _ (by decide!)

/-- C7 fails on the code: a transcript with an occupied position among 0..9 in
the initiation queue. In the run of `cfg5` with the `rand()` results `draws12`
(the third tick is an initiation whose gene draw is `RAND_MAX`, which binds
slot 1 at position 0 of transcript 0 without taking a transcript out of a
queue), the move of slot 0 to position 10 puts transcript 0 back into the queue
of gene 0 (lines 835-841). At that loop head transcript 0 is entry 1 of the
initiation queue of its gene while its cell 0 holds slot 1. -/
theorem occupied_transcript_queued :
    ∃ s, ticks cfg5 (SMoPT.init cfg5 U0) draws12 = some s ∧ Reachable cfg5 U0 s ∧
      (s.t < cfg5.tot_time ∧ (s.mRNA 0).gene = 0 ∧ s.Mf 0 = 2 ∧ s.free_mRNA 0 1 = 0 ∧
        s.next_avail_ribo = 2 ∧ (s.Ribo 1).mRNA = 0 ∧ (s.Ribo 1).pos = 0 ∧
        s.R_grid 0 0 = 1 ∧ s.R_grid 0 0 ≠ cfg5.tot_ribo ∧ ¬ eligible cfg5 s 0) :=
  ticks_facts _ (by decide!)

/-- C5 fails on the code: a queue entry whose back-pointer does not index its
slot. In the run of `cfg5` with the `rand()` results `draws13` (the third tick
is an initiation whose gene draw is `RAND_MAX`), the thirteenth tick terminates
slot 0 at position 10 of transcript 0: the swap-removal leaves slot 1 as entry
0 of the queue of codon 0, the promotion of lines 746-752 finds slot 1 in cell
0 and appends it again as entry 1, and the compaction moves the record of slot
1 to slot 0 and writes 0 into entry 1. At the next loop head entry 0 of the
queue of codon 0 is 1, an id that is not bound, and `Ribo[1].elng_pos_list` is
1. -/
theorem queue_entry_without_back_pointer :
    ∃ s, ticks cfg5 (SMoPT.init cfg5 U0) draws13 = some s ∧ Reachable cfg5 U0 s ∧
      (s.t < cfg5.tot_time ∧ s.next_avail_ribo = 1 ∧ s.n_Rb_e 0 = 2 ∧
        s.Rb_e 0 0 = 1 ∧ s.Rb_e 0 1 = 0 ∧
        (s.Ribo (s.Rb_e 0 0)).elng_cod_list = 0 ∧ (s.Ribo (s.Rb_e 0 0)).elng_pos_list = 1 ∧
        (s.Ribo (s.Rb_e 0 0)).elng_pos_list ≠ 0) :=
  ticks_facts _ (by decide!)

/-- C25 fails on the code: negative stall counters. In the run of `cfg5` with
the `rand()` results `draws13` (the third tick is an initiation whose gene draw
is `RAND_MAX`), slot 1 is bound one codon behind slot 0 and queued, so no stall
counter is incremented; the termination of slot 0 finds slot 1 in cell 0 and
promotes it, decrementing `num_waste_ribo[0]` and `num_waste_ribo_pos[0]`. At
the next loop head both counters are -1, while no bound ribosome is outside the
queues. -/
theorem stall_counters_negative :
    ∃ s, ticks cfg5 (SMoPT.init cfg5 U0) draws13 = some s ∧ Reachable cfg5 U0 s ∧
      (s.t < cfg5.tot_time ∧ s.num_waste_ribo 0 = -1 ∧ s.num_waste_ribo_pos 0 = -1 ∧
        n_stalled s 0 = 0 ∧ n_stalled_pos s 0 = 0) :=
  ticks_facts _ (by decide!)

/-- C27 fails on the code: the queue sizes exceed the number of bound
ribosomes. In the run of `cfg5` with the `rand()` results `draws13` (the third
tick is an initiation whose gene draw is `RAND_MAX`), the termination of slot 0
appends slot 1, which is already queued, to the queue of codon 0. At the next
loop head one ribosome is bound, `next_avail_ribo = 1`, and the queue of codon
0 has two entries, so the sum of the 61 queue sizes is above `next_avail_ribo`.
-/
theorem queue_sizes_exceed_bound_ribosomes :
    ∃ s, ticks cfg5 (SMoPT.init cfg5 U0) draws13 = some s ∧ Reachable cfg5 U0 s ∧
      s.t < cfg5.tot_time ∧ s.next_avail_ribo = 1 ∧ s.n_Rb_e 0 = 2 ∧
      s.next_avail_ribo < ∑ c in Finset.range 61, s.n_Rb_e c := by
  obtain ⟨s, hs, hr, h1, h2, h3⟩ :=
    ticks_facts (fun s => s.t < cfg5.tot_time ∧ s.next_avail_ribo = 1 ∧ s.n_Rb_e 0 = 2)
      (by decide! :
        holds (ticks cfg5 (SMoPT.init cfg5 U0) draws13)
          (fun s => decide (s.t < cfg5.tot_time ∧ s.next_avail_ribo = 1 ∧ s.n_Rb_e 0 = 2)) = true)
  refine ⟨s, hs, hr, h1, h2, h3, ?_⟩
  have hle : s.n_Rb_e 0 ≤ ∑ c in Finset.range 61, s.n_Rb_e c :=
    Finset.single_le_sum (f := fun c => s.n_Rb_e c) (fun _ _ => Nat.zero_le _)
      (Finset.mem_range.mpr (by decide))
  omega

/-- C23 fails on the code: a tRNA that no bound ribosome holds is missing from
the free pool. In the run of `cfg5` with the `rand()` results `draws14` (the
third tick is an initiation whose gene draw is `RAND_MAX`), the termination of
the thirteenth tick leaves the id 1, which is no longer bound, as entry 0 of
the queue of codon 0; the fourteenth tick elongates that entry: it moves the
record of slot 1 and deducts a tRNA of species 0 (line 799). At the next loop
head the only bound ribosome is slot 0 at position 0, which holds no tRNA, and
`Tf[0]` is 4, while the initial pool of species 0 is 5. -/
theorem free_tRNA_lost :
    ∃ s, ticks cfg5 (SMoPT.init cfg5 U0) draws14 = some s ∧ Reachable cfg5 U0 s ∧
      (s.t < cfg5.tot_time ∧ s.next_avail_ribo = 1 ∧ (s.Ribo 0).pos = 0 ∧
        (SMoPT.init cfg5 U0).Tf 0 = 5 ∧ s.Tf 0 = 4 ∧ n_held cfg5 s 0 = 0 ∧
        s.Tf 0 + (n_held cfg5 s 0 : Int) ≠ (SMoPT.init cfg5 U0).Tf 0) :=
  ticks_facts _ (by decide!)

/-- C16 fails on the code: a tick whose event time is below the burn-in
threshold changes a time-weighted average. In the run of `cfg6` with the
`rand()` results `draws5`, the fourth tick draws `RAND_MAX`: the codon loop
reaches no `break`, the queue of the old `c_id` 0 is used although no tRNA of
species 0 is free, and `Tf[0]` becomes -1; after the third initiation no
ribosome is free and the total rate is `-75/177289`. At that loop head `t` is
above `time_thres = 1000`, so the test of line 624 holds and the sixth tick
adds `Tf[1]/tot_rate` to `avg_tRNA_abndc[1]`, although its event time `t +
1/tot_rate` is below `time_thres`. -/
theorem negative_rate_opens_gate :
    ∃ s s', ticks cfg6 (SMoPT.init cfg6 U0) draws5 = some s ∧ Reachable cfg6 U0 s ∧
      tick cfg6 s 0 0 0 = some s' ∧
      (s.t < cfg6.tot_time ∧ s.Tf 0 = -1 ∧ s.Rf = 0 ∧ s.n_Rb_e 0 = 3 ∧
        tot_rate cfg6 s = -75 / 177289 ∧ cfg6.time_thres < s.t ∧
        s.t + 1 / tot_rate cfg6 s ≤ cfg6.time_thres ∧ s'.t = s.t + 1 / tot_rate cfg6 s ∧
        s'.avg_tRNA_abndc 1 = s.avg_tRNA_abndc 1 + (s.Tf 1 : ℚ) * (1 / tot_rate cfg6 s) ∧
        s'.avg_tRNA_abndc 1 ≠ s.avg_tRNA_abndc 1) :=
  ticks_tick_facts _ (by decide!)
end SMoPT
